import Mathlib

/-!
# Verification of the scs-build-client build-context archiver and build orchestration

This development shallowly embeds the build-context archiver, the context
uploader, and the multi-architecture build orchestration of the
`sylabs/scs-build-client` repository, and proves (or refutes) the frozen
specification claims about them.

Conventions of the embedding:

* Bytes are `Nat` values < 256; byte streams are `List Nat`.
* Go's 32-bit words are `Nat` with explicit reduction modulo `2 ^ 32`.
* File-system paths (io/fs rootless slash-separated names) are represented
  by their segment lists (`Path := List String`); the root directory `"."`
  is the empty segment list.  Go strings and segment lists are in bijection
  for the valid, clean paths that `io/fs` accepts.
* Fallible Go functions return a pair of the resulting state and an
  `Option` error, mirroring Go's `(T, error)` convention while keeping the
  partially-updated state observable (the Go archiver keeps the bytes it
  has already emitted when a later entry fails).
-/

namespace ScsBuild

/-! ## Word and byte utilities -/

/-- Two to the 32nd, the modulus of Go's 32-bit unsigned arithmetic. -/
def w32 : Nat := 4294967296

/-- Right rotation of a 32-bit word, as used by SHA-256. -/
def rotr32 (n x : Nat) : Nat := ((x >>> n) ||| (x <<< (32 - n))) % w32

/-- Big-endian bytes of a 32-bit word. -/
def be32 (x : Nat) : List Nat :=
  [x / 16777216 % 256, x / 65536 % 256, x / 256 % 256, x % 256]

/-- Big-endian bytes of a 64-bit word. -/
def be64 (x : Nat) : List Nat :=
  be32 (x / w32 % w32) ++ be32 (x % w32)

/-- Little-endian bytes of a 32-bit word (gzip trailer encoding). -/
def le32 (x : Nat) : List Nat :=
  [x % 256, x / 256 % 256, x / 65536 % 256, x / 16777216 % 256]

/-- Little-endian bytes of a 16-bit word (DEFLATE stored-block lengths). -/
def le16 (x : Nat) : List Nat := [x % 256, x / 256 % 256]

/-! ## SHA-256

A direct executable transcription of FIPS 180-4, operating on byte lists.
This is the hash `crypto/sha256` computes in `uploadBuildContext`. -/

/-- The SHA-256 round constants. -/
def shaK : List Nat :=
  [1116352408, 1899447441, 3049323471, 3921009573, 961987163, 1508970993,
   2453635748, 2870763221, 3624381080, 310598401, 607225278, 1426881987,
   1925078388, 2162078206, 2614888103, 3248222580, 3835390401, 4022224774,
   264347078, 604807628, 770255983, 1249150122, 1555081692, 1996064986,
   2554220882, 2821834349, 2952996808, 3210313671, 3336571891, 3584528711,
   113926993, 338241895, 666307205, 773529912, 1294757372, 1396182291,
   1695183700, 1986661051, 2177026350, 2456956037, 2730485921, 2820302411,
   3259730800, 3345764771, 3516065817, 3600352804, 4094571909, 275423344,
   430227734, 506948616, 659060556, 883997877, 958139571, 1322822218,
   1537002063, 1747873779, 1955562222, 2024104815, 2227730452, 2361852424,
   2428436474, 2756734187, 3204031479, 3329325298]

/-- The SHA-256 initial hash value. -/
def shaH0 : List Nat :=
  [1779033703, 3144134277, 1013904242, 2773480762, 1359893119, 2600822924,
   528734635, 1541459225]

/-- SHA-256 message padding: append `0x80`, zero bytes, and the bit length. -/
def shaPad (msg : List Nat) : List Nat :=
  let l := msg.length
  let padLen := (55 + 64 - l % 64) % 64
  msg ++ [0x80] ++ List.replicate padLen 0 ++ be64 (8 * l)

/-- Chunk splitting with structural fuel (one unit per chunk suffices when
the chunk size is positive, as it always is here). -/
def chunksGo (n : Nat) : Nat → List α → List (List α)
  | _, [] => []
  | 0, _ :: _ => []
  | fuel + 1, x :: t => (x :: t).take n :: chunksGo n fuel ((x :: t).drop n)

/-- Split a list into chunks of the given (positive) size. -/
def chunks (n : Nat) (l : List α) : List (List α) :=
  chunksGo n l.length l

/-- Big-endian 32-bit words of a byte list. -/
def toWords (l : List Nat) : List Nat :=
  (chunks 4 l).map fun c => c.foldl (fun a b => a * 256 + b) 0

/-- Extend the 16 message words to the 64-entry SHA-256 message schedule. -/
def shaSchedule (w : List Nat) (t : Nat) : List Nat :=
  match t with
  | 0 => w
  | t + 1 =>
    let w := shaSchedule w t
    let i := w.length
    let g := fun j => w.getD j 0
    let s0 := (rotr32 7 (g (i - 15))) ^^^ (rotr32 18 (g (i - 15))) ^^^ ((g (i - 15)) >>> 3)
    let s1 := (rotr32 17 (g (i - 2))) ^^^ (rotr32 19 (g (i - 2))) ^^^ ((g (i - 2)) >>> 10)
    w ++ [(g (i - 16) + s0 + g (i - 7) + s1) % w32]

/-- One SHA-256 compression round. -/
def shaRound (k w : Nat) (s : List Nat) : List Nat :=
  let a := s.getD 0 0
  let b := s.getD 1 0
  let c := s.getD 2 0
  let d := s.getD 3 0
  let e := s.getD 4 0
  let f := s.getD 5 0
  let g := s.getD 6 0
  let h := s.getD 7 0
  let s1 := (rotr32 6 e) ^^^ (rotr32 11 e) ^^^ (rotr32 25 e)
  let ch := (e &&& f) ^^^ ((w32 - 1 - e) &&& g)
  let t1 := (h + s1 + ch + k + w) % w32
  let s0 := (rotr32 2 a) ^^^ (rotr32 13 a) ^^^ (rotr32 22 a)
  let mj := (a &&& b) ^^^ (a &&& c) ^^^ (b &&& c)
  let t2 := (s0 + mj) % w32
  [(t1 + t2) % w32, a, b, c, (d + t1) % w32, e, f, g]

/-- Compress one 64-byte block into the running hash state. -/
def shaBlock (h : List Nat) (block : List Nat) : List Nat :=
  let w := shaSchedule (toWords block) 48
  let s := (List.range 64).foldl (fun s t => shaRound (shaK.getD t 0) (w.getD t 0) s) h
  (List.zip h s).map fun p => (p.1 + p.2) % w32

/-- SHA-256 of a byte list, as 32 digest bytes. -/
def sha256 (msg : List Nat) : List Nat :=
  ((chunks 64 (shaPad msg)).foldl shaBlock shaH0).flatMap be32

/-- Lowercase hexadecimal digit for a value below 16. -/
def hexDigit (n : Nat) : Char :=
  if n < 10 then Char.ofNat (48 + n) else Char.ofNat (87 + n)

/-- Lowercase hexadecimal rendering of a byte list, as produced by Go's
`fmt.Sprintf("%x", ...)` on a SHA-256 sum. -/
def hexStr (l : List Nat) : String :=
  String.mk (l.flatMap fun b => [hexDigit (b / 16), hexDigit (b % 16)])

/-! ## CRC-32 and the gzip container

`compress/gzip` wraps its DEFLATE output in the RFC 1952 container, whose
trailer carries the CRC-32 (IEEE, reflected polynomial `0xEDB88320`) and the
length of the uncompressed data.  The DEFLATE body itself is modelled with
stored (uncompressed) blocks: the claims under verification depend only on
the fact that the spooled/hashed stream is the *compressed container*, which
differs from the raw tar stream, never on the compressor's choice of
encoding for the body. -/

/-- One bit step of the reflected CRC-32 computation. -/
def crcBit (c : Nat) : Nat :=
  if c % 2 == 1 then (c >>> 1) ^^^ 0xEDB88320 else c >>> 1

/-- Fold one byte into the running CRC-32 state. -/
def crcByte (c b : Nat) : Nat :=
  crcBit (crcBit (crcBit (crcBit (crcBit (crcBit (crcBit (crcBit (c ^^^ b))))))))

/-- CRC-32 (IEEE) of a byte list. -/
def crc32 (data : List Nat) : Nat :=
  (data.foldl crcByte 0xFFFFFFFF) ^^^ 0xFFFFFFFF

/-- DEFLATE stored (BTYPE=00) blocks holding `data` verbatim: block header
byte (BFINAL flag), LEN, NLEN, then the raw bytes. -/
def deflateStored (data : List Nat) : List Nat :=
  let cs := chunks 65535 data
  match cs with
  | [] => [1, 0, 0, 255, 255]
  | _ =>
    (cs.enum.flatMap fun (i, c) =>
      (if i + 1 == cs.length then [1] else [0]) ++
        le16 c.length ++ le16 (65535 - c.length) ++ c)

/-- The gzip container (RFC 1952) around `data`: 10-byte header (magic,
CM=8, zero MTIME as written for the zero `gzip.Header`, OS=255), DEFLATE
body, CRC-32 and ISIZE trailer. -/
def gzipEncode (data : List Nat) : List Nat :=
  [31, 139, 8, 0, 0, 0, 0, 0, 0, 255] ++ deflateStored data ++
    le32 (crc32 data) ++ le32 (data.length % w32)

/-! ## Paths

An `io/fs` rootless slash-separated name is represented by its list of
segments; the root directory `"."` is `[]`.  `path.Dir` drops the last
segment (`path.Dir "a" = "."`, `path.Dir "a/b" = "a"` on clean paths). -/

/-- A rootless slash-separated path, as its segment list; `[]` is `"."`. -/
abbrev Path := List String

/-- `path.Dir` on clean rootless paths: drop the final segment. -/
def pathDir (p : Path) : Path := p.dropLast

/-- A valid path segment: nonempty, not `"."` or `".."`, no separator. -/
def validSeg (s : String) : Bool :=
  !(s == "") && !(s == ".") && !(s == "..") && !(s.data.contains '/')

/-- A valid non-root path: nonempty list of valid segments. -/
def validPath (p : Path) : Bool := !(p.isEmpty) && p.all validSeg

/-- Render a path as its Go string (`"."` for the root). -/
def joinPath (p : Path) : String :=
  if p.isEmpty then "." else String.intercalate "/" p

/-- The proper ancestors of a path, excluding the root: `p.take i` for
`1 ≤ i < p.length`, shortest first. -/
def properAncestors (p : Path) : List Path :=
  (List.range' 1 (p.length - 1)).map fun i => p.take i

/-! ## The file-system model

Mirrors the `fs.FS` abstraction the archiver is given (production:
`os.DirFS`; tests: `fstest.MapFS`).  `Stat` resolves a name to its entry;
the root `"."` always stats as a directory.  A symlink entry carries the
bytes that `Open` yields for it and that `Stat` sizes it with, following
the `fstest.MapFS` semantics the archiver is written against.  `mode` is
the permission-bit part of the file mode (what `tar.FileInfoHeader` copies
into the header) and `mtime` the Unix modification time. -/

/-- The type of a file-system entry. -/
inductive FType
  /-- Regular file with its content bytes. -/
  | reg (content : List Nat)
  /-- Directory. -/
  | dir
  /-- Symbolic link; carries the bytes `Open` returns for the name. -/
  | symlink (content : List Nat)
  /-- Named pipe (FIFO). -/
  | fifo
  /-- Character device. -/
  | chardev
  /-- Block device. -/
  | blockdev
deriving DecidableEq, Repr

/-- One file-system entry. -/
structure FSEntry where
  path : Path
  ftype : FType
  mode : Nat
  mtime : Nat
deriving DecidableEq, Repr

/-- A finite file system: the list of its entries. -/
abbrev FS := List FSEntry

/-- The synthesized root directory entry (never archived itself). -/
def rootEntry : FSEntry := ⟨[], FType.dir, 365, 0⟩

/-- `fs.Stat`: the root always stats as a directory; other names resolve
to their entry, or fail. -/
def statFS (fs : FS) (p : Path) : Option FSEntry :=
  if p.isEmpty then some rootEntry else fs.find? fun e => e.path == p

/-- Well-formedness of a file system: distinct valid names, and every
proper ancestor of a name is itself present as a directory. -/
def wfFS (fs : FS) : Prop :=
  (fs.map FSEntry.path).Nodup ∧
    (∀ e ∈ fs, validPath e.path = true) ∧
    (∀ e ∈ fs, ∀ q ∈ properAncestors e.path,
      ∃ d ∈ fs, d.path = q ∧ d.ftype = FType.dir)

instance (fs : FS) : Decidable (wfFS fs) := by
  unfold wfFS; exact inferInstance

/-! ## The archiver

Embeds `archiver` from the client package: a tar writer plus the
`archived` set of already-written names.  The emitted tar members are kept
structured (`TarEntry`); their byte-level serialization is defined later
for the digest claims.  Errors abort the operation but leave the already
written members in place, exactly as the streaming Go archiver does. -/

/-- Tar member type after the archiver's adjustments (symlinks have
already been turned into regular entries; other types are rejected). -/
inductive TypeFlag
  /-- Regular file member. -/
  | reg
  /-- Directory member. -/
  | dir
deriving DecidableEq, Repr

/-- One tar member as the archiver emits it. -/
structure TarEntry where
  rawPath : Path
  flag : TypeFlag
  mode : Nat
  mtime : Nat
  content : List Nat
deriving DecidableEq, Repr

/-- The tar member name: the slash-joined path, directories normalized
with a trailing separator. -/
def TarEntry.name (e : TarEntry) : String :=
  joinPath e.rawPath ++ (if e.flag = TypeFlag.dir then "/" else "")

/-- Archiver state: the set of archived names and the members written. -/
structure ArchSt where
  archived : List Path
  entries : List TarEntry
deriving Repr

/-- A fresh archiver (`newArchiver`). -/
def ArchSt.init : ArchSt := ⟨[], []⟩

/-- Errors of the archiver, mirroring the Go error values. -/
inductive ArchErr
  /-- `fmt.Errorf("%v: %w", pattern, fs.ErrNotExist)` from `WriteFiles`. -/
  | notExist (pattern : String)
  /-- A `Stat` failure for a name. -/
  | statFailed (path : Path)
  /-- `fmt.Errorf("%v: %w (%v)", name, errUnsupportedType, h.Typeflag)`:
  carries the offending path and the tar type-flag byte. -/
  | unsupportedType (path : Path) (flag : Nat)
deriving DecidableEq, Repr

/-- Append one member and record its name as archived. -/
def ArchSt.push (st : ArchSt) (p : Path) (f : TypeFlag) (mode mtime : Nat)
    (c : List Nat) : ArchSt :=
  ⟨p :: st.archived, st.entries ++ [⟨p, f, mode, mtime, c⟩]⟩

/-- `archiver.writeEntry`: skip names already archived; stat the name;
reject unsupported types (fifo `'6'`, char device `'3'`, block device
`'4'`); dereference symlinks into regular members; record the name as
archived exactly when the member was written. -/
def writeEntry (fs : FS) (st : ArchSt) (p : Path) : ArchSt × Option ArchErr :=
  if p ∈ st.archived then (st, none)
  else
    match statFS fs p with
    | none => (st, some (ArchErr.statFailed p))
    | some e =>
      match e.ftype with
      | FType.reg c => (st.push p TypeFlag.reg e.mode e.mtime c, none)
      | FType.symlink c => (st.push p TypeFlag.reg e.mode e.mtime c, none)
      | FType.dir => (st.push p TypeFlag.dir e.mode e.mtime [], none)
      | FType.fifo => (st, some (ArchErr.unsupportedType p 54))
      | FType.chardev => (st, some (ArchErr.unsupportedType p 51))
      | FType.blockdev => (st, some (ArchErr.unsupportedType p 52))

/-- The recursion of `writeDirAll` with structural fuel; the fuel is the
path's segment count, which bounds the parent recursion exactly. -/
def writeDirAllGo (fs : FS) : Nat → ArchSt → Path → ArchSt × Option ArchErr
  | _, st, [] => (st, none)
  | 0, st, _ :: _ => (st, none)
  | fuel + 1, st, s :: t =>
    if (s :: t) ∈ st.archived then (st, none)
    else
      let r := writeDirAllGo fs fuel st (s :: t).dropLast
      match r.2 with
      | some e => (r.1, some e)
      | none => writeEntry fs r.1 (s :: t)

/-- `archiver.writeDirAll`: write an entry for a directory and,
recursively, any parent not yet archived; the root is never written. -/
def writeDirAll (fs : FS) (st : ArchSt) (p : Path) : ArchSt × Option ArchErr :=
  writeDirAllGo fs p.length st p

/-- Lexicographic order on segment paths; a proper prefix sorts before
its extensions.  This is `fs.WalkDir`'s visit order on a directory tree:
a directory comes before its contents, siblings in lexical order. -/
def pathLe : Path → Path → Bool
  | [], _ => true
  | _ :: _, [] => false
  | a :: p, b :: q => if a = b then pathLe p q else decide (a < b)

/-- Insert into a lexicographically sorted path list. -/
def insSorted (p : Path) (l : List Path) : List Path :=
  match l with
  | [] => [p]
  | q :: t => if pathLe p q then p :: q :: t else q :: insSorted p t

/-- Sort paths lexicographically (segment-wise; a proper prefix sorts
before its extensions, so this is exactly `fs.WalkDir`'s depth-first
preorder, which visits a directory before its contents and siblings in
lexical order). -/
def sortPaths (l : List Path) : List Path := l.foldr insSorted []

/-- The names `fs.WalkDir` visits from `root`, in visit order, minus the
root directory `"."` (which `walkDirFunc` skips). -/
def walkList (fs : FS) (root : Path) : List Path :=
  sortPaths ((fs.map FSEntry.path).filter fun q => root.isPrefixOf q)

/-- Write entries for a list of names in order, aborting on error
(`fs.WalkDir` with the archiver's `walkDirFunc`). -/
def writeEntries (fs : FS) (st : ArchSt) (ps : List Path) : ArchSt × Option ArchErr :=
  match ps with
  | [] => (st, none)
  | p :: t =>
    let r := writeEntry fs st p
    match r.2 with
    | some e => (r.1, some e)
    | none => writeEntries fs r.1 t

/-! ### Glob

`fs.Glob` over the model: a pattern without meta characters matches
exactly itself when it exists; a pattern with `*`/`?` matches, segment by
segment, against every name in the file system (`path.Match` character
classes and escapes are not modelled; no pattern in this repository uses
them).  Matches come back in lexical order, as `fs.Glob` yields them. -/

/-- Does a pattern contain glob meta characters (modelled: `*`, `?`). -/
def hasMeta (pat : String) : Bool :=
  pat.data.contains '*' || pat.data.contains '?'

/-- `path.Match` on one segment, for patterns built from literals, `*`
and `?`. -/
def matchSeg : List Char → List Char → Bool
  | [], [] => true
  | '*' :: ps, s =>
    matchSeg ps s ||
      (match s with
       | [] => false
       | _ :: s' => matchSeg ('*' :: ps) s')
  | '?' :: ps, _ :: s' => matchSeg ps s'
  | c :: ps, d :: s' => c == d && matchSeg ps s'
  | _, _ => false
termination_by ps s => (ps.length, s.length)

/-- Segment-wise pattern match against a whole path. -/
def matchPath (pat : List String) (p : Path) : Bool :=
  pat.length == p.length &&
    (List.zip pat p).all fun a => matchSeg a.1.data a.2.data

/-- Split a character list at every occurrence of a separator. -/
def splitOnChar (c : Char) : List Char → List (List Char)
  | [] => [[]]
  | x :: t =>
    let r := splitOnChar c t
    if x = c then [] :: r
    else
      match r with
      | [] => [[x]]
      | h :: t' => (x :: h) :: t'

/-- Parse a pattern string into segments (`"."` is the root). -/
def patSegs (pat : String) : List String :=
  if pat == "." then []
  else (splitOnChar '/' pat.data).map fun l => String.mk l

/-- `fs.Glob` over the model. -/
def glob (fs : FS) (pat : String) : List Path :=
  if hasMeta pat then
    sortPaths ((fs.map FSEntry.path).filter fun q => matchPath (patSegs pat) q)
  else
    let p := patSegs pat
    if (statFS fs p).isSome then [p] else []

/-- Process one glob match of `WriteFiles`: synthesize parents, then walk
a directory or write a single entry. -/
def writeFilesStep (fs : FS) (st : ArchSt) (name : Path) : ArchSt × Option ArchErr :=
  let r := writeDirAll fs st (pathDir name)
  match r.2 with
  | some e => (r.1, some e)
  | none =>
    match statFS fs name with
    | none => (r.1, some (ArchErr.statFailed name))
    | some e =>
      if e.ftype = FType.dir then writeEntries fs r.1 (walkList fs name)
      else writeEntry fs r.1 name

/-- Process the glob matches of one `WriteFiles` call in order, aborting
on the first error. -/
def writeFilesList (fs : FS) (st : ArchSt) (names : List Path) : ArchSt × Option ArchErr :=
  match names with
  | [] => (st, none)
  | n :: t =>
    let r := writeFilesStep fs st n
    match r.2 with
    | some e => (r.1, some e)
    | none => writeFilesList fs r.1 t

/-- `archiver.WriteFiles`: glob the pattern (no match is an error), then
process each match. -/
def writeFiles (fs : FS) (st : ArchSt) (pat : String) : ArchSt × Option ArchErr :=
  match glob fs pat with
  | [] => (st, some (ArchErr.notExist pat))
  | names => writeFilesList fs st names

/-- The `writeArchive` loop: one `WriteFiles` call per requested path,
aborting on the first error. -/
def writeFilesSeq (fs : FS) (st : ArchSt) (pats : List String) : ArchSt × Option ArchErr :=
  match pats with
  | [] => (st, none)
  | p :: t =>
    let r := writeFiles fs st p
    match r.2 with
    | some e => (r.1, some e)
    | none => writeFilesSeq fs r.1 t

/-! ### Derived notions about archiver runs -/

/-- The tar member type a name would be archived with: regular files and
symlinks (dereferenced) become regular members, directories directory
members; other types are unsupported. -/
def entryFlag (fs : FS) (p : Path) : Option TypeFlag :=
  match statFS fs p with
  | none => none
  | some e =>
    match e.ftype with
    | FType.reg _ => some TypeFlag.reg
    | FType.symlink _ => some TypeFlag.reg
    | FType.dir => some TypeFlag.dir
    | _ => none

/-- The tar type-flag byte of an unsupported file type (`'6'` fifo, `'3'`
character device, `'4'` block device). -/
def unsupportedFlag : FType → Option Nat
  | FType.fifo => some 54
  | FType.chardev => some 51
  | FType.blockdev => some 52
  | _ => none

/-- Placeholder member used by positional lookups. -/
def dummyEntry : TarEntry := ⟨[], TypeFlag.dir, 0, 0, []⟩

/-- Ancestor-closedness of an emitted member list: every proper ancestor
of a member's path appears as a directory member strictly earlier. -/
def ancClosed (l : List TarEntry) : Prop :=
  ∀ i, i < l.length → ∀ a ∈ properAncestors (l.getD i dummyEntry).rawPath,
    ∃ j, j < i ∧ (l.getD j dummyEntry).rawPath = a ∧
      (l.getD j dummyEntry).flag = TypeFlag.dir

/-- State extension: archived names are kept and members are appended. -/
def ArchExt (st st' : ArchSt) : Prop :=
  (∀ p ∈ st.archived, p ∈ st'.archived) ∧ ∃ t, st'.entries = st.entries ++ t

/-- The archiver's run-time invariant: members and the archived set name
the same paths, the archived set is closed under ancestors, no path is
archived twice, member flags agree with the file system, and every
member's proper ancestors appear earlier in the stream. -/
structure SInv (fs : FS) (st : ArchSt) : Prop where
  mem_arch : ∀ e ∈ st.entries, e.rawPath ∈ st.archived
  arch_mem : ∀ p ∈ st.archived, ∃ e ∈ st.entries, e.rawPath = p
  arch_anc : ∀ p ∈ st.archived, ∀ a ∈ properAncestors p, a ∈ st.archived
  nodup : (st.entries.map TarEntry.rawPath).Nodup
  flags : ∀ e ∈ st.entries, entryFlag fs e.rawPath = some e.flag
  anc : ancClosed st.entries

/-! ## Tar serialization

Byte-level USTAR serialization of the archiver's members, following
`archive/tar`'s writer for the headers this repository produces (ASCII
names that fit the 100-byte field, sizes and times that fit their octal
fields, zero uid/gid, empty user/group names, no PAX records needed). -/

/-- Pad a byte field with zero bytes up to a width. -/
def padTo (n : Nat) (l : List Nat) : List Nat :=
  l ++ List.replicate (n - l.length) 0

/-- The bytes of an ASCII string. -/
def strBytes (s : String) : List Nat := s.data.map Char.toNat

/-- `formatOctal`: zero-padded octal digits filling the field except for a
terminating NUL. -/
def octField (w x : Nat) : List Nat :=
  let ds := (Nat.toDigits 8 x).map Char.toNat
  List.replicate (w - 1 - ds.length) 48 ++ ds ++ [0]

/-- Header size field value: content length for regular members, zero for
directories. -/
def TarEntry.size (e : TarEntry) : Nat :=
  match e.flag with
  | TypeFlag.reg => e.content.length
  | TypeFlag.dir => 0

/-- The tar type-flag byte (`'0'` regular, `'5'` directory). -/
def flagByte : TypeFlag → Nat
  | TypeFlag.reg => 48
  | TypeFlag.dir => 53

/-- The 512-byte USTAR header block with the given checksum field. -/
def headerFields (e : TarEntry) (chk : List Nat) : List Nat :=
  padTo 100 (strBytes e.name) ++
    octField 8 e.mode ++
    octField 8 0 ++
    octField 8 0 ++
    octField 12 e.size ++
    octField 12 e.mtime ++
    chk ++
    [flagByte e.flag] ++
    List.replicate 100 0 ++
    [117, 115, 116, 97, 114, 0] ++
    [48, 48] ++
    List.replicate 32 0 ++
    List.replicate 32 0 ++
    octField 8 0 ++
    octField 8 0 ++
    List.replicate 155 0 ++
    List.replicate 12 0

/-- The header block: checksum over the block with the checksum field as
eight spaces, then written as six octal digits, NUL, space. -/
def tarHeader (e : TarEntry) : List Nat :=
  let c := (headerFields e (List.replicate 8 32)).sum
  headerFields e (octField 7 c ++ [32])

/-- Member content, zero-padded to a full 512-byte block. -/
def padContent (e : TarEntry) : List Nat :=
  match e.flag with
  | TypeFlag.dir => []
  | TypeFlag.reg =>
    e.content ++ List.replicate ((512 - e.content.length % 512) % 512) 0

/-- The full tar stream: member blocks plus the two-block trailer that
`tar.Writer.Close` appends. -/
def serializeTar (entries : List TarEntry) : List Nat :=
  entries.flatMap (fun e => tarHeader e ++ padContent e) ++ List.replicate 1024 0

/-! ## The context uploader

Embeds `uploadBuildContext`: the gzip-compressed archive is streamed
through an `io.MultiWriter` into both the spool file and the SHA-256
hash, so the spool contents and the hashed bytes are the same compressed
stream; the digest, the upload-location request, the idempotency
short-circuit on an empty `Location` header, and the PUT of the rewound
spool follow `build_context.go`.  The remote service is an oracle
supplying the responses. -/

/-- A spooled temporary file: contents plus read/write offset. -/
structure Spool where
  data : List Nat
  pos : Nat
deriving Repr

/-- Outcome of the upload-location POST. -/
inductive LocResponse
  /-- Transport-level failure. -/
  | transport
  /-- An HTTP response: status code and `Location` header (empty when the
  header is absent). -/
  | httpRes (code : Nat) (location : String)
deriving DecidableEq, Repr

/-- Outcome of a PUT: `none` is a transport failure, `some code` an HTTP
response. -/
abbrev PutResponse := Option Nat

/-- The remote build-context endpoints, as response oracles. -/
structure Svc where
  loc : Nat → String → LocResponse
  put : String → List Nat → Nat → PutResponse

/-- A PUT request the uploader performed. -/
structure PutReq where
  loc : String
  body : List Nat
  contentLength : Nat
deriving DecidableEq, Repr

/-- Errors of the uploader. -/
inductive UpErr
  /-- `"failed to write archive: %w"`. -/
  | archiveFailed (e : ArchErr)
  /-- `"failed to get build context upload location: %w"`; `some code`
  when an HTTP status was received, `none` on transport failure. -/
  | locFetch (code : Option Nat)
  /-- `"failed to upload build context: %w"`. -/
  | putFailed (code : Option Nat)
  /-- `errNoPathsSpecified`. -/
  | noPaths
deriving DecidableEq, Repr

/-- `Client.uploadBuildContext`: archive and hash the compressed stream,
record size and digest, request an upload location, short-circuit when the
context is already present, otherwise rewind the spool and PUT its full
contents.  Also returns the list of PUT requests performed. -/
def uploadBuildContextM (svc : Svc) (fsys : FS) (paths : List String) :
    Except UpErr String × List PutReq :=
  let run := writeFilesSeq fsys ArchSt.init paths
  let gz := gzipEncode (serializeTar run.1.entries)
  match run.2 with
  | some e => (Except.error (UpErr.archiveFailed e), [])
  | none =>
    let spool : Spool := ⟨gz, gz.length⟩
    let size := spool.pos
    let digest := "sha256." ++ hexStr (sha256 gz)
    match svc.loc size digest with
    | LocResponse.transport => (Except.error (UpErr.locFetch none), [])
    | LocResponse.httpRes code location =>
      if code / 100 ≠ 2 then (Except.error (UpErr.locFetch (some code)), [])
      else if location == "" then (Except.ok digest, [])
      else
        let rewound : Spool := ⟨spool.data, 0⟩
        let body := rewound.data.drop rewound.pos
        let req : PutReq := ⟨location, body, size⟩
        match svc.put location body size with
        | none => (Except.error (UpErr.putFailed none), [req])
        | some putCode =>
          if putCode / 100 ≠ 2 then (Except.error (UpErr.putFailed (some putCode)), [req])
          else (Except.ok digest, [req])

/-- `Client.UploadBuildContext`: reject an empty path list, then upload
from a fresh spool file. -/
def uploadBuildContextTop (svc : Svc) (fsys : FS) (paths : List String) :
    Except UpErr String × List PutReq :=
  if paths.isEmpty then (Except.error UpErr.noPaths, [])
  else uploadBuildContextM svc fsys paths

/-- The compressed archive stream a given file system and path list
produce: the bytes written through the gzip writer into the spool file
and the hash. -/
def archiveGz (fsys : FS) (paths : List String) : List Nat :=
  gzipEncode (serializeTar (writeFilesSeq fsys ArchSt.init paths).1.entries)

/-- The digest `uploadBuildContext` computes: SHA-256 over the compressed
archive stream. -/
def archiveDigest (fsys : FS) (paths : List String) : String :=
  "sha256." ++ hexStr (sha256 (archiveGz fsys paths))

/-! ## Output streaming (`GetOutput`)

Embeds the `select` at the end of `Client.GetOutput` (the `io.Writer`
variant): once the websocket is dialled, either the parent context is
cancelled while the stream is open (the `ctx.Done()` case fires) — then a
cancel request is issued under a fresh independent 5-second timeout, the
websocket is closed, the reading goroutine is drained, and `nil` is
returned — or the reading goroutine's outcome is returned. -/

/-- Error values appearing in the streaming path. -/
inductive CliErr
  /-- `context.Canceled` / deadline exceeded. -/
  | ctxCanceled
  /-- `"failed to dial: %w"`. -/
  | dialFailed
  /-- `"failed to read output: %w"`. -/
  | readFailed
  /-- `"failed to copy output: %w"`. -/
  | copyFailed
deriving DecidableEq, Repr

/-- Observable actions of `GetOutput` after a successful dial. -/
inductive OutAction
  /-- `c.Cancel` under a context; `independent` records that the context
  is fresh (derived from `context.Background()`), with the given timeout
  in seconds. -/
  | cancelRequest (independent : Bool) (timeoutSecs : Nat)
  /-- `ws.Close()`. -/
  | closeStream
  /-- `<-errChan`: join the reading goroutine. -/
  | joinReader
deriving DecidableEq, Repr

/-- `Client.GetOutput`: `dialOk` is the dial outcome, `ctxDone` whether
the parent context was cancelled while the stream was open (so the
`ctx.Done()` select case fires), `reader` the reading goroutine's
eventual outcome (`none` = normal closure).  Returns the performed
actions and the function's returned error (`none` = `nil`). -/
def getOutputM (dialOk ctxDone : Bool) (reader : Option CliErr) :
    List OutAction × Option CliErr :=
  if !dialOk then ([], some CliErr.dialFailed)
  else if ctxDone then
    ([OutAction.cancelRequest true 5, OutAction.closeStream, OutAction.joinReader], none)
  else ([], reader)

/-! ## Per-architecture build attempt and multi-architecture loop

Embeds `buildArtifact` (artifact.go), `buildArch` and `build`
(client.go) for the unsigned configurations, with the per-phase remote
outcomes supplied by an oracle.  The error type of the remote phases is a
parameter `ε` (Go errors are opaque values). -/

/-- The build status payload (`rawBuildInfo`). -/
structure BuildInfoM where
  id : String
  isComplete : Bool
  imageSize : Int
  imageChecksum : String
  libraryRef : String
deriving DecidableEq, Repr

/-- The remote outcomes of one architecture's attempt. -/
structure ArchOutcome (ε : Type) where
  submit : Except ε BuildInfoM
  output : Option ε
  status : Except ε BuildInfoM
  retrieve : Option ε

/-- Remote requests the attempt issues that matter to the context
lifecycle. -/
inductive BuildAction
  /-- `Submit` with the architecture, the context digest passed via
  `OptBuildContext`, and the library ref. -/
  | submit (arch : String) (contextDigest : String) (libraryRef : String)
  /-- `DeleteBuildContext`. -/
  | deleteContext (digest : String)
deriving DecidableEq, Repr

/-- Errors of one attempt, wrapped with their phase context. -/
inductive BuildErr (ε : Type)
  /-- `"error submitting remote build: %w"`. -/
  | submitFailed (e : ε)
  /-- `"error streaming remote build output: %w"`. -/
  | streamFailed (e : ε)
  /-- `"error getting remote build status: %w"`. -/
  | statusFailed (e : ε)
  /-- `errors.New("failed to build image")` on a non-positive size. -/
  | zeroSize
  /-- `"error retrieving build artifact: %w"`. -/
  | retrieveFailed (e : ε)
deriving DecidableEq, Repr

/-- `App.buildArtifact`: submit, stream, poll status, classify by image
size, and delete the build context on success when a digest was given.
Returns the result and the remote requests performed. -/
def buildArtifactM (arch digest libraryRef : String) (oc : ArchOutcome ε) :
    Except (BuildErr ε) BuildInfoM × List BuildAction :=
  let sub := [BuildAction.submit arch digest libraryRef]
  match oc.submit with
  | Except.error e => (Except.error (BuildErr.submitFailed e), sub)
  | Except.ok _ =>
    match oc.output with
    | some e => (Except.error (BuildErr.streamFailed e), sub)
    | none =>
      match oc.status with
      | Except.error e => (Except.error (BuildErr.statusFailed e), sub)
      | Except.ok bi =>
        if bi.imageSize ≤ 0 then (Except.error BuildErr.zeroSize, sub)
        else if digest ≠ "" then (Except.ok bi, sub ++ [BuildAction.deleteContext digest])
        else (Except.ok bi, sub)

/-- `appendFileSuffix`. -/
def appendFileSuffix (name suffix : String) (app : Bool) : String :=
  if !app then name else name ++ "-" ++ suffix

/-- `App.buildArch` in the unsigned configuration: derive the temporary
library ref / file name, run the attempt, then download locally when a
destination file is in play. -/
def buildArchM (dstFileName libraryRef arch digest : String) (oc : ArchOutcome ε) :
    Except (BuildErr ε) BuildInfoM × List BuildAction :=
  let tmpLibraryRef := if libraryRef ≠ "" ∧ dstFileName = "" then libraryRef else ""
  let tmpFileName := if libraryRef = "" ∧ dstFileName ≠ "" then dstFileName else ""
  let r := buildArtifactM arch digest tmpLibraryRef oc
  match r.1 with
  | Except.error e => (Except.error e, r.2)
  | Except.ok bi =>
    if tmpFileName = "" then (Except.ok bi, r.2)
    else
      match oc.retrieve with
      | some e => (Except.error (BuildErr.retrieveFailed e), r.2)
      | none => (Except.ok bi, r.2)

/-- The `build` loop over the requested architectures: sequential, never
short-circuiting, collecting per-architecture errors in order.  `multi`
is `len(Archs) > 1` of the full list (destination suffixing). -/
def buildLoopM (dstFileName libraryRef digest : String) (multi : Bool)
    (oc : String → ArchOutcome ε) (archs : List String) :
    List (String × BuildErr ε) × List BuildAction :=
  match archs with
  | [] => ([], [])
  | a :: t =>
    let dst := appendFileSuffix dstFileName a multi
    let r := buildArchM dst libraryRef a digest (oc a)
    let rest := buildLoopM dstFileName libraryRef digest multi oc t
    match r.1 with
    | Except.error e => ((a, e) :: rest.1, r.2 ++ rest.2)
    | Except.ok _ => (rest.1, r.2 ++ rest.2)

/-- `App.build` over the architecture list. -/
def buildM (dstFileName libraryRef digest : String) (oc : String → ArchOutcome ε)
    (archs : List String) : List (String × BuildErr ε) × List BuildAction :=
  buildLoopM dstFileName libraryRef digest (archs.length > 1) oc archs

/-- Does the oracle's attempt reach the success classification (submit,
stream and status all succeed, positive image size)? -/
def succeededB (oc : ArchOutcome ε) : Bool :=
  (match oc.submit with
   | Except.ok _ => true
   | Except.error _ => false) &&
    oc.output.isNone &&
    (match oc.status with
     | Except.ok bi => decide (0 < bi.imageSize)
     | Except.error _ => false)

/-- Is this action a `DeleteBuildContext` request? -/
def isDeleteAction : BuildAction → Bool
  | BuildAction.deleteContext _ => true
  | _ => false

/-- The context digest carried by a submit action (`""` otherwise). -/
def submitDigest : BuildAction → Option String
  | BuildAction.submit _ d _ => some d
  | _ => none

/-! ## Error aggregation (`reportErrs`) -/

/-- What `reportErrs` can return: the sole architecture's error value,
unchanged, or the fresh `errors.New("failed to build images")` aggregate
(a distinct value from every error already in flight, as a freshly
allocated Go error is). -/
inductive RetErr (ε : Type)
  /-- The single error, returned as-is. -/
  | single (e : ε)
  /-- `errors.New("failed to build images")`. -/
  | failedToBuildImages
deriving DecidableEq, Repr

/-- `App.reportErrs`: nothing failed → `nil`; exactly one failure → that
error value itself; multiple failures → print one summary line per
architecture to the error stream (returned structurally as the
architecture/error pairs printed) and return the generic aggregate. -/
def reportErrsM : List (String × ε) → List (String × ε) × Option (RetErr ε)
  | [] => ([], none)
  | [(_, e)] => ([], some (RetErr.single e))
  | errs => (errs, some (RetErr.failedToBuildImages (ε := ε)))

/-! ## Build-spec parsing (`definitionFromURI`, `getBuildDef`) -/

/-- Index of the first occurrence of `sub` in `s` (character lists). -/
def findSub (s sub : List Char) : Option Nat :=
  match s with
  | [] => if sub.isEmpty then some 0 else none
  | _ :: t =>
    if sub.isPrefixOf s then some 0
    else (findSub t sub).map fun i => i + 1

/-- `strings.Contains`. -/
def containsStr (s sub : String) : Bool := (findSub s.data sub.data).isSome

/-- `strings.SplitN(s, sep, 2)`: split around the first instance of the
separator; the whole string when the separator does not occur. -/
def splitN2 (s sep : String) : List String :=
  match findSub s.data sep.data with
  | none => [s]
  | some i =>
    [String.mk (s.data.take i), String.mk (s.data.drop (i + sep.data.length))]

/-- `definitionFromURI`: a string containing `"://"` (or, failing that,
`":"`) is split at the first such separator and rendered as the two-line
definition `fmt.Fprintln` produces; anything else is not a URI. -/
def definitionFromURIM (raw : String) : Option String :=
  let u :=
    if containsStr raw "://" then some (splitN2 raw "://")
    else if containsStr raw ":" then some (splitN2 raw ":")
    else none
  u.map fun u =>
    "bootstrap: " ++ u.headD "" ++ "\n" ++ "from: " ++ u.getD 1 "" ++ "\n"

/-- Error of `getBuildDef`: `"error reading def file %v: %w"`. -/
inductive DefErr (ε : Type)
  /-- Reading the build spec as a file failed. -/
  | readFailed (spec : String) (e : ε)
deriving DecidableEq, Repr

/-- `App.getBuildDef`: a URI-looking build spec is synthesized, anything
else is read from disk (`readFile` is the `os.ReadFile` oracle).  The
Boolean records whether the file system was consulted. -/
def getBuildDefM (readFile : String → Except ε String) (buildSpec : String) :
    Except (DefErr ε) String × Bool :=
  match definitionFromURIM buildSpec with
  | some b => (Except.ok b, false)
  | none =>
    match readFile buildSpec with
    | Except.ok b => (Except.ok b, true)
    | Except.error e => (Except.error (DefErr.readFailed buildSpec e), true)

/-! # Lemmas and theorems -/

/-! ## The path order -/

theorem pathLe_refl (p : Path) : pathLe p p = true := by
  induction p with
  | nil => rfl
  | cons a p ih => simp [pathLe, ih]

theorem pathLe_total (p q : Path) : pathLe p q = true ∨ pathLe q p = true := by
  induction p generalizing q with
  | nil => left; rfl
  | cons a p ih =>
    cases q with
    | nil => right; rfl
    | cons b q =>
      by_cases hab : a = b
      · subst hab
        rcases ih q with h | h
        · left; simpa [pathLe] using h
        · right; simpa [pathLe] using h
      · rcases lt_or_gt_of_ne hab with h | h
        · left; simp [pathLe, hab, h]
        · right; simp [pathLe, Ne.symm hab, h]

theorem pathLe_antisymm {p q : Path} (h1 : pathLe p q = true)
    (h2 : pathLe q p = true) : p = q := by
  induction p generalizing q with
  | nil =>
    cases q with
    | nil => rfl
    | cons b q => simp [pathLe] at h2
  | cons a p ih =>
    cases q with
    | nil => simp [pathLe] at h1
    | cons b q =>
      by_cases hab : a = b
      · subst hab
        simp only [pathLe, if_pos rfl] at h1 h2
        rw [ih h1 h2]
      · simp only [pathLe, if_neg hab, decide_eq_true_eq] at h1
        simp only [pathLe, if_neg (Ne.symm hab), decide_eq_true_eq] at h2
        exact absurd (lt_trans h1 h2) (lt_irrefl a)

theorem pathLe_trans {p q r : Path} (h1 : pathLe p q = true)
    (h2 : pathLe q r = true) : pathLe p r = true := by
  induction p generalizing q r with
  | nil => rfl
  | cons a p ih =>
    cases q with
    | nil => simp [pathLe] at h1
    | cons b q =>
      cases r with
      | nil => simp [pathLe] at h2
      | cons c r =>
        by_cases hab : a = b <;> by_cases hbc : b = c
        · subst hab; subst hbc
          simp only [pathLe, if_pos rfl] at h1 h2 ⊢
          exact ih h1 h2
        · subst hab
          simp only [pathLe, if_neg hbc] at h2 ⊢
          exact h2
        · subst hbc
          simp only [pathLe, if_neg hab] at h1 ⊢
          exact h1
        · simp only [pathLe, if_neg hab, decide_eq_true_eq] at h1
          simp only [pathLe, if_neg hbc, decide_eq_true_eq] at h2
          have hac : a < c := lt_trans h1 h2
          simp [pathLe, ne_of_lt hac, hac]

theorem pathLe_append (p r : Path) : pathLe p (p ++ r) = true := by
  induction p with
  | nil => rfl
  | cons a p ih => simpa [pathLe] using ih

/-! ## Sorted path lists -/

theorem mem_insSorted {x p : Path} {l : List Path} :
    x ∈ insSorted p l ↔ x = p ∨ x ∈ l := by
  induction l with
  | nil => simp [insSorted]
  | cons q t ih =>
    by_cases h : pathLe p q = true
    · simp [insSorted, h]
    · simp only [insSorted, if_neg h, List.mem_cons, ih]
      tauto

theorem insSorted_pairwise {p : Path} {l : List Path}
    (h : l.Pairwise fun x y => pathLe x y = true) :
    (insSorted p l).Pairwise fun x y => pathLe x y = true := by
  induction l with
  | nil => simp [insSorted]
  | cons q t ih =>
    rcases List.pairwise_cons.mp h with ⟨hq, ht⟩
    by_cases hle : pathLe p q = true
    · rw [insSorted, if_pos hle]
      refine List.pairwise_cons.mpr ⟨?_, h⟩
      intro y hy
      rcases List.mem_cons.mp hy with rfl | hy
      · exact hle
      · exact pathLe_trans hle (hq y hy)
    · have hqp : pathLe q p = true := (pathLe_total p q).resolve_left hle
      rw [insSorted, if_neg hle]
      refine List.pairwise_cons.mpr ⟨?_, ih ht⟩
      intro y hy
      rcases mem_insSorted.mp hy with rfl | hy
      · exact hqp
      · exact hq y hy

theorem mem_sortPaths {x : Path} {l : List Path} :
    x ∈ sortPaths l ↔ x ∈ l := by
  induction l with
  | nil => simp [sortPaths]
  | cons q t ih =>
    simp only [sortPaths, List.foldr_cons]
    rw [mem_insSorted]
    simp only [sortPaths] at ih
    rw [ih, List.mem_cons]

theorem sortPaths_pairwise (l : List Path) :
    (sortPaths l).Pairwise fun x y => pathLe x y = true := by
  induction l with
  | nil => simp [sortPaths]
  | cons q t ih => exact insSorted_pairwise ih

/-! ## Ancestors -/

theorem properAncestors_iff {a p : Path} :
    a ∈ properAncestors p ↔ a ≠ [] ∧ a.length < p.length ∧ a <+: p := by
  constructor
  · intro h
    rcases List.mem_map.mp h with ⟨i, hi, rfl⟩
    rcases List.mem_range'_1.mp hi with ⟨h1, h2⟩
    have hip : i < p.length := by omega
    have hlen : (p.take i).length = i := by
      simp [List.length_take]; omega
    refine ⟨?_, ?_, List.take_prefix i p⟩
    · intro hnil
      rw [hnil] at hlen
      simp at hlen
      omega
    · rw [hlen]; exact hip
  · rintro ⟨hne, hlt, hpre⟩
    refine List.mem_map.mpr ⟨a.length, ?_, ?_⟩
    · refine List.mem_range'_1.mpr ⟨?_, ?_⟩
      · cases a with
        | nil => exact absurd rfl hne
        | cons x t => simp only [List.length_cons]; omega
      · omega
    · exact (List.prefix_iff_eq_take.mp hpre).symm

theorem properAncestors_dropLast {a p : Path} (h : a ∈ properAncestors p) :
    a = p.dropLast ∨ a ∈ properAncestors p.dropLast := by
  rcases properAncestors_iff.mp h with ⟨hne, hlt, hpre⟩
  have hdl : p.dropLast = p.take (p.length - 1) := List.dropLast_eq_take p
  have hle : a.length ≤ p.length - 1 := by omega
  have hpre' : a <+: p.dropLast := by
    rw [hdl, List.prefix_iff_eq_take, List.take_take, min_eq_left hle]
    exact List.prefix_iff_eq_take.mp hpre
  have hdll : p.dropLast.length = p.length - 1 := List.length_dropLast p
  by_cases heq : a.length = p.length - 1
  · left
    have h1 := List.prefix_iff_eq_take.mp hpre'
    rw [h1, heq, ← hdll, List.take_length]
  · right
    exact properAncestors_iff.mpr ⟨hne, by rw [hdll]; omega, hpre'⟩

theorem properAncestors_nil : properAncestors [] = [] := rfl

theorem pathLe_of_pre {a p : Path} (h : a <+: p) : pathLe a p = true := by
  obtain ⟨r, rfl⟩ := h
  exact pathLe_append a r

/-! ## Facts about `statFS` and well-formed file systems -/

theorem statFS_mem {fs : FS} {p : Path} {e : FSEntry}
    (h : statFS fs p = some e) (hp : p ≠ []) : e ∈ fs ∧ e.path = p := by
  unfold statFS at h
  rw [if_neg (by simpa using hp)] at h
  refine ⟨List.mem_of_find?_eq_some h, ?_⟩
  have := List.find?_some h
  simpa using this

theorem statFS_some_cases {fs : FS} {p : Path} {e : FSEntry}
    (h : statFS fs p = some e) : p = [] ∨ p ∈ fs.map FSEntry.path := by
  by_cases hp : p = []
  · exact Or.inl hp
  · right
    rcases statFS_mem h hp with ⟨hm, hpath⟩
    exact List.mem_map.mpr ⟨e, hm, hpath⟩

theorem statFS_of_mem {fs : FS} {q : Path}
    (hq : q ∈ fs.map FSEntry.path) (hqne : q ≠ []) : (statFS fs q).isSome := by
  unfold statFS
  rw [if_neg (by simpa using hqne)]
  rcases List.mem_map.mp hq with ⟨e, he, rfl⟩
  cases hfind : fs.find? fun x => x.path == e.path with
  | some _ => rfl
  | none =>
    have := List.find?_eq_none.mp hfind e he
    simp at this

theorem wf_path_ne_nil {fs : FS} (hwf : wfFS fs) {q : Path}
    (hq : q ∈ fs.map FSEntry.path) : q ≠ [] := by
  rcases List.mem_map.mp hq with ⟨e, he, rfl⟩
  have hv := hwf.2.1 e he
  unfold validPath at hv
  intro hnil
  rw [hnil] at hv
  simp at hv

theorem wf_ancestor_dir {fs : FS} (hwf : wfFS fs) {p a : Path}
    (hp : p ∈ fs.map FSEntry.path) (ha : a ∈ properAncestors p) :
    entryFlag fs a = some TypeFlag.dir := by
  rcases List.mem_map.mp hp with ⟨e, he, rfl⟩
  rcases hwf.2.2 e he a ha with ⟨d, hd, hdp, hdt⟩
  have hane : a ≠ [] := (properAncestors_iff.mp ha).1
  unfold entryFlag statFS
  rw [if_neg (by simpa using hane)]
  cases hfind : fs.find? fun x => x.path == a with
  | none =>
    have := List.find?_eq_none.mp hfind d hd
    rw [hdp] at this
    simp at this
  | some e' =>
    have he'm := List.mem_of_find?_eq_some hfind
    have he'p : e'.path = a := by simpa using List.find?_some hfind
    have : e' = d := by
      have := List.inj_on_of_nodup_map hwf.1
      exact this he'm hd (by rw [he'p, hdp])
    rw [this]
    simp [hdt]

theorem wf_ancestor_mem {fs : FS} (hwf : wfFS fs) {p a : Path}
    (hp : p ∈ fs.map FSEntry.path) (ha : a ∈ properAncestors p) :
    a ∈ fs.map FSEntry.path := by
  rcases List.mem_map.mp hp with ⟨e, he, rfl⟩
  rcases hwf.2.2 e he a ha with ⟨d, hd, hdp, _⟩
  exact List.mem_map.mpr ⟨d, hd, hdp⟩

/-! ## `writeEntry` characterization -/

theorem writeEntry_cases (fs : FS) (st : ArchSt) (p : Path) :
    (writeEntry fs st p = (st, none) ∧ p ∈ st.archived) ∨
      ((writeEntry fs st p).1 = st ∧ ((writeEntry fs st p).2).isSome ∧
        p ∉ st.archived) ∨
      (∃ f m mt c, writeEntry fs st p = (st.push p f m mt c, none) ∧
        p ∉ st.archived ∧ entryFlag fs p = some f) := by
  by_cases hp : p ∈ st.archived
  · left
    exact ⟨by unfold writeEntry; rw [if_pos hp], hp⟩
  · right
    unfold writeEntry
    rw [if_neg hp]
    cases hstat : statFS fs p with
    | none => left; exact ⟨rfl, rfl, hp⟩
    | some e =>
      obtain ⟨pth, ft, md, mt⟩ := e
      cases ft with
      | reg c =>
        right
        exact ⟨TypeFlag.reg, md, mt, c, rfl, hp, by
          unfold entryFlag; rw [hstat]⟩
      | dir =>
        right
        exact ⟨TypeFlag.dir, md, mt, [], rfl, hp, by
          unfold entryFlag; rw [hstat]⟩
      | symlink c =>
        right
        exact ⟨TypeFlag.reg, md, mt, c, rfl, hp, by
          unfold entryFlag; rw [hstat]⟩
      | fifo => left; exact ⟨rfl, rfl, hp⟩
      | chardev => left; exact ⟨rfl, rfl, hp⟩
      | blockdev => left; exact ⟨rfl, rfl, hp⟩

theorem writeEntry_stat_none {fs : FS} {st : ArchSt} {p : Path}
    (hp : p ∉ st.archived) (hstat : statFS fs p = none) :
    writeEntry fs st p = (st, some (ArchErr.statFailed p)) := by
  unfold writeEntry
  rw [if_neg hp, hstat]

theorem writeEntry_unsupported {fs : FS} {st : ArchSt} {p : Path} {e : FSEntry} {fb : Nat}
    (hp : p ∉ st.archived) (hstat : statFS fs p = some e)
    (hun : unsupportedFlag e.ftype = some fb) :
    writeEntry fs st p = (st, some (ArchErr.unsupportedType p fb)) := by
  obtain ⟨pth, ft, md, mt⟩ := e
  unfold writeEntry
  rw [if_neg hp, hstat]
  cases ft <;> simp [unsupportedFlag] at hun <;> rw [← hun]

/-! ## Positional lookup helpers -/

theorem getD_append_left {l l' : List TarEntry} {i : Nat} (h : i < l.length) :
    (l ++ l').getD i dummyEntry = l.getD i dummyEntry := by
  rw [List.getD_eq_getElem?_getD, List.getD_eq_getElem?_getD,
    List.getElem?_append_left h]

theorem getD_append_self {l : List TarEntry} {e : TarEntry} :
    (l ++ [e]).getD l.length dummyEntry = e := by
  rw [List.getD_eq_getElem?_getD, List.getElem?_append_right (le_refl _)]
  simp

theorem ancClosed_append {l : List TarEntry} {e : TarEntry} (h : ancClosed l)
    (hnew : ∀ a ∈ properAncestors e.rawPath,
      ∃ j, j < l.length ∧ (l.getD j dummyEntry).rawPath = a ∧
        (l.getD j dummyEntry).flag = TypeFlag.dir) :
    ancClosed (l ++ [e]) := by
  intro i hi a ha
  rw [List.length_append, List.length_singleton] at hi
  by_cases hil : i < l.length
  · rw [getD_append_left hil] at ha
    rcases h i hil a ha with ⟨j, hj, hja, hjf⟩
    exact ⟨j, hj, by rw [getD_append_left (lt_trans hj hil)]; exact ⟨hja, hjf⟩⟩
  · have hieq : i = l.length := by omega
    subst hieq
    rw [getD_append_self] at ha
    rcases hnew a ha with ⟨j, hj, hja, hjf⟩
    exact ⟨j, hj, by rw [getD_append_left hj]; exact ⟨hja, hjf⟩⟩

theorem entryFlag_some_stat {fs : FS} {p : Path} {f : TypeFlag}
    (h : entryFlag fs p = some f) : ∃ e, statFS fs p = some e := by
  unfold entryFlag at h
  cases hs : statFS fs p with
  | none => rw [hs] at h; simp at h
  | some e => exact ⟨e, rfl⟩

/-! ## Invariant preservation -/

theorem SInv_init (fs : FS) : SInv fs ArchSt.init :=
  ⟨by simp [ArchSt.init], by simp [ArchSt.init], by simp [ArchSt.init],
   by simp [ArchSt.init], by simp [ArchSt.init],
   fun i hi => by simp [ArchSt.init] at hi⟩

theorem ArchExt.rfl' {st : ArchSt} : ArchExt st st :=
  ⟨fun _ h => h, [], by simp⟩

theorem ArchExt.trans' {s1 s2 s3 : ArchSt} (h1 : ArchExt s1 s2)
    (h2 : ArchExt s2 s3) : ArchExt s1 s3 := by
  rcases h1 with ⟨ha1, t1, he1⟩
  rcases h2 with ⟨ha2, t2, he2⟩
  exact ⟨fun q h => ha2 q (ha1 q h), t1 ++ t2, by rw [he2, he1, List.append_assoc]⟩

theorem SInv_writeEntry {fs : FS} {st : ArchSt} {p : Path} (hwf : wfFS fs)
    (hinv : SInv fs st) (hanc : ∀ a ∈ properAncestors p, a ∈ st.archived) :
    SInv fs (writeEntry fs st p).1 ∧ ArchExt st (writeEntry fs st p).1 ∧
      ((writeEntry fs st p).2 = none → p ∈ (writeEntry fs st p).1.archived) ∧
      (∀ q ∈ (writeEntry fs st p).1.archived, q ∈ st.archived ∨ q = p) := by
  rcases writeEntry_cases fs st p with ⟨heq, hp⟩ | ⟨h1, h2, _⟩ |
    ⟨f, m, mt, c, heq, hp, hflag⟩
  · rw [heq]
    exact ⟨hinv, ArchExt.rfl', fun _ => hp, fun q hq => Or.inl hq⟩
  · rw [h1]
    refine ⟨hinv, ArchExt.rfl', ?_, fun q hq => Or.inl hq⟩
    intro hnone
    rw [hnone] at h2
    simp at h2
  · rw [heq]
    have hpm : p ∉ st.entries.map TarEntry.rawPath := by
      intro hmem
      rcases List.mem_map.mp hmem with ⟨e, he, hep⟩
      exact hp (hep ▸ hinv.mem_arch e he)
    refine ⟨?_, ?_, ?_, ?_⟩
    · refine ⟨?_, ?_, ?_, ?_, ?_, ?_⟩
      · intro e he
        simp only [ArchSt.push] at he ⊢
        rcases List.mem_append.mp he with he | he
        · exact List.mem_cons_of_mem _ (hinv.mem_arch e he)
        · rw [List.mem_singleton] at he
          subst he
          exact List.mem_cons_self _ _
      · intro q hq
        simp only [ArchSt.push] at hq ⊢
        rcases List.mem_cons.mp hq with rfl | hq
        · exact ⟨⟨q, f, m, mt, c⟩,
            List.mem_append_right _ (List.mem_singleton_self _), rfl⟩
        · rcases hinv.arch_mem q hq with ⟨e, he, hep⟩
          exact ⟨e, List.mem_append_left _ he, hep⟩
      · intro q hq a ha
        simp only [ArchSt.push] at hq ⊢
        rcases List.mem_cons.mp hq with rfl | hq
        · exact List.mem_cons_of_mem _ (hanc a ha)
        · exact List.mem_cons_of_mem _ (hinv.arch_anc q hq a ha)
      · simp only [ArchSt.push, List.map_append, List.map_singleton]
        rw [List.nodup_append]
        refine ⟨hinv.nodup, List.nodup_singleton _, ?_⟩
        intro a ha hb
        rw [List.mem_singleton] at hb
        subst hb
        exact hpm ha
      · intro e he
        simp only [ArchSt.push] at he
        rcases List.mem_append.mp he with he | he
        · exact hinv.flags e he
        · rw [List.mem_singleton] at he
          subst he
          exact hflag
      · simp only [ArchSt.push]
        refine ancClosed_append hinv.anc ?_
        intro a ha
        have hpa : a ∈ st.archived := hanc a ha
        rcases hinv.arch_mem a hpa with ⟨e, he, hep⟩
        rcases List.mem_iff_getElem.mp he with ⟨j, hj, hje⟩
        have hgd : st.entries.getD j dummyEntry = e := by
          rw [List.getD_eq_getElem st.entries dummyEntry hj, hje]
        refine ⟨j, hj, by rw [hgd]; exact hep, ?_⟩
        rw [hgd]
        have hflagE := hinv.flags e he
        have hpfs : p ∈ fs.map FSEntry.path := by
          rcases entryFlag_some_stat hflag with ⟨e0, hs⟩
          rcases statFS_some_cases hs with rfl | hm
          · rw [properAncestors_nil] at ha
            exact absurd ha (List.not_mem_nil a)
          · exact hm
        have hdir := wf_ancestor_dir hwf hpfs ha
        rw [hep] at hflagE
        rw [hflagE] at hdir
        exact Option.some_inj.mp hdir
    · exact ⟨fun q h => List.mem_cons_of_mem _ h, [⟨p, f, m, mt, c⟩], rfl⟩
    · intro _
      exact List.mem_cons_self _ _
    · intro q hq
      rcases List.mem_cons.mp hq with rfl | hq
      · exact Or.inr rfl
      · exact Or.inl hq

theorem SInv_writeDirAllGo {fs : FS} (hwf : wfFS fs) :
    ∀ (n : Nat) (p : Path), p.length ≤ n → ∀ st : ArchSt, SInv fs st →
      SInv fs (writeDirAllGo fs n st p).1 ∧
        ArchExt st (writeDirAllGo fs n st p).1 ∧
        ((writeDirAllGo fs n st p).2 = none →
          ∀ a, (a = p ∨ a ∈ properAncestors p) → a ≠ [] →
            a ∈ (writeDirAllGo fs n st p).1.archived) ∧
        (∀ q ∈ (writeDirAllGo fs n st p).1.archived,
          q ∈ st.archived ∨ (q <+: p ∧ q ≠ [])) := by
  intro n
  induction n with
  | zero =>
    intro p hp st hinv
    have : p = [] := List.eq_nil_of_length_eq_zero (Nat.le_zero.mp hp)
    subst this
    rw [writeDirAllGo]
    refine ⟨hinv, ArchExt.rfl', ?_, fun q hq => Or.inl hq⟩
    rintro _ a (rfl | ha) hne
    · exact absurd rfl hne
    · rw [properAncestors_nil] at ha
      exact absurd ha (List.not_mem_nil a)
  | succ n ih =>
    intro p hp st hinv
    cases p with
    | nil =>
      rw [writeDirAllGo]
      refine ⟨hinv, ArchExt.rfl', ?_, fun q hq => Or.inl hq⟩
      rintro _ a (rfl | ha) hne
      · exact absurd rfl hne
      · rw [properAncestors_nil] at ha
        exact absurd ha (List.not_mem_nil a)
    | cons s t =>
      rw [writeDirAllGo]
      by_cases hmem : (s :: t) ∈ st.archived
      · rw [if_pos hmem]
        refine ⟨hinv, ArchExt.rfl', ?_, fun q hq => Or.inl hq⟩
        rintro _ a (rfl | ha) _
        · exact hmem
        · exact hinv.arch_anc _ hmem a ha
      · rw [if_neg hmem]
        have hlen : (s :: t).dropLast.length ≤ n := by
          rw [List.length_dropLast]
          simp only [List.length_cons] at hp ⊢
          omega
        obtain ⟨hinv1, hext1, hpost1, hsub1⟩ :=
          ih (s :: t).dropLast hlen st hinv
        have hdlpre : (s :: t).dropLast <+: (s :: t) := List.dropLast_prefix _
        cases hr2 : (writeDirAllGo fs n st (s :: t).dropLast).2 with
        | some e =>
          simp only [hr2]
          refine ⟨hinv1, hext1, by simp, ?_⟩
          intro q hq
          rcases hsub1 q hq with hq' | ⟨hq', hne⟩
          · exact Or.inl hq'
          · exact Or.inr ⟨hq'.trans hdlpre, hne⟩
        | none =>
          simp only [hr2]
          have hanc : ∀ a ∈ properAncestors (s :: t),
              a ∈ (writeDirAllGo fs n st (s :: t).dropLast).1.archived := by
            intro a ha
            have hane := (properAncestors_iff.mp ha).1
            rcases properAncestors_dropLast ha with rfl | ha'
            · exact hpost1 hr2 _ (Or.inl rfl) hane
            · exact hpost1 hr2 a (Or.inr ha') hane
          obtain ⟨hinv2, hext2, hok2, hsub2⟩ :=
            SInv_writeEntry hwf hinv1 hanc
          refine ⟨hinv2, hext1.trans' hext2, ?_, ?_⟩
          · intro hnone a hcase hane
            rcases hcase with rfl | ha
            · exact hok2 hnone
            · exact hext2.1 a (hanc a ha)
          · intro q hq
            rcases hsub2 q hq with hq' | rfl
            · rcases hsub1 q hq' with hq'' | ⟨hq'', hne⟩
              · exact Or.inl hq''
              · exact Or.inr ⟨hq''.trans hdlpre, hne⟩
            · exact Or.inr ⟨List.prefix_rfl, by simp⟩

theorem SInv_writeDirAll {fs : FS} (hwf : wfFS fs) :
    ∀ (n : Nat) (p : Path), p.length ≤ n → ∀ st : ArchSt, SInv fs st →
      SInv fs (writeDirAll fs st p).1 ∧ ArchExt st (writeDirAll fs st p).1 ∧
        ((writeDirAll fs st p).2 = none →
          ∀ a, (a = p ∨ a ∈ properAncestors p) → a ≠ [] →
            a ∈ (writeDirAll fs st p).1.archived) ∧
        (∀ q ∈ (writeDirAll fs st p).1.archived,
          q ∈ st.archived ∨ (q <+: p ∧ q ≠ [])) := by
  intro _ p _ st hinv
  exact SInv_writeDirAllGo hwf p.length p (le_refl _) st hinv

theorem mem_walkList {fs : FS} {root q : Path} :
    q ∈ walkList fs root ↔ q ∈ fs.map FSEntry.path ∧ root <+: q := by
  unfold walkList
  rw [mem_sortPaths, List.mem_filter]
  constructor
  · rintro ⟨h1, h2⟩
    exact ⟨h1, List.isPrefixOf_iff_prefix.mp h2⟩
  · rintro ⟨h1, h2⟩
    exact ⟨h1, List.isPrefixOf_iff_prefix.mpr h2⟩

theorem SInv_writeEntries {fs : FS} (hwf : wfFS fs) :
    ∀ (ps : List Path) (st : ArchSt), SInv fs st →
      ps.Pairwise (fun x y => pathLe x y = true) →
      (∀ q ∈ ps, ∀ a ∈ properAncestors q, a ∈ st.archived ∨ a ∈ ps) →
      SInv fs (writeEntries fs st ps).1 ∧ ArchExt st (writeEntries fs st ps).1 := by
  intro ps
  induction ps with
  | nil =>
    intro st hinv _ _
    rw [writeEntries]
    exact ⟨hinv, ArchExt.rfl'⟩
  | cons p t iht =>
    intro st hinv hsort hanc
    rw [writeEntries]
    have hpre : ∀ a ∈ properAncestors p, a ∈ st.archived := by
      intro a ha
      rcases hanc p (List.mem_cons_self p t) a ha with h | h
      · exact h
      · rcases List.mem_cons.mp h with rfl | hat
        · rcases properAncestors_iff.mp ha with ⟨_, hlt, _⟩
          omega
        · have h1 : pathLe p a = true := (List.pairwise_cons.mp hsort).1 a hat
          rcases properAncestors_iff.mp ha with ⟨_, hlt, hpq⟩
          have h2 : pathLe a p = true := pathLe_of_pre hpq
          have heq : a = p := pathLe_antisymm h2 h1
          subst heq
          omega
    obtain ⟨hinv2, hext2, hok2, _⟩ := SInv_writeEntry hwf hinv hpre
    cases hr2 : (writeEntry fs st p).2 with
    | some e =>
      simp only [hr2]
      exact ⟨hinv2, hext2⟩
    | none =>
      simp only [hr2]
      have hanc' : ∀ q ∈ t, ∀ a ∈ properAncestors q,
          a ∈ (writeEntry fs st p).1.archived ∨ a ∈ t := by
        intro q hq a ha
        rcases hanc q (List.mem_cons_of_mem _ hq) a ha with h | h
        · exact Or.inl (hext2.1 a h)
        · rcases List.mem_cons.mp h with rfl | hat
          · exact Or.inl (hok2 hr2)
          · exact Or.inr hat
      obtain ⟨hinv3, hext3⟩ := iht _ hinv2 (List.pairwise_cons.mp hsort).2 hanc'
      exact ⟨hinv3, hext2.trans' hext3⟩

theorem SInv_writeFilesStep {fs : FS} (hwf : wfFS fs) (name : Path) (st : ArchSt)
    (hinv : SInv fs st) :
    SInv fs (writeFilesStep fs st name).1 ∧
      ArchExt st (writeFilesStep fs st name).1 := by
  unfold writeFilesStep
  obtain ⟨hinv1, hext1, hpost1, _⟩ :=
    SInv_writeDirAll hwf (pathDir name).length (pathDir name) (le_refl _) st hinv
  cases hr2 : (writeDirAll fs st (pathDir name)).2 with
  | some e =>
    simp only [hr2]
    exact ⟨hinv1, hext1⟩
  | none =>
    simp only [hr2]
    have hancname : ∀ a ∈ properAncestors name,
        a ∈ (writeDirAll fs st (pathDir name)).1.archived := by
      intro a ha
      have hane := (properAncestors_iff.mp ha).1
      rcases properAncestors_dropLast ha with rfl | ha'
      · exact hpost1 hr2 _ (Or.inl rfl) hane
      · exact hpost1 hr2 a (Or.inr ha') hane
    cases hstat : statFS fs name with
    | none =>
      simp only
      exact ⟨hinv1, hext1⟩
    | some e =>
      simp only
      by_cases hdir : e.ftype = FType.dir
      · rw [if_pos hdir]
        have hanc' : ∀ q ∈ walkList fs name, ∀ a ∈ properAncestors q,
            a ∈ (writeDirAll fs st (pathDir name)).1.archived ∨
              a ∈ walkList fs name := by
          intro q hq a ha
          rcases mem_walkList.mp hq with ⟨hqfs, hnq⟩
          rcases properAncestors_iff.mp ha with ⟨hane, halt, hapre⟩
          rcases le_or_lt a.length name.length with hle | hgt
          · have hanp : a <+: name := List.prefix_of_prefix_length_le hapre hnq hle
            by_cases haeq : a = name
            · subst haeq
              right
              have hne : a ≠ [] := hane
              rcases statFS_mem hstat hne with ⟨hm, hpth⟩
              exact mem_walkList.mpr
                ⟨List.mem_map.mpr ⟨e, hm, hpth⟩, List.prefix_rfl⟩
            · left
              have halt' : a.length < name.length := by
                rcases Nat.lt_or_ge a.length name.length with h | h
                · exact h
                · have : a.length = name.length := le_antisymm hle h
                  exact absurd (hanp.eq_of_length this) haeq
              exact hancname a (properAncestors_iff.mpr ⟨hane, halt', hanp⟩)
          · right
            have hna : name <+: a :=
              List.prefix_of_prefix_length_le hnq hapre (le_of_lt hgt)
            exact mem_walkList.mpr ⟨wf_ancestor_mem hwf hqfs ha, hna⟩
        exact (SInv_writeEntries hwf (walkList fs name) _ hinv1
          (sortPaths_pairwise _) hanc').imp id hext1.trans'
      · rw [if_neg hdir]
        obtain ⟨hinv2, hext2, _, _⟩ := SInv_writeEntry hwf hinv1 hancname
        exact ⟨hinv2, hext1.trans' hext2⟩

theorem SInv_writeFilesList {fs : FS} (hwf : wfFS fs) :
    ∀ (names : List Path) (st : ArchSt), SInv fs st →
      SInv fs (writeFilesList fs st names).1 ∧
        ArchExt st (writeFilesList fs st names).1 := by
  intro names
  induction names with
  | nil =>
    intro st hinv
    rw [writeFilesList]
    exact ⟨hinv, ArchExt.rfl'⟩
  | cons nm t iht =>
    intro st hinv
    rw [writeFilesList]
    obtain ⟨hinv1, hext1⟩ := SInv_writeFilesStep hwf nm st hinv
    cases hr2 : (writeFilesStep fs st nm).2 with
    | some e =>
      simp only [hr2]
      exact ⟨hinv1, hext1⟩
    | none =>
      simp only [hr2]
      obtain ⟨hinv2, hext2⟩ := iht _ hinv1
      exact ⟨hinv2, hext1.trans' hext2⟩

theorem SInv_writeFiles {fs : FS} (hwf : wfFS fs) (pat : String) (st : ArchSt)
    (hinv : SInv fs st) :
    SInv fs (writeFiles fs st pat).1 ∧ ArchExt st (writeFiles fs st pat).1 := by
  unfold writeFiles
  cases hg : glob fs pat with
  | nil => exact ⟨hinv, ArchExt.rfl'⟩
  | cons nm t =>
    simp only
    exact SInv_writeFilesList hwf (nm :: t) st hinv

theorem SInv_writeFilesSeq {fs : FS} (hwf : wfFS fs) :
    ∀ (pats : List String) (st : ArchSt), SInv fs st →
      SInv fs (writeFilesSeq fs st pats).1 ∧
        ArchExt st (writeFilesSeq fs st pats).1 := by
  intro pats
  induction pats with
  | nil =>
    intro st hinv
    rw [writeFilesSeq]
    exact ⟨hinv, ArchExt.rfl'⟩
  | cons pat t iht =>
    intro st hinv
    rw [writeFilesSeq]
    obtain ⟨hinv1, hext1⟩ := SInv_writeFiles hwf pat st hinv
    cases hr2 : (writeFiles fs st pat).2 with
    | some e =>
      simp only [hr2]
      exact ⟨hinv1, hext1⟩
    | none =>
      simp only [hr2]
      obtain ⟨hinv2, hext2⟩ := iht _ hinv1
      exact ⟨hinv2, hext1.trans' hext2⟩

theorem properAncestors_dropLast_sub {a q : Path} (hq : q ≠ [])
    (h : a ∈ properAncestors q.dropLast) : a ∈ properAncestors q := by
  rcases properAncestors_iff.mp h with ⟨hne, hlt, hpre⟩
  have hdl : q.dropLast <+: q := List.dropLast_prefix q
  refine properAncestors_iff.mpr ⟨hne, ?_, hpre.trans hdl⟩
  have h1 := List.length_dropLast q
  have h2 : 0 < q.length := List.length_pos.mpr hq
  omega

theorem dropLast_mem_properAncestors {q : Path} (hq : q ≠ [])
    (hd : q.dropLast ≠ []) : q.dropLast ∈ properAncestors q := by
  refine properAncestors_iff.mpr ⟨hd, ?_, List.dropLast_prefix q⟩
  have h1 := List.length_dropLast q
  have h2 : 0 < q.length := List.length_pos.mpr hq
  omega

theorem writeEntry_flag_ok {fs : FS} {st : ArchSt} {p : Path} {f : TypeFlag}
    (hp : p ∉ st.archived) (hf : entryFlag fs p = some f) :
    (writeEntry fs st p).2 = none := by
  unfold entryFlag at hf
  cases hs : statFS fs p with
  | none => rw [hs] at hf; simp at hf
  | some e =>
    obtain ⟨pth, ft, md, mt⟩ := e
    rw [hs] at hf
    unfold writeEntry
    rw [if_neg hp, hs]
    cases ft <;> simp_all

theorem writeDirAllGo_ok_of_dirs {fs : FS} :
    ∀ (n : Nat) (q : Path), q.length ≤ n → ∀ st : ArchSt,
      (∀ a, (a = q ∨ a ∈ properAncestors q) → a ≠ [] →
        entryFlag fs a = some TypeFlag.dir) →
      (writeDirAllGo fs n st q).2 = none := by
  intro n
  induction n with
  | zero =>
    intro q hq st _
    have : q = [] := List.eq_nil_of_length_eq_zero (Nat.le_zero.mp hq)
    subst this
    rw [writeDirAllGo]
  | succ n ih =>
    intro q hq st hdirs
    cases q with
    | nil => rw [writeDirAllGo]
    | cons s t =>
      rw [writeDirAllGo]
      by_cases hmem : (s :: t) ∈ st.archived
      · rw [if_pos hmem]
      · rw [if_neg hmem]
        have hlen : (s :: t).dropLast.length ≤ n := by
          rw [List.length_dropLast]
          simp only [List.length_cons] at hq ⊢
          omega
        have hdirs' : ∀ a, (a = (s :: t).dropLast ∨
            a ∈ properAncestors (s :: t).dropLast) → a ≠ [] →
            entryFlag fs a = some TypeFlag.dir := by
          rintro a (rfl | ha) hne
          · exact hdirs _ (Or.inr (dropLast_mem_properAncestors (by simp) hne)) hne
          · exact hdirs a
              (Or.inr (properAncestors_dropLast_sub (by simp) ha)) hne
        have hrec := ih (s :: t).dropLast hlen st hdirs'
        cases hr2 : (writeDirAllGo fs n st (s :: t).dropLast).2 with
        | some e => rw [hr2] at hrec; simp at hrec
        | none =>
          simp only [hr2]
          by_cases hmem2 : (s :: t) ∈
              (writeDirAllGo fs n st (s :: t).dropLast).1.archived
          · unfold writeEntry
            rw [if_pos hmem2]
          · exact writeEntry_flag_ok hmem2 (hdirs _ (Or.inl rfl) (by simp))

theorem writeDirAll_ok_of_dirs {fs : FS} :
    ∀ (n : Nat) (q : Path), q.length ≤ n → ∀ st : ArchSt,
      (∀ a, (a = q ∨ a ∈ properAncestors q) → a ≠ [] →
        entryFlag fs a = some TypeFlag.dir) →
      (writeDirAll fs st q).2 = none := by
  intro _ q _ st hdirs
  exact writeDirAllGo_ok_of_dirs q.length q (le_refl _) st hdirs

/-- C6: over any sequence of `WriteFiles` calls on one archiver — including
overlapping path specifications such as `a/b/c`, `a/b`, `a`, `*`, `.` — each
canonical path is written to the archive at most once (the emitted member
paths are duplicate-free), and a name already recorded in the archived set is
skipped (a no-op) on every subsequent encounter.  `wfFS` captures the `fs.FS`
contract: unique valid names whose ancestors are present as directories. -/
theorem c6_idempotent_archiving (fs : FS) (hwf : wfFS fs) (pats : List String) :
    ((writeFilesSeq fs ArchSt.init pats).1.entries.map TarEntry.rawPath).Nodup ∧
      ∀ st : ArchSt, ∀ p ∈ st.archived, writeEntry fs st p = (st, none) := by
  constructor
  · exact ((SInv_writeFilesSeq hwf pats ArchSt.init (SInv_init fs)).1).nodup
  · intro st p hp
    unfold writeEntry
    rw [if_pos hp]

/-- A small well-formed example file system shared by the witnesses. -/
def fsExample : FS :=
  [⟨["a"], FType.dir, 493, 10⟩, ⟨["a", "b"], FType.dir, 493, 10⟩,
   ⟨["a", "b", "c"], FType.reg [104, 105], 420, 20⟩,
   ⟨["d"], FType.reg [120], 420, 5⟩]

theorem c6_idempotent_archiving_witness :
    ((writeFilesSeq fsExample ArchSt.init
        ["a/b/c", "a/b", "a", "*", "."]).1.entries.map TarEntry.rawPath).Nodup ∧
      ∀ st : ArchSt, ∀ p ∈ st.archived, writeEntry fsExample st p = (st, none) :=
  c6_idempotent_archiving fsExample (by decide) ["a/b/c", "a/b", "a", "*", "."]

/-- C7: every member the archiver writes for a path other than the root has
members for all of its proper ancestor directories strictly earlier in the
archive (synthesized idempotently when not explicitly requested), so the
finished archive never contains a file member without its enclosing
directory members. -/
theorem c7_ancestor_entries (fs : FS) (hwf : wfFS fs) (pats : List String) :
    ancClosed (writeFilesSeq fs ArchSt.init pats).1.entries :=
  ((SInv_writeFilesSeq hwf pats ArchSt.init (SInv_init fs)).1).anc

theorem c7_ancestor_entries_witness :
    ancClosed (writeFilesSeq fsExample ArchSt.init ["a/b/c", "d", "*"]).1.entries :=
  c7_ancestor_entries fsExample (by decide) ["a/b/c", "d", "*"]

/-- C9: `WriteFiles` on a path whose file-system entry is a named pipe,
character device or block device fails with the unsupported-type error
carrying the offending path and its tar type-flag byte; the members already
written are left in place (the new state only appends), and the failing path
is neither recorded in the archived set nor present among the members. -/
theorem c9_unsupported_rejection (fs : FS) (hwf : wfFS fs) (st : ArchSt)
    (hinv : SInv fs st) (p : Path) (e : FSEntry) (fb : Nat)
    (hstat : statFS fs p = some e) (hun : unsupportedFlag e.ftype = some fb)
    (hnew : p ∉ st.archived) (pat : String) (hnm : hasMeta pat = false)
    (hps : patSegs pat = p) :
    (writeFiles fs st pat).2 = some (ArchErr.unsupportedType p fb) ∧
      p ∉ (writeFiles fs st pat).1.archived ∧
      (∃ t, (writeFiles fs st pat).1.entries = st.entries ++ t) ∧
      ∀ e' ∈ (writeFiles fs st pat).1.entries, e'.rawPath ≠ p := by
  have hpne : p ≠ [] := by
    intro hnil
    subst hnil
    have hroot : statFS fs [] = some rootEntry := rfl
    rw [hroot] at hstat
    have he : rootEntry = e := Option.some_inj.mp hstat
    rw [← he] at hun
    simp [rootEntry, unsupportedFlag] at hun
  have hpfs : p ∈ fs.map FSEntry.path := by
    rcases statFS_mem hstat hpne with ⟨hm, hpth⟩
    exact List.mem_map.mpr ⟨e, hm, hpth⟩
  -- The parent synthesis succeeds and touches only prefixes of the parent.
  have hdirs : ∀ a, (a = pathDir p ∨ a ∈ properAncestors (pathDir p)) →
      a ≠ [] → entryFlag fs a = some TypeFlag.dir := by
    rintro a (rfl | ha) hne
    · exact wf_ancestor_dir hwf hpfs (dropLast_mem_properAncestors hpne hne)
    · exact wf_ancestor_dir hwf hpfs
        (properAncestors_dropLast_sub hpne (by exact ha))
  have hdok : (writeDirAll fs st (pathDir p)).2 = none :=
    writeDirAll_ok_of_dirs (pathDir p).length (pathDir p) (le_refl _) st hdirs
  obtain ⟨hinv1, hext1, _, hsub1⟩ :=
    SInv_writeDirAll hwf (pathDir p).length (pathDir p) (le_refl _) st hinv
  have hpnotarch : p ∉ (writeDirAll fs st (pathDir p)).1.archived := by
    intro hmem
    rcases hsub1 p hmem with h | ⟨hpre, _⟩
    · exact hnew h
    · have h1 := hpre.length_le
      have h2 := List.length_dropLast p
      have h3 : 0 < p.length := List.length_pos.mpr hpne
      unfold pathDir at h1
      omega
  have hwe := writeEntry_unsupported hpnotarch hstat hun
  have hnotdir : ¬e.ftype = FType.dir := by
    intro h
    rw [h] at hun
    simp [unsupportedFlag] at hun
  have hstep : writeFilesStep fs st p =
      ((writeDirAll fs st (pathDir p)).1,
        some (ArchErr.unsupportedType p fb)) := by
    unfold writeFilesStep
    simp only [hdok, hstat]
    rw [if_neg hnotdir, hwe]
  have hglob : glob fs pat = [p] := by
    unfold glob
    simp [hnm, hps, hstat]
  have hwfs : writeFiles fs st pat =
      ((writeDirAll fs st (pathDir p)).1,
        some (ArchErr.unsupportedType p fb)) := by
    unfold writeFiles
    rw [hglob]
    simp only [writeFilesList, hstep]
  rw [hwfs]
  refine ⟨rfl, hpnotarch, hext1.2, ?_⟩
  intro e' he' hep
  exact hpnotarch (hep ▸ hinv1.mem_arch e' he')

/-- A file system with a named pipe, used by the C9 witness. -/
def fsFifoExample : FS :=
  [⟨["a"], FType.dir, 493, 10⟩, ⟨["a", "p"], FType.fifo, 420, 10⟩,
   ⟨["d"], FType.reg [120], 420, 5⟩]

theorem c9_unsupported_rejection_witness :
    (writeFiles fsFifoExample ArchSt.init "a/p").2 =
        some (ArchErr.unsupportedType ["a", "p"] 54) ∧
      ["a", "p"] ∉ (writeFiles fsFifoExample ArchSt.init "a/p").1.archived ∧
      (∃ t, (writeFiles fsFifoExample ArchSt.init "a/p").1.entries =
        ArchSt.init.entries ++ t) ∧
      ∀ e' ∈ (writeFiles fsFifoExample ArchSt.init "a/p").1.entries,
        e'.rawPath ≠ ["a", "p"] :=
  c9_unsupported_rejection fsFifoExample (by decide) ArchSt.init
    (SInv_init fsFifoExample) ["a", "p"] ⟨["a", "p"], FType.fifo, 420, 10⟩ 54
    (by decide) (by decide) (by decide) "a/p" (by decide) (by decide)

/-! ## Build-spec parsing (C10) -/

theorem findSub_colon {l : List Char}
    (h : (findSub l [':', '/', '/']).isSome = true) :
    (findSub l [':']).isSome = true := by
  induction l with
  | nil => simp [findSub] at h
  | cons x t ih =>
    rw [findSub] at h
    by_cases hp : [':', '/', '/'].isPrefixOf (x :: t) = true
    · have hx : x = ':' := by
        rw [List.isPrefixOf] at hp
        simp only [Bool.and_eq_true, beq_iff_eq] at hp
        exact hp.1.symm
      rw [findSub]
      rw [if_pos (by rw [List.isPrefixOf, hx]; simp [List.isPrefixOf])]
      rfl
    · rw [if_neg hp] at h
      rw [findSub]
      by_cases hp1 : [':'].isPrefixOf (x :: t) = true
      · rw [if_pos hp1]; rfl
      · rw [if_neg hp1]
        have hsub : (findSub t [':', '/', '/']).isSome = true := by
          cases hft : findSub t [':', '/', '/'] with
          | none => rw [hft] at h; simp at h
          | some i => rfl
        have hres := ih hsub
        cases hg : findSub t [':'] with
        | none => rw [hg] at hres; simp at hres
        | some j => rfl

/-- C10: a build spec containing a colon — with or without `"://"` — is
treated as a URI by `getBuildDef`: it yields the synthesized two-line
definition (`bootstrap:` the part before the first separator, `from:` the
part after) and the file system is never consulted, so a definition file
whose name contains `:` can never be loaded; only colon-free specs are read
from disk. -/
theorem c10_uri_detection {ε : Type} (readFile : String → Except ε String)
    (raw : String) :
    (containsStr raw ":" = true →
      (getBuildDefM readFile raw).2 = false ∧
      (getBuildDefM readFile raw).1 =
        Except.ok ("bootstrap: " ++
          (if containsStr raw "://" then splitN2 raw "://"
           else splitN2 raw ":").headD "" ++ "\n" ++ "from: " ++
          (if containsStr raw "://" then splitN2 raw "://"
           else splitN2 raw ":").getD 1 "" ++ "\n")) ∧
    (containsStr raw ":" = false →
      (getBuildDefM readFile raw).2 = true ∧
      (getBuildDefM readFile raw).1 =
        (match readFile raw with
         | Except.ok b => Except.ok b
         | Except.error e => Except.error (DefErr.readFailed raw e))) := by
  constructor
  · intro hc
    by_cases hs : containsStr raw "://" = true
    · have : definitionFromURIM raw =
          some ("bootstrap: " ++ (splitN2 raw "://").headD "" ++ "\n" ++
            "from: " ++ (splitN2 raw "://").getD 1 "" ++ "\n") := by
        unfold definitionFromURIM
        rw [if_pos hs]
        rfl
      unfold getBuildDefM
      rw [this, if_pos hs]
      exact ⟨rfl, rfl⟩
    · have hs' : containsStr raw "://" = false := by
        cases h : containsStr raw "://" with
        | false => rfl
        | true => exact absurd h hs
      have : definitionFromURIM raw =
          some ("bootstrap: " ++ (splitN2 raw ":").headD "" ++ "\n" ++
            "from: " ++ (splitN2 raw ":").getD 1 "" ++ "\n") := by
        unfold definitionFromURIM
        rw [hs', hc]
        rfl
      unfold getBuildDefM
      rw [this, if_neg (by rw [hs']; simp)]
      exact ⟨rfl, rfl⟩
  · intro hc
    have hs : containsStr raw "://" = false := by
      revert hc
      unfold containsStr
      intro hc
      cases hsub : (findSub raw.data [':', '/', '/']).isSome with
      | false => rfl
      | true =>
        have := findSub_colon hsub
        have hd : String.data ":" = [':'] := rfl
        rw [hd] at hc
        rw [hc] at this
        cases this
    have : definitionFromURIM raw = none := by
      unfold definitionFromURIM
      rw [hs, hc]
      rfl
    unfold getBuildDefM
    rw [this]
    cases hr : readFile raw with
    | ok b => exact ⟨rfl, rfl⟩
    | error e => exact ⟨rfl, rfl⟩

theorem c10_uri_detection_witness :
    ((getBuildDefM (fun _ => Except.error ()) "docker://alpine").2 = false ∧
      (getBuildDefM (fun _ => Except.error ()) "docker://alpine").1 =
        Except.ok ("bootstrap: " ++
          (if containsStr "docker://alpine" "://"
           then splitN2 "docker://alpine" "://"
           else splitN2 "docker://alpine" ":").headD "" ++ "\n" ++ "from: " ++
          (if containsStr "docker://alpine" "://"
           then splitN2 "docker://alpine" "://"
           else splitN2 "docker://alpine" ":").getD 1 "" ++ "\n")) ∧
    ((getBuildDefM (fun _ => (Except.ok "boot" : Except Unit String))
          "alpine.def").2 = true ∧
      (getBuildDefM (fun _ => (Except.ok "boot" : Except Unit String))
          "alpine.def").1 =
        (match (Except.ok "boot" : Except Unit String) with
         | Except.ok b => Except.ok b
         | Except.error e =>
           Except.error (DefErr.readFailed "alpine.def" e))) :=
  ⟨(c10_uri_detection (fun _ => Except.error ()) "docker://alpine").1 (by decide),
   (c10_uri_detection (fun _ => (Except.ok "boot" : Except Unit String))
     "alpine.def").2 (by decide)⟩

/-! ## Error aggregation (C5) -/

/-- C5: after a completed multi-architecture invocation, `reportErrs`
returns success when no architecture failed; returns the sole failure's
error value unchanged (so `errors.Is` comparisons by the caller still
match it) when exactly one failed; and when several failed, emits a
per-architecture summary pair for every failure and returns the generic
`failed to build images` aggregate, a value distinct from every
individual error. -/
theorem c5_error_aggregation {ε : Type} (a : String) (e : ε)
    (errs : List (String × ε)) (h2 : 2 ≤ errs.length) :
    reportErrsM ([] : List (String × ε)) = ([], none) ∧
      reportErrsM [(a, e)] = ([], some (RetErr.single e)) ∧
      (reportErrsM errs).2 = some RetErr.failedToBuildImages ∧
      (∀ x ∈ errs, x ∈ (reportErrsM errs).1) ∧
      ∀ e' : ε, (RetErr.failedToBuildImages : RetErr ε) ≠ RetErr.single e' := by
  rcases errs with _ | ⟨x, _ | ⟨y, t⟩⟩
  · simp at h2
  · simp at h2
  · exact ⟨rfl, rfl, rfl, fun z hz => hz, fun e' h => by cases h⟩

theorem c5_error_aggregation_witness :
    reportErrsM ([] : List (String × Nat)) = ([], none) ∧
      reportErrsM [("x", 7)] = ([], some (RetErr.single 7)) ∧
      (reportErrsM [("amd64", 1), ("arm64", 2)]).2 =
        some RetErr.failedToBuildImages ∧
      (∀ x ∈ [("amd64", 1), ("arm64", 2)],
        x ∈ (reportErrsM [("amd64", 1), ("arm64", 2)]).1) ∧
      ∀ e' : Nat, (RetErr.failedToBuildImages : RetErr Nat) ≠ RetErr.single e' :=
  c5_error_aggregation "x" 7 [("amd64", 1), ("arm64", 2)] (by decide)

/-! ## Build-outcome classification (C4) -/

/-- C4 counterexample: a status response with `isComplete = false` but
`imageSize = 1` is classified as a successful attempt, so the claim that an
attempt is successful *only if the service reports completion* is false —
`buildArtifact` never consults the completion flag. -/
theorem c4_counterexample :
    (buildArtifactM (ε := Unit) "amd64" "" ""
        ⟨Except.ok ⟨"b1", false, 1, "", ""⟩, none,
          Except.ok ⟨"b1", false, 1, "", ""⟩, none⟩).1 =
      Except.ok ⟨"b1", false, 1, "", ""⟩ ∧
      (⟨"b1", false, 1, "", ""⟩ : BuildInfoM).isComplete = false := by
  constructor <;> rfl

/-- C4 amended: once submit, streaming and the status poll succeed, the
attempt is classified successful exactly when the reported image size is
strictly positive: zero or negative size is a failed build regardless of
HTTP-level success, and a positive size (in particular together with
`isComplete = true`) is classified as succeeded; the completion flag itself
is not consulted. -/
theorem c4_size_classification {ε : Type} (arch digest lib : String)
    (oc : ArchOutcome ε) (bi₀ bi : BuildInfoM)
    (hs : oc.submit = Except.ok bi₀) (ho : oc.output = none)
    (hst : oc.status = Except.ok bi) :
    ((buildArtifactM arch digest lib oc).1 = Except.ok bi ↔ 0 < bi.imageSize) ∧
      (bi.imageSize ≤ 0 →
        (buildArtifactM arch digest lib oc).1 = Except.error BuildErr.zeroSize) ∧
      (bi.isComplete = true → 0 < bi.imageSize →
        (buildArtifactM arch digest lib oc).1 = Except.ok bi) := by
  simp only [buildArtifactM, hs, ho, hst]
  by_cases hsz : bi.imageSize ≤ 0
  · rw [if_pos hsz]
    refine ⟨⟨fun h => ?_, fun h => absurd hsz (not_le.mpr h)⟩,
      fun _ => rfl, fun _ hpos => absurd hsz (not_le.mpr hpos)⟩
    exact nomatch h
  · rw [if_neg hsz]
    have hpos : 0 < bi.imageSize := not_le.mp hsz
    by_cases hd : digest ≠ ""
    · rw [if_pos hd]
      exact ⟨⟨fun _ => hpos, fun _ => rfl⟩, fun h => absurd h hsz,
        fun _ _ => rfl⟩
    · rw [if_neg hd]
      exact ⟨⟨fun _ => hpos, fun _ => rfl⟩, fun h => absurd h hsz,
        fun _ _ => rfl⟩

theorem c4_size_classification_witness :
    ((buildArtifactM (ε := Unit) "amd64" "sha256.x" ""
        ⟨Except.ok ⟨"b1", true, 5, "", ""⟩, none,
          Except.ok ⟨"b1", true, 5, "", ""⟩, none⟩).1 =
      Except.ok ⟨"b1", true, 5, "", ""⟩ ↔
        0 < (⟨"b1", true, 5, "", ""⟩ : BuildInfoM).imageSize) ∧
      ((⟨"b1", true, 5, "", ""⟩ : BuildInfoM).imageSize ≤ 0 →
        (buildArtifactM (ε := Unit) "amd64" "sha256.x" ""
          ⟨Except.ok ⟨"b1", true, 5, "", ""⟩, none,
            Except.ok ⟨"b1", true, 5, "", ""⟩, none⟩).1 =
          Except.error BuildErr.zeroSize) ∧
      ((⟨"b1", true, 5, "", ""⟩ : BuildInfoM).isComplete = true →
        0 < (⟨"b1", true, 5, "", ""⟩ : BuildInfoM).imageSize →
        (buildArtifactM (ε := Unit) "amd64" "sha256.x" ""
          ⟨Except.ok ⟨"b1", true, 5, "", ""⟩, none,
            Except.ok ⟨"b1", true, 5, "", ""⟩, none⟩).1 =
          Except.ok ⟨"b1", true, 5, "", ""⟩) :=
  c4_size_classification "amd64" "sha256.x" "" _ _ _ rfl rfl rfl

/-! ## Cancellation during streaming (C2) -/

/-- C2 counterexample: with the parent context cancelled mid-stream,
`GetOutput` returns `nil` (no error), not the cancellation error the claim
asserts. -/
theorem c2_counterexample :
    (getOutputM true true (some CliErr.readFailed)).2 = none ∧
      (getOutputM true true (some CliErr.readFailed)).2 ≠
        some CliErr.ctxCanceled := by
  constructor
  · rfl
  · intro h
    cases h

/-- C2 amended: when the context is cancelled while the websocket stream is
open, the stream reader is stopped and a best-effort cancel request is sent
under an independent bounded (5-second) timeout, the websocket is closed,
the streaming goroutine is joined before returning — and `GetOutput`
returns `nil` (not the cancellation error) rather than hanging.  Without
cancellation, the reader's own outcome is returned and no cancel request is
made. -/
theorem c2_cancel_flow (reader : Option CliErr) :
    getOutputM true true reader =
      ([OutAction.cancelRequest true 5, OutAction.closeStream,
        OutAction.joinReader], none) ∧
      ∀ r : Option CliErr, getOutputM true false r = ([], r) :=
  ⟨rfl, fun _ => rfl⟩

/-! ## Build-context lifecycle (C3) -/

theorem buildArtifactM_trace {ε : Type} (arch digest lib : String)
    (oc : ArchOutcome ε) :
    (buildArtifactM arch digest lib oc).2 =
      BuildAction.submit arch digest lib ::
        (if succeededB oc = true ∧ digest ≠ "" then
          [BuildAction.deleteContext digest] else []) := by
  unfold buildArtifactM succeededB
  cases hs : oc.submit with
  | error e => simp [hs]
  | ok bi₀ =>
    cases ho : oc.output with
    | some e => simp [hs, ho]
    | none =>
      cases hst : oc.status with
      | error e => simp [hs, ho, hst]
      | ok bi =>
        by_cases hsz : bi.imageSize ≤ 0
        · have hnot : ¬(0 < bi.imageSize) := not_lt.mpr hsz
          simp [hs, ho, hst, hsz, hnot]
        · have hpos : 0 < bi.imageSize := not_le.mp hsz
          by_cases hd : digest = ""
          · simp [hs, ho, hst, hsz, hpos, hd]
          · simp [hs, ho, hst, hsz, hpos, hd]

theorem buildArchM_trace {ε : Type} (dst lib arch digest : String)
    (oc : ArchOutcome ε) :
    ∃ l, (buildArchM dst lib arch digest oc).2 =
      BuildAction.submit arch digest l ::
        (if succeededB oc = true ∧ digest ≠ "" then
          [BuildAction.deleteContext digest] else []) := by
  refine ⟨if lib ≠ "" ∧ dst = "" then lib else "", ?_⟩
  simp only [buildArchM]
  cases hr : (buildArtifactM arch digest
      (if lib ≠ "" ∧ dst = "" then lib else "") oc).1 with
  | error e =>
    simp only [hr]
    exact buildArtifactM_trace arch digest _ oc
  | ok bi =>
    simp only [hr]
    by_cases hf : (if lib = "" ∧ dst ≠ "" then dst else "") = ""
    · rw [if_pos hf]
      exact buildArtifactM_trace arch digest _ oc
    · rw [if_neg hf]
      cases oc.retrieve <;> exact buildArtifactM_trace arch digest _ oc

theorem buildLoopM_trace_cons {ε : Type} (dst lib digest : String) (multi : Bool)
    (oc : String → ArchOutcome ε) (a : String) (t : List String) :
    (buildLoopM dst lib digest multi oc (a :: t)).2 =
      (buildArchM (appendFileSuffix dst a multi) lib a digest (oc a)).2 ++
        (buildLoopM dst lib digest multi oc t).2 := by
  rw [buildLoopM]
  cases hr : (buildArchM (appendFileSuffix dst a multi) lib a digest (oc a)).1 <;>
    simp [hr]

theorem buildLoopM_spec {ε : Type} (dst lib digest : String) (multi : Bool)
    (oc : String → ArchOutcome ε) :
    ∀ archs : List String,
      (∀ a d l, BuildAction.submit a d l ∈
        (buildLoopM dst lib digest multi oc archs).2 → d = digest) ∧
      ((buildLoopM dst lib digest multi oc archs).2.countP isDeleteAction =
        if digest ≠ "" then (archs.countP fun a => succeededB (oc a)) else 0) := by
  intro archs
  induction archs with
  | nil =>
    rw [buildLoopM]
    constructor
    · intro a d l h
      exact absurd h (List.not_mem_nil _)
    · simp only [List.countP_nil]
      split <;> rfl
  | cons a t ih =>
    obtain ⟨l₀, hl⟩ :=
      buildArchM_trace (appendFileSuffix dst a multi) lib a digest (oc a)
    have htr := buildLoopM_trace_cons dst lib digest multi oc a t
    constructor
    · intro a' d' l' hmem
      rw [htr, List.mem_append] at hmem
      rcases hmem with hmem | hmem
      · rw [hl] at hmem
        rcases List.mem_cons.mp hmem with heq | hmem
        · cases heq
          rfl
        · by_cases hc : succeededB (oc a) = true ∧ digest ≠ ""
          · rw [if_pos hc, List.mem_singleton] at hmem
            cases hmem
          · rw [if_neg hc] at hmem
            exact absurd hmem (List.not_mem_nil _)
      · exact ih.1 a' d' l' hmem
    · rw [htr, List.countP_append, hl, ih.2]
      by_cases hd : digest ≠ ""
      · rw [if_pos hd, if_pos hd, List.countP_cons]
        by_cases hc : succeededB (oc a) = true
        · rw [if_pos ⟨hc, hd⟩]
          simp [isDeleteAction, List.countP_cons, hc]
          omega
        · rw [if_neg (fun hca => hc hca.1)]
          simp [isDeleteAction, List.countP_cons, hc]
      · rw [if_neg hd, if_neg hd]
        rw [if_neg (fun hca => hd hca.2)]
        simp [isDeleteAction, List.countP_cons]

/-- The two-architecture success oracle used by the C3 refutation. -/
def c3oc : String → ArchOutcome Unit := fun _ =>
  ⟨Except.ok ⟨"b", true, 1, "", "lib"⟩, none,
    Except.ok ⟨"b", true, 1, "", "lib"⟩, none⟩

/-- C3 counterexample: with a build context uploaded (digest `sha256.x`)
and two architectures that both build successfully, the `build` loop issues
`DeleteBuildContext` twice — once per architecture, the first delete before
the second architecture's submit — refuting "deleted exactly once, after
all architectures have been attempted, never per-architecture". -/
theorem c3_counterexample :
    (buildM "" "" "sha256.x" c3oc ["amd64", "arm64"]).2 =
      [BuildAction.submit "amd64" "sha256.x" "",
       BuildAction.deleteContext "sha256.x",
       BuildAction.submit "arm64" "sha256.x" "",
       BuildAction.deleteContext "sha256.x"] ∧
      (buildM "" "" "sha256.x" c3oc ["amd64", "arm64"]).2.countP
        isDeleteAction ≠ 1 := by
  constructor
  · rfl
  · decide

/-- C3 amended: the uploaded context is referenced by the same digest in
every per-architecture submit, but it is deleted once per architecture
whose attempt reaches the success classification (inside `buildArtifact`,
before later architectures are attempted) — not once after all
architectures, and not at all for failed attempts. -/
theorem c3_context_lifecycle {ε : Type} (dst lib digest : String)
    (hd : digest ≠ "") (oc : String → ArchOutcome ε) (archs : List String) :
    (∀ a d l, BuildAction.submit a d l ∈
      (buildM dst lib digest oc archs).2 → d = digest) ∧
      ((buildM dst lib digest oc archs).2.countP isDeleteAction =
        archs.countP fun a => succeededB (oc a)) := by
  obtain ⟨h1, h2⟩ :=
    buildLoopM_spec dst lib digest (decide (archs.length > 1)) oc archs
  refine ⟨h1, ?_⟩
  rw [buildM] at *
  rw [h2, if_pos hd]

theorem c3_context_lifecycle_witness :
    (∀ a d l, BuildAction.submit a d l ∈
      (buildM "" "" "sha256.x" c3oc ["amd64", "arm64"]).2 → d = "sha256.x") ∧
      ((buildM "" "" "sha256.x" c3oc ["amd64", "arm64"]).2.countP
          isDeleteAction =
        ["amd64", "arm64"].countP fun a => succeededB (c3oc a)) :=
  c3_context_lifecycle "" "" "sha256.x" (by decide) c3oc ["amd64", "arm64"]

/-! ## The context uploader (C8, C1) -/

theorem uploadBuildContextM_eq (svc : Svc) (fsys : FS) (paths : List String)
    (harch : (writeFilesSeq fsys ArchSt.init paths).2 = none) :
    uploadBuildContextM svc fsys paths =
      (match svc.loc (archiveGz fsys paths).length (archiveDigest fsys paths) with
       | LocResponse.transport => (Except.error (UpErr.locFetch none), [])
       | LocResponse.httpRes code location =>
         if code / 100 ≠ 2 then (Except.error (UpErr.locFetch (some code)), [])
         else if location == "" then
           (Except.ok (archiveDigest fsys paths), [])
         else
           match svc.put location (archiveGz fsys paths)
               (archiveGz fsys paths).length with
           | none => (Except.error (UpErr.putFailed none),
               [⟨location, archiveGz fsys paths, (archiveGz fsys paths).length⟩])
           | some putCode =>
             if putCode / 100 ≠ 2 then
               (Except.error (UpErr.putFailed (some putCode)),
                 [⟨location, archiveGz fsys paths,
                   (archiveGz fsys paths).length⟩])
             else
               (Except.ok (archiveDigest fsys paths),
                 [⟨location, archiveGz fsys paths,
                   (archiveGz fsys paths).length⟩])) := by
  simp only [uploadBuildContextM, archiveGz, archiveDigest, harch,
    List.drop_zero]

/-- C8: when the upload-location request gets a success (2xx) status whose
`Location` header is empty or absent, `uploadBuildContext` returns the
computed digest immediately and performs zero PUT requests; when a location
is returned, the spool file is rewound to its start and its full contents —
the whole compressed archive — are PUT with content-length equal to the
recorded size. -/
theorem c8_idempotent_upload (svc : Svc) (fsys : FS) (paths : List String)
    (harch : (writeFilesSeq fsys ArchSt.init paths).2 = none) :
    (∀ code, code / 100 = 2 →
      svc.loc (archiveGz fsys paths).length (archiveDigest fsys paths) =
        LocResponse.httpRes code "" →
      uploadBuildContextM svc fsys paths =
        (Except.ok (archiveDigest fsys paths), [])) ∧
    (∀ code loc, code / 100 = 2 → loc ≠ "" →
      svc.loc (archiveGz fsys paths).length (archiveDigest fsys paths) =
        LocResponse.httpRes code loc →
      (uploadBuildContextM svc fsys paths).2 =
        [⟨loc, archiveGz fsys paths, (archiveGz fsys paths).length⟩]) := by
  rw [uploadBuildContextM_eq svc fsys paths harch]
  constructor
  · intro code hc hl
    rw [hl]
    simp [hc]
  · intro code loc hc hne hl
    rw [hl]
    have h3 : (loc == "") = false := beq_eq_false_iff_ne.mpr hne
    simp only [hc, ne_eq, not_true_eq_false, if_false, h3, Bool.false_eq_true,
      ite_false]
    cases svc.put loc (archiveGz fsys paths) (archiveGz fsys paths).length with
    | none => rfl
    | some putCode =>
      by_cases hpc : putCode / 100 = 2
      · simp [hpc]
      · simp [hpc]

/-- A service that reports the context as already present. -/
def svcPresent : Svc :=
  ⟨fun _ _ => LocResponse.httpRes 200 "", fun _ _ _ => some 200⟩

/-- A service that returns an upload location and accepts the PUT. -/
def svcUpload : Svc :=
  ⟨fun _ _ => LocResponse.httpRes 200 "up", fun _ _ _ => some 200⟩

theorem c8_idempotent_upload_witness :
    uploadBuildContextM svcPresent fsExample ["a"] =
        (Except.ok (archiveDigest fsExample ["a"]), []) ∧
      (uploadBuildContextM svcUpload fsExample ["a"]).2 =
        [⟨"up", archiveGz fsExample ["a"], (archiveGz fsExample ["a"]).length⟩] :=
  ⟨(c8_idempotent_upload svcPresent fsExample ["a"] (by decide)).1 200
      (by decide) rfl,
   (c8_idempotent_upload svcUpload fsExample ["a"] (by decide)).2 200 "up"
      (by decide) (by decide) rfl⟩

theorem uploadBuildContextTop_ok {svc : Svc} {fsys : FS} {paths : List String}
    {d : String} (h : (uploadBuildContextTop svc fsys paths).1 = Except.ok d) :
    d = archiveDigest fsys paths := by
  unfold uploadBuildContextTop at h
  by_cases hp : paths.isEmpty
  · rw [if_pos hp] at h
    simp at h
  · rw [if_neg hp] at h
    cases harch : (writeFilesSeq fsys ArchSt.init paths).2 with
    | some e =>
      unfold uploadBuildContextM at h
      simp only [harch] at h
      simp at h
    | none =>
      rw [uploadBuildContextM_eq svc fsys paths harch] at h
      cases hl : svc.loc (archiveGz fsys paths).length
          (archiveDigest fsys paths) with
      | transport =>
        simp only [hl] at h
        simp at h
      | httpRes code location =>
        simp only [hl] at h
        by_cases hc : code / 100 ≠ 2
        · rw [if_pos hc] at h
          simp at h
        · rw [if_neg hc] at h
          by_cases hloc : (location == "") = true
          · rw [if_pos hloc] at h
            exact (Except.ok.inj h).symm
          · rw [if_neg hloc] at h
            cases hput : svc.put location (archiveGz fsys paths)
                (archiveGz fsys paths).length with
            | none =>
              simp only [hput] at h
              simp at h
            | some pc =>
              simp only [hput] at h
              by_cases hpc : pc / 100 ≠ 2
              · rw [if_pos hpc] at h
                simp at h
              · rw [if_neg hpc] at h
                exact (Except.ok.inj h).symm

/-- C1 amended: the digest `UploadBuildContext` returns is `"sha256."`
followed by the hex SHA-256 of the *compressed* (gzip) archive stream —
the same bytes spooled for upload — not of the uncompressed tar stream;
and it is a function of the file system content and path list alone, so
two invocations over byte-identical content under the same relative paths
yield the same digest. -/
theorem c1_digest_of_compressed (svc svc' : Svc) (fsys : FS)
    (paths : List String) (d d' : String)
    (h : (uploadBuildContextTop svc fsys paths).1 = Except.ok d)
    (h' : (uploadBuildContextTop svc' fsys paths).1 = Except.ok d') :
    d = archiveDigest fsys paths ∧ d' = d := by
  have h1 := uploadBuildContextTop_ok h
  have h2 := uploadBuildContextTop_ok h'
  exact ⟨h1, h2.trans h1.symm⟩

theorem c1_digest_of_compressed_witness :
    archiveDigest fsExample ["a"] = archiveDigest fsExample ["a"] ∧
      archiveDigest fsExample ["a"] = archiveDigest fsExample ["a"] :=
  c1_digest_of_compressed svcPresent svcUpload fsExample ["a"]
    (archiveDigest fsExample ["a"]) (archiveDigest fsExample ["a"])
    (by
      unfold uploadBuildContextTop
      rw [if_neg (by decide)]
      rw [uploadBuildContextM_eq svcPresent fsExample ["a"] (by decide)]
      rfl)
    (by
      unfold uploadBuildContextTop
      rw [if_neg (by decide)]
      rw [uploadBuildContextM_eq svcUpload fsExample ["a"] (by decide)]
      rfl)

/-! ## Concrete evaluation of the C1 digests

A single kernel reduction of the whole hash pipeline nests too deeply, so
each stage — archive serialization, CRC-32 segments, gzip framing, SHA-256
padding, chunking and per-block compression — is evaluated against its
literal value separately, and the pipeline is reassembled by rewriting. -/


set_option maxRecDepth 10000 in
set_option maxHeartbeats 2000000 in
theorem c1tar_lit :
    serializeTar (writeFilesSeq [⟨["a"], FType.reg [], 420, 0⟩] ArchSt.init ["a"]).1.entries =
      [97, 0, 0, 0, 0, 0, 0, 0, 0, 0, 0, 0, 0, 0, 0, 0, 0, 0, 0, 0, 0, 0, 0, 0, 0, 0, 0, 0, 0, 0, 0, 0, 0, 0, 0, 0, 0, 0, 0, 0, 0, 0, 0, 0, 0, 0, 0, 0, 0, 0, 0, 0, 0, 0, 0, 0, 0, 0, 0, 0, 0, 0, 0, 0, 0, 0, 0, 0, 0, 0, 0, 0, 0, 0, 0, 0, 0, 0, 0, 0, 0, 0, 0, 0, 0, 0, 0, 0, 0, 0, 0, 0, 0, 0, 0, 0, 0, 0, 0, 0, 48, 48, 48, 48, 54, 52, 52, 0, 48, 48, 48, 48, 48, 48, 48, 0, 48, 48, 48, 48, 48, 48, 48, 0, 48, 48, 48, 48, 48, 48, 48, 48, 48, 48, 48, 0, 48, 48, 48, 48, 48, 48, 48, 48, 48, 48, 48, 0, 48, 48, 55, 51, 51, 54, 0, 32, 48, 0, 0, 0, 0, 0, 0, 0, 0, 0, 0, 0, 0, 0, 0, 0, 0, 0, 0, 0, 0, 0, 0, 0, 0, 0, 0, 0, 0, 0, 0, 0, 0, 0, 0, 0, 0, 0, 0, 0, 0, 0, 0, 0, 0, 0, 0, 0, 0, 0, 0, 0, 0, 0, 0, 0, 0, 0, 0, 0, 0, 0, 0, 0, 0, 0, 0, 0, 0, 0, 0, 0, 0, 0, 0, 0, 0, 0, 0, 0, 0, 0, 0, 0, 0, 0, 0, 0, 0, 0, 0, 0, 0, 0, 0, 0, 0, 0, 0, 0, 0, 117, 115, 116, 97, 114, 0, 48, 48, 0, 0, 0, 0, 0, 0, 0, 0, 0, 0, 0, 0, 0, 0, 0, 0, 0, 0, 0, 0, 0, 0, 0, 0, 0, 0, 0, 0, 0, 0, 0, 0, 0, 0, 0, 0, 0, 0, 0, 0, 0, 0, 0, 0, 0, 0, 0, 0, 0, 0, 0, 0, 0, 0, 0, 0, 0, 0, 0, 0, 0, 0, 0, 0, 48, 48, 48, 48, 48, 48, 48, 0, 48, 48, 48, 48, 48, 48, 48, 0, 0, 0, 0, 0, 0, 0, 0, 0, 0, 0, 0, 0, 0, 0, 0, 0, 0, 0, 0, 0, 0, 0, 0, 0, 0, 0, 0, 0, 0, 0, 0, 0, 0, 0, 0, 0, 0, 0, 0, 0, 0, 0, 0, 0, 0, 0, 0, 0, 0, 0, 0, 0, 0, 0, 0, 0, 0, 0, 0, 0, 0, 0, 0, 0, 0, 0, 0, 0, 0, 0, 0, 0, 0, 0, 0, 0, 0, 0, 0, 0, 0, 0, 0, 0, 0, 0, 0, 0, 0, 0, 0, 0, 0, 0, 0, 0, 0, 0, 0, 0, 0, 0, 0, 0, 0, 0, 0, 0, 0, 0, 0, 0, 0, 0, 0, 0, 0, 0, 0, 0, 0, 0, 0, 0, 0, 0, 0, 0, 0, 0, 0, 0, 0, 0, 0, 0, 0, 0, 0, 0, 0, 0, 0, 0, 0, 0, 0, 0, 0, 0, 0, 0, 0, 0, 0, 0, 0, 0, 0, 0, 0, 0, 0, 0, 0, 0, 0, 0, 0, 0, 0, 0, 0, 0, 0, 0, 0, 0, 0, 0, 0, 0, 0, 0, 0, 0, 0, 0, 0, 0, 0, 0, 0, 0, 0, 0, 0, 0, 0, 0, 0, 0, 0, 0, 0, 0, 0, 0, 0, 0, 0, 0, 0, 0, 0, 0, 0, 0, 0, 0, 0, 0, 0, 0, 0, 0, 0, 0, 0, 0, 0, 0, 0, 0, 0, 0, 0, 0, 0, 0, 0, 0, 0, 0, 0, 0, 0, 0, 0, 0, 0, 0, 0, 0, 0, 0, 0, 0, 0, 0, 0, 0, 0, 0, 0, 0, 0, 0, 0, 0, 0, 0, 0, 0, 0, 0, 0, 0, 0, 0, 0, 0, 0, 0, 0, 0, 0, 0, 0, 0, 0, 0, 0, 0, 0, 0, 0, 0, 0, 0, 0, 0, 0, 0, 0, 0, 0, 0, 0, 0, 0, 0, 0, 0, 0, 0, 0, 0, 0, 0, 0, 0, 0, 0, 0, 0, 0, 0, 0, 0, 0, 0, 0, 0, 0, 0, 0, 0, 0, 0, 0, 0, 0, 0, 0, 0, 0, 0, 0, 0, 0, 0, 0, 0, 0, 0, 0, 0, 0, 0, 0, 0, 0, 0, 0, 0, 0, 0, 0, 0, 0, 0, 0, 0, 0, 0, 0, 0, 0, 0, 0, 0, 0, 0, 0, 0, 0, 0, 0, 0, 0, 0, 0, 0, 0, 0, 0, 0, 0, 0, 0, 0, 0, 0, 0, 0, 0, 0, 0, 0, 0, 0, 0, 0, 0, 0, 0, 0, 0, 0, 0, 0, 0, 0, 0, 0, 0, 0, 0, 0, 0, 0, 0, 0, 0, 0, 0, 0, 0, 0, 0, 0, 0, 0, 0, 0, 0, 0, 0, 0, 0, 0, 0, 0, 0, 0, 0, 0, 0, 0, 0, 0, 0, 0, 0, 0, 0, 0, 0, 0, 0, 0, 0, 0, 0, 0, 0, 0, 0, 0, 0, 0, 0, 0, 0, 0, 0, 0, 0, 0, 0, 0, 0, 0, 0, 0, 0, 0, 0, 0, 0, 0, 0, 0, 0, 0, 0, 0, 0, 0, 0, 0, 0, 0, 0, 0, 0, 0, 0, 0, 0, 0, 0, 0, 0, 0, 0, 0, 0, 0, 0, 0, 0, 0, 0, 0, 0, 0, 0, 0, 0, 0, 0, 0, 0, 0, 0, 0, 0, 0, 0, 0, 0, 0, 0, 0, 0, 0, 0, 0, 0, 0, 0, 0, 0, 0, 0, 0, 0, 0, 0, 0, 0, 0, 0, 0, 0, 0, 0, 0, 0, 0, 0, 0, 0, 0, 0, 0, 0, 0, 0, 0, 0, 0, 0, 0, 0, 0, 0, 0, 0, 0, 0, 0, 0, 0, 0, 0, 0, 0, 0, 0, 0, 0, 0, 0, 0, 0, 0, 0, 0, 0, 0, 0, 0, 0, 0, 0, 0, 0, 0, 0, 0, 0, 0, 0, 0, 0, 0, 0, 0, 0, 0, 0, 0, 0, 0, 0, 0, 0, 0, 0, 0, 0, 0, 0, 0, 0, 0, 0, 0, 0, 0, 0, 0, 0, 0, 0, 0, 0, 0, 0, 0, 0, 0, 0, 0, 0, 0, 0, 0, 0, 0, 0, 0, 0, 0, 0, 0, 0, 0, 0, 0, 0, 0, 0, 0, 0, 0, 0, 0, 0, 0, 0, 0, 0, 0, 0, 0, 0, 0, 0, 0, 0, 0, 0, 0, 0, 0, 0, 0, 0, 0, 0, 0, 0, 0, 0, 0, 0, 0, 0, 0, 0, 0, 0, 0, 0, 0, 0, 0, 0, 0, 0, 0, 0, 0, 0, 0, 0, 0, 0, 0, 0, 0, 0, 0, 0, 0, 0, 0, 0, 0, 0, 0, 0, 0, 0, 0, 0, 0, 0, 0, 0, 0, 0, 0, 0, 0, 0, 0, 0, 0, 0, 0, 0, 0, 0, 0, 0, 0, 0, 0, 0, 0, 0, 0, 0, 0, 0, 0, 0, 0, 0, 0, 0, 0, 0, 0, 0, 0, 0, 0, 0, 0, 0, 0, 0, 0, 0, 0, 0, 0, 0, 0, 0, 0, 0, 0, 0, 0, 0, 0, 0, 0, 0, 0, 0, 0, 0, 0, 0, 0, 0, 0, 0, 0, 0, 0, 0, 0, 0, 0, 0, 0, 0, 0, 0, 0, 0, 0, 0, 0, 0, 0, 0, 0, 0, 0, 0, 0, 0, 0, 0, 0, 0, 0, 0, 0, 0, 0, 0, 0, 0, 0, 0, 0, 0, 0, 0, 0, 0, 0, 0, 0, 0, 0, 0, 0, 0, 0, 0, 0, 0, 0, 0, 0, 0, 0, 0, 0, 0, 0, 0, 0, 0, 0, 0, 0, 0, 0, 0, 0, 0, 0, 0, 0, 0, 0, 0, 0, 0, 0, 0, 0, 0, 0, 0, 0, 0, 0, 0, 0, 0, 0, 0, 0, 0, 0, 0, 0, 0, 0, 0, 0, 0, 0, 0, 0, 0, 0, 0, 0, 0, 0, 0, 0, 0, 0, 0, 0, 0, 0, 0, 0, 0, 0, 0, 0, 0, 0, 0, 0, 0, 0, 0, 0, 0, 0, 0, 0, 0, 0, 0, 0, 0, 0, 0, 0, 0, 0, 0, 0, 0, 0, 0, 0, 0, 0, 0, 0, 0, 0, 0, 0, 0, 0, 0, 0, 0, 0, 0, 0, 0, 0, 0, 0, 0, 0, 0, 0, 0, 0, 0, 0, 0, 0, 0, 0, 0, 0, 0, 0, 0, 0, 0, 0, 0, 0, 0, 0, 0, 0, 0, 0, 0, 0, 0, 0, 0, 0, 0, 0, 0, 0, 0, 0, 0, 0, 0, 0, 0, 0, 0, 0, 0, 0, 0, 0, 0, 0, 0, 0, 0, 0, 0, 0, 0, 0, 0, 0, 0, 0, 0, 0, 0, 0, 0, 0, 0, 0, 0, 0, 0, 0, 0, 0, 0, 0, 0, 0, 0, 0, 0, 0, 0, 0, 0, 0, 0, 0, 0, 0, 0, 0, 0, 0, 0, 0, 0, 0, 0, 0, 0, 0, 0, 0, 0, 0, 0, 0, 0, 0, 0, 0, 0, 0, 0, 0, 0, 0, 0, 0, 0, 0, 0, 0, 0, 0, 0, 0, 0, 0, 0, 0, 0, 0, 0, 0, 0, 0, 0, 0, 0, 0, 0, 0, 0, 0, 0, 0, 0, 0, 0, 0, 0, 0, 0, 0, 0, 0] := by
  rfl


set_option maxRecDepth 10000 in
set_option maxHeartbeats 2000000 in
theorem c1tar_len :
    List.length [97, 0, 0, 0, 0, 0, 0, 0, 0, 0, 0, 0, 0, 0, 0, 0, 0, 0, 0, 0, 0, 0, 0, 0, 0, 0, 0, 0, 0, 0, 0, 0, 0, 0, 0, 0, 0, 0, 0, 0, 0, 0, 0, 0, 0, 0, 0, 0, 0, 0, 0, 0, 0, 0, 0, 0, 0, 0, 0, 0, 0, 0, 0, 0, 0, 0, 0, 0, 0, 0, 0, 0, 0, 0, 0, 0, 0, 0, 0, 0, 0, 0, 0, 0, 0, 0, 0, 0, 0, 0, 0, 0, 0, 0, 0, 0, 0, 0, 0, 0, 48, 48, 48, 48, 54, 52, 52, 0, 48, 48, 48, 48, 48, 48, 48, 0, 48, 48, 48, 48, 48, 48, 48, 0, 48, 48, 48, 48, 48, 48, 48, 48, 48, 48, 48, 0, 48, 48, 48, 48, 48, 48, 48, 48, 48, 48, 48, 0, 48, 48, 55, 51, 51, 54, 0, 32, 48, 0, 0, 0, 0, 0, 0, 0, 0, 0, 0, 0, 0, 0, 0, 0, 0, 0, 0, 0, 0, 0, 0, 0, 0, 0, 0, 0, 0, 0, 0, 0, 0, 0, 0, 0, 0, 0, 0, 0, 0, 0, 0, 0, 0, 0, 0, 0, 0, 0, 0, 0, 0, 0, 0, 0, 0, 0, 0, 0, 0, 0, 0, 0, 0, 0, 0, 0, 0, 0, 0, 0, 0, 0, 0, 0, 0, 0, 0, 0, 0, 0, 0, 0, 0, 0, 0, 0, 0, 0, 0, 0, 0, 0, 0, 0, 0, 0, 0, 0, 0, 117, 115, 116, 97, 114, 0, 48, 48, 0, 0, 0, 0, 0, 0, 0, 0, 0, 0, 0, 0, 0, 0, 0, 0, 0, 0, 0, 0, 0, 0, 0, 0, 0, 0, 0, 0, 0, 0, 0, 0, 0, 0, 0, 0, 0, 0, 0, 0, 0, 0, 0, 0, 0, 0, 0, 0, 0, 0, 0, 0, 0, 0, 0, 0, 0, 0, 0, 0, 0, 0, 0, 0, 48, 48, 48, 48, 48, 48, 48, 0, 48, 48, 48, 48, 48, 48, 48, 0, 0, 0, 0, 0, 0, 0, 0, 0, 0, 0, 0, 0, 0, 0, 0, 0, 0, 0, 0, 0, 0, 0, 0, 0, 0, 0, 0, 0, 0, 0, 0, 0, 0, 0, 0, 0, 0, 0, 0, 0, 0, 0, 0, 0, 0, 0, 0, 0, 0, 0, 0, 0, 0, 0, 0, 0, 0, 0, 0, 0, 0, 0, 0, 0, 0, 0, 0, 0, 0, 0, 0, 0, 0, 0, 0, 0, 0, 0, 0, 0, 0, 0, 0, 0, 0, 0, 0, 0, 0, 0, 0, 0, 0, 0, 0, 0, 0, 0, 0, 0, 0, 0, 0, 0, 0, 0, 0, 0, 0, 0, 0, 0, 0, 0, 0, 0, 0, 0, 0, 0, 0, 0, 0, 0, 0, 0, 0, 0, 0, 0, 0, 0, 0, 0, 0, 0, 0, 0, 0, 0, 0, 0, 0, 0, 0, 0, 0, 0, 0, 0, 0, 0, 0, 0, 0, 0, 0, 0, 0, 0, 0, 0, 0, 0, 0, 0, 0, 0, 0, 0, 0, 0, 0, 0, 0, 0, 0, 0, 0, 0, 0, 0, 0, 0, 0, 0, 0, 0, 0, 0, 0, 0, 0, 0, 0, 0, 0, 0, 0, 0, 0, 0, 0, 0, 0, 0, 0, 0, 0, 0, 0, 0, 0, 0, 0, 0, 0, 0, 0, 0, 0, 0, 0, 0, 0, 0, 0, 0, 0, 0, 0, 0, 0, 0, 0, 0, 0, 0, 0, 0, 0, 0, 0, 0, 0, 0, 0, 0, 0, 0, 0, 0, 0, 0, 0, 0, 0, 0, 0, 0, 0, 0, 0, 0, 0, 0, 0, 0, 0, 0, 0, 0, 0, 0, 0, 0, 0, 0, 0, 0, 0, 0, 0, 0, 0, 0, 0, 0, 0, 0, 0, 0, 0, 0, 0, 0, 0, 0, 0, 0, 0, 0, 0, 0, 0, 0, 0, 0, 0, 0, 0, 0, 0, 0, 0, 0, 0, 0, 0, 0, 0, 0, 0, 0, 0, 0, 0, 0, 0, 0, 0, 0, 0, 0, 0, 0, 0, 0, 0, 0, 0, 0, 0, 0, 0, 0, 0, 0, 0, 0, 0, 0, 0, 0, 0, 0, 0, 0, 0, 0, 0, 0, 0, 0, 0, 0, 0, 0, 0, 0, 0, 0, 0, 0, 0, 0, 0, 0, 0, 0, 0, 0, 0, 0, 0, 0, 0, 0, 0, 0, 0, 0, 0, 0, 0, 0, 0, 0, 0, 0, 0, 0, 0, 0, 0, 0, 0, 0, 0, 0, 0, 0, 0, 0, 0, 0, 0, 0, 0, 0, 0, 0, 0, 0, 0, 0, 0, 0, 0, 0, 0, 0, 0, 0, 0, 0, 0, 0, 0, 0, 0, 0, 0, 0, 0, 0, 0, 0, 0, 0, 0, 0, 0, 0, 0, 0, 0, 0, 0, 0, 0, 0, 0, 0, 0, 0, 0, 0, 0, 0, 0, 0, 0, 0, 0, 0, 0, 0, 0, 0, 0, 0, 0, 0, 0, 0, 0, 0, 0, 0, 0, 0, 0, 0, 0, 0, 0, 0, 0, 0, 0, 0, 0, 0, 0, 0, 0, 0, 0, 0, 0, 0, 0, 0, 0, 0, 0, 0, 0, 0, 0, 0, 0, 0, 0, 0, 0, 0, 0, 0, 0, 0, 0, 0, 0, 0, 0, 0, 0, 0, 0, 0, 0, 0, 0, 0, 0, 0, 0, 0, 0, 0, 0, 0, 0, 0, 0, 0, 0, 0, 0, 0, 0, 0, 0, 0, 0, 0, 0, 0, 0, 0, 0, 0, 0, 0, 0, 0, 0, 0, 0, 0, 0, 0, 0, 0, 0, 0, 0, 0, 0, 0, 0, 0, 0, 0, 0, 0, 0, 0, 0, 0, 0, 0, 0, 0, 0, 0, 0, 0, 0, 0, 0, 0, 0, 0, 0, 0, 0, 0, 0, 0, 0, 0, 0, 0, 0, 0, 0, 0, 0, 0, 0, 0, 0, 0, 0, 0, 0, 0, 0, 0, 0, 0, 0, 0, 0, 0, 0, 0, 0, 0, 0, 0, 0, 0, 0, 0, 0, 0, 0, 0, 0, 0, 0, 0, 0, 0, 0, 0, 0, 0, 0, 0, 0, 0, 0, 0, 0, 0, 0, 0, 0, 0, 0, 0, 0, 0, 0, 0, 0, 0, 0, 0, 0, 0, 0, 0, 0, 0, 0, 0, 0, 0, 0, 0, 0, 0, 0, 0, 0, 0, 0, 0, 0, 0, 0, 0, 0, 0, 0, 0, 0, 0, 0, 0, 0, 0, 0, 0, 0, 0, 0, 0, 0, 0, 0, 0, 0, 0, 0, 0, 0, 0, 0, 0, 0, 0, 0, 0, 0, 0, 0, 0, 0, 0, 0, 0, 0, 0, 0, 0, 0, 0, 0, 0, 0, 0, 0, 0, 0, 0, 0, 0, 0, 0, 0, 0, 0, 0, 0, 0, 0, 0, 0, 0, 0, 0, 0, 0, 0, 0, 0, 0, 0, 0, 0, 0, 0, 0, 0, 0, 0, 0, 0, 0, 0, 0, 0, 0, 0, 0, 0, 0, 0, 0, 0, 0, 0, 0, 0, 0, 0, 0, 0, 0, 0, 0, 0, 0, 0, 0, 0, 0, 0, 0, 0, 0, 0, 0, 0, 0, 0, 0, 0, 0, 0, 0, 0, 0, 0, 0, 0, 0, 0, 0, 0, 0, 0, 0, 0, 0, 0, 0, 0, 0, 0, 0, 0, 0, 0, 0, 0, 0, 0, 0, 0, 0, 0, 0, 0, 0, 0, 0, 0, 0, 0, 0, 0, 0, 0, 0, 0, 0, 0, 0, 0, 0, 0, 0, 0, 0, 0, 0, 0, 0, 0, 0, 0, 0, 0, 0, 0, 0, 0, 0, 0, 0, 0, 0, 0, 0, 0, 0, 0, 0, 0, 0, 0, 0, 0, 0, 0, 0, 0, 0, 0, 0, 0, 0, 0, 0, 0, 0, 0, 0, 0, 0, 0, 0, 0, 0, 0, 0, 0, 0, 0, 0, 0, 0, 0, 0, 0, 0, 0, 0, 0, 0, 0, 0, 0, 0, 0, 0, 0, 0, 0, 0, 0, 0, 0, 0, 0, 0, 0, 0, 0, 0, 0, 0, 0, 0, 0, 0, 0, 0, 0, 0, 0, 0, 0, 0, 0, 0, 0, 0, 0, 0, 0, 0, 0, 0, 0, 0, 0, 0, 0, 0, 0, 0, 0, 0, 0, 0, 0, 0, 0, 0, 0, 0, 0, 0, 0, 0, 0, 0, 0, 0, 0, 0, 0, 0, 0, 0, 0, 0, 0, 0, 0, 0, 0, 0, 0, 0, 0, 0, 0, 0, 0, 0, 0, 0, 0, 0, 0, 0, 0, 0, 0, 0, 0, 0, 0, 0, 0, 0, 0, 0, 0, 0, 0, 0, 0, 0, 0, 0, 0, 0, 0, 0, 0, 0, 0, 0, 0, 0, 0, 0, 0, 0, 0, 0, 0, 0, 0, 0, 0, 0, 0, 0, 0, 0, 0, 0, 0, 0, 0, 0, 0, 0, 0, 0, 0, 0, 0, 0, 0, 0, 0, 0, 0, 0, 0, 0, 0, 0, 0, 0, 0, 0, 0, 0, 0, 0, 0, 0, 0, 0, 0, 0, 0, 0, 0, 0, 0, 0, 0, 0, 0, 0, 0, 0, 0, 0, 0, 0, 0, 0, 0, 0, 0, 0, 0, 0, 0, 0, 0, 0, 0, 0, 0, 0, 0, 0, 0, 0, 0, 0, 0, 0, 0] = 1536 := by
  rfl


set_option maxRecDepth 10000 in
set_option maxHeartbeats 2000000 in
theorem c1tar_split :
    ([97, 0, 0, 0, 0, 0, 0, 0, 0, 0, 0, 0, 0, 0, 0, 0, 0, 0, 0, 0, 0, 0, 0, 0, 0, 0, 0, 0, 0, 0, 0, 0, 0, 0, 0, 0, 0, 0, 0, 0, 0, 0, 0, 0, 0, 0, 0, 0, 0, 0, 0, 0, 0, 0, 0, 0, 0, 0, 0, 0, 0, 0, 0, 0, 0, 0, 0, 0, 0, 0, 0, 0, 0, 0, 0, 0, 0, 0, 0, 0, 0, 0, 0, 0, 0, 0, 0, 0, 0, 0, 0, 0, 0, 0, 0, 0, 0, 0, 0, 0, 48, 48, 48, 48, 54, 52, 52, 0, 48, 48, 48, 48, 48, 48, 48, 0, 48, 48, 48, 48, 48, 48, 48, 0, 48, 48, 48, 48, 48, 48, 48, 48, 48, 48, 48, 0, 48, 48, 48, 48, 48, 48, 48, 48, 48, 48, 48, 0, 48, 48, 55, 51, 51, 54, 0, 32, 48, 0, 0, 0, 0, 0, 0, 0, 0, 0, 0, 0, 0, 0, 0, 0, 0, 0, 0, 0, 0, 0, 0, 0, 0, 0, 0, 0, 0, 0, 0, 0, 0, 0, 0, 0, 0, 0, 0, 0, 0, 0, 0, 0, 0, 0, 0, 0, 0, 0, 0, 0, 0, 0, 0, 0, 0, 0, 0, 0, 0, 0, 0, 0, 0, 0, 0, 0, 0, 0, 0, 0, 0, 0, 0, 0, 0, 0, 0, 0, 0, 0, 0, 0, 0, 0, 0, 0, 0, 0, 0, 0, 0, 0, 0, 0, 0, 0, 0, 0, 0, 117, 115, 116, 97, 114, 0, 48, 48, 0, 0, 0, 0, 0, 0, 0, 0, 0, 0, 0, 0, 0, 0, 0, 0, 0, 0, 0, 0, 0, 0, 0, 0, 0, 0, 0, 0, 0, 0, 0, 0, 0, 0, 0, 0, 0, 0, 0, 0, 0, 0, 0, 0, 0, 0, 0, 0, 0, 0, 0, 0, 0, 0, 0, 0, 0, 0, 0, 0, 0, 0, 0, 0, 48, 48, 48, 48, 48, 48, 48, 0, 48, 48, 48, 48, 48, 48, 48, 0, 0, 0, 0, 0, 0, 0, 0, 0, 0, 0, 0, 0, 0, 0, 0, 0, 0, 0, 0, 0, 0, 0, 0, 0, 0, 0, 0, 0, 0, 0, 0, 0, 0, 0, 0, 0, 0, 0, 0, 0, 0, 0, 0, 0, 0, 0, 0, 0, 0, 0, 0, 0, 0, 0, 0, 0, 0, 0, 0, 0, 0, 0, 0, 0, 0, 0, 0, 0, 0, 0, 0, 0, 0, 0, 0, 0, 0, 0, 0, 0, 0, 0, 0, 0, 0, 0, 0, 0, 0, 0, 0, 0, 0, 0, 0, 0, 0, 0, 0, 0, 0, 0, 0, 0, 0, 0, 0, 0, 0, 0, 0, 0, 0, 0, 0, 0, 0, 0, 0, 0, 0, 0, 0, 0, 0, 0, 0, 0, 0, 0, 0, 0, 0, 0, 0, 0, 0, 0, 0, 0, 0, 0, 0, 0, 0, 0, 0, 0, 0, 0, 0, 0, 0, 0, 0, 0, 0, 0, 0, 0, 0, 0, 0, 0, 0, 0, 0, 0, 0, 0, 0, 0, 0, 0, 0, 0, 0, 0, 0, 0, 0, 0, 0, 0, 0, 0, 0, 0, 0, 0, 0, 0, 0, 0, 0, 0, 0, 0, 0, 0, 0, 0, 0, 0, 0, 0, 0, 0, 0, 0, 0, 0, 0, 0, 0, 0, 0, 0, 0, 0, 0, 0, 0, 0, 0, 0, 0, 0, 0, 0, 0, 0, 0, 0, 0, 0, 0, 0, 0, 0, 0, 0, 0, 0, 0, 0, 0, 0, 0, 0, 0, 0, 0, 0, 0, 0, 0, 0, 0, 0, 0, 0, 0, 0, 0, 0, 0, 0, 0, 0, 0, 0, 0, 0, 0, 0, 0, 0, 0, 0, 0, 0, 0, 0, 0, 0, 0, 0, 0, 0, 0, 0, 0, 0, 0, 0, 0, 0, 0, 0, 0, 0, 0, 0, 0, 0, 0, 0, 0, 0, 0, 0, 0, 0, 0, 0, 0, 0, 0, 0, 0, 0, 0, 0, 0, 0, 0, 0, 0, 0, 0, 0, 0, 0, 0, 0, 0, 0, 0, 0, 0, 0, 0, 0, 0, 0, 0, 0, 0, 0, 0, 0, 0, 0, 0, 0, 0, 0, 0, 0, 0, 0, 0, 0, 0, 0, 0, 0, 0, 0, 0, 0, 0, 0, 0, 0, 0, 0, 0, 0, 0, 0, 0, 0, 0, 0, 0, 0, 0, 0, 0, 0, 0, 0, 0, 0, 0, 0, 0, 0, 0, 0, 0, 0, 0, 0, 0, 0, 0, 0, 0, 0, 0, 0, 0, 0, 0, 0, 0, 0, 0, 0, 0, 0, 0, 0, 0, 0, 0, 0, 0, 0, 0, 0, 0, 0, 0, 0, 0, 0, 0, 0, 0, 0, 0, 0, 0, 0, 0, 0, 0, 0, 0, 0, 0, 0, 0, 0, 0, 0, 0, 0, 0, 0, 0, 0, 0, 0, 0, 0, 0, 0, 0, 0, 0, 0, 0, 0, 0, 0, 0, 0, 0, 0, 0, 0, 0, 0, 0, 0, 0, 0, 0, 0, 0, 0, 0, 0, 0, 0, 0, 0, 0, 0, 0, 0, 0, 0, 0, 0, 0, 0, 0, 0, 0, 0, 0, 0, 0, 0, 0, 0, 0, 0, 0, 0, 0, 0, 0, 0, 0, 0, 0, 0, 0, 0, 0, 0, 0, 0, 0, 0, 0, 0, 0, 0, 0, 0, 0, 0, 0, 0, 0, 0, 0, 0, 0, 0, 0, 0, 0, 0, 0, 0, 0, 0, 0, 0, 0, 0, 0, 0, 0, 0, 0, 0, 0, 0, 0, 0, 0, 0, 0, 0, 0, 0, 0, 0, 0, 0, 0, 0, 0, 0, 0, 0, 0, 0, 0, 0, 0, 0, 0, 0, 0, 0, 0, 0, 0, 0, 0, 0, 0, 0, 0, 0, 0, 0, 0, 0, 0, 0, 0, 0, 0, 0, 0, 0, 0, 0, 0, 0, 0, 0, 0, 0, 0, 0, 0, 0, 0, 0, 0, 0, 0, 0, 0, 0, 0, 0, 0, 0, 0, 0, 0, 0, 0, 0, 0, 0, 0, 0, 0, 0, 0, 0, 0, 0, 0, 0, 0, 0, 0, 0, 0, 0, 0, 0, 0, 0, 0, 0, 0, 0, 0, 0, 0, 0, 0, 0, 0, 0, 0, 0, 0, 0, 0, 0, 0, 0, 0, 0, 0, 0, 0, 0, 0, 0, 0, 0, 0, 0, 0, 0, 0, 0, 0, 0, 0, 0, 0, 0, 0, 0, 0, 0, 0, 0, 0, 0, 0, 0, 0, 0, 0, 0, 0, 0, 0, 0, 0, 0, 0, 0, 0, 0, 0, 0, 0, 0, 0, 0, 0, 0, 0, 0, 0, 0, 0, 0, 0, 0, 0, 0, 0, 0, 0, 0, 0, 0, 0, 0, 0, 0, 0, 0, 0, 0, 0, 0, 0, 0, 0, 0, 0, 0, 0, 0, 0, 0, 0, 0, 0, 0, 0, 0, 0, 0, 0, 0, 0, 0, 0, 0, 0, 0, 0, 0, 0, 0, 0, 0, 0, 0, 0, 0, 0, 0, 0, 0, 0, 0, 0, 0, 0, 0, 0, 0, 0, 0, 0, 0, 0, 0, 0, 0, 0, 0, 0, 0, 0, 0, 0, 0, 0, 0, 0, 0, 0, 0, 0, 0, 0, 0, 0, 0, 0, 0, 0, 0, 0, 0, 0, 0, 0, 0, 0, 0, 0, 0, 0, 0, 0, 0, 0, 0, 0, 0, 0, 0, 0, 0, 0, 0, 0, 0, 0, 0, 0, 0, 0, 0, 0, 0, 0, 0, 0, 0, 0, 0, 0, 0, 0, 0, 0, 0, 0, 0, 0, 0, 0, 0, 0, 0, 0, 0, 0, 0, 0, 0, 0, 0, 0, 0, 0, 0, 0, 0, 0, 0, 0, 0, 0, 0, 0, 0, 0, 0, 0, 0, 0, 0, 0, 0, 0, 0, 0, 0, 0, 0, 0, 0, 0, 0, 0, 0, 0, 0, 0, 0, 0, 0, 0, 0, 0, 0, 0, 0, 0, 0, 0, 0, 0, 0, 0, 0, 0, 0, 0, 0, 0, 0, 0, 0, 0, 0, 0, 0, 0, 0, 0, 0, 0, 0, 0, 0, 0, 0, 0, 0, 0, 0, 0, 0, 0, 0, 0, 0, 0, 0, 0, 0, 0, 0, 0, 0, 0, 0, 0, 0, 0, 0, 0, 0, 0, 0, 0, 0, 0, 0, 0, 0, 0, 0, 0, 0, 0, 0, 0, 0, 0, 0, 0, 0, 0, 0, 0, 0, 0, 0, 0, 0, 0, 0, 0, 0, 0, 0, 0, 0, 0, 0, 0, 0, 0, 0, 0, 0, 0, 0, 0, 0, 0, 0, 0, 0, 0, 0, 0, 0, 0, 0, 0, 0, 0, 0, 0, 0, 0, 0, 0, 0, 0, 0, 0, 0, 0, 0, 0, 0, 0, 0, 0, 0, 0, 0, 0, 0, 0, 0, 0, 0, 0, 0, 0, 0, 0, 0, 0, 0, 0, 0, 0, 0, 0, 0, 0, 0, 0, 0, 0, 0, 0, 0, 0, 0, 0, 0, 0, 0, 0, 0, 0, 0, 0, 0, 0, 0, 0, 0, 0, 0, 0, 0, 0, 0, 0, 0, 0, 0, 0, 0, 0, 0, 0, 0, 0, 0, 0, 0, 0, 0, 0, 0, 0, 0, 0, 0, 0, 0, 0, 0, 0, 0, 0, 0, 0, 0, 0, 0, 0] : List Nat) =
      [97, 0, 0, 0, 0, 0, 0, 0, 0, 0, 0, 0, 0, 0, 0, 0, 0, 0, 0, 0, 0, 0, 0, 0, 0, 0, 0, 0, 0, 0, 0, 0, 0, 0, 0, 0, 0, 0, 0, 0, 0, 0, 0, 0, 0, 0, 0, 0, 0, 0, 0, 0, 0, 0, 0, 0, 0, 0, 0, 0, 0, 0, 0, 0, 0, 0, 0, 0, 0, 0, 0, 0, 0, 0, 0, 0, 0, 0, 0, 0, 0, 0, 0, 0, 0, 0, 0, 0, 0, 0, 0, 0, 0, 0, 0, 0, 0, 0, 0, 0, 48, 48, 48, 48, 54, 52, 52, 0, 48, 48, 48, 48, 48, 48, 48, 0, 48, 48, 48, 48, 48, 48, 48, 0, 48, 48, 48, 48] ++ [48, 48, 48, 48, 48, 48, 48, 0, 48, 48, 48, 48, 48, 48, 48, 48, 48, 48, 48, 0, 48, 48, 55, 51, 51, 54, 0, 32, 48, 0, 0, 0, 0, 0, 0, 0, 0, 0, 0, 0, 0, 0, 0, 0, 0, 0, 0, 0, 0, 0, 0, 0, 0, 0, 0, 0, 0, 0, 0, 0, 0, 0, 0, 0, 0, 0, 0, 0, 0, 0, 0, 0, 0, 0, 0, 0, 0, 0, 0, 0, 0, 0, 0, 0, 0, 0, 0, 0, 0, 0, 0, 0, 0, 0, 0, 0, 0, 0, 0, 0, 0, 0, 0, 0, 0, 0, 0, 0, 0, 0, 0, 0, 0, 0, 0, 0, 0, 0, 0, 0, 0, 0, 0, 0, 0, 0, 0, 0] ++ [0, 117, 115, 116, 97, 114, 0, 48, 48, 0, 0, 0, 0, 0, 0, 0, 0, 0, 0, 0, 0, 0, 0, 0, 0, 0, 0, 0, 0, 0, 0, 0, 0, 0, 0, 0, 0, 0, 0, 0, 0, 0, 0, 0, 0, 0, 0, 0, 0, 0, 0, 0, 0, 0, 0, 0, 0, 0, 0, 0, 0, 0, 0, 0, 0, 0, 0, 0, 0, 0, 0, 0, 0, 48, 48, 48, 48, 48, 48, 48, 0, 48, 48, 48, 48, 48, 48, 48, 0, 0, 0, 0, 0, 0, 0, 0, 0, 0, 0, 0, 0, 0, 0, 0, 0, 0, 0, 0, 0, 0, 0, 0, 0, 0, 0, 0, 0, 0, 0, 0, 0, 0, 0, 0, 0, 0, 0, 0] ++ [0, 0, 0, 0, 0, 0, 0, 0, 0, 0, 0, 0, 0, 0, 0, 0, 0, 0, 0, 0, 0, 0, 0, 0, 0, 0, 0, 0, 0, 0, 0, 0, 0, 0, 0, 0, 0, 0, 0, 0, 0, 0, 0, 0, 0, 0, 0, 0, 0, 0, 0, 0, 0, 0, 0, 0, 0, 0, 0, 0, 0, 0, 0, 0, 0, 0, 0, 0, 0, 0, 0, 0, 0, 0, 0, 0, 0, 0, 0, 0, 0, 0, 0, 0, 0, 0, 0, 0, 0, 0, 0, 0, 0, 0, 0, 0, 0, 0, 0, 0, 0, 0, 0, 0, 0, 0, 0, 0, 0, 0, 0, 0, 0, 0, 0, 0, 0, 0, 0, 0, 0, 0, 0, 0, 0, 0, 0, 0] ++ [0, 0, 0, 0, 0, 0, 0, 0, 0, 0, 0, 0, 0, 0, 0, 0, 0, 0, 0, 0, 0, 0, 0, 0, 0, 0, 0, 0, 0, 0, 0, 0, 0, 0, 0, 0, 0, 0, 0, 0, 0, 0, 0, 0, 0, 0, 0, 0, 0, 0, 0, 0, 0, 0, 0, 0, 0, 0, 0, 0, 0, 0, 0, 0, 0, 0, 0, 0, 0, 0, 0, 0, 0, 0, 0, 0, 0, 0, 0, 0, 0, 0, 0, 0, 0, 0, 0, 0, 0, 0, 0, 0, 0, 0, 0, 0, 0, 0, 0, 0, 0, 0, 0, 0, 0, 0, 0, 0, 0, 0, 0, 0, 0, 0, 0, 0, 0, 0, 0, 0, 0, 0, 0, 0, 0, 0, 0, 0] ++ [0, 0, 0, 0, 0, 0, 0, 0, 0, 0, 0, 0, 0, 0, 0, 0, 0, 0, 0, 0, 0, 0, 0, 0, 0, 0, 0, 0, 0, 0, 0, 0, 0, 0, 0, 0, 0, 0, 0, 0, 0, 0, 0, 0, 0, 0, 0, 0, 0, 0, 0, 0, 0, 0, 0, 0, 0, 0, 0, 0, 0, 0, 0, 0, 0, 0, 0, 0, 0, 0, 0, 0, 0, 0, 0, 0, 0, 0, 0, 0, 0, 0, 0, 0, 0, 0, 0, 0, 0, 0, 0, 0, 0, 0, 0, 0, 0, 0, 0, 0, 0, 0, 0, 0, 0, 0, 0, 0, 0, 0, 0, 0, 0, 0, 0, 0, 0, 0, 0, 0, 0, 0, 0, 0, 0, 0, 0, 0] ++ [0, 0, 0, 0, 0, 0, 0, 0, 0, 0, 0, 0, 0, 0, 0, 0, 0, 0, 0, 0, 0, 0, 0, 0, 0, 0, 0, 0, 0, 0, 0, 0, 0, 0, 0, 0, 0, 0, 0, 0, 0, 0, 0, 0, 0, 0, 0, 0, 0, 0, 0, 0, 0, 0, 0, 0, 0, 0, 0, 0, 0, 0, 0, 0, 0, 0, 0, 0, 0, 0, 0, 0, 0, 0, 0, 0, 0, 0, 0, 0, 0, 0, 0, 0, 0, 0, 0, 0, 0, 0, 0, 0, 0, 0, 0, 0, 0, 0, 0, 0, 0, 0, 0, 0, 0, 0, 0, 0, 0, 0, 0, 0, 0, 0, 0, 0, 0, 0, 0, 0, 0, 0, 0, 0, 0, 0, 0, 0] ++ [0, 0, 0, 0, 0, 0, 0, 0, 0, 0, 0, 0, 0, 0, 0, 0, 0, 0, 0, 0, 0, 0, 0, 0, 0, 0, 0, 0, 0, 0, 0, 0, 0, 0, 0, 0, 0, 0, 0, 0, 0, 0, 0, 0, 0, 0, 0, 0, 0, 0, 0, 0, 0, 0, 0, 0, 0, 0, 0, 0, 0, 0, 0, 0, 0, 0, 0, 0, 0, 0, 0, 0, 0, 0, 0, 0, 0, 0, 0, 0, 0, 0, 0, 0, 0, 0, 0, 0, 0, 0, 0, 0, 0, 0, 0, 0, 0, 0, 0, 0, 0, 0, 0, 0, 0, 0, 0, 0, 0, 0, 0, 0, 0, 0, 0, 0, 0, 0, 0, 0, 0, 0, 0, 0, 0, 0, 0, 0] ++ [0, 0, 0, 0, 0, 0, 0, 0, 0, 0, 0, 0, 0, 0, 0, 0, 0, 0, 0, 0, 0, 0, 0, 0, 0, 0, 0, 0, 0, 0, 0, 0, 0, 0, 0, 0, 0, 0, 0, 0, 0, 0, 0, 0, 0, 0, 0, 0, 0, 0, 0, 0, 0, 0, 0, 0, 0, 0, 0, 0, 0, 0, 0, 0, 0, 0, 0, 0, 0, 0, 0, 0, 0, 0, 0, 0, 0, 0, 0, 0, 0, 0, 0, 0, 0, 0, 0, 0, 0, 0, 0, 0, 0, 0, 0, 0, 0, 0, 0, 0, 0, 0, 0, 0, 0, 0, 0, 0, 0, 0, 0, 0, 0, 0, 0, 0, 0, 0, 0, 0, 0, 0, 0, 0, 0, 0, 0, 0] ++ [0, 0, 0, 0, 0, 0, 0, 0, 0, 0, 0, 0, 0, 0, 0, 0, 0, 0, 0, 0, 0, 0, 0, 0, 0, 0, 0, 0, 0, 0, 0, 0, 0, 0, 0, 0, 0, 0, 0, 0, 0, 0, 0, 0, 0, 0, 0, 0, 0, 0, 0, 0, 0, 0, 0, 0, 0, 0, 0, 0, 0, 0, 0, 0, 0, 0, 0, 0, 0, 0, 0, 0, 0, 0, 0, 0, 0, 0, 0, 0, 0, 0, 0, 0, 0, 0, 0, 0, 0, 0, 0, 0, 0, 0, 0, 0, 0, 0, 0, 0, 0, 0, 0, 0, 0, 0, 0, 0, 0, 0, 0, 0, 0, 0, 0, 0, 0, 0, 0, 0, 0, 0, 0, 0, 0, 0, 0, 0] ++ [0, 0, 0, 0, 0, 0, 0, 0, 0, 0, 0, 0, 0, 0, 0, 0, 0, 0, 0, 0, 0, 0, 0, 0, 0, 0, 0, 0, 0, 0, 0, 0, 0, 0, 0, 0, 0, 0, 0, 0, 0, 0, 0, 0, 0, 0, 0, 0, 0, 0, 0, 0, 0, 0, 0, 0, 0, 0, 0, 0, 0, 0, 0, 0, 0, 0, 0, 0, 0, 0, 0, 0, 0, 0, 0, 0, 0, 0, 0, 0, 0, 0, 0, 0, 0, 0, 0, 0, 0, 0, 0, 0, 0, 0, 0, 0, 0, 0, 0, 0, 0, 0, 0, 0, 0, 0, 0, 0, 0, 0, 0, 0, 0, 0, 0, 0, 0, 0, 0, 0, 0, 0, 0, 0, 0, 0, 0, 0] ++ [0, 0, 0, 0, 0, 0, 0, 0, 0, 0, 0, 0, 0, 0, 0, 0, 0, 0, 0, 0, 0, 0, 0, 0, 0, 0, 0, 0, 0, 0, 0, 0, 0, 0, 0, 0, 0, 0, 0, 0, 0, 0, 0, 0, 0, 0, 0, 0, 0, 0, 0, 0, 0, 0, 0, 0, 0, 0, 0, 0, 0, 0, 0, 0, 0, 0, 0, 0, 0, 0, 0, 0, 0, 0, 0, 0, 0, 0, 0, 0, 0, 0, 0, 0, 0, 0, 0, 0, 0, 0, 0, 0, 0, 0, 0, 0, 0, 0, 0, 0, 0, 0, 0, 0, 0, 0, 0, 0, 0, 0, 0, 0, 0, 0, 0, 0, 0, 0, 0, 0, 0, 0, 0, 0, 0, 0, 0, 0] := by
  rfl


set_option maxRecDepth 10000 in
set_option maxHeartbeats 2000000 in
theorem c1crc_go_1 :
    List.foldl crcByte 4294967295 [97, 0, 0, 0, 0, 0, 0, 0, 0, 0, 0, 0, 0, 0, 0, 0] = 2221779132 := by
  rfl


set_option maxRecDepth 10000 in
set_option maxHeartbeats 2000000 in
theorem c1crc_go_2 :
    List.foldl crcByte 2221779132 [0, 0, 0, 0, 0, 0, 0, 0, 0, 0, 0, 0, 0, 0, 0, 0] = 1492699534 := by
  rfl


set_option maxRecDepth 10000 in
set_option maxHeartbeats 2000000 in
theorem c1crc_go_3 :
    List.foldl crcByte 1492699534 [0, 0, 0, 0, 0, 0, 0, 0, 0, 0, 0, 0, 0, 0, 0, 0] = 2277319035 := by
  rfl


set_option maxRecDepth 10000 in
set_option maxHeartbeats 2000000 in
theorem c1crc_go_4 :
    List.foldl crcByte 2277319035 [0, 0, 0, 0, 0, 0, 0, 0, 0, 0, 0, 0, 0, 0, 0, 0] = 4140139920 := by
  rfl


set_option maxRecDepth 10000 in
set_option maxHeartbeats 2000000 in
theorem c1crc_go_5 :
    List.foldl crcByte 4140139920 [0, 0, 0, 0, 0, 0, 0, 0, 0, 0, 0, 0, 0, 0, 0, 0] = 1002990954 := by
  rfl


set_option maxRecDepth 10000 in
set_option maxHeartbeats 2000000 in
theorem c1crc_go_6 :
    List.foldl crcByte 1002990954 [0, 0, 0, 0, 0, 0, 0, 0, 0, 0, 0, 0, 0, 0, 0, 0] = 1658934509 := by
  rfl


set_option maxRecDepth 10000 in
set_option maxHeartbeats 2000000 in
theorem c1crc_go_7 :
    List.foldl crcByte 1658934509 [0, 0, 0, 0, 48, 48, 48, 48, 54, 52, 52, 0, 48, 48, 48, 48] = 1126627151 := by
  rfl


set_option maxRecDepth 10000 in
set_option maxHeartbeats 2000000 in
theorem c1crc_go_8 :
    List.foldl crcByte 1126627151 [48, 48, 48, 0, 48, 48, 48, 48, 48, 48, 48, 0, 48, 48, 48, 48] = 2924220254 := by
  rfl


set_option maxRecDepth 10000 in
set_option maxHeartbeats 2000000 in
theorem c1crc_go_9 :
    List.foldl crcByte 2924220254 [48, 48, 48, 48, 48, 48, 48, 0, 48, 48, 48, 48, 48, 48, 48, 48] = 1583814975 := by
  rfl


set_option maxRecDepth 10000 in
set_option maxHeartbeats 2000000 in
theorem c1crc_go_10 :
    List.foldl crcByte 1583814975 [48, 48, 48, 0, 48, 48, 55, 51, 51, 54, 0, 32, 48, 0, 0, 0] = 2436636490 := by
  rfl


set_option maxRecDepth 10000 in
set_option maxHeartbeats 2000000 in
theorem c1crc_go_11 :
    List.foldl crcByte 2436636490 [0, 0, 0, 0, 0, 0, 0, 0, 0, 0, 0, 0, 0, 0, 0, 0] = 2197790677 := by
  rfl


set_option maxRecDepth 10000 in
set_option maxHeartbeats 2000000 in
theorem c1crc_go_12 :
    List.foldl crcByte 2197790677 [0, 0, 0, 0, 0, 0, 0, 0, 0, 0, 0, 0, 0, 0, 0, 0] = 1328426210 := by
  rfl


set_option maxRecDepth 10000 in
set_option maxHeartbeats 2000000 in
theorem c1crc_go_13 :
    List.foldl crcByte 1328426210 [0, 0, 0, 0, 0, 0, 0, 0, 0, 0, 0, 0, 0, 0, 0, 0] = 3006184364 := by
  rfl


set_option maxRecDepth 10000 in
set_option maxHeartbeats 2000000 in
theorem c1crc_go_14 :
    List.foldl crcByte 3006184364 [0, 0, 0, 0, 0, 0, 0, 0, 0, 0, 0, 0, 0, 0, 0, 0] = 2886876027 := by
  rfl


set_option maxRecDepth 10000 in
set_option maxHeartbeats 2000000 in
theorem c1crc_go_15 :
    List.foldl crcByte 2886876027 [0, 0, 0, 0, 0, 0, 0, 0, 0, 0, 0, 0, 0, 0, 0, 0] = 2577182803 := by
  rfl


set_option maxRecDepth 10000 in
set_option maxHeartbeats 2000000 in
theorem c1crc_go_16 :
    List.foldl crcByte 2577182803 [0, 0, 0, 0, 0, 0, 0, 0, 0, 0, 0, 0, 0, 0, 0, 0] = 1065215610 := by
  rfl


set_option maxRecDepth 10000 in
set_option maxHeartbeats 2000000 in
theorem c1crc_go_17 :
    List.foldl crcByte 1065215610 [0, 117, 115, 116, 97, 114, 0, 48, 48, 0, 0, 0, 0, 0, 0, 0] = 534196170 := by
  rfl


set_option maxRecDepth 10000 in
set_option maxHeartbeats 2000000 in
theorem c1crc_go_18 :
    List.foldl crcByte 534196170 [0, 0, 0, 0, 0, 0, 0, 0, 0, 0, 0, 0, 0, 0, 0, 0] = 146776433 := by
  rfl


set_option maxRecDepth 10000 in
set_option maxHeartbeats 2000000 in
theorem c1crc_go_19 :
    List.foldl crcByte 146776433 [0, 0, 0, 0, 0, 0, 0, 0, 0, 0, 0, 0, 0, 0, 0, 0] = 713423752 := by
  rfl


set_option maxRecDepth 10000 in
set_option maxHeartbeats 2000000 in
theorem c1crc_go_20 :
    List.foldl crcByte 713423752 [0, 0, 0, 0, 0, 0, 0, 0, 0, 0, 0, 0, 0, 0, 0, 0] = 925913614 := by
  rfl


set_option maxRecDepth 10000 in
set_option maxHeartbeats 2000000 in
theorem c1crc_go_21 :
    List.foldl crcByte 925913614 [0, 0, 0, 0, 0, 0, 0, 0, 0, 48, 48, 48, 48, 48, 48, 48] = 4154854876 := by
  rfl


set_option maxRecDepth 10000 in
set_option maxHeartbeats 2000000 in
theorem c1crc_go_22 :
    List.foldl crcByte 4154854876 [0, 48, 48, 48, 48, 48, 48, 48, 0, 0, 0, 0, 0, 0, 0, 0] = 70856875 := by
  rfl


set_option maxRecDepth 10000 in
set_option maxHeartbeats 2000000 in
theorem c1crc_go_23 :
    List.foldl crcByte 70856875 [0, 0, 0, 0, 0, 0, 0, 0, 0, 0, 0, 0, 0, 0, 0, 0] = 411553159 := by
  rfl


set_option maxRecDepth 10000 in
set_option maxHeartbeats 2000000 in
theorem c1crc_go_24 :
    List.foldl crcByte 411553159 [0, 0, 0, 0, 0, 0, 0, 0, 0, 0, 0, 0, 0, 0, 0, 0] = 3519864030 := by
  rfl


set_option maxRecDepth 10000 in
set_option maxHeartbeats 2000000 in
theorem c1crc_go_25 :
    List.foldl crcByte 3519864030 [0, 0, 0, 0, 0, 0, 0, 0, 0, 0, 0, 0, 0, 0, 0, 0] = 2911120523 := by
  rfl


set_option maxRecDepth 10000 in
set_option maxHeartbeats 2000000 in
theorem c1crc_go_26 :
    List.foldl crcByte 2911120523 [0, 0, 0, 0, 0, 0, 0, 0, 0, 0, 0, 0, 0, 0, 0, 0] = 99696470 := by
  rfl


set_option maxRecDepth 10000 in
set_option maxHeartbeats 2000000 in
theorem c1crc_go_27 :
    List.foldl crcByte 99696470 [0, 0, 0, 0, 0, 0, 0, 0, 0, 0, 0, 0, 0, 0, 0, 0] = 3940273422 := by
  rfl


set_option maxRecDepth 10000 in
set_option maxHeartbeats 2000000 in
theorem c1crc_go_28 :
    List.foldl crcByte 3940273422 [0, 0, 0, 0, 0, 0, 0, 0, 0, 0, 0, 0, 0, 0, 0, 0] = 662079900 := by
  rfl


set_option maxRecDepth 10000 in
set_option maxHeartbeats 2000000 in
theorem c1crc_go_29 :
    List.foldl crcByte 662079900 [0, 0, 0, 0, 0, 0, 0, 0, 0, 0, 0, 0, 0, 0, 0, 0] = 4188885544 := by
  rfl


set_option maxRecDepth 10000 in
set_option maxHeartbeats 2000000 in
theorem c1crc_go_30 :
    List.foldl crcByte 4188885544 [0, 0, 0, 0, 0, 0, 0, 0, 0, 0, 0, 0, 0, 0, 0, 0] = 651494795 := by
  rfl


set_option maxRecDepth 10000 in
set_option maxHeartbeats 2000000 in
theorem c1crc_go_31 :
    List.foldl crcByte 651494795 [0, 0, 0, 0, 0, 0, 0, 0, 0, 0, 0, 0, 0, 0, 0, 0] = 115451640 := by
  rfl


set_option maxRecDepth 10000 in
set_option maxHeartbeats 2000000 in
theorem c1crc_go_32 :
    List.foldl crcByte 115451640 [0, 0, 0, 0, 0, 0, 0, 0, 0, 0, 0, 0, 0, 0, 0, 0] = 645170453 := by
  rfl


set_option maxRecDepth 10000 in
set_option maxHeartbeats 2000000 in
theorem c1crc_go_33 :
    List.foldl crcByte 645170453 [0, 0, 0, 0, 0, 0, 0, 0, 0, 0, 0, 0, 0, 0, 0, 0] = 19269070 := by
  rfl


set_option maxRecDepth 10000 in
set_option maxHeartbeats 2000000 in
theorem c1crc_go_34 :
    List.foldl crcByte 19269070 [0, 0, 0, 0, 0, 0, 0, 0, 0, 0, 0, 0, 0, 0, 0, 0] = 2310453701 := by
  rfl


set_option maxRecDepth 10000 in
set_option maxHeartbeats 2000000 in
theorem c1crc_go_35 :
    List.foldl crcByte 2310453701 [0, 0, 0, 0, 0, 0, 0, 0, 0, 0, 0, 0, 0, 0, 0, 0] = 185618178 := by
  rfl


set_option maxRecDepth 10000 in
set_option maxHeartbeats 2000000 in
theorem c1crc_go_36 :
    List.foldl crcByte 185618178 [0, 0, 0, 0, 0, 0, 0, 0, 0, 0, 0, 0, 0, 0, 0, 0] = 2561154636 := by
  rfl


set_option maxRecDepth 10000 in
set_option maxHeartbeats 2000000 in
theorem c1crc_go_37 :
    List.foldl crcByte 2561154636 [0, 0, 0, 0, 0, 0, 0, 0, 0, 0, 0, 0, 0, 0, 0, 0] = 325942180 := by
  rfl


set_option maxRecDepth 10000 in
set_option maxHeartbeats 2000000 in
theorem c1crc_go_38 :
    List.foldl crcByte 325942180 [0, 0, 0, 0, 0, 0, 0, 0, 0, 0, 0, 0, 0, 0, 0, 0] = 1974571834 := by
  rfl


set_option maxRecDepth 10000 in
set_option maxHeartbeats 2000000 in
theorem c1crc_go_39 :
    List.foldl crcByte 1974571834 [0, 0, 0, 0, 0, 0, 0, 0, 0, 0, 0, 0, 0, 0, 0, 0] = 205684725 := by
  rfl


set_option maxRecDepth 10000 in
set_option maxHeartbeats 2000000 in
theorem c1crc_go_40 :
    List.foldl crcByte 205684725 [0, 0, 0, 0, 0, 0, 0, 0, 0, 0, 0, 0, 0, 0, 0, 0] = 2440761453 := by
  rfl


set_option maxRecDepth 10000 in
set_option maxHeartbeats 2000000 in
theorem c1crc_go_41 :
    List.foldl crcByte 2440761453 [0, 0, 0, 0, 0, 0, 0, 0, 0, 0, 0, 0, 0, 0, 0, 0] = 415597169 := by
  rfl


set_option maxRecDepth 10000 in
set_option maxHeartbeats 2000000 in
theorem c1crc_go_42 :
    List.foldl crcByte 415597169 [0, 0, 0, 0, 0, 0, 0, 0, 0, 0, 0, 0, 0, 0, 0, 0] = 1063411819 := by
  rfl


set_option maxRecDepth 10000 in
set_option maxHeartbeats 2000000 in
theorem c1crc_go_43 :
    List.foldl crcByte 1063411819 [0, 0, 0, 0, 0, 0, 0, 0, 0, 0, 0, 0, 0, 0, 0, 0] = 1813942343 := by
  rfl


set_option maxRecDepth 10000 in
set_option maxHeartbeats 2000000 in
theorem c1crc_go_44 :
    List.foldl crcByte 1813942343 [0, 0, 0, 0, 0, 0, 0, 0, 0, 0, 0, 0, 0, 0, 0, 0] = 3758254898 := by
  rfl


set_option maxRecDepth 10000 in
set_option maxHeartbeats 2000000 in
theorem c1crc_go_45 :
    List.foldl crcByte 3758254898 [0, 0, 0, 0, 0, 0, 0, 0, 0, 0, 0, 0, 0, 0, 0, 0] = 2777004153 := by
  rfl


set_option maxRecDepth 10000 in
set_option maxHeartbeats 2000000 in
theorem c1crc_go_46 :
    List.foldl crcByte 2777004153 [0, 0, 0, 0, 0, 0, 0, 0, 0, 0, 0, 0, 0, 0, 0, 0] = 1180662868 := by
  rfl


set_option maxRecDepth 10000 in
set_option maxHeartbeats 2000000 in
theorem c1crc_go_47 :
    List.foldl crcByte 1180662868 [0, 0, 0, 0, 0, 0, 0, 0, 0, 0, 0, 0, 0, 0, 0, 0] = 859227830 := by
  rfl


set_option maxRecDepth 10000 in
set_option maxHeartbeats 2000000 in
theorem c1crc_go_48 :
    List.foldl crcByte 859227830 [0, 0, 0, 0, 0, 0, 0, 0, 0, 0, 0, 0, 0, 0, 0, 0] = 2975141924 := by
  rfl


set_option maxRecDepth 10000 in
set_option maxHeartbeats 2000000 in
theorem c1crc_go_49 :
    List.foldl crcByte 2975141924 [0, 0, 0, 0, 0, 0, 0, 0, 0, 0, 0, 0, 0, 0, 0, 0] = 1581325560 := by
  rfl


set_option maxRecDepth 10000 in
set_option maxHeartbeats 2000000 in
theorem c1crc_go_50 :
    List.foldl crcByte 1581325560 [0, 0, 0, 0, 0, 0, 0, 0, 0, 0, 0, 0, 0, 0, 0, 0] = 3737508431 := by
  rfl


set_option maxRecDepth 10000 in
set_option maxHeartbeats 2000000 in
theorem c1crc_go_51 :
    List.foldl crcByte 3737508431 [0, 0, 0, 0, 0, 0, 0, 0, 0, 0, 0, 0, 0, 0, 0, 0] = 317362423 := by
  rfl


set_option maxRecDepth 10000 in
set_option maxHeartbeats 2000000 in
theorem c1crc_go_52 :
    List.foldl crcByte 317362423 [0, 0, 0, 0, 0, 0, 0, 0, 0, 0, 0, 0, 0, 0, 0, 0] = 2101698733 := by
  rfl


set_option maxRecDepth 10000 in
set_option maxHeartbeats 2000000 in
theorem c1crc_go_53 :
    List.foldl crcByte 2101698733 [0, 0, 0, 0, 0, 0, 0, 0, 0, 0, 0, 0, 0, 0, 0, 0] = 947131477 := by
  rfl


set_option maxRecDepth 10000 in
set_option maxHeartbeats 2000000 in
theorem c1crc_go_54 :
    List.foldl crcByte 947131477 [0, 0, 0, 0, 0, 0, 0, 0, 0, 0, 0, 0, 0, 0, 0, 0] = 3534220610 := by
  rfl


set_option maxRecDepth 10000 in
set_option maxHeartbeats 2000000 in
theorem c1crc_go_55 :
    List.foldl crcByte 3534220610 [0, 0, 0, 0, 0, 0, 0, 0, 0, 0, 0, 0, 0, 0, 0, 0] = 3138358810 := by
  rfl


set_option maxRecDepth 10000 in
set_option maxHeartbeats 2000000 in
theorem c1crc_go_56 :
    List.foldl crcByte 3138358810 [0, 0, 0, 0, 0, 0, 0, 0, 0, 0, 0, 0, 0, 0, 0, 0] = 2804854545 := by
  rfl


set_option maxRecDepth 10000 in
set_option maxHeartbeats 2000000 in
theorem c1crc_go_57 :
    List.foldl crcByte 2804854545 [0, 0, 0, 0, 0, 0, 0, 0, 0, 0, 0, 0, 0, 0, 0, 0] = 2988304213 := by
  rfl


set_option maxRecDepth 10000 in
set_option maxHeartbeats 2000000 in
theorem c1crc_go_58 :
    List.foldl crcByte 2988304213 [0, 0, 0, 0, 0, 0, 0, 0, 0, 0, 0, 0, 0, 0, 0, 0] = 868195956 := by
  rfl


set_option maxRecDepth 10000 in
set_option maxHeartbeats 2000000 in
theorem c1crc_go_59 :
    List.foldl crcByte 868195956 [0, 0, 0, 0, 0, 0, 0, 0, 0, 0, 0, 0, 0, 0, 0, 0] = 675485278 := by
  rfl


set_option maxRecDepth 10000 in
set_option maxHeartbeats 2000000 in
theorem c1crc_go_60 :
    List.foldl crcByte 675485278 [0, 0, 0, 0, 0, 0, 0, 0, 0, 0, 0, 0, 0, 0, 0, 0] = 1525039040 := by
  rfl


set_option maxRecDepth 10000 in
set_option maxHeartbeats 2000000 in
theorem c1crc_go_61 :
    List.foldl crcByte 1525039040 [0, 0, 0, 0, 0, 0, 0, 0, 0, 0, 0, 0, 0, 0, 0, 0] = 773129064 := by
  rfl


set_option maxRecDepth 10000 in
set_option maxHeartbeats 2000000 in
theorem c1crc_go_62 :
    List.foldl crcByte 773129064 [0, 0, 0, 0, 0, 0, 0, 0, 0, 0, 0, 0, 0, 0, 0, 0] = 4037438965 := by
  rfl


set_option maxRecDepth 10000 in
set_option maxHeartbeats 2000000 in
theorem c1crc_go_63 :
    List.foldl crcByte 4037438965 [0, 0, 0, 0, 0, 0, 0, 0, 0, 0, 0, 0, 0, 0, 0, 0] = 3954782475 := by
  rfl


set_option maxRecDepth 10000 in
set_option maxHeartbeats 2000000 in
theorem c1crc_go_64 :
    List.foldl crcByte 3954782475 [0, 0, 0, 0, 0, 0, 0, 0, 0, 0, 0, 0, 0, 0, 0, 0] = 3760473464 := by
  rfl


set_option maxRecDepth 10000 in
set_option maxHeartbeats 2000000 in
theorem c1crc_go_65 :
    List.foldl crcByte 3760473464 [0, 0, 0, 0, 0, 0, 0, 0, 0, 0, 0, 0, 0, 0, 0, 0] = 794353962 := by
  rfl


set_option maxRecDepth 10000 in
set_option maxHeartbeats 2000000 in
theorem c1crc_go_66 :
    List.foldl crcByte 794353962 [0, 0, 0, 0, 0, 0, 0, 0, 0, 0, 0, 0, 0, 0, 0, 0] = 3599950986 := by
  rfl


set_option maxRecDepth 10000 in
set_option maxHeartbeats 2000000 in
theorem c1crc_go_67 :
    List.foldl crcByte 3599950986 [0, 0, 0, 0, 0, 0, 0, 0, 0, 0, 0, 0, 0, 0, 0, 0] = 589389179 := by
  rfl


set_option maxRecDepth 10000 in
set_option maxHeartbeats 2000000 in
theorem c1crc_go_68 :
    List.foldl crcByte 589389179 [0, 0, 0, 0, 0, 0, 0, 0, 0, 0, 0, 0, 0, 0, 0, 0] = 2851450895 := by
  rfl


set_option maxRecDepth 10000 in
set_option maxHeartbeats 2000000 in
theorem c1crc_go_69 :
    List.foldl crcByte 2851450895 [0, 0, 0, 0, 0, 0, 0, 0, 0, 0, 0, 0, 0, 0, 0, 0] = 1978949776 := by
  rfl


set_option maxRecDepth 10000 in
set_option maxHeartbeats 2000000 in
theorem c1crc_go_70 :
    List.foldl crcByte 1978949776 [0, 0, 0, 0, 0, 0, 0, 0, 0, 0, 0, 0, 0, 0, 0, 0] = 797936290 := by
  rfl


set_option maxRecDepth 10000 in
set_option maxHeartbeats 2000000 in
theorem c1crc_go_71 :
    List.foldl crcByte 797936290 [0, 0, 0, 0, 0, 0, 0, 0, 0, 0, 0, 0, 0, 0, 0, 0] = 2751724435 := by
  rfl


set_option maxRecDepth 10000 in
set_option maxHeartbeats 2000000 in
theorem c1crc_go_72 :
    List.foldl crcByte 2751724435 [0, 0, 0, 0, 0, 0, 0, 0, 0, 0, 0, 0, 0, 0, 0, 0] = 2867972830 := by
  rfl


set_option maxRecDepth 10000 in
set_option maxHeartbeats 2000000 in
theorem c1crc_go_73 :
    List.foldl crcByte 2867972830 [0, 0, 0, 0, 0, 0, 0, 0, 0, 0, 0, 0, 0, 0, 0, 0] = 2316144894 := by
  rfl


set_option maxRecDepth 10000 in
set_option maxHeartbeats 2000000 in
theorem c1crc_go_74 :
    List.foldl crcByte 2316144894 [0, 0, 0, 0, 0, 0, 0, 0, 0, 0, 0, 0, 0, 0, 0, 0] = 2217997528 := by
  rfl


set_option maxRecDepth 10000 in
set_option maxHeartbeats 2000000 in
theorem c1crc_go_75 :
    List.foldl crcByte 2217997528 [0, 0, 0, 0, 0, 0, 0, 0, 0, 0, 0, 0, 0, 0, 0, 0] = 2457131845 := by
  rfl


set_option maxRecDepth 10000 in
set_option maxHeartbeats 2000000 in
theorem c1crc_go_76 :
    List.foldl crcByte 2457131845 [0, 0, 0, 0, 0, 0, 0, 0, 0, 0, 0, 0, 0, 0, 0, 0] = 3443495747 := by
  rfl


set_option maxRecDepth 10000 in
set_option maxHeartbeats 2000000 in
theorem c1crc_go_77 :
    List.foldl crcByte 3443495747 [0, 0, 0, 0, 0, 0, 0, 0, 0, 0, 0, 0, 0, 0, 0, 0] = 3148309253 := by
  rfl


set_option maxRecDepth 10000 in
set_option maxHeartbeats 2000000 in
theorem c1crc_go_78 :
    List.foldl crcByte 3148309253 [0, 0, 0, 0, 0, 0, 0, 0, 0, 0, 0, 0, 0, 0, 0, 0] = 1109047533 := by
  rfl


set_option maxRecDepth 10000 in
set_option maxHeartbeats 2000000 in
theorem c1crc_go_79 :
    List.foldl crcByte 1109047533 [0, 0, 0, 0, 0, 0, 0, 0, 0, 0, 0, 0, 0, 0, 0, 0] = 1208712656 := by
  rfl


set_option maxRecDepth 10000 in
set_option maxHeartbeats 2000000 in
theorem c1crc_go_80 :
    List.foldl crcByte 1208712656 [0, 0, 0, 0, 0, 0, 0, 0, 0, 0, 0, 0, 0, 0, 0, 0] = 3326145563 := by
  rfl


set_option maxRecDepth 10000 in
set_option maxHeartbeats 2000000 in
theorem c1crc_go_81 :
    List.foldl crcByte 3326145563 [0, 0, 0, 0, 0, 0, 0, 0, 0, 0, 0, 0, 0, 0, 0, 0] = 2195769031 := by
  rfl


set_option maxRecDepth 10000 in
set_option maxHeartbeats 2000000 in
theorem c1crc_go_82 :
    List.foldl crcByte 2195769031 [0, 0, 0, 0, 0, 0, 0, 0, 0, 0, 0, 0, 0, 0, 0, 0] = 3865332952 := by
  rfl


set_option maxRecDepth 10000 in
set_option maxHeartbeats 2000000 in
theorem c1crc_go_83 :
    List.foldl crcByte 3865332952 [0, 0, 0, 0, 0, 0, 0, 0, 0, 0, 0, 0, 0, 0, 0, 0] = 4088678624 := by
  rfl


set_option maxRecDepth 10000 in
set_option maxHeartbeats 2000000 in
theorem c1crc_go_84 :
    List.foldl crcByte 4088678624 [0, 0, 0, 0, 0, 0, 0, 0, 0, 0, 0, 0, 0, 0, 0, 0] = 4136879769 := by
  rfl


set_option maxRecDepth 10000 in
set_option maxHeartbeats 2000000 in
theorem c1crc_go_85 :
    List.foldl crcByte 4136879769 [0, 0, 0, 0, 0, 0, 0, 0, 0, 0, 0, 0, 0, 0, 0, 0] = 3808227995 := by
  rfl


set_option maxRecDepth 10000 in
set_option maxHeartbeats 2000000 in
theorem c1crc_go_86 :
    List.foldl crcByte 3808227995 [0, 0, 0, 0, 0, 0, 0, 0, 0, 0, 0, 0, 0, 0, 0, 0] = 2372986073 := by
  rfl


set_option maxRecDepth 10000 in
set_option maxHeartbeats 2000000 in
theorem c1crc_go_87 :
    List.foldl crcByte 2372986073 [0, 0, 0, 0, 0, 0, 0, 0, 0, 0, 0, 0, 0, 0, 0, 0] = 3258125657 := by
  rfl


set_option maxRecDepth 10000 in
set_option maxHeartbeats 2000000 in
theorem c1crc_go_88 :
    List.foldl crcByte 3258125657 [0, 0, 0, 0, 0, 0, 0, 0, 0, 0, 0, 0, 0, 0, 0, 0] = 1126224942 := by
  rfl


set_option maxRecDepth 10000 in
set_option maxHeartbeats 2000000 in
theorem c1crc_go_89 :
    List.foldl crcByte 1126224942 [0, 0, 0, 0, 0, 0, 0, 0, 0, 0, 0, 0, 0, 0, 0, 0] = 2969336193 := by
  rfl


set_option maxRecDepth 10000 in
set_option maxHeartbeats 2000000 in
theorem c1crc_go_90 :
    List.foldl crcByte 2969336193 [0, 0, 0, 0, 0, 0, 0, 0, 0, 0, 0, 0, 0, 0, 0, 0] = 1715581972 := by
  rfl


set_option maxRecDepth 10000 in
set_option maxHeartbeats 2000000 in
theorem c1crc_go_91 :
    List.foldl crcByte 1715581972 [0, 0, 0, 0, 0, 0, 0, 0, 0, 0, 0, 0, 0, 0, 0, 0] = 1223316756 := by
  rfl


set_option maxRecDepth 10000 in
set_option maxHeartbeats 2000000 in
theorem c1crc_go_92 :
    List.foldl crcByte 1223316756 [0, 0, 0, 0, 0, 0, 0, 0, 0, 0, 0, 0, 0, 0, 0, 0] = 3038761014 := by
  rfl


set_option maxRecDepth 10000 in
set_option maxHeartbeats 2000000 in
theorem c1crc_go_93 :
    List.foldl crcByte 3038761014 [0, 0, 0, 0, 0, 0, 0, 0, 0, 0, 0, 0, 0, 0, 0, 0] = 3901606719 := by
  rfl


set_option maxRecDepth 10000 in
set_option maxHeartbeats 2000000 in
theorem c1crc_go_94 :
    List.foldl crcByte 3901606719 [0, 0, 0, 0, 0, 0, 0, 0, 0, 0, 0, 0, 0, 0, 0, 0] = 3848911996 := by
  rfl


set_option maxRecDepth 10000 in
set_option maxHeartbeats 2000000 in
theorem c1crc_go_95 :
    List.foldl crcByte 3848911996 [0, 0, 0, 0, 0, 0, 0, 0, 0, 0, 0, 0, 0, 0, 0, 0] = 783066220 := by
  rfl


set_option maxRecDepth 10000 in
set_option maxHeartbeats 2000000 in
theorem c1crc_go_96 :
    List.foldl crcByte 783066220 [0, 0, 0, 0, 0, 0, 0, 0, 0, 0, 0, 0, 0, 0, 0, 0] = 4280792155 := by
  rfl


set_option maxRecDepth 10000 in
set_option maxHeartbeats 2000000 in
theorem c1crcs_1 :
    ([97, 0, 0, 0, 0, 0, 0, 0, 0, 0, 0, 0, 0, 0, 0, 0, 0, 0, 0, 0, 0, 0, 0, 0, 0, 0, 0, 0, 0, 0, 0, 0, 0, 0, 0, 0, 0, 0, 0, 0, 0, 0, 0, 0, 0, 0, 0, 0, 0, 0, 0, 0, 0, 0, 0, 0, 0, 0, 0, 0, 0, 0, 0, 0, 0, 0, 0, 0, 0, 0, 0, 0, 0, 0, 0, 0, 0, 0, 0, 0, 0, 0, 0, 0, 0, 0, 0, 0, 0, 0, 0, 0, 0, 0, 0, 0, 0, 0, 0, 0, 48, 48, 48, 48, 54, 52, 52, 0, 48, 48, 48, 48, 48, 48, 48, 0, 48, 48, 48, 48, 48, 48, 48, 0, 48, 48, 48, 48] : List Nat) =
      [97, 0, 0, 0, 0, 0, 0, 0, 0, 0, 0, 0, 0, 0, 0, 0] ++ [0, 0, 0, 0, 0, 0, 0, 0, 0, 0, 0, 0, 0, 0, 0, 0] ++ [0, 0, 0, 0, 0, 0, 0, 0, 0, 0, 0, 0, 0, 0, 0, 0] ++ [0, 0, 0, 0, 0, 0, 0, 0, 0, 0, 0, 0, 0, 0, 0, 0] ++ [0, 0, 0, 0, 0, 0, 0, 0, 0, 0, 0, 0, 0, 0, 0, 0] ++ [0, 0, 0, 0, 0, 0, 0, 0, 0, 0, 0, 0, 0, 0, 0, 0] ++ [0, 0, 0, 0, 48, 48, 48, 48, 54, 52, 52, 0, 48, 48, 48, 48] ++ [48, 48, 48, 0, 48, 48, 48, 48, 48, 48, 48, 0, 48, 48, 48, 48] := by
  rfl


set_option maxRecDepth 10000 in
set_option maxHeartbeats 2000000 in
theorem c1crcb_1 :
    List.foldl crcByte 4294967295 [97, 0, 0, 0, 0, 0, 0, 0, 0, 0, 0, 0, 0, 0, 0, 0, 0, 0, 0, 0, 0, 0, 0, 0, 0, 0, 0, 0, 0, 0, 0, 0, 0, 0, 0, 0, 0, 0, 0, 0, 0, 0, 0, 0, 0, 0, 0, 0, 0, 0, 0, 0, 0, 0, 0, 0, 0, 0, 0, 0, 0, 0, 0, 0, 0, 0, 0, 0, 0, 0, 0, 0, 0, 0, 0, 0, 0, 0, 0, 0, 0, 0, 0, 0, 0, 0, 0, 0, 0, 0, 0, 0, 0, 0, 0, 0, 0, 0, 0, 0, 48, 48, 48, 48, 54, 52, 52, 0, 48, 48, 48, 48, 48, 48, 48, 0, 48, 48, 48, 48, 48, 48, 48, 0, 48, 48, 48, 48] = 2924220254 := by
  rw [c1crcs_1, List.foldl_append, List.foldl_append, List.foldl_append, List.foldl_append, List.foldl_append, List.foldl_append, List.foldl_append, c1crc_go_1, c1crc_go_2, c1crc_go_3, c1crc_go_4, c1crc_go_5, c1crc_go_6, c1crc_go_7, c1crc_go_8]


set_option maxRecDepth 10000 in
set_option maxHeartbeats 2000000 in
theorem c1crcs_2 :
    ([48, 48, 48, 48, 48, 48, 48, 0, 48, 48, 48, 48, 48, 48, 48, 48, 48, 48, 48, 0, 48, 48, 55, 51, 51, 54, 0, 32, 48, 0, 0, 0, 0, 0, 0, 0, 0, 0, 0, 0, 0, 0, 0, 0, 0, 0, 0, 0, 0, 0, 0, 0, 0, 0, 0, 0, 0, 0, 0, 0, 0, 0, 0, 0, 0, 0, 0, 0, 0, 0, 0, 0, 0, 0, 0, 0, 0, 0, 0, 0, 0, 0, 0, 0, 0, 0, 0, 0, 0, 0, 0, 0, 0, 0, 0, 0, 0, 0, 0, 0, 0, 0, 0, 0, 0, 0, 0, 0, 0, 0, 0, 0, 0, 0, 0, 0, 0, 0, 0, 0, 0, 0, 0, 0, 0, 0, 0, 0] : List Nat) =
      [48, 48, 48, 48, 48, 48, 48, 0, 48, 48, 48, 48, 48, 48, 48, 48] ++ [48, 48, 48, 0, 48, 48, 55, 51, 51, 54, 0, 32, 48, 0, 0, 0] ++ [0, 0, 0, 0, 0, 0, 0, 0, 0, 0, 0, 0, 0, 0, 0, 0] ++ [0, 0, 0, 0, 0, 0, 0, 0, 0, 0, 0, 0, 0, 0, 0, 0] ++ [0, 0, 0, 0, 0, 0, 0, 0, 0, 0, 0, 0, 0, 0, 0, 0] ++ [0, 0, 0, 0, 0, 0, 0, 0, 0, 0, 0, 0, 0, 0, 0, 0] ++ [0, 0, 0, 0, 0, 0, 0, 0, 0, 0, 0, 0, 0, 0, 0, 0] ++ [0, 0, 0, 0, 0, 0, 0, 0, 0, 0, 0, 0, 0, 0, 0, 0] := by
  rfl


set_option maxRecDepth 10000 in
set_option maxHeartbeats 2000000 in
theorem c1crcb_2 :
    List.foldl crcByte 2924220254 [48, 48, 48, 48, 48, 48, 48, 0, 48, 48, 48, 48, 48, 48, 48, 48, 48, 48, 48, 0, 48, 48, 55, 51, 51, 54, 0, 32, 48, 0, 0, 0, 0, 0, 0, 0, 0, 0, 0, 0, 0, 0, 0, 0, 0, 0, 0, 0, 0, 0, 0, 0, 0, 0, 0, 0, 0, 0, 0, 0, 0, 0, 0, 0, 0, 0, 0, 0, 0, 0, 0, 0, 0, 0, 0, 0, 0, 0, 0, 0, 0, 0, 0, 0, 0, 0, 0, 0, 0, 0, 0, 0, 0, 0, 0, 0, 0, 0, 0, 0, 0, 0, 0, 0, 0, 0, 0, 0, 0, 0, 0, 0, 0, 0, 0, 0, 0, 0, 0, 0, 0, 0, 0, 0, 0, 0, 0, 0] = 1065215610 := by
  rw [c1crcs_2, List.foldl_append, List.foldl_append, List.foldl_append, List.foldl_append, List.foldl_append, List.foldl_append, List.foldl_append, c1crc_go_9, c1crc_go_10, c1crc_go_11, c1crc_go_12, c1crc_go_13, c1crc_go_14, c1crc_go_15, c1crc_go_16]


set_option maxRecDepth 10000 in
set_option maxHeartbeats 2000000 in
theorem c1crcs_3 :
    ([0, 117, 115, 116, 97, 114, 0, 48, 48, 0, 0, 0, 0, 0, 0, 0, 0, 0, 0, 0, 0, 0, 0, 0, 0, 0, 0, 0, 0, 0, 0, 0, 0, 0, 0, 0, 0, 0, 0, 0, 0, 0, 0, 0, 0, 0, 0, 0, 0, 0, 0, 0, 0, 0, 0, 0, 0, 0, 0, 0, 0, 0, 0, 0, 0, 0, 0, 0, 0, 0, 0, 0, 0, 48, 48, 48, 48, 48, 48, 48, 0, 48, 48, 48, 48, 48, 48, 48, 0, 0, 0, 0, 0, 0, 0, 0, 0, 0, 0, 0, 0, 0, 0, 0, 0, 0, 0, 0, 0, 0, 0, 0, 0, 0, 0, 0, 0, 0, 0, 0, 0, 0, 0, 0, 0, 0, 0, 0] : List Nat) =
      [0, 117, 115, 116, 97, 114, 0, 48, 48, 0, 0, 0, 0, 0, 0, 0] ++ [0, 0, 0, 0, 0, 0, 0, 0, 0, 0, 0, 0, 0, 0, 0, 0] ++ [0, 0, 0, 0, 0, 0, 0, 0, 0, 0, 0, 0, 0, 0, 0, 0] ++ [0, 0, 0, 0, 0, 0, 0, 0, 0, 0, 0, 0, 0, 0, 0, 0] ++ [0, 0, 0, 0, 0, 0, 0, 0, 0, 48, 48, 48, 48, 48, 48, 48] ++ [0, 48, 48, 48, 48, 48, 48, 48, 0, 0, 0, 0, 0, 0, 0, 0] ++ [0, 0, 0, 0, 0, 0, 0, 0, 0, 0, 0, 0, 0, 0, 0, 0] ++ [0, 0, 0, 0, 0, 0, 0, 0, 0, 0, 0, 0, 0, 0, 0, 0] := by
  rfl


set_option maxRecDepth 10000 in
set_option maxHeartbeats 2000000 in
theorem c1crcb_3 :
    List.foldl crcByte 1065215610 [0, 117, 115, 116, 97, 114, 0, 48, 48, 0, 0, 0, 0, 0, 0, 0, 0, 0, 0, 0, 0, 0, 0, 0, 0, 0, 0, 0, 0, 0, 0, 0, 0, 0, 0, 0, 0, 0, 0, 0, 0, 0, 0, 0, 0, 0, 0, 0, 0, 0, 0, 0, 0, 0, 0, 0, 0, 0, 0, 0, 0, 0, 0, 0, 0, 0, 0, 0, 0, 0, 0, 0, 0, 48, 48, 48, 48, 48, 48, 48, 0, 48, 48, 48, 48, 48, 48, 48, 0, 0, 0, 0, 0, 0, 0, 0, 0, 0, 0, 0, 0, 0, 0, 0, 0, 0, 0, 0, 0, 0, 0, 0, 0, 0, 0, 0, 0, 0, 0, 0, 0, 0, 0, 0, 0, 0, 0, 0] = 3519864030 := by
  rw [c1crcs_3, List.foldl_append, List.foldl_append, List.foldl_append, List.foldl_append, List.foldl_append, List.foldl_append, List.foldl_append, c1crc_go_17, c1crc_go_18, c1crc_go_19, c1crc_go_20, c1crc_go_21, c1crc_go_22, c1crc_go_23, c1crc_go_24]


set_option maxRecDepth 10000 in
set_option maxHeartbeats 2000000 in
theorem c1crcs_4 :
    ([0, 0, 0, 0, 0, 0, 0, 0, 0, 0, 0, 0, 0, 0, 0, 0, 0, 0, 0, 0, 0, 0, 0, 0, 0, 0, 0, 0, 0, 0, 0, 0, 0, 0, 0, 0, 0, 0, 0, 0, 0, 0, 0, 0, 0, 0, 0, 0, 0, 0, 0, 0, 0, 0, 0, 0, 0, 0, 0, 0, 0, 0, 0, 0, 0, 0, 0, 0, 0, 0, 0, 0, 0, 0, 0, 0, 0, 0, 0, 0, 0, 0, 0, 0, 0, 0, 0, 0, 0, 0, 0, 0, 0, 0, 0, 0, 0, 0, 0, 0, 0, 0, 0, 0, 0, 0, 0, 0, 0, 0, 0, 0, 0, 0, 0, 0, 0, 0, 0, 0, 0, 0, 0, 0, 0, 0, 0, 0] : List Nat) =
      [0, 0, 0, 0, 0, 0, 0, 0, 0, 0, 0, 0, 0, 0, 0, 0] ++ [0, 0, 0, 0, 0, 0, 0, 0, 0, 0, 0, 0, 0, 0, 0, 0] ++ [0, 0, 0, 0, 0, 0, 0, 0, 0, 0, 0, 0, 0, 0, 0, 0] ++ [0, 0, 0, 0, 0, 0, 0, 0, 0, 0, 0, 0, 0, 0, 0, 0] ++ [0, 0, 0, 0, 0, 0, 0, 0, 0, 0, 0, 0, 0, 0, 0, 0] ++ [0, 0, 0, 0, 0, 0, 0, 0, 0, 0, 0, 0, 0, 0, 0, 0] ++ [0, 0, 0, 0, 0, 0, 0, 0, 0, 0, 0, 0, 0, 0, 0, 0] ++ [0, 0, 0, 0, 0, 0, 0, 0, 0, 0, 0, 0, 0, 0, 0, 0] := by
  rfl


set_option maxRecDepth 10000 in
set_option maxHeartbeats 2000000 in
theorem c1crcb_4 :
    List.foldl crcByte 3519864030 [0, 0, 0, 0, 0, 0, 0, 0, 0, 0, 0, 0, 0, 0, 0, 0, 0, 0, 0, 0, 0, 0, 0, 0, 0, 0, 0, 0, 0, 0, 0, 0, 0, 0, 0, 0, 0, 0, 0, 0, 0, 0, 0, 0, 0, 0, 0, 0, 0, 0, 0, 0, 0, 0, 0, 0, 0, 0, 0, 0, 0, 0, 0, 0, 0, 0, 0, 0, 0, 0, 0, 0, 0, 0, 0, 0, 0, 0, 0, 0, 0, 0, 0, 0, 0, 0, 0, 0, 0, 0, 0, 0, 0, 0, 0, 0, 0, 0, 0, 0, 0, 0, 0, 0, 0, 0, 0, 0, 0, 0, 0, 0, 0, 0, 0, 0, 0, 0, 0, 0, 0, 0, 0, 0, 0, 0, 0, 0] = 645170453 := by
  rw [c1crcs_4, List.foldl_append, List.foldl_append, List.foldl_append, List.foldl_append, List.foldl_append, List.foldl_append, List.foldl_append, c1crc_go_25, c1crc_go_26, c1crc_go_27, c1crc_go_28, c1crc_go_29, c1crc_go_30, c1crc_go_31, c1crc_go_32]


set_option maxRecDepth 10000 in
set_option maxHeartbeats 2000000 in
theorem c1crcs_5 :
    ([0, 0, 0, 0, 0, 0, 0, 0, 0, 0, 0, 0, 0, 0, 0, 0, 0, 0, 0, 0, 0, 0, 0, 0, 0, 0, 0, 0, 0, 0, 0, 0, 0, 0, 0, 0, 0, 0, 0, 0, 0, 0, 0, 0, 0, 0, 0, 0, 0, 0, 0, 0, 0, 0, 0, 0, 0, 0, 0, 0, 0, 0, 0, 0, 0, 0, 0, 0, 0, 0, 0, 0, 0, 0, 0, 0, 0, 0, 0, 0, 0, 0, 0, 0, 0, 0, 0, 0, 0, 0, 0, 0, 0, 0, 0, 0, 0, 0, 0, 0, 0, 0, 0, 0, 0, 0, 0, 0, 0, 0, 0, 0, 0, 0, 0, 0, 0, 0, 0, 0, 0, 0, 0, 0, 0, 0, 0, 0] : List Nat) =
      [0, 0, 0, 0, 0, 0, 0, 0, 0, 0, 0, 0, 0, 0, 0, 0] ++ [0, 0, 0, 0, 0, 0, 0, 0, 0, 0, 0, 0, 0, 0, 0, 0] ++ [0, 0, 0, 0, 0, 0, 0, 0, 0, 0, 0, 0, 0, 0, 0, 0] ++ [0, 0, 0, 0, 0, 0, 0, 0, 0, 0, 0, 0, 0, 0, 0, 0] ++ [0, 0, 0, 0, 0, 0, 0, 0, 0, 0, 0, 0, 0, 0, 0, 0] ++ [0, 0, 0, 0, 0, 0, 0, 0, 0, 0, 0, 0, 0, 0, 0, 0] ++ [0, 0, 0, 0, 0, 0, 0, 0, 0, 0, 0, 0, 0, 0, 0, 0] ++ [0, 0, 0, 0, 0, 0, 0, 0, 0, 0, 0, 0, 0, 0, 0, 0] := by
  rfl


set_option maxRecDepth 10000 in
set_option maxHeartbeats 2000000 in
theorem c1crcb_5 :
    List.foldl crcByte 645170453 [0, 0, 0, 0, 0, 0, 0, 0, 0, 0, 0, 0, 0, 0, 0, 0, 0, 0, 0, 0, 0, 0, 0, 0, 0, 0, 0, 0, 0, 0, 0, 0, 0, 0, 0, 0, 0, 0, 0, 0, 0, 0, 0, 0, 0, 0, 0, 0, 0, 0, 0, 0, 0, 0, 0, 0, 0, 0, 0, 0, 0, 0, 0, 0, 0, 0, 0, 0, 0, 0, 0, 0, 0, 0, 0, 0, 0, 0, 0, 0, 0, 0, 0, 0, 0, 0, 0, 0, 0, 0, 0, 0, 0, 0, 0, 0, 0, 0, 0, 0, 0, 0, 0, 0, 0, 0, 0, 0, 0, 0, 0, 0, 0, 0, 0, 0, 0, 0, 0, 0, 0, 0, 0, 0, 0, 0, 0, 0] = 2440761453 := by
  rw [c1crcs_5, List.foldl_append, List.foldl_append, List.foldl_append, List.foldl_append, List.foldl_append, List.foldl_append, List.foldl_append, c1crc_go_33, c1crc_go_34, c1crc_go_35, c1crc_go_36, c1crc_go_37, c1crc_go_38, c1crc_go_39, c1crc_go_40]


set_option maxRecDepth 10000 in
set_option maxHeartbeats 2000000 in
theorem c1crcs_6 :
    ([0, 0, 0, 0, 0, 0, 0, 0, 0, 0, 0, 0, 0, 0, 0, 0, 0, 0, 0, 0, 0, 0, 0, 0, 0, 0, 0, 0, 0, 0, 0, 0, 0, 0, 0, 0, 0, 0, 0, 0, 0, 0, 0, 0, 0, 0, 0, 0, 0, 0, 0, 0, 0, 0, 0, 0, 0, 0, 0, 0, 0, 0, 0, 0, 0, 0, 0, 0, 0, 0, 0, 0, 0, 0, 0, 0, 0, 0, 0, 0, 0, 0, 0, 0, 0, 0, 0, 0, 0, 0, 0, 0, 0, 0, 0, 0, 0, 0, 0, 0, 0, 0, 0, 0, 0, 0, 0, 0, 0, 0, 0, 0, 0, 0, 0, 0, 0, 0, 0, 0, 0, 0, 0, 0, 0, 0, 0, 0] : List Nat) =
      [0, 0, 0, 0, 0, 0, 0, 0, 0, 0, 0, 0, 0, 0, 0, 0] ++ [0, 0, 0, 0, 0, 0, 0, 0, 0, 0, 0, 0, 0, 0, 0, 0] ++ [0, 0, 0, 0, 0, 0, 0, 0, 0, 0, 0, 0, 0, 0, 0, 0] ++ [0, 0, 0, 0, 0, 0, 0, 0, 0, 0, 0, 0, 0, 0, 0, 0] ++ [0, 0, 0, 0, 0, 0, 0, 0, 0, 0, 0, 0, 0, 0, 0, 0] ++ [0, 0, 0, 0, 0, 0, 0, 0, 0, 0, 0, 0, 0, 0, 0, 0] ++ [0, 0, 0, 0, 0, 0, 0, 0, 0, 0, 0, 0, 0, 0, 0, 0] ++ [0, 0, 0, 0, 0, 0, 0, 0, 0, 0, 0, 0, 0, 0, 0, 0] := by
  rfl


set_option maxRecDepth 10000 in
set_option maxHeartbeats 2000000 in
theorem c1crcb_6 :
    List.foldl crcByte 2440761453 [0, 0, 0, 0, 0, 0, 0, 0, 0, 0, 0, 0, 0, 0, 0, 0, 0, 0, 0, 0, 0, 0, 0, 0, 0, 0, 0, 0, 0, 0, 0, 0, 0, 0, 0, 0, 0, 0, 0, 0, 0, 0, 0, 0, 0, 0, 0, 0, 0, 0, 0, 0, 0, 0, 0, 0, 0, 0, 0, 0, 0, 0, 0, 0, 0, 0, 0, 0, 0, 0, 0, 0, 0, 0, 0, 0, 0, 0, 0, 0, 0, 0, 0, 0, 0, 0, 0, 0, 0, 0, 0, 0, 0, 0, 0, 0, 0, 0, 0, 0, 0, 0, 0, 0, 0, 0, 0, 0, 0, 0, 0, 0, 0, 0, 0, 0, 0, 0, 0, 0, 0, 0, 0, 0, 0, 0, 0, 0] = 2975141924 := by
  rw [c1crcs_6, List.foldl_append, List.foldl_append, List.foldl_append, List.foldl_append, List.foldl_append, List.foldl_append, List.foldl_append, c1crc_go_41, c1crc_go_42, c1crc_go_43, c1crc_go_44, c1crc_go_45, c1crc_go_46, c1crc_go_47, c1crc_go_48]


set_option maxRecDepth 10000 in
set_option maxHeartbeats 2000000 in
theorem c1crcs_7 :
    ([0, 0, 0, 0, 0, 0, 0, 0, 0, 0, 0, 0, 0, 0, 0, 0, 0, 0, 0, 0, 0, 0, 0, 0, 0, 0, 0, 0, 0, 0, 0, 0, 0, 0, 0, 0, 0, 0, 0, 0, 0, 0, 0, 0, 0, 0, 0, 0, 0, 0, 0, 0, 0, 0, 0, 0, 0, 0, 0, 0, 0, 0, 0, 0, 0, 0, 0, 0, 0, 0, 0, 0, 0, 0, 0, 0, 0, 0, 0, 0, 0, 0, 0, 0, 0, 0, 0, 0, 0, 0, 0, 0, 0, 0, 0, 0, 0, 0, 0, 0, 0, 0, 0, 0, 0, 0, 0, 0, 0, 0, 0, 0, 0, 0, 0, 0, 0, 0, 0, 0, 0, 0, 0, 0, 0, 0, 0, 0] : List Nat) =
      [0, 0, 0, 0, 0, 0, 0, 0, 0, 0, 0, 0, 0, 0, 0, 0] ++ [0, 0, 0, 0, 0, 0, 0, 0, 0, 0, 0, 0, 0, 0, 0, 0] ++ [0, 0, 0, 0, 0, 0, 0, 0, 0, 0, 0, 0, 0, 0, 0, 0] ++ [0, 0, 0, 0, 0, 0, 0, 0, 0, 0, 0, 0, 0, 0, 0, 0] ++ [0, 0, 0, 0, 0, 0, 0, 0, 0, 0, 0, 0, 0, 0, 0, 0] ++ [0, 0, 0, 0, 0, 0, 0, 0, 0, 0, 0, 0, 0, 0, 0, 0] ++ [0, 0, 0, 0, 0, 0, 0, 0, 0, 0, 0, 0, 0, 0, 0, 0] ++ [0, 0, 0, 0, 0, 0, 0, 0, 0, 0, 0, 0, 0, 0, 0, 0] := by
  rfl


set_option maxRecDepth 10000 in
set_option maxHeartbeats 2000000 in
theorem c1crcb_7 :
    List.foldl crcByte 2975141924 [0, 0, 0, 0, 0, 0, 0, 0, 0, 0, 0, 0, 0, 0, 0, 0, 0, 0, 0, 0, 0, 0, 0, 0, 0, 0, 0, 0, 0, 0, 0, 0, 0, 0, 0, 0, 0, 0, 0, 0, 0, 0, 0, 0, 0, 0, 0, 0, 0, 0, 0, 0, 0, 0, 0, 0, 0, 0, 0, 0, 0, 0, 0, 0, 0, 0, 0, 0, 0, 0, 0, 0, 0, 0, 0, 0, 0, 0, 0, 0, 0, 0, 0, 0, 0, 0, 0, 0, 0, 0, 0, 0, 0, 0, 0, 0, 0, 0, 0, 0, 0, 0, 0, 0, 0, 0, 0, 0, 0, 0, 0, 0, 0, 0, 0, 0, 0, 0, 0, 0, 0, 0, 0, 0, 0, 0, 0, 0] = 2804854545 := by
  rw [c1crcs_7, List.foldl_append, List.foldl_append, List.foldl_append, List.foldl_append, List.foldl_append, List.foldl_append, List.foldl_append, c1crc_go_49, c1crc_go_50, c1crc_go_51, c1crc_go_52, c1crc_go_53, c1crc_go_54, c1crc_go_55, c1crc_go_56]


set_option maxRecDepth 10000 in
set_option maxHeartbeats 2000000 in
theorem c1crcs_8 :
    ([0, 0, 0, 0, 0, 0, 0, 0, 0, 0, 0, 0, 0, 0, 0, 0, 0, 0, 0, 0, 0, 0, 0, 0, 0, 0, 0, 0, 0, 0, 0, 0, 0, 0, 0, 0, 0, 0, 0, 0, 0, 0, 0, 0, 0, 0, 0, 0, 0, 0, 0, 0, 0, 0, 0, 0, 0, 0, 0, 0, 0, 0, 0, 0, 0, 0, 0, 0, 0, 0, 0, 0, 0, 0, 0, 0, 0, 0, 0, 0, 0, 0, 0, 0, 0, 0, 0, 0, 0, 0, 0, 0, 0, 0, 0, 0, 0, 0, 0, 0, 0, 0, 0, 0, 0, 0, 0, 0, 0, 0, 0, 0, 0, 0, 0, 0, 0, 0, 0, 0, 0, 0, 0, 0, 0, 0, 0, 0] : List Nat) =
      [0, 0, 0, 0, 0, 0, 0, 0, 0, 0, 0, 0, 0, 0, 0, 0] ++ [0, 0, 0, 0, 0, 0, 0, 0, 0, 0, 0, 0, 0, 0, 0, 0] ++ [0, 0, 0, 0, 0, 0, 0, 0, 0, 0, 0, 0, 0, 0, 0, 0] ++ [0, 0, 0, 0, 0, 0, 0, 0, 0, 0, 0, 0, 0, 0, 0, 0] ++ [0, 0, 0, 0, 0, 0, 0, 0, 0, 0, 0, 0, 0, 0, 0, 0] ++ [0, 0, 0, 0, 0, 0, 0, 0, 0, 0, 0, 0, 0, 0, 0, 0] ++ [0, 0, 0, 0, 0, 0, 0, 0, 0, 0, 0, 0, 0, 0, 0, 0] ++ [0, 0, 0, 0, 0, 0, 0, 0, 0, 0, 0, 0, 0, 0, 0, 0] := by
  rfl


set_option maxRecDepth 10000 in
set_option maxHeartbeats 2000000 in
theorem c1crcb_8 :
    List.foldl crcByte 2804854545 [0, 0, 0, 0, 0, 0, 0, 0, 0, 0, 0, 0, 0, 0, 0, 0, 0, 0, 0, 0, 0, 0, 0, 0, 0, 0, 0, 0, 0, 0, 0, 0, 0, 0, 0, 0, 0, 0, 0, 0, 0, 0, 0, 0, 0, 0, 0, 0, 0, 0, 0, 0, 0, 0, 0, 0, 0, 0, 0, 0, 0, 0, 0, 0, 0, 0, 0, 0, 0, 0, 0, 0, 0, 0, 0, 0, 0, 0, 0, 0, 0, 0, 0, 0, 0, 0, 0, 0, 0, 0, 0, 0, 0, 0, 0, 0, 0, 0, 0, 0, 0, 0, 0, 0, 0, 0, 0, 0, 0, 0, 0, 0, 0, 0, 0, 0, 0, 0, 0, 0, 0, 0, 0, 0, 0, 0, 0, 0] = 3760473464 := by
  rw [c1crcs_8, List.foldl_append, List.foldl_append, List.foldl_append, List.foldl_append, List.foldl_append, List.foldl_append, List.foldl_append, c1crc_go_57, c1crc_go_58, c1crc_go_59, c1crc_go_60, c1crc_go_61, c1crc_go_62, c1crc_go_63, c1crc_go_64]


set_option maxRecDepth 10000 in
set_option maxHeartbeats 2000000 in
theorem c1crcs_9 :
    ([0, 0, 0, 0, 0, 0, 0, 0, 0, 0, 0, 0, 0, 0, 0, 0, 0, 0, 0, 0, 0, 0, 0, 0, 0, 0, 0, 0, 0, 0, 0, 0, 0, 0, 0, 0, 0, 0, 0, 0, 0, 0, 0, 0, 0, 0, 0, 0, 0, 0, 0, 0, 0, 0, 0, 0, 0, 0, 0, 0, 0, 0, 0, 0, 0, 0, 0, 0, 0, 0, 0, 0, 0, 0, 0, 0, 0, 0, 0, 0, 0, 0, 0, 0, 0, 0, 0, 0, 0, 0, 0, 0, 0, 0, 0, 0, 0, 0, 0, 0, 0, 0, 0, 0, 0, 0, 0, 0, 0, 0, 0, 0, 0, 0, 0, 0, 0, 0, 0, 0, 0, 0, 0, 0, 0, 0, 0, 0] : List Nat) =
      [0, 0, 0, 0, 0, 0, 0, 0, 0, 0, 0, 0, 0, 0, 0, 0] ++ [0, 0, 0, 0, 0, 0, 0, 0, 0, 0, 0, 0, 0, 0, 0, 0] ++ [0, 0, 0, 0, 0, 0, 0, 0, 0, 0, 0, 0, 0, 0, 0, 0] ++ [0, 0, 0, 0, 0, 0, 0, 0, 0, 0, 0, 0, 0, 0, 0, 0] ++ [0, 0, 0, 0, 0, 0, 0, 0, 0, 0, 0, 0, 0, 0, 0, 0] ++ [0, 0, 0, 0, 0, 0, 0, 0, 0, 0, 0, 0, 0, 0, 0, 0] ++ [0, 0, 0, 0, 0, 0, 0, 0, 0, 0, 0, 0, 0, 0, 0, 0] ++ [0, 0, 0, 0, 0, 0, 0, 0, 0, 0, 0, 0, 0, 0, 0, 0] := by
  rfl


set_option maxRecDepth 10000 in
set_option maxHeartbeats 2000000 in
theorem c1crcb_9 :
    List.foldl crcByte 3760473464 [0, 0, 0, 0, 0, 0, 0, 0, 0, 0, 0, 0, 0, 0, 0, 0, 0, 0, 0, 0, 0, 0, 0, 0, 0, 0, 0, 0, 0, 0, 0, 0, 0, 0, 0, 0, 0, 0, 0, 0, 0, 0, 0, 0, 0, 0, 0, 0, 0, 0, 0, 0, 0, 0, 0, 0, 0, 0, 0, 0, 0, 0, 0, 0, 0, 0, 0, 0, 0, 0, 0, 0, 0, 0, 0, 0, 0, 0, 0, 0, 0, 0, 0, 0, 0, 0, 0, 0, 0, 0, 0, 0, 0, 0, 0, 0, 0, 0, 0, 0, 0, 0, 0, 0, 0, 0, 0, 0, 0, 0, 0, 0, 0, 0, 0, 0, 0, 0, 0, 0, 0, 0, 0, 0, 0, 0, 0, 0] = 2867972830 := by
  rw [c1crcs_9, List.foldl_append, List.foldl_append, List.foldl_append, List.foldl_append, List.foldl_append, List.foldl_append, List.foldl_append, c1crc_go_65, c1crc_go_66, c1crc_go_67, c1crc_go_68, c1crc_go_69, c1crc_go_70, c1crc_go_71, c1crc_go_72]


set_option maxRecDepth 10000 in
set_option maxHeartbeats 2000000 in
theorem c1crcs_10 :
    ([0, 0, 0, 0, 0, 0, 0, 0, 0, 0, 0, 0, 0, 0, 0, 0, 0, 0, 0, 0, 0, 0, 0, 0, 0, 0, 0, 0, 0, 0, 0, 0, 0, 0, 0, 0, 0, 0, 0, 0, 0, 0, 0, 0, 0, 0, 0, 0, 0, 0, 0, 0, 0, 0, 0, 0, 0, 0, 0, 0, 0, 0, 0, 0, 0, 0, 0, 0, 0, 0, 0, 0, 0, 0, 0, 0, 0, 0, 0, 0, 0, 0, 0, 0, 0, 0, 0, 0, 0, 0, 0, 0, 0, 0, 0, 0, 0, 0, 0, 0, 0, 0, 0, 0, 0, 0, 0, 0, 0, 0, 0, 0, 0, 0, 0, 0, 0, 0, 0, 0, 0, 0, 0, 0, 0, 0, 0, 0] : List Nat) =
      [0, 0, 0, 0, 0, 0, 0, 0, 0, 0, 0, 0, 0, 0, 0, 0] ++ [0, 0, 0, 0, 0, 0, 0, 0, 0, 0, 0, 0, 0, 0, 0, 0] ++ [0, 0, 0, 0, 0, 0, 0, 0, 0, 0, 0, 0, 0, 0, 0, 0] ++ [0, 0, 0, 0, 0, 0, 0, 0, 0, 0, 0, 0, 0, 0, 0, 0] ++ [0, 0, 0, 0, 0, 0, 0, 0, 0, 0, 0, 0, 0, 0, 0, 0] ++ [0, 0, 0, 0, 0, 0, 0, 0, 0, 0, 0, 0, 0, 0, 0, 0] ++ [0, 0, 0, 0, 0, 0, 0, 0, 0, 0, 0, 0, 0, 0, 0, 0] ++ [0, 0, 0, 0, 0, 0, 0, 0, 0, 0, 0, 0, 0, 0, 0, 0] := by
  rfl


set_option maxRecDepth 10000 in
set_option maxHeartbeats 2000000 in
theorem c1crcb_10 :
    List.foldl crcByte 2867972830 [0, 0, 0, 0, 0, 0, 0, 0, 0, 0, 0, 0, 0, 0, 0, 0, 0, 0, 0, 0, 0, 0, 0, 0, 0, 0, 0, 0, 0, 0, 0, 0, 0, 0, 0, 0, 0, 0, 0, 0, 0, 0, 0, 0, 0, 0, 0, 0, 0, 0, 0, 0, 0, 0, 0, 0, 0, 0, 0, 0, 0, 0, 0, 0, 0, 0, 0, 0, 0, 0, 0, 0, 0, 0, 0, 0, 0, 0, 0, 0, 0, 0, 0, 0, 0, 0, 0, 0, 0, 0, 0, 0, 0, 0, 0, 0, 0, 0, 0, 0, 0, 0, 0, 0, 0, 0, 0, 0, 0, 0, 0, 0, 0, 0, 0, 0, 0, 0, 0, 0, 0, 0, 0, 0, 0, 0, 0, 0] = 3326145563 := by
  rw [c1crcs_10, List.foldl_append, List.foldl_append, List.foldl_append, List.foldl_append, List.foldl_append, List.foldl_append, List.foldl_append, c1crc_go_73, c1crc_go_74, c1crc_go_75, c1crc_go_76, c1crc_go_77, c1crc_go_78, c1crc_go_79, c1crc_go_80]


set_option maxRecDepth 10000 in
set_option maxHeartbeats 2000000 in
theorem c1crcs_11 :
    ([0, 0, 0, 0, 0, 0, 0, 0, 0, 0, 0, 0, 0, 0, 0, 0, 0, 0, 0, 0, 0, 0, 0, 0, 0, 0, 0, 0, 0, 0, 0, 0, 0, 0, 0, 0, 0, 0, 0, 0, 0, 0, 0, 0, 0, 0, 0, 0, 0, 0, 0, 0, 0, 0, 0, 0, 0, 0, 0, 0, 0, 0, 0, 0, 0, 0, 0, 0, 0, 0, 0, 0, 0, 0, 0, 0, 0, 0, 0, 0, 0, 0, 0, 0, 0, 0, 0, 0, 0, 0, 0, 0, 0, 0, 0, 0, 0, 0, 0, 0, 0, 0, 0, 0, 0, 0, 0, 0, 0, 0, 0, 0, 0, 0, 0, 0, 0, 0, 0, 0, 0, 0, 0, 0, 0, 0, 0, 0] : List Nat) =
      [0, 0, 0, 0, 0, 0, 0, 0, 0, 0, 0, 0, 0, 0, 0, 0] ++ [0, 0, 0, 0, 0, 0, 0, 0, 0, 0, 0, 0, 0, 0, 0, 0] ++ [0, 0, 0, 0, 0, 0, 0, 0, 0, 0, 0, 0, 0, 0, 0, 0] ++ [0, 0, 0, 0, 0, 0, 0, 0, 0, 0, 0, 0, 0, 0, 0, 0] ++ [0, 0, 0, 0, 0, 0, 0, 0, 0, 0, 0, 0, 0, 0, 0, 0] ++ [0, 0, 0, 0, 0, 0, 0, 0, 0, 0, 0, 0, 0, 0, 0, 0] ++ [0, 0, 0, 0, 0, 0, 0, 0, 0, 0, 0, 0, 0, 0, 0, 0] ++ [0, 0, 0, 0, 0, 0, 0, 0, 0, 0, 0, 0, 0, 0, 0, 0] := by
  rfl


set_option maxRecDepth 10000 in
set_option maxHeartbeats 2000000 in
theorem c1crcb_11 :
    List.foldl crcByte 3326145563 [0, 0, 0, 0, 0, 0, 0, 0, 0, 0, 0, 0, 0, 0, 0, 0, 0, 0, 0, 0, 0, 0, 0, 0, 0, 0, 0, 0, 0, 0, 0, 0, 0, 0, 0, 0, 0, 0, 0, 0, 0, 0, 0, 0, 0, 0, 0, 0, 0, 0, 0, 0, 0, 0, 0, 0, 0, 0, 0, 0, 0, 0, 0, 0, 0, 0, 0, 0, 0, 0, 0, 0, 0, 0, 0, 0, 0, 0, 0, 0, 0, 0, 0, 0, 0, 0, 0, 0, 0, 0, 0, 0, 0, 0, 0, 0, 0, 0, 0, 0, 0, 0, 0, 0, 0, 0, 0, 0, 0, 0, 0, 0, 0, 0, 0, 0, 0, 0, 0, 0, 0, 0, 0, 0, 0, 0, 0, 0] = 1126224942 := by
  rw [c1crcs_11, List.foldl_append, List.foldl_append, List.foldl_append, List.foldl_append, List.foldl_append, List.foldl_append, List.foldl_append, c1crc_go_81, c1crc_go_82, c1crc_go_83, c1crc_go_84, c1crc_go_85, c1crc_go_86, c1crc_go_87, c1crc_go_88]


set_option maxRecDepth 10000 in
set_option maxHeartbeats 2000000 in
theorem c1crcs_12 :
    ([0, 0, 0, 0, 0, 0, 0, 0, 0, 0, 0, 0, 0, 0, 0, 0, 0, 0, 0, 0, 0, 0, 0, 0, 0, 0, 0, 0, 0, 0, 0, 0, 0, 0, 0, 0, 0, 0, 0, 0, 0, 0, 0, 0, 0, 0, 0, 0, 0, 0, 0, 0, 0, 0, 0, 0, 0, 0, 0, 0, 0, 0, 0, 0, 0, 0, 0, 0, 0, 0, 0, 0, 0, 0, 0, 0, 0, 0, 0, 0, 0, 0, 0, 0, 0, 0, 0, 0, 0, 0, 0, 0, 0, 0, 0, 0, 0, 0, 0, 0, 0, 0, 0, 0, 0, 0, 0, 0, 0, 0, 0, 0, 0, 0, 0, 0, 0, 0, 0, 0, 0, 0, 0, 0, 0, 0, 0, 0] : List Nat) =
      [0, 0, 0, 0, 0, 0, 0, 0, 0, 0, 0, 0, 0, 0, 0, 0] ++ [0, 0, 0, 0, 0, 0, 0, 0, 0, 0, 0, 0, 0, 0, 0, 0] ++ [0, 0, 0, 0, 0, 0, 0, 0, 0, 0, 0, 0, 0, 0, 0, 0] ++ [0, 0, 0, 0, 0, 0, 0, 0, 0, 0, 0, 0, 0, 0, 0, 0] ++ [0, 0, 0, 0, 0, 0, 0, 0, 0, 0, 0, 0, 0, 0, 0, 0] ++ [0, 0, 0, 0, 0, 0, 0, 0, 0, 0, 0, 0, 0, 0, 0, 0] ++ [0, 0, 0, 0, 0, 0, 0, 0, 0, 0, 0, 0, 0, 0, 0, 0] ++ [0, 0, 0, 0, 0, 0, 0, 0, 0, 0, 0, 0, 0, 0, 0, 0] := by
  rfl


set_option maxRecDepth 10000 in
set_option maxHeartbeats 2000000 in
theorem c1crcb_12 :
    List.foldl crcByte 1126224942 [0, 0, 0, 0, 0, 0, 0, 0, 0, 0, 0, 0, 0, 0, 0, 0, 0, 0, 0, 0, 0, 0, 0, 0, 0, 0, 0, 0, 0, 0, 0, 0, 0, 0, 0, 0, 0, 0, 0, 0, 0, 0, 0, 0, 0, 0, 0, 0, 0, 0, 0, 0, 0, 0, 0, 0, 0, 0, 0, 0, 0, 0, 0, 0, 0, 0, 0, 0, 0, 0, 0, 0, 0, 0, 0, 0, 0, 0, 0, 0, 0, 0, 0, 0, 0, 0, 0, 0, 0, 0, 0, 0, 0, 0, 0, 0, 0, 0, 0, 0, 0, 0, 0, 0, 0, 0, 0, 0, 0, 0, 0, 0, 0, 0, 0, 0, 0, 0, 0, 0, 0, 0, 0, 0, 0, 0, 0, 0] = 4280792155 := by
  rw [c1crcs_12, List.foldl_append, List.foldl_append, List.foldl_append, List.foldl_append, List.foldl_append, List.foldl_append, List.foldl_append, c1crc_go_89, c1crc_go_90, c1crc_go_91, c1crc_go_92, c1crc_go_93, c1crc_go_94, c1crc_go_95, c1crc_go_96]


set_option maxRecDepth 10000 in
set_option maxHeartbeats 2000000 in
theorem c1crc :
    crc32 [97, 0, 0, 0, 0, 0, 0, 0, 0, 0, 0, 0, 0, 0, 0, 0, 0, 0, 0, 0, 0, 0, 0, 0, 0, 0, 0, 0, 0, 0, 0, 0, 0, 0, 0, 0, 0, 0, 0, 0, 0, 0, 0, 0, 0, 0, 0, 0, 0, 0, 0, 0, 0, 0, 0, 0, 0, 0, 0, 0, 0, 0, 0, 0, 0, 0, 0, 0, 0, 0, 0, 0, 0, 0, 0, 0, 0, 0, 0, 0, 0, 0, 0, 0, 0, 0, 0, 0, 0, 0, 0, 0, 0, 0, 0, 0, 0, 0, 0, 0, 48, 48, 48, 48, 54, 52, 52, 0, 48, 48, 48, 48, 48, 48, 48, 0, 48, 48, 48, 48, 48, 48, 48, 0, 48, 48, 48, 48, 48, 48, 48, 48, 48, 48, 48, 0, 48, 48, 48, 48, 48, 48, 48, 48, 48, 48, 48, 0, 48, 48, 55, 51, 51, 54, 0, 32, 48, 0, 0, 0, 0, 0, 0, 0, 0, 0, 0, 0, 0, 0, 0, 0, 0, 0, 0, 0, 0, 0, 0, 0, 0, 0, 0, 0, 0, 0, 0, 0, 0, 0, 0, 0, 0, 0, 0, 0, 0, 0, 0, 0, 0, 0, 0, 0, 0, 0, 0, 0, 0, 0, 0, 0, 0, 0, 0, 0, 0, 0, 0, 0, 0, 0, 0, 0, 0, 0, 0, 0, 0, 0, 0, 0, 0, 0, 0, 0, 0, 0, 0, 0, 0, 0, 0, 0, 0, 0, 0, 0, 0, 0, 0, 0, 0, 0, 0, 0, 0, 117, 115, 116, 97, 114, 0, 48, 48, 0, 0, 0, 0, 0, 0, 0, 0, 0, 0, 0, 0, 0, 0, 0, 0, 0, 0, 0, 0, 0, 0, 0, 0, 0, 0, 0, 0, 0, 0, 0, 0, 0, 0, 0, 0, 0, 0, 0, 0, 0, 0, 0, 0, 0, 0, 0, 0, 0, 0, 0, 0, 0, 0, 0, 0, 0, 0, 0, 0, 0, 0, 0, 0, 48, 48, 48, 48, 48, 48, 48, 0, 48, 48, 48, 48, 48, 48, 48, 0, 0, 0, 0, 0, 0, 0, 0, 0, 0, 0, 0, 0, 0, 0, 0, 0, 0, 0, 0, 0, 0, 0, 0, 0, 0, 0, 0, 0, 0, 0, 0, 0, 0, 0, 0, 0, 0, 0, 0, 0, 0, 0, 0, 0, 0, 0, 0, 0, 0, 0, 0, 0, 0, 0, 0, 0, 0, 0, 0, 0, 0, 0, 0, 0, 0, 0, 0, 0, 0, 0, 0, 0, 0, 0, 0, 0, 0, 0, 0, 0, 0, 0, 0, 0, 0, 0, 0, 0, 0, 0, 0, 0, 0, 0, 0, 0, 0, 0, 0, 0, 0, 0, 0, 0, 0, 0, 0, 0, 0, 0, 0, 0, 0, 0, 0, 0, 0, 0, 0, 0, 0, 0, 0, 0, 0, 0, 0, 0, 0, 0, 0, 0, 0, 0, 0, 0, 0, 0, 0, 0, 0, 0, 0, 0, 0, 0, 0, 0, 0, 0, 0, 0, 0, 0, 0, 0, 0, 0, 0, 0, 0, 0, 0, 0, 0, 0, 0, 0, 0, 0, 0, 0, 0, 0, 0, 0, 0, 0, 0, 0, 0, 0, 0, 0, 0, 0, 0, 0, 0, 0, 0, 0, 0, 0, 0, 0, 0, 0, 0, 0, 0, 0, 0, 0, 0, 0, 0, 0, 0, 0, 0, 0, 0, 0, 0, 0, 0, 0, 0, 0, 0, 0, 0, 0, 0, 0, 0, 0, 0, 0, 0, 0, 0, 0, 0, 0, 0, 0, 0, 0, 0, 0, 0, 0, 0, 0, 0, 0, 0, 0, 0, 0, 0, 0, 0, 0, 0, 0, 0, 0, 0, 0, 0, 0, 0, 0, 0, 0, 0, 0, 0, 0, 0, 0, 0, 0, 0, 0, 0, 0, 0, 0, 0, 0, 0, 0, 0, 0, 0, 0, 0, 0, 0, 0, 0, 0, 0, 0, 0, 0, 0, 0, 0, 0, 0, 0, 0, 0, 0, 0, 0, 0, 0, 0, 0, 0, 0, 0, 0, 0, 0, 0, 0, 0, 0, 0, 0, 0, 0, 0, 0, 0, 0, 0, 0, 0, 0, 0, 0, 0, 0, 0, 0, 0, 0, 0, 0, 0, 0, 0, 0, 0, 0, 0, 0, 0, 0, 0, 0, 0, 0, 0, 0, 0, 0, 0, 0, 0, 0, 0, 0, 0, 0, 0, 0, 0, 0, 0, 0, 0, 0, 0, 0, 0, 0, 0, 0, 0, 0, 0, 0, 0, 0, 0, 0, 0, 0, 0, 0, 0, 0, 0, 0, 0, 0, 0, 0, 0, 0, 0, 0, 0, 0, 0, 0, 0, 0, 0, 0, 0, 0, 0, 0, 0, 0, 0, 0, 0, 0, 0, 0, 0, 0, 0, 0, 0, 0, 0, 0, 0, 0, 0, 0, 0, 0, 0, 0, 0, 0, 0, 0, 0, 0, 0, 0, 0, 0, 0, 0, 0, 0, 0, 0, 0, 0, 0, 0, 0, 0, 0, 0, 0, 0, 0, 0, 0, 0, 0, 0, 0, 0, 0, 0, 0, 0, 0, 0, 0, 0, 0, 0, 0, 0, 0, 0, 0, 0, 0, 0, 0, 0, 0, 0, 0, 0, 0, 0, 0, 0, 0, 0, 0, 0, 0, 0, 0, 0, 0, 0, 0, 0, 0, 0, 0, 0, 0, 0, 0, 0, 0, 0, 0, 0, 0, 0, 0, 0, 0, 0, 0, 0, 0, 0, 0, 0, 0, 0, 0, 0, 0, 0, 0, 0, 0, 0, 0, 0, 0, 0, 0, 0, 0, 0, 0, 0, 0, 0, 0, 0, 0, 0, 0, 0, 0, 0, 0, 0, 0, 0, 0, 0, 0, 0, 0, 0, 0, 0, 0, 0, 0, 0, 0, 0, 0, 0, 0, 0, 0, 0, 0, 0, 0, 0, 0, 0, 0, 0, 0, 0, 0, 0, 0, 0, 0, 0, 0, 0, 0, 0, 0, 0, 0, 0, 0, 0, 0, 0, 0, 0, 0, 0, 0, 0, 0, 0, 0, 0, 0, 0, 0, 0, 0, 0, 0, 0, 0, 0, 0, 0, 0, 0, 0, 0, 0, 0, 0, 0, 0, 0, 0, 0, 0, 0, 0, 0, 0, 0, 0, 0, 0, 0, 0, 0, 0, 0, 0, 0, 0, 0, 0, 0, 0, 0, 0, 0, 0, 0, 0, 0, 0, 0, 0, 0, 0, 0, 0, 0, 0, 0, 0, 0, 0, 0, 0, 0, 0, 0, 0, 0, 0, 0, 0, 0, 0, 0, 0, 0, 0, 0, 0, 0, 0, 0, 0, 0, 0, 0, 0, 0, 0, 0, 0, 0, 0, 0, 0, 0, 0, 0, 0, 0, 0, 0, 0, 0, 0, 0, 0, 0, 0, 0, 0, 0, 0, 0, 0, 0, 0, 0, 0, 0, 0, 0, 0, 0, 0, 0, 0, 0, 0, 0, 0, 0, 0, 0, 0, 0, 0, 0, 0, 0, 0, 0, 0, 0, 0, 0, 0, 0, 0, 0, 0, 0, 0, 0, 0, 0, 0, 0, 0, 0, 0, 0, 0, 0, 0, 0, 0, 0, 0, 0, 0, 0, 0, 0, 0, 0, 0, 0, 0, 0, 0, 0, 0, 0, 0, 0, 0, 0, 0, 0, 0, 0, 0, 0, 0, 0, 0, 0, 0, 0, 0, 0, 0, 0, 0, 0, 0, 0, 0, 0, 0, 0, 0, 0, 0, 0, 0, 0, 0, 0, 0, 0, 0, 0, 0, 0, 0, 0, 0, 0, 0, 0, 0, 0, 0, 0, 0, 0, 0, 0, 0, 0, 0, 0, 0, 0, 0, 0, 0, 0, 0, 0, 0, 0, 0, 0, 0, 0, 0, 0, 0, 0, 0, 0, 0, 0, 0, 0, 0, 0, 0, 0, 0, 0, 0, 0, 0, 0, 0, 0, 0, 0, 0, 0, 0, 0, 0, 0, 0, 0, 0, 0, 0, 0, 0, 0, 0, 0, 0, 0, 0, 0, 0, 0, 0, 0, 0, 0, 0, 0, 0, 0, 0, 0, 0, 0, 0, 0, 0, 0, 0, 0, 0, 0, 0, 0, 0, 0, 0, 0, 0, 0, 0, 0, 0, 0, 0, 0, 0, 0, 0, 0, 0, 0, 0, 0, 0, 0, 0, 0, 0, 0, 0, 0, 0, 0, 0, 0, 0, 0, 0, 0, 0, 0, 0, 0, 0, 0, 0, 0, 0, 0, 0, 0, 0, 0, 0, 0, 0, 0, 0, 0, 0, 0, 0, 0, 0, 0, 0, 0, 0, 0, 0, 0, 0, 0, 0, 0, 0, 0, 0, 0, 0, 0, 0, 0, 0, 0, 0, 0, 0, 0, 0, 0, 0, 0, 0, 0, 0, 0, 0, 0, 0, 0, 0, 0, 0, 0, 0, 0, 0, 0, 0, 0, 0, 0, 0, 0, 0, 0, 0, 0, 0, 0, 0, 0, 0, 0, 0, 0, 0, 0, 0, 0, 0, 0, 0, 0, 0, 0, 0, 0, 0, 0, 0, 0, 0, 0, 0, 0, 0, 0, 0, 0, 0, 0, 0, 0, 0, 0, 0, 0, 0, 0, 0, 0, 0, 0, 0, 0, 0, 0, 0, 0, 0, 0, 0, 0, 0, 0, 0, 0, 0, 0, 0, 0, 0, 0, 0, 0, 0, 0, 0, 0, 0, 0, 0, 0, 0, 0, 0, 0, 0, 0, 0, 0, 0, 0, 0, 0, 0, 0, 0, 0, 0, 0, 0, 0, 0, 0, 0, 0, 0, 0, 0, 0, 0, 0, 0, 0] = 14175140 := by
  rw [c1tar_split, crc32, List.foldl_append, List.foldl_append, List.foldl_append, List.foldl_append, List.foldl_append, List.foldl_append, List.foldl_append, List.foldl_append, List.foldl_append, List.foldl_append, List.foldl_append, c1crcb_1, c1crcb_2, c1crcb_3, c1crcb_4, c1crcb_5, c1crcb_6, c1crcb_7, c1crcb_8, c1crcb_9, c1crcb_10, c1crcb_11, c1crcb_12]
  try rfl


set_option maxRecDepth 10000 in
set_option maxHeartbeats 2000000 in
theorem c1chunk_one :
    chunks 65535 [97, 0, 0, 0, 0, 0, 0, 0, 0, 0, 0, 0, 0, 0, 0, 0, 0, 0, 0, 0, 0, 0, 0, 0, 0, 0, 0, 0, 0, 0, 0, 0, 0, 0, 0, 0, 0, 0, 0, 0, 0, 0, 0, 0, 0, 0, 0, 0, 0, 0, 0, 0, 0, 0, 0, 0, 0, 0, 0, 0, 0, 0, 0, 0, 0, 0, 0, 0, 0, 0, 0, 0, 0, 0, 0, 0, 0, 0, 0, 0, 0, 0, 0, 0, 0, 0, 0, 0, 0, 0, 0, 0, 0, 0, 0, 0, 0, 0, 0, 0, 48, 48, 48, 48, 54, 52, 52, 0, 48, 48, 48, 48, 48, 48, 48, 0, 48, 48, 48, 48, 48, 48, 48, 0, 48, 48, 48, 48, 48, 48, 48, 48, 48, 48, 48, 0, 48, 48, 48, 48, 48, 48, 48, 48, 48, 48, 48, 0, 48, 48, 55, 51, 51, 54, 0, 32, 48, 0, 0, 0, 0, 0, 0, 0, 0, 0, 0, 0, 0, 0, 0, 0, 0, 0, 0, 0, 0, 0, 0, 0, 0, 0, 0, 0, 0, 0, 0, 0, 0, 0, 0, 0, 0, 0, 0, 0, 0, 0, 0, 0, 0, 0, 0, 0, 0, 0, 0, 0, 0, 0, 0, 0, 0, 0, 0, 0, 0, 0, 0, 0, 0, 0, 0, 0, 0, 0, 0, 0, 0, 0, 0, 0, 0, 0, 0, 0, 0, 0, 0, 0, 0, 0, 0, 0, 0, 0, 0, 0, 0, 0, 0, 0, 0, 0, 0, 0, 0, 117, 115, 116, 97, 114, 0, 48, 48, 0, 0, 0, 0, 0, 0, 0, 0, 0, 0, 0, 0, 0, 0, 0, 0, 0, 0, 0, 0, 0, 0, 0, 0, 0, 0, 0, 0, 0, 0, 0, 0, 0, 0, 0, 0, 0, 0, 0, 0, 0, 0, 0, 0, 0, 0, 0, 0, 0, 0, 0, 0, 0, 0, 0, 0, 0, 0, 0, 0, 0, 0, 0, 0, 48, 48, 48, 48, 48, 48, 48, 0, 48, 48, 48, 48, 48, 48, 48, 0, 0, 0, 0, 0, 0, 0, 0, 0, 0, 0, 0, 0, 0, 0, 0, 0, 0, 0, 0, 0, 0, 0, 0, 0, 0, 0, 0, 0, 0, 0, 0, 0, 0, 0, 0, 0, 0, 0, 0, 0, 0, 0, 0, 0, 0, 0, 0, 0, 0, 0, 0, 0, 0, 0, 0, 0, 0, 0, 0, 0, 0, 0, 0, 0, 0, 0, 0, 0, 0, 0, 0, 0, 0, 0, 0, 0, 0, 0, 0, 0, 0, 0, 0, 0, 0, 0, 0, 0, 0, 0, 0, 0, 0, 0, 0, 0, 0, 0, 0, 0, 0, 0, 0, 0, 0, 0, 0, 0, 0, 0, 0, 0, 0, 0, 0, 0, 0, 0, 0, 0, 0, 0, 0, 0, 0, 0, 0, 0, 0, 0, 0, 0, 0, 0, 0, 0, 0, 0, 0, 0, 0, 0, 0, 0, 0, 0, 0, 0, 0, 0, 0, 0, 0, 0, 0, 0, 0, 0, 0, 0, 0, 0, 0, 0, 0, 0, 0, 0, 0, 0, 0, 0, 0, 0, 0, 0, 0, 0, 0, 0, 0, 0, 0, 0, 0, 0, 0, 0, 0, 0, 0, 0, 0, 0, 0, 0, 0, 0, 0, 0, 0, 0, 0, 0, 0, 0, 0, 0, 0, 0, 0, 0, 0, 0, 0, 0, 0, 0, 0, 0, 0, 0, 0, 0, 0, 0, 0, 0, 0, 0, 0, 0, 0, 0, 0, 0, 0, 0, 0, 0, 0, 0, 0, 0, 0, 0, 0, 0, 0, 0, 0, 0, 0, 0, 0, 0, 0, 0, 0, 0, 0, 0, 0, 0, 0, 0, 0, 0, 0, 0, 0, 0, 0, 0, 0, 0, 0, 0, 0, 0, 0, 0, 0, 0, 0, 0, 0, 0, 0, 0, 0, 0, 0, 0, 0, 0, 0, 0, 0, 0, 0, 0, 0, 0, 0, 0, 0, 0, 0, 0, 0, 0, 0, 0, 0, 0, 0, 0, 0, 0, 0, 0, 0, 0, 0, 0, 0, 0, 0, 0, 0, 0, 0, 0, 0, 0, 0, 0, 0, 0, 0, 0, 0, 0, 0, 0, 0, 0, 0, 0, 0, 0, 0, 0, 0, 0, 0, 0, 0, 0, 0, 0, 0, 0, 0, 0, 0, 0, 0, 0, 0, 0, 0, 0, 0, 0, 0, 0, 0, 0, 0, 0, 0, 0, 0, 0, 0, 0, 0, 0, 0, 0, 0, 0, 0, 0, 0, 0, 0, 0, 0, 0, 0, 0, 0, 0, 0, 0, 0, 0, 0, 0, 0, 0, 0, 0, 0, 0, 0, 0, 0, 0, 0, 0, 0, 0, 0, 0, 0, 0, 0, 0, 0, 0, 0, 0, 0, 0, 0, 0, 0, 0, 0, 0, 0, 0, 0, 0, 0, 0, 0, 0, 0, 0, 0, 0, 0, 0, 0, 0, 0, 0, 0, 0, 0, 0, 0, 0, 0, 0, 0, 0, 0, 0, 0, 0, 0, 0, 0, 0, 0, 0, 0, 0, 0, 0, 0, 0, 0, 0, 0, 0, 0, 0, 0, 0, 0, 0, 0, 0, 0, 0, 0, 0, 0, 0, 0, 0, 0, 0, 0, 0, 0, 0, 0, 0, 0, 0, 0, 0, 0, 0, 0, 0, 0, 0, 0, 0, 0, 0, 0, 0, 0, 0, 0, 0, 0, 0, 0, 0, 0, 0, 0, 0, 0, 0, 0, 0, 0, 0, 0, 0, 0, 0, 0, 0, 0, 0, 0, 0, 0, 0, 0, 0, 0, 0, 0, 0, 0, 0, 0, 0, 0, 0, 0, 0, 0, 0, 0, 0, 0, 0, 0, 0, 0, 0, 0, 0, 0, 0, 0, 0, 0, 0, 0, 0, 0, 0, 0, 0, 0, 0, 0, 0, 0, 0, 0, 0, 0, 0, 0, 0, 0, 0, 0, 0, 0, 0, 0, 0, 0, 0, 0, 0, 0, 0, 0, 0, 0, 0, 0, 0, 0, 0, 0, 0, 0, 0, 0, 0, 0, 0, 0, 0, 0, 0, 0, 0, 0, 0, 0, 0, 0, 0, 0, 0, 0, 0, 0, 0, 0, 0, 0, 0, 0, 0, 0, 0, 0, 0, 0, 0, 0, 0, 0, 0, 0, 0, 0, 0, 0, 0, 0, 0, 0, 0, 0, 0, 0, 0, 0, 0, 0, 0, 0, 0, 0, 0, 0, 0, 0, 0, 0, 0, 0, 0, 0, 0, 0, 0, 0, 0, 0, 0, 0, 0, 0, 0, 0, 0, 0, 0, 0, 0, 0, 0, 0, 0, 0, 0, 0, 0, 0, 0, 0, 0, 0, 0, 0, 0, 0, 0, 0, 0, 0, 0, 0, 0, 0, 0, 0, 0, 0, 0, 0, 0, 0, 0, 0, 0, 0, 0, 0, 0, 0, 0, 0, 0, 0, 0, 0, 0, 0, 0, 0, 0, 0, 0, 0, 0, 0, 0, 0, 0, 0, 0, 0, 0, 0, 0, 0, 0, 0, 0, 0, 0, 0, 0, 0, 0, 0, 0, 0, 0, 0, 0, 0, 0, 0, 0, 0, 0, 0, 0, 0, 0, 0, 0, 0, 0, 0, 0, 0, 0, 0, 0, 0, 0, 0, 0, 0, 0, 0, 0, 0, 0, 0, 0, 0, 0, 0, 0, 0, 0, 0, 0, 0, 0, 0, 0, 0, 0, 0, 0, 0, 0, 0, 0, 0, 0, 0, 0, 0, 0, 0, 0, 0, 0, 0, 0, 0, 0, 0, 0, 0, 0, 0, 0, 0, 0, 0, 0, 0, 0, 0, 0, 0, 0, 0, 0, 0, 0, 0, 0, 0, 0, 0, 0, 0, 0, 0, 0, 0, 0, 0, 0, 0, 0, 0, 0, 0, 0, 0, 0, 0, 0, 0, 0, 0, 0, 0, 0, 0, 0, 0, 0, 0, 0, 0, 0, 0, 0, 0, 0, 0, 0, 0, 0, 0, 0, 0, 0, 0, 0, 0, 0, 0, 0, 0, 0, 0, 0, 0, 0, 0, 0, 0, 0, 0, 0, 0, 0, 0, 0, 0, 0, 0, 0, 0, 0, 0, 0, 0, 0, 0, 0, 0, 0, 0, 0, 0, 0, 0, 0, 0, 0, 0, 0, 0, 0, 0, 0, 0, 0, 0, 0, 0, 0, 0, 0, 0, 0, 0, 0, 0, 0, 0, 0, 0, 0, 0, 0, 0, 0, 0, 0, 0, 0, 0, 0, 0, 0, 0, 0, 0, 0, 0, 0, 0, 0, 0, 0, 0, 0, 0, 0, 0, 0, 0, 0, 0, 0, 0, 0, 0, 0, 0, 0, 0, 0, 0, 0, 0, 0, 0, 0, 0, 0, 0, 0, 0, 0, 0, 0, 0, 0, 0, 0, 0, 0, 0, 0, 0, 0, 0, 0, 0, 0, 0, 0, 0, 0, 0, 0, 0, 0, 0, 0, 0, 0, 0, 0, 0, 0, 0, 0, 0, 0, 0, 0, 0, 0, 0, 0, 0, 0, 0, 0, 0, 0, 0, 0, 0, 0, 0, 0, 0, 0, 0, 0, 0, 0, 0, 0, 0, 0, 0, 0, 0, 0, 0, 0, 0, 0, 0, 0, 0, 0, 0, 0, 0, 0, 0, 0, 0, 0, 0, 0, 0, 0, 0, 0, 0, 0, 0, 0, 0, 0, 0, 0, 0, 0, 0, 0, 0, 0, 0, 0, 0, 0, 0, 0, 0, 0, 0, 0, 0, 0, 0, 0, 0, 0, 0, 0, 0, 0, 0, 0, 0, 0, 0] =
      [[97, 0, 0, 0, 0, 0, 0, 0, 0, 0, 0, 0, 0, 0, 0, 0, 0, 0, 0, 0, 0, 0, 0, 0, 0, 0, 0, 0, 0, 0, 0, 0, 0, 0, 0, 0, 0, 0, 0, 0, 0, 0, 0, 0, 0, 0, 0, 0, 0, 0, 0, 0, 0, 0, 0, 0, 0, 0, 0, 0, 0, 0, 0, 0, 0, 0, 0, 0, 0, 0, 0, 0, 0, 0, 0, 0, 0, 0, 0, 0, 0, 0, 0, 0, 0, 0, 0, 0, 0, 0, 0, 0, 0, 0, 0, 0, 0, 0, 0, 0, 48, 48, 48, 48, 54, 52, 52, 0, 48, 48, 48, 48, 48, 48, 48, 0, 48, 48, 48, 48, 48, 48, 48, 0, 48, 48, 48, 48, 48, 48, 48, 48, 48, 48, 48, 0, 48, 48, 48, 48, 48, 48, 48, 48, 48, 48, 48, 0, 48, 48, 55, 51, 51, 54, 0, 32, 48, 0, 0, 0, 0, 0, 0, 0, 0, 0, 0, 0, 0, 0, 0, 0, 0, 0, 0, 0, 0, 0, 0, 0, 0, 0, 0, 0, 0, 0, 0, 0, 0, 0, 0, 0, 0, 0, 0, 0, 0, 0, 0, 0, 0, 0, 0, 0, 0, 0, 0, 0, 0, 0, 0, 0, 0, 0, 0, 0, 0, 0, 0, 0, 0, 0, 0, 0, 0, 0, 0, 0, 0, 0, 0, 0, 0, 0, 0, 0, 0, 0, 0, 0, 0, 0, 0, 0, 0, 0, 0, 0, 0, 0, 0, 0, 0, 0, 0, 0, 0, 117, 115, 116, 97, 114, 0, 48, 48, 0, 0, 0, 0, 0, 0, 0, 0, 0, 0, 0, 0, 0, 0, 0, 0, 0, 0, 0, 0, 0, 0, 0, 0, 0, 0, 0, 0, 0, 0, 0, 0, 0, 0, 0, 0, 0, 0, 0, 0, 0, 0, 0, 0, 0, 0, 0, 0, 0, 0, 0, 0, 0, 0, 0, 0, 0, 0, 0, 0, 0, 0, 0, 0, 48, 48, 48, 48, 48, 48, 48, 0, 48, 48, 48, 48, 48, 48, 48, 0, 0, 0, 0, 0, 0, 0, 0, 0, 0, 0, 0, 0, 0, 0, 0, 0, 0, 0, 0, 0, 0, 0, 0, 0, 0, 0, 0, 0, 0, 0, 0, 0, 0, 0, 0, 0, 0, 0, 0, 0, 0, 0, 0, 0, 0, 0, 0, 0, 0, 0, 0, 0, 0, 0, 0, 0, 0, 0, 0, 0, 0, 0, 0, 0, 0, 0, 0, 0, 0, 0, 0, 0, 0, 0, 0, 0, 0, 0, 0, 0, 0, 0, 0, 0, 0, 0, 0, 0, 0, 0, 0, 0, 0, 0, 0, 0, 0, 0, 0, 0, 0, 0, 0, 0, 0, 0, 0, 0, 0, 0, 0, 0, 0, 0, 0, 0, 0, 0, 0, 0, 0, 0, 0, 0, 0, 0, 0, 0, 0, 0, 0, 0, 0, 0, 0, 0, 0, 0, 0, 0, 0, 0, 0, 0, 0, 0, 0, 0, 0, 0, 0, 0, 0, 0, 0, 0, 0, 0, 0, 0, 0, 0, 0, 0, 0, 0, 0, 0, 0, 0, 0, 0, 0, 0, 0, 0, 0, 0, 0, 0, 0, 0, 0, 0, 0, 0, 0, 0, 0, 0, 0, 0, 0, 0, 0, 0, 0, 0, 0, 0, 0, 0, 0, 0, 0, 0, 0, 0, 0, 0, 0, 0, 0, 0, 0, 0, 0, 0, 0, 0, 0, 0, 0, 0, 0, 0, 0, 0, 0, 0, 0, 0, 0, 0, 0, 0, 0, 0, 0, 0, 0, 0, 0, 0, 0, 0, 0, 0, 0, 0, 0, 0, 0, 0, 0, 0, 0, 0, 0, 0, 0, 0, 0, 0, 0, 0, 0, 0, 0, 0, 0, 0, 0, 0, 0, 0, 0, 0, 0, 0, 0, 0, 0, 0, 0, 0, 0, 0, 0, 0, 0, 0, 0, 0, 0, 0, 0, 0, 0, 0, 0, 0, 0, 0, 0, 0, 0, 0, 0, 0, 0, 0, 0, 0, 0, 0, 0, 0, 0, 0, 0, 0, 0, 0, 0, 0, 0, 0, 0, 0, 0, 0, 0, 0, 0, 0, 0, 0, 0, 0, 0, 0, 0, 0, 0, 0, 0, 0, 0, 0, 0, 0, 0, 0, 0, 0, 0, 0, 0, 0, 0, 0, 0, 0, 0, 0, 0, 0, 0, 0, 0, 0, 0, 0, 0, 0, 0, 0, 0, 0, 0, 0, 0, 0, 0, 0, 0, 0, 0, 0, 0, 0, 0, 0, 0, 0, 0, 0, 0, 0, 0, 0, 0, 0, 0, 0, 0, 0, 0, 0, 0, 0, 0, 0, 0, 0, 0, 0, 0, 0, 0, 0, 0, 0, 0, 0, 0, 0, 0, 0, 0, 0, 0, 0, 0, 0, 0, 0, 0, 0, 0, 0, 0, 0, 0, 0, 0, 0, 0, 0, 0, 0, 0, 0, 0, 0, 0, 0, 0, 0, 0, 0, 0, 0, 0, 0, 0, 0, 0, 0, 0, 0, 0, 0, 0, 0, 0, 0, 0, 0, 0, 0, 0, 0, 0, 0, 0, 0, 0, 0, 0, 0, 0, 0, 0, 0, 0, 0, 0, 0, 0, 0, 0, 0, 0, 0, 0, 0, 0, 0, 0, 0, 0, 0, 0, 0, 0, 0, 0, 0, 0, 0, 0, 0, 0, 0, 0, 0, 0, 0, 0, 0, 0, 0, 0, 0, 0, 0, 0, 0, 0, 0, 0, 0, 0, 0, 0, 0, 0, 0, 0, 0, 0, 0, 0, 0, 0, 0, 0, 0, 0, 0, 0, 0, 0, 0, 0, 0, 0, 0, 0, 0, 0, 0, 0, 0, 0, 0, 0, 0, 0, 0, 0, 0, 0, 0, 0, 0, 0, 0, 0, 0, 0, 0, 0, 0, 0, 0, 0, 0, 0, 0, 0, 0, 0, 0, 0, 0, 0, 0, 0, 0, 0, 0, 0, 0, 0, 0, 0, 0, 0, 0, 0, 0, 0, 0, 0, 0, 0, 0, 0, 0, 0, 0, 0, 0, 0, 0, 0, 0, 0, 0, 0, 0, 0, 0, 0, 0, 0, 0, 0, 0, 0, 0, 0, 0, 0, 0, 0, 0, 0, 0, 0, 0, 0, 0, 0, 0, 0, 0, 0, 0, 0, 0, 0, 0, 0, 0, 0, 0, 0, 0, 0, 0, 0, 0, 0, 0, 0, 0, 0, 0, 0, 0, 0, 0, 0, 0, 0, 0, 0, 0, 0, 0, 0, 0, 0, 0, 0, 0, 0, 0, 0, 0, 0, 0, 0, 0, 0, 0, 0, 0, 0, 0, 0, 0, 0, 0, 0, 0, 0, 0, 0, 0, 0, 0, 0, 0, 0, 0, 0, 0, 0, 0, 0, 0, 0, 0, 0, 0, 0, 0, 0, 0, 0, 0, 0, 0, 0, 0, 0, 0, 0, 0, 0, 0, 0, 0, 0, 0, 0, 0, 0, 0, 0, 0, 0, 0, 0, 0, 0, 0, 0, 0, 0, 0, 0, 0, 0, 0, 0, 0, 0, 0, 0, 0, 0, 0, 0, 0, 0, 0, 0, 0, 0, 0, 0, 0, 0, 0, 0, 0, 0, 0, 0, 0, 0, 0, 0, 0, 0, 0, 0, 0, 0, 0, 0, 0, 0, 0, 0, 0, 0, 0, 0, 0, 0, 0, 0, 0, 0, 0, 0, 0, 0, 0, 0, 0, 0, 0, 0, 0, 0, 0, 0, 0, 0, 0, 0, 0, 0, 0, 0, 0, 0, 0, 0, 0, 0, 0, 0, 0, 0, 0, 0, 0, 0, 0, 0, 0, 0, 0, 0, 0, 0, 0, 0, 0, 0, 0, 0, 0, 0, 0, 0, 0, 0, 0, 0, 0, 0, 0, 0, 0, 0, 0, 0, 0, 0, 0, 0, 0, 0, 0, 0, 0, 0, 0, 0, 0, 0, 0, 0, 0, 0, 0, 0, 0, 0, 0, 0, 0, 0, 0, 0, 0, 0, 0, 0, 0, 0, 0, 0, 0, 0, 0, 0, 0, 0, 0, 0, 0, 0, 0, 0, 0, 0, 0, 0, 0, 0, 0, 0, 0, 0, 0, 0, 0, 0, 0, 0, 0, 0, 0, 0, 0, 0, 0, 0, 0, 0, 0, 0, 0, 0, 0, 0, 0, 0, 0, 0, 0, 0, 0, 0, 0, 0, 0, 0, 0, 0, 0, 0, 0, 0, 0, 0, 0, 0, 0, 0, 0, 0, 0, 0, 0, 0, 0, 0, 0, 0, 0, 0, 0, 0, 0, 0, 0, 0, 0, 0, 0, 0, 0, 0, 0, 0, 0, 0, 0, 0, 0, 0, 0, 0, 0, 0, 0, 0, 0, 0, 0, 0, 0, 0, 0, 0, 0, 0, 0, 0, 0, 0, 0, 0, 0, 0, 0, 0, 0, 0, 0, 0, 0, 0, 0, 0, 0, 0, 0, 0, 0, 0, 0, 0, 0, 0, 0, 0, 0, 0, 0, 0, 0, 0, 0, 0, 0, 0, 0, 0, 0, 0, 0, 0, 0, 0, 0, 0, 0, 0, 0, 0, 0, 0, 0, 0, 0, 0, 0, 0, 0, 0, 0, 0, 0, 0, 0, 0, 0, 0, 0, 0, 0, 0, 0, 0, 0, 0, 0, 0, 0, 0, 0, 0, 0, 0, 0, 0, 0, 0, 0, 0, 0, 0, 0, 0, 0, 0, 0, 0, 0, 0, 0, 0, 0, 0, 0, 0, 0, 0, 0, 0, 0, 0, 0, 0, 0, 0, 0, 0, 0, 0, 0, 0, 0, 0, 0, 0, 0, 0]] := by
  rw [chunks, c1tar_len]
  try rfl


set_option maxRecDepth 10000 in
set_option maxHeartbeats 2000000 in
theorem c1defl :
    deflateStored [97, 0, 0, 0, 0, 0, 0, 0, 0, 0, 0, 0, 0, 0, 0, 0, 0, 0, 0, 0, 0, 0, 0, 0, 0, 0, 0, 0, 0, 0, 0, 0, 0, 0, 0, 0, 0, 0, 0, 0, 0, 0, 0, 0, 0, 0, 0, 0, 0, 0, 0, 0, 0, 0, 0, 0, 0, 0, 0, 0, 0, 0, 0, 0, 0, 0, 0, 0, 0, 0, 0, 0, 0, 0, 0, 0, 0, 0, 0, 0, 0, 0, 0, 0, 0, 0, 0, 0, 0, 0, 0, 0, 0, 0, 0, 0, 0, 0, 0, 0, 48, 48, 48, 48, 54, 52, 52, 0, 48, 48, 48, 48, 48, 48, 48, 0, 48, 48, 48, 48, 48, 48, 48, 0, 48, 48, 48, 48, 48, 48, 48, 48, 48, 48, 48, 0, 48, 48, 48, 48, 48, 48, 48, 48, 48, 48, 48, 0, 48, 48, 55, 51, 51, 54, 0, 32, 48, 0, 0, 0, 0, 0, 0, 0, 0, 0, 0, 0, 0, 0, 0, 0, 0, 0, 0, 0, 0, 0, 0, 0, 0, 0, 0, 0, 0, 0, 0, 0, 0, 0, 0, 0, 0, 0, 0, 0, 0, 0, 0, 0, 0, 0, 0, 0, 0, 0, 0, 0, 0, 0, 0, 0, 0, 0, 0, 0, 0, 0, 0, 0, 0, 0, 0, 0, 0, 0, 0, 0, 0, 0, 0, 0, 0, 0, 0, 0, 0, 0, 0, 0, 0, 0, 0, 0, 0, 0, 0, 0, 0, 0, 0, 0, 0, 0, 0, 0, 0, 117, 115, 116, 97, 114, 0, 48, 48, 0, 0, 0, 0, 0, 0, 0, 0, 0, 0, 0, 0, 0, 0, 0, 0, 0, 0, 0, 0, 0, 0, 0, 0, 0, 0, 0, 0, 0, 0, 0, 0, 0, 0, 0, 0, 0, 0, 0, 0, 0, 0, 0, 0, 0, 0, 0, 0, 0, 0, 0, 0, 0, 0, 0, 0, 0, 0, 0, 0, 0, 0, 0, 0, 48, 48, 48, 48, 48, 48, 48, 0, 48, 48, 48, 48, 48, 48, 48, 0, 0, 0, 0, 0, 0, 0, 0, 0, 0, 0, 0, 0, 0, 0, 0, 0, 0, 0, 0, 0, 0, 0, 0, 0, 0, 0, 0, 0, 0, 0, 0, 0, 0, 0, 0, 0, 0, 0, 0, 0, 0, 0, 0, 0, 0, 0, 0, 0, 0, 0, 0, 0, 0, 0, 0, 0, 0, 0, 0, 0, 0, 0, 0, 0, 0, 0, 0, 0, 0, 0, 0, 0, 0, 0, 0, 0, 0, 0, 0, 0, 0, 0, 0, 0, 0, 0, 0, 0, 0, 0, 0, 0, 0, 0, 0, 0, 0, 0, 0, 0, 0, 0, 0, 0, 0, 0, 0, 0, 0, 0, 0, 0, 0, 0, 0, 0, 0, 0, 0, 0, 0, 0, 0, 0, 0, 0, 0, 0, 0, 0, 0, 0, 0, 0, 0, 0, 0, 0, 0, 0, 0, 0, 0, 0, 0, 0, 0, 0, 0, 0, 0, 0, 0, 0, 0, 0, 0, 0, 0, 0, 0, 0, 0, 0, 0, 0, 0, 0, 0, 0, 0, 0, 0, 0, 0, 0, 0, 0, 0, 0, 0, 0, 0, 0, 0, 0, 0, 0, 0, 0, 0, 0, 0, 0, 0, 0, 0, 0, 0, 0, 0, 0, 0, 0, 0, 0, 0, 0, 0, 0, 0, 0, 0, 0, 0, 0, 0, 0, 0, 0, 0, 0, 0, 0, 0, 0, 0, 0, 0, 0, 0, 0, 0, 0, 0, 0, 0, 0, 0, 0, 0, 0, 0, 0, 0, 0, 0, 0, 0, 0, 0, 0, 0, 0, 0, 0, 0, 0, 0, 0, 0, 0, 0, 0, 0, 0, 0, 0, 0, 0, 0, 0, 0, 0, 0, 0, 0, 0, 0, 0, 0, 0, 0, 0, 0, 0, 0, 0, 0, 0, 0, 0, 0, 0, 0, 0, 0, 0, 0, 0, 0, 0, 0, 0, 0, 0, 0, 0, 0, 0, 0, 0, 0, 0, 0, 0, 0, 0, 0, 0, 0, 0, 0, 0, 0, 0, 0, 0, 0, 0, 0, 0, 0, 0, 0, 0, 0, 0, 0, 0, 0, 0, 0, 0, 0, 0, 0, 0, 0, 0, 0, 0, 0, 0, 0, 0, 0, 0, 0, 0, 0, 0, 0, 0, 0, 0, 0, 0, 0, 0, 0, 0, 0, 0, 0, 0, 0, 0, 0, 0, 0, 0, 0, 0, 0, 0, 0, 0, 0, 0, 0, 0, 0, 0, 0, 0, 0, 0, 0, 0, 0, 0, 0, 0, 0, 0, 0, 0, 0, 0, 0, 0, 0, 0, 0, 0, 0, 0, 0, 0, 0, 0, 0, 0, 0, 0, 0, 0, 0, 0, 0, 0, 0, 0, 0, 0, 0, 0, 0, 0, 0, 0, 0, 0, 0, 0, 0, 0, 0, 0, 0, 0, 0, 0, 0, 0, 0, 0, 0, 0, 0, 0, 0, 0, 0, 0, 0, 0, 0, 0, 0, 0, 0, 0, 0, 0, 0, 0, 0, 0, 0, 0, 0, 0, 0, 0, 0, 0, 0, 0, 0, 0, 0, 0, 0, 0, 0, 0, 0, 0, 0, 0, 0, 0, 0, 0, 0, 0, 0, 0, 0, 0, 0, 0, 0, 0, 0, 0, 0, 0, 0, 0, 0, 0, 0, 0, 0, 0, 0, 0, 0, 0, 0, 0, 0, 0, 0, 0, 0, 0, 0, 0, 0, 0, 0, 0, 0, 0, 0, 0, 0, 0, 0, 0, 0, 0, 0, 0, 0, 0, 0, 0, 0, 0, 0, 0, 0, 0, 0, 0, 0, 0, 0, 0, 0, 0, 0, 0, 0, 0, 0, 0, 0, 0, 0, 0, 0, 0, 0, 0, 0, 0, 0, 0, 0, 0, 0, 0, 0, 0, 0, 0, 0, 0, 0, 0, 0, 0, 0, 0, 0, 0, 0, 0, 0, 0, 0, 0, 0, 0, 0, 0, 0, 0, 0, 0, 0, 0, 0, 0, 0, 0, 0, 0, 0, 0, 0, 0, 0, 0, 0, 0, 0, 0, 0, 0, 0, 0, 0, 0, 0, 0, 0, 0, 0, 0, 0, 0, 0, 0, 0, 0, 0, 0, 0, 0, 0, 0, 0, 0, 0, 0, 0, 0, 0, 0, 0, 0, 0, 0, 0, 0, 0, 0, 0, 0, 0, 0, 0, 0, 0, 0, 0, 0, 0, 0, 0, 0, 0, 0, 0, 0, 0, 0, 0, 0, 0, 0, 0, 0, 0, 0, 0, 0, 0, 0, 0, 0, 0, 0, 0, 0, 0, 0, 0, 0, 0, 0, 0, 0, 0, 0, 0, 0, 0, 0, 0, 0, 0, 0, 0, 0, 0, 0, 0, 0, 0, 0, 0, 0, 0, 0, 0, 0, 0, 0, 0, 0, 0, 0, 0, 0, 0, 0, 0, 0, 0, 0, 0, 0, 0, 0, 0, 0, 0, 0, 0, 0, 0, 0, 0, 0, 0, 0, 0, 0, 0, 0, 0, 0, 0, 0, 0, 0, 0, 0, 0, 0, 0, 0, 0, 0, 0, 0, 0, 0, 0, 0, 0, 0, 0, 0, 0, 0, 0, 0, 0, 0, 0, 0, 0, 0, 0, 0, 0, 0, 0, 0, 0, 0, 0, 0, 0, 0, 0, 0, 0, 0, 0, 0, 0, 0, 0, 0, 0, 0, 0, 0, 0, 0, 0, 0, 0, 0, 0, 0, 0, 0, 0, 0, 0, 0, 0, 0, 0, 0, 0, 0, 0, 0, 0, 0, 0, 0, 0, 0, 0, 0, 0, 0, 0, 0, 0, 0, 0, 0, 0, 0, 0, 0, 0, 0, 0, 0, 0, 0, 0, 0, 0, 0, 0, 0, 0, 0, 0, 0, 0, 0, 0, 0, 0, 0, 0, 0, 0, 0, 0, 0, 0, 0, 0, 0, 0, 0, 0, 0, 0, 0, 0, 0, 0, 0, 0, 0, 0, 0, 0, 0, 0, 0, 0, 0, 0, 0, 0, 0, 0, 0, 0, 0, 0, 0, 0, 0, 0, 0, 0, 0, 0, 0, 0, 0, 0, 0, 0, 0, 0, 0, 0, 0, 0, 0, 0, 0, 0, 0, 0, 0, 0, 0, 0, 0, 0, 0, 0, 0, 0, 0, 0, 0, 0, 0, 0, 0, 0, 0, 0, 0, 0, 0, 0, 0, 0, 0, 0, 0, 0, 0, 0, 0, 0, 0, 0, 0, 0, 0, 0, 0, 0, 0, 0, 0, 0, 0, 0, 0, 0, 0, 0, 0, 0, 0, 0, 0, 0, 0, 0, 0, 0, 0, 0, 0, 0, 0, 0, 0, 0, 0, 0, 0, 0, 0, 0, 0, 0, 0, 0, 0, 0, 0, 0, 0, 0, 0, 0, 0, 0, 0, 0, 0, 0, 0, 0, 0, 0, 0, 0, 0, 0, 0, 0, 0, 0, 0, 0, 0, 0, 0, 0, 0, 0, 0, 0, 0, 0, 0, 0, 0, 0, 0, 0, 0, 0, 0, 0, 0, 0, 0, 0, 0, 0, 0, 0, 0, 0, 0, 0, 0, 0, 0, 0, 0, 0, 0, 0, 0, 0, 0, 0, 0, 0, 0, 0, 0, 0, 0, 0, 0, 0, 0, 0, 0, 0, 0, 0, 0, 0, 0, 0, 0, 0, 0, 0, 0, 0, 0, 0, 0, 0, 0, 0, 0, 0, 0, 0, 0, 0, 0, 0, 0, 0, 0, 0, 0, 0, 0, 0, 0, 0, 0, 0, 0, 0, 0, 0, 0, 0, 0, 0, 0, 0] =
      [1, 0, 6, 255, 249, 97, 0, 0, 0, 0, 0, 0, 0, 0, 0, 0, 0, 0, 0, 0, 0, 0, 0, 0, 0, 0, 0, 0, 0, 0, 0, 0, 0, 0, 0, 0, 0, 0, 0, 0, 0, 0, 0, 0, 0, 0, 0, 0, 0, 0, 0, 0, 0, 0, 0, 0, 0, 0, 0, 0, 0, 0, 0, 0, 0, 0, 0, 0, 0, 0, 0, 0, 0, 0, 0, 0, 0, 0, 0, 0, 0, 0, 0, 0, 0, 0, 0, 0, 0, 0, 0, 0, 0, 0, 0, 0, 0, 0, 0, 0, 0, 0, 0, 0, 0, 48, 48, 48, 48, 54, 52, 52, 0, 48, 48, 48, 48, 48, 48, 48, 0, 48, 48, 48, 48, 48, 48, 48, 0, 48, 48, 48, 48, 48, 48, 48, 48, 48, 48, 48, 0, 48, 48, 48, 48, 48, 48, 48, 48, 48, 48, 48, 0, 48, 48, 55, 51, 51, 54, 0, 32, 48, 0, 0, 0, 0, 0, 0, 0, 0, 0, 0, 0, 0, 0, 0, 0, 0, 0, 0, 0, 0, 0, 0, 0, 0, 0, 0, 0, 0, 0, 0, 0, 0, 0, 0, 0, 0, 0, 0, 0, 0, 0, 0, 0, 0, 0, 0, 0, 0, 0, 0, 0, 0, 0, 0, 0, 0, 0, 0, 0, 0, 0, 0, 0, 0, 0, 0, 0, 0, 0, 0, 0, 0, 0, 0, 0, 0, 0, 0, 0, 0, 0, 0, 0, 0, 0, 0, 0, 0, 0, 0, 0, 0, 0, 0, 0, 0, 0, 0, 0, 0, 117, 115, 116, 97, 114, 0, 48, 48, 0, 0, 0, 0, 0, 0, 0, 0, 0, 0, 0, 0, 0, 0, 0, 0, 0, 0, 0, 0, 0, 0, 0, 0, 0, 0, 0, 0, 0, 0, 0, 0, 0, 0, 0, 0, 0, 0, 0, 0, 0, 0, 0, 0, 0, 0, 0, 0, 0, 0, 0, 0, 0, 0, 0, 0, 0, 0, 0, 0, 0, 0, 0, 0, 48, 48, 48, 48, 48, 48, 48, 0, 48, 48, 48, 48, 48, 48, 48, 0, 0, 0, 0, 0, 0, 0, 0, 0, 0, 0, 0, 0, 0, 0, 0, 0, 0, 0, 0, 0, 0, 0, 0, 0, 0, 0, 0, 0, 0, 0, 0, 0, 0, 0, 0, 0, 0, 0, 0, 0, 0, 0, 0, 0, 0, 0, 0, 0, 0, 0, 0, 0, 0, 0, 0, 0, 0, 0, 0, 0, 0, 0, 0, 0, 0, 0, 0, 0, 0, 0, 0, 0, 0, 0, 0, 0, 0, 0, 0, 0, 0, 0, 0, 0, 0, 0, 0, 0, 0, 0, 0, 0, 0, 0, 0, 0, 0, 0, 0, 0, 0, 0, 0, 0, 0, 0, 0, 0, 0, 0, 0, 0, 0, 0, 0, 0, 0, 0, 0, 0, 0, 0, 0, 0, 0, 0, 0, 0, 0, 0, 0, 0, 0, 0, 0, 0, 0, 0, 0, 0, 0, 0, 0, 0, 0, 0, 0, 0, 0, 0, 0, 0, 0, 0, 0, 0, 0, 0, 0, 0, 0, 0, 0, 0, 0, 0, 0, 0, 0, 0, 0, 0, 0, 0, 0, 0, 0, 0, 0, 0, 0, 0, 0, 0, 0, 0, 0, 0, 0, 0, 0, 0, 0, 0, 0, 0, 0, 0, 0, 0, 0, 0, 0, 0, 0, 0, 0, 0, 0, 0, 0, 0, 0, 0, 0, 0, 0, 0, 0, 0, 0, 0, 0, 0, 0, 0, 0, 0, 0, 0, 0, 0, 0, 0, 0, 0, 0, 0, 0, 0, 0, 0, 0, 0, 0, 0, 0, 0, 0, 0, 0, 0, 0, 0, 0, 0, 0, 0, 0, 0, 0, 0, 0, 0, 0, 0, 0, 0, 0, 0, 0, 0, 0, 0, 0, 0, 0, 0, 0, 0, 0, 0, 0, 0, 0, 0, 0, 0, 0, 0, 0, 0, 0, 0, 0, 0, 0, 0, 0, 0, 0, 0, 0, 0, 0, 0, 0, 0, 0, 0, 0, 0, 0, 0, 0, 0, 0, 0, 0, 0, 0, 0, 0, 0, 0, 0, 0, 0, 0, 0, 0, 0, 0, 0, 0, 0, 0, 0, 0, 0, 0, 0, 0, 0, 0, 0, 0, 0, 0, 0, 0, 0, 0, 0, 0, 0, 0, 0, 0, 0, 0, 0, 0, 0, 0, 0, 0, 0, 0, 0, 0, 0, 0, 0, 0, 0, 0, 0, 0, 0, 0, 0, 0, 0, 0, 0, 0, 0, 0, 0, 0, 0, 0, 0, 0, 0, 0, 0, 0, 0, 0, 0, 0, 0, 0, 0, 0, 0, 0, 0, 0, 0, 0, 0, 0, 0, 0, 0, 0, 0, 0, 0, 0, 0, 0, 0, 0, 0, 0, 0, 0, 0, 0, 0, 0, 0, 0, 0, 0, 0, 0, 0, 0, 0, 0, 0, 0, 0, 0, 0, 0, 0, 0, 0, 0, 0, 0, 0, 0, 0, 0, 0, 0, 0, 0, 0, 0, 0, 0, 0, 0, 0, 0, 0, 0, 0, 0, 0, 0, 0, 0, 0, 0, 0, 0, 0, 0, 0, 0, 0, 0, 0, 0, 0, 0, 0, 0, 0, 0, 0, 0, 0, 0, 0, 0, 0, 0, 0, 0, 0, 0, 0, 0, 0, 0, 0, 0, 0, 0, 0, 0, 0, 0, 0, 0, 0, 0, 0, 0, 0, 0, 0, 0, 0, 0, 0, 0, 0, 0, 0, 0, 0, 0, 0, 0, 0, 0, 0, 0, 0, 0, 0, 0, 0, 0, 0, 0, 0, 0, 0, 0, 0, 0, 0, 0, 0, 0, 0, 0, 0, 0, 0, 0, 0, 0, 0, 0, 0, 0, 0, 0, 0, 0, 0, 0, 0, 0, 0, 0, 0, 0, 0, 0, 0, 0, 0, 0, 0, 0, 0, 0, 0, 0, 0, 0, 0, 0, 0, 0, 0, 0, 0, 0, 0, 0, 0, 0, 0, 0, 0, 0, 0, 0, 0, 0, 0, 0, 0, 0, 0, 0, 0, 0, 0, 0, 0, 0, 0, 0, 0, 0, 0, 0, 0, 0, 0, 0, 0, 0, 0, 0, 0, 0, 0, 0, 0, 0, 0, 0, 0, 0, 0, 0, 0, 0, 0, 0, 0, 0, 0, 0, 0, 0, 0, 0, 0, 0, 0, 0, 0, 0, 0, 0, 0, 0, 0, 0, 0, 0, 0, 0, 0, 0, 0, 0, 0, 0, 0, 0, 0, 0, 0, 0, 0, 0, 0, 0, 0, 0, 0, 0, 0, 0, 0, 0, 0, 0, 0, 0, 0, 0, 0, 0, 0, 0, 0, 0, 0, 0, 0, 0, 0, 0, 0, 0, 0, 0, 0, 0, 0, 0, 0, 0, 0, 0, 0, 0, 0, 0, 0, 0, 0, 0, 0, 0, 0, 0, 0, 0, 0, 0, 0, 0, 0, 0, 0, 0, 0, 0, 0, 0, 0, 0, 0, 0, 0, 0, 0, 0, 0, 0, 0, 0, 0, 0, 0, 0, 0, 0, 0, 0, 0, 0, 0, 0, 0, 0, 0, 0, 0, 0, 0, 0, 0, 0, 0, 0, 0, 0, 0, 0, 0, 0, 0, 0, 0, 0, 0, 0, 0, 0, 0, 0, 0, 0, 0, 0, 0, 0, 0, 0, 0, 0, 0, 0, 0, 0, 0, 0, 0, 0, 0, 0, 0, 0, 0, 0, 0, 0, 0, 0, 0, 0, 0, 0, 0, 0, 0, 0, 0, 0, 0, 0, 0, 0, 0, 0, 0, 0, 0, 0, 0, 0, 0, 0, 0, 0, 0, 0, 0, 0, 0, 0, 0, 0, 0, 0, 0, 0, 0, 0, 0, 0, 0, 0, 0, 0, 0, 0, 0, 0, 0, 0, 0, 0, 0, 0, 0, 0, 0, 0, 0, 0, 0, 0, 0, 0, 0, 0, 0, 0, 0, 0, 0, 0, 0, 0, 0, 0, 0, 0, 0, 0, 0, 0, 0, 0, 0, 0, 0, 0, 0, 0, 0, 0, 0, 0, 0, 0, 0, 0, 0, 0, 0, 0, 0, 0, 0, 0, 0, 0, 0, 0, 0, 0, 0, 0, 0, 0, 0, 0, 0, 0, 0, 0, 0, 0, 0, 0, 0, 0, 0, 0, 0, 0, 0, 0, 0, 0, 0, 0, 0, 0, 0, 0, 0, 0, 0, 0, 0, 0, 0, 0, 0, 0, 0, 0, 0, 0, 0, 0, 0, 0, 0, 0, 0, 0, 0, 0, 0, 0, 0, 0, 0, 0, 0, 0, 0, 0, 0, 0, 0, 0, 0, 0, 0, 0, 0, 0, 0, 0, 0, 0, 0, 0, 0, 0, 0, 0, 0, 0, 0, 0, 0, 0, 0, 0, 0, 0, 0, 0, 0, 0, 0, 0, 0, 0, 0, 0, 0, 0, 0, 0, 0, 0, 0, 0, 0, 0, 0, 0, 0, 0, 0, 0, 0, 0, 0, 0, 0, 0, 0, 0, 0, 0, 0, 0, 0, 0, 0, 0, 0, 0, 0, 0, 0, 0, 0, 0, 0, 0, 0, 0, 0, 0, 0, 0, 0, 0, 0, 0, 0, 0, 0, 0, 0, 0, 0, 0, 0, 0, 0, 0, 0, 0, 0, 0, 0, 0, 0, 0, 0, 0, 0, 0, 0, 0, 0, 0, 0, 0, 0, 0, 0, 0, 0, 0, 0, 0, 0, 0, 0, 0, 0, 0, 0, 0, 0, 0, 0, 0, 0, 0, 0, 0, 0, 0, 0, 0, 0, 0, 0, 0, 0, 0, 0, 0, 0, 0, 0, 0] := by
  rw [deflateStored, c1chunk_one]
  try rfl


set_option maxRecDepth 10000 in
set_option maxHeartbeats 2000000 in
theorem c1gz_lit :
    gzipEncode [97, 0, 0, 0, 0, 0, 0, 0, 0, 0, 0, 0, 0, 0, 0, 0, 0, 0, 0, 0, 0, 0, 0, 0, 0, 0, 0, 0, 0, 0, 0, 0, 0, 0, 0, 0, 0, 0, 0, 0, 0, 0, 0, 0, 0, 0, 0, 0, 0, 0, 0, 0, 0, 0, 0, 0, 0, 0, 0, 0, 0, 0, 0, 0, 0, 0, 0, 0, 0, 0, 0, 0, 0, 0, 0, 0, 0, 0, 0, 0, 0, 0, 0, 0, 0, 0, 0, 0, 0, 0, 0, 0, 0, 0, 0, 0, 0, 0, 0, 0, 48, 48, 48, 48, 54, 52, 52, 0, 48, 48, 48, 48, 48, 48, 48, 0, 48, 48, 48, 48, 48, 48, 48, 0, 48, 48, 48, 48, 48, 48, 48, 48, 48, 48, 48, 0, 48, 48, 48, 48, 48, 48, 48, 48, 48, 48, 48, 0, 48, 48, 55, 51, 51, 54, 0, 32, 48, 0, 0, 0, 0, 0, 0, 0, 0, 0, 0, 0, 0, 0, 0, 0, 0, 0, 0, 0, 0, 0, 0, 0, 0, 0, 0, 0, 0, 0, 0, 0, 0, 0, 0, 0, 0, 0, 0, 0, 0, 0, 0, 0, 0, 0, 0, 0, 0, 0, 0, 0, 0, 0, 0, 0, 0, 0, 0, 0, 0, 0, 0, 0, 0, 0, 0, 0, 0, 0, 0, 0, 0, 0, 0, 0, 0, 0, 0, 0, 0, 0, 0, 0, 0, 0, 0, 0, 0, 0, 0, 0, 0, 0, 0, 0, 0, 0, 0, 0, 0, 117, 115, 116, 97, 114, 0, 48, 48, 0, 0, 0, 0, 0, 0, 0, 0, 0, 0, 0, 0, 0, 0, 0, 0, 0, 0, 0, 0, 0, 0, 0, 0, 0, 0, 0, 0, 0, 0, 0, 0, 0, 0, 0, 0, 0, 0, 0, 0, 0, 0, 0, 0, 0, 0, 0, 0, 0, 0, 0, 0, 0, 0, 0, 0, 0, 0, 0, 0, 0, 0, 0, 0, 48, 48, 48, 48, 48, 48, 48, 0, 48, 48, 48, 48, 48, 48, 48, 0, 0, 0, 0, 0, 0, 0, 0, 0, 0, 0, 0, 0, 0, 0, 0, 0, 0, 0, 0, 0, 0, 0, 0, 0, 0, 0, 0, 0, 0, 0, 0, 0, 0, 0, 0, 0, 0, 0, 0, 0, 0, 0, 0, 0, 0, 0, 0, 0, 0, 0, 0, 0, 0, 0, 0, 0, 0, 0, 0, 0, 0, 0, 0, 0, 0, 0, 0, 0, 0, 0, 0, 0, 0, 0, 0, 0, 0, 0, 0, 0, 0, 0, 0, 0, 0, 0, 0, 0, 0, 0, 0, 0, 0, 0, 0, 0, 0, 0, 0, 0, 0, 0, 0, 0, 0, 0, 0, 0, 0, 0, 0, 0, 0, 0, 0, 0, 0, 0, 0, 0, 0, 0, 0, 0, 0, 0, 0, 0, 0, 0, 0, 0, 0, 0, 0, 0, 0, 0, 0, 0, 0, 0, 0, 0, 0, 0, 0, 0, 0, 0, 0, 0, 0, 0, 0, 0, 0, 0, 0, 0, 0, 0, 0, 0, 0, 0, 0, 0, 0, 0, 0, 0, 0, 0, 0, 0, 0, 0, 0, 0, 0, 0, 0, 0, 0, 0, 0, 0, 0, 0, 0, 0, 0, 0, 0, 0, 0, 0, 0, 0, 0, 0, 0, 0, 0, 0, 0, 0, 0, 0, 0, 0, 0, 0, 0, 0, 0, 0, 0, 0, 0, 0, 0, 0, 0, 0, 0, 0, 0, 0, 0, 0, 0, 0, 0, 0, 0, 0, 0, 0, 0, 0, 0, 0, 0, 0, 0, 0, 0, 0, 0, 0, 0, 0, 0, 0, 0, 0, 0, 0, 0, 0, 0, 0, 0, 0, 0, 0, 0, 0, 0, 0, 0, 0, 0, 0, 0, 0, 0, 0, 0, 0, 0, 0, 0, 0, 0, 0, 0, 0, 0, 0, 0, 0, 0, 0, 0, 0, 0, 0, 0, 0, 0, 0, 0, 0, 0, 0, 0, 0, 0, 0, 0, 0, 0, 0, 0, 0, 0, 0, 0, 0, 0, 0, 0, 0, 0, 0, 0, 0, 0, 0, 0, 0, 0, 0, 0, 0, 0, 0, 0, 0, 0, 0, 0, 0, 0, 0, 0, 0, 0, 0, 0, 0, 0, 0, 0, 0, 0, 0, 0, 0, 0, 0, 0, 0, 0, 0, 0, 0, 0, 0, 0, 0, 0, 0, 0, 0, 0, 0, 0, 0, 0, 0, 0, 0, 0, 0, 0, 0, 0, 0, 0, 0, 0, 0, 0, 0, 0, 0, 0, 0, 0, 0, 0, 0, 0, 0, 0, 0, 0, 0, 0, 0, 0, 0, 0, 0, 0, 0, 0, 0, 0, 0, 0, 0, 0, 0, 0, 0, 0, 0, 0, 0, 0, 0, 0, 0, 0, 0, 0, 0, 0, 0, 0, 0, 0, 0, 0, 0, 0, 0, 0, 0, 0, 0, 0, 0, 0, 0, 0, 0, 0, 0, 0, 0, 0, 0, 0, 0, 0, 0, 0, 0, 0, 0, 0, 0, 0, 0, 0, 0, 0, 0, 0, 0, 0, 0, 0, 0, 0, 0, 0, 0, 0, 0, 0, 0, 0, 0, 0, 0, 0, 0, 0, 0, 0, 0, 0, 0, 0, 0, 0, 0, 0, 0, 0, 0, 0, 0, 0, 0, 0, 0, 0, 0, 0, 0, 0, 0, 0, 0, 0, 0, 0, 0, 0, 0, 0, 0, 0, 0, 0, 0, 0, 0, 0, 0, 0, 0, 0, 0, 0, 0, 0, 0, 0, 0, 0, 0, 0, 0, 0, 0, 0, 0, 0, 0, 0, 0, 0, 0, 0, 0, 0, 0, 0, 0, 0, 0, 0, 0, 0, 0, 0, 0, 0, 0, 0, 0, 0, 0, 0, 0, 0, 0, 0, 0, 0, 0, 0, 0, 0, 0, 0, 0, 0, 0, 0, 0, 0, 0, 0, 0, 0, 0, 0, 0, 0, 0, 0, 0, 0, 0, 0, 0, 0, 0, 0, 0, 0, 0, 0, 0, 0, 0, 0, 0, 0, 0, 0, 0, 0, 0, 0, 0, 0, 0, 0, 0, 0, 0, 0, 0, 0, 0, 0, 0, 0, 0, 0, 0, 0, 0, 0, 0, 0, 0, 0, 0, 0, 0, 0, 0, 0, 0, 0, 0, 0, 0, 0, 0, 0, 0, 0, 0, 0, 0, 0, 0, 0, 0, 0, 0, 0, 0, 0, 0, 0, 0, 0, 0, 0, 0, 0, 0, 0, 0, 0, 0, 0, 0, 0, 0, 0, 0, 0, 0, 0, 0, 0, 0, 0, 0, 0, 0, 0, 0, 0, 0, 0, 0, 0, 0, 0, 0, 0, 0, 0, 0, 0, 0, 0, 0, 0, 0, 0, 0, 0, 0, 0, 0, 0, 0, 0, 0, 0, 0, 0, 0, 0, 0, 0, 0, 0, 0, 0, 0, 0, 0, 0, 0, 0, 0, 0, 0, 0, 0, 0, 0, 0, 0, 0, 0, 0, 0, 0, 0, 0, 0, 0, 0, 0, 0, 0, 0, 0, 0, 0, 0, 0, 0, 0, 0, 0, 0, 0, 0, 0, 0, 0, 0, 0, 0, 0, 0, 0, 0, 0, 0, 0, 0, 0, 0, 0, 0, 0, 0, 0, 0, 0, 0, 0, 0, 0, 0, 0, 0, 0, 0, 0, 0, 0, 0, 0, 0, 0, 0, 0, 0, 0, 0, 0, 0, 0, 0, 0, 0, 0, 0, 0, 0, 0, 0, 0, 0, 0, 0, 0, 0, 0, 0, 0, 0, 0, 0, 0, 0, 0, 0, 0, 0, 0, 0, 0, 0, 0, 0, 0, 0, 0, 0, 0, 0, 0, 0, 0, 0, 0, 0, 0, 0, 0, 0, 0, 0, 0, 0, 0, 0, 0, 0, 0, 0, 0, 0, 0, 0, 0, 0, 0, 0, 0, 0, 0, 0, 0, 0, 0, 0, 0, 0, 0, 0, 0, 0, 0, 0, 0, 0, 0, 0, 0, 0, 0, 0, 0, 0, 0, 0, 0, 0, 0, 0, 0, 0, 0, 0, 0, 0, 0, 0, 0, 0, 0, 0, 0, 0, 0, 0, 0, 0, 0, 0, 0, 0, 0, 0, 0, 0, 0, 0, 0, 0, 0, 0, 0, 0, 0, 0, 0, 0, 0, 0, 0, 0, 0, 0, 0, 0, 0, 0, 0, 0, 0, 0, 0, 0, 0, 0, 0, 0, 0, 0, 0, 0, 0, 0, 0, 0, 0, 0, 0, 0, 0, 0, 0, 0, 0, 0, 0, 0, 0, 0, 0, 0, 0, 0, 0, 0, 0, 0, 0, 0, 0, 0, 0, 0, 0, 0, 0, 0, 0, 0, 0, 0, 0, 0, 0, 0, 0, 0, 0, 0, 0, 0, 0, 0, 0, 0, 0, 0, 0, 0, 0, 0, 0, 0, 0, 0, 0, 0, 0, 0, 0, 0, 0, 0, 0, 0, 0, 0, 0, 0, 0, 0, 0, 0, 0, 0, 0, 0, 0, 0, 0, 0, 0, 0, 0, 0, 0, 0, 0, 0, 0, 0, 0, 0, 0, 0, 0, 0, 0, 0, 0, 0, 0, 0, 0, 0, 0, 0, 0, 0, 0, 0, 0, 0, 0, 0, 0, 0, 0, 0, 0, 0, 0, 0, 0, 0, 0, 0, 0, 0, 0, 0, 0, 0, 0, 0, 0, 0, 0, 0, 0, 0, 0, 0, 0, 0, 0, 0, 0, 0, 0, 0, 0, 0, 0, 0, 0, 0, 0, 0, 0, 0, 0, 0, 0, 0, 0] =
      [31, 139, 8, 0, 0, 0, 0, 0, 0, 255, 1, 0, 6, 255, 249, 97, 0, 0, 0, 0, 0, 0, 0, 0, 0, 0, 0, 0, 0, 0, 0, 0, 0, 0, 0, 0, 0, 0, 0, 0, 0, 0, 0, 0, 0, 0, 0, 0, 0, 0, 0, 0, 0, 0, 0, 0, 0, 0, 0, 0, 0, 0, 0, 0, 0, 0, 0, 0, 0, 0, 0, 0, 0, 0, 0, 0, 0, 0, 0, 0, 0, 0, 0, 0, 0, 0, 0, 0, 0, 0, 0, 0, 0, 0, 0, 0, 0, 0, 0, 0, 0, 0, 0, 0, 0, 0, 0, 0, 0, 0, 0, 0, 0, 0, 0, 48, 48, 48, 48, 54, 52, 52, 0, 48, 48, 48, 48, 48, 48, 48, 0, 48, 48, 48, 48, 48, 48, 48, 0, 48, 48, 48, 48, 48, 48, 48, 48, 48, 48, 48, 0, 48, 48, 48, 48, 48, 48, 48, 48, 48, 48, 48, 0, 48, 48, 55, 51, 51, 54, 0, 32, 48, 0, 0, 0, 0, 0, 0, 0, 0, 0, 0, 0, 0, 0, 0, 0, 0, 0, 0, 0, 0, 0, 0, 0, 0, 0, 0, 0, 0, 0, 0, 0, 0, 0, 0, 0, 0, 0, 0, 0, 0, 0, 0, 0, 0, 0, 0, 0, 0, 0, 0, 0, 0, 0, 0, 0, 0, 0, 0, 0, 0, 0, 0, 0, 0, 0, 0, 0, 0, 0, 0, 0, 0, 0, 0, 0, 0, 0, 0, 0, 0, 0, 0, 0, 0, 0, 0, 0, 0, 0, 0, 0, 0, 0, 0, 0, 0, 0, 0, 0, 0, 117, 115, 116, 97, 114, 0, 48, 48, 0, 0, 0, 0, 0, 0, 0, 0, 0, 0, 0, 0, 0, 0, 0, 0, 0, 0, 0, 0, 0, 0, 0, 0, 0, 0, 0, 0, 0, 0, 0, 0, 0, 0, 0, 0, 0, 0, 0, 0, 0, 0, 0, 0, 0, 0, 0, 0, 0, 0, 0, 0, 0, 0, 0, 0, 0, 0, 0, 0, 0, 0, 0, 0, 48, 48, 48, 48, 48, 48, 48, 0, 48, 48, 48, 48, 48, 48, 48, 0, 0, 0, 0, 0, 0, 0, 0, 0, 0, 0, 0, 0, 0, 0, 0, 0, 0, 0, 0, 0, 0, 0, 0, 0, 0, 0, 0, 0, 0, 0, 0, 0, 0, 0, 0, 0, 0, 0, 0, 0, 0, 0, 0, 0, 0, 0, 0, 0, 0, 0, 0, 0, 0, 0, 0, 0, 0, 0, 0, 0, 0, 0, 0, 0, 0, 0, 0, 0, 0, 0, 0, 0, 0, 0, 0, 0, 0, 0, 0, 0, 0, 0, 0, 0, 0, 0, 0, 0, 0, 0, 0, 0, 0, 0, 0, 0, 0, 0, 0, 0, 0, 0, 0, 0, 0, 0, 0, 0, 0, 0, 0, 0, 0, 0, 0, 0, 0, 0, 0, 0, 0, 0, 0, 0, 0, 0, 0, 0, 0, 0, 0, 0, 0, 0, 0, 0, 0, 0, 0, 0, 0, 0, 0, 0, 0, 0, 0, 0, 0, 0, 0, 0, 0, 0, 0, 0, 0, 0, 0, 0, 0, 0, 0, 0, 0, 0, 0, 0, 0, 0, 0, 0, 0, 0, 0, 0, 0, 0, 0, 0, 0, 0, 0, 0, 0, 0, 0, 0, 0, 0, 0, 0, 0, 0, 0, 0, 0, 0, 0, 0, 0, 0, 0, 0, 0, 0, 0, 0, 0, 0, 0, 0, 0, 0, 0, 0, 0, 0, 0, 0, 0, 0, 0, 0, 0, 0, 0, 0, 0, 0, 0, 0, 0, 0, 0, 0, 0, 0, 0, 0, 0, 0, 0, 0, 0, 0, 0, 0, 0, 0, 0, 0, 0, 0, 0, 0, 0, 0, 0, 0, 0, 0, 0, 0, 0, 0, 0, 0, 0, 0, 0, 0, 0, 0, 0, 0, 0, 0, 0, 0, 0, 0, 0, 0, 0, 0, 0, 0, 0, 0, 0, 0, 0, 0, 0, 0, 0, 0, 0, 0, 0, 0, 0, 0, 0, 0, 0, 0, 0, 0, 0, 0, 0, 0, 0, 0, 0, 0, 0, 0, 0, 0, 0, 0, 0, 0, 0, 0, 0, 0, 0, 0, 0, 0, 0, 0, 0, 0, 0, 0, 0, 0, 0, 0, 0, 0, 0, 0, 0, 0, 0, 0, 0, 0, 0, 0, 0, 0, 0, 0, 0, 0, 0, 0, 0, 0, 0, 0, 0, 0, 0, 0, 0, 0, 0, 0, 0, 0, 0, 0, 0, 0, 0, 0, 0, 0, 0, 0, 0, 0, 0, 0, 0, 0, 0, 0, 0, 0, 0, 0, 0, 0, 0, 0, 0, 0, 0, 0, 0, 0, 0, 0, 0, 0, 0, 0, 0, 0, 0, 0, 0, 0, 0, 0, 0, 0, 0, 0, 0, 0, 0, 0, 0, 0, 0, 0, 0, 0, 0, 0, 0, 0, 0, 0, 0, 0, 0, 0, 0, 0, 0, 0, 0, 0, 0, 0, 0, 0, 0, 0, 0, 0, 0, 0, 0, 0, 0, 0, 0, 0, 0, 0, 0, 0, 0, 0, 0, 0, 0, 0, 0, 0, 0, 0, 0, 0, 0, 0, 0, 0, 0, 0, 0, 0, 0, 0, 0, 0, 0, 0, 0, 0, 0, 0, 0, 0, 0, 0, 0, 0, 0, 0, 0, 0, 0, 0, 0, 0, 0, 0, 0, 0, 0, 0, 0, 0, 0, 0, 0, 0, 0, 0, 0, 0, 0, 0, 0, 0, 0, 0, 0, 0, 0, 0, 0, 0, 0, 0, 0, 0, 0, 0, 0, 0, 0, 0, 0, 0, 0, 0, 0, 0, 0, 0, 0, 0, 0, 0, 0, 0, 0, 0, 0, 0, 0, 0, 0, 0, 0, 0, 0, 0, 0, 0, 0, 0, 0, 0, 0, 0, 0, 0, 0, 0, 0, 0, 0, 0, 0, 0, 0, 0, 0, 0, 0, 0, 0, 0, 0, 0, 0, 0, 0, 0, 0, 0, 0, 0, 0, 0, 0, 0, 0, 0, 0, 0, 0, 0, 0, 0, 0, 0, 0, 0, 0, 0, 0, 0, 0, 0, 0, 0, 0, 0, 0, 0, 0, 0, 0, 0, 0, 0, 0, 0, 0, 0, 0, 0, 0, 0, 0, 0, 0, 0, 0, 0, 0, 0, 0, 0, 0, 0, 0, 0, 0, 0, 0, 0, 0, 0, 0, 0, 0, 0, 0, 0, 0, 0, 0, 0, 0, 0, 0, 0, 0, 0, 0, 0, 0, 0, 0, 0, 0, 0, 0, 0, 0, 0, 0, 0, 0, 0, 0, 0, 0, 0, 0, 0, 0, 0, 0, 0, 0, 0, 0, 0, 0, 0, 0, 0, 0, 0, 0, 0, 0, 0, 0, 0, 0, 0, 0, 0, 0, 0, 0, 0, 0, 0, 0, 0, 0, 0, 0, 0, 0, 0, 0, 0, 0, 0, 0, 0, 0, 0, 0, 0, 0, 0, 0, 0, 0, 0, 0, 0, 0, 0, 0, 0, 0, 0, 0, 0, 0, 0, 0, 0, 0, 0, 0, 0, 0, 0, 0, 0, 0, 0, 0, 0, 0, 0, 0, 0, 0, 0, 0, 0, 0, 0, 0, 0, 0, 0, 0, 0, 0, 0, 0, 0, 0, 0, 0, 0, 0, 0, 0, 0, 0, 0, 0, 0, 0, 0, 0, 0, 0, 0, 0, 0, 0, 0, 0, 0, 0, 0, 0, 0, 0, 0, 0, 0, 0, 0, 0, 0, 0, 0, 0, 0, 0, 0, 0, 0, 0, 0, 0, 0, 0, 0, 0, 0, 0, 0, 0, 0, 0, 0, 0, 0, 0, 0, 0, 0, 0, 0, 0, 0, 0, 0, 0, 0, 0, 0, 0, 0, 0, 0, 0, 0, 0, 0, 0, 0, 0, 0, 0, 0, 0, 0, 0, 0, 0, 0, 0, 0, 0, 0, 0, 0, 0, 0, 0, 0, 0, 0, 0, 0, 0, 0, 0, 0, 0, 0, 0, 0, 0, 0, 0, 0, 0, 0, 0, 0, 0, 0, 0, 0, 0, 0, 0, 0, 0, 0, 0, 0, 0, 0, 0, 0, 0, 0, 0, 0, 0, 0, 0, 0, 0, 0, 0, 0, 0, 0, 0, 0, 0, 0, 0, 0, 0, 0, 0, 0, 0, 0, 0, 0, 0, 0, 0, 0, 0, 0, 0, 0, 0, 0, 0, 0, 0, 0, 0, 0, 0, 0, 0, 0, 0, 0, 0, 0, 0, 0, 0, 0, 0, 0, 0, 0, 0, 0, 0, 0, 0, 0, 0, 0, 0, 0, 0, 0, 0, 0, 0, 0, 0, 0, 0, 0, 0, 0, 0, 0, 0, 0, 0, 0, 0, 0, 0, 0, 0, 0, 0, 0, 0, 0, 0, 0, 0, 0, 0, 0, 0, 0, 0, 0, 0, 0, 0, 0, 0, 0, 0, 0, 0, 0, 0, 0, 0, 0, 0, 0, 0, 0, 0, 0, 0, 0, 0, 0, 0, 0, 0, 0, 0, 0, 0, 0, 0, 0, 0, 0, 0, 0, 0, 0, 0, 0, 0, 0, 0, 0, 0, 0, 0, 0, 0, 0, 0, 0, 0, 0, 0, 0, 0, 0, 0, 0, 0, 0, 0, 0, 0, 0, 0, 0, 0, 0, 0, 0, 0, 0, 0, 0, 0, 0, 0, 0, 0, 0, 0, 0, 0, 0, 0, 0, 0, 0, 0, 0, 0, 0, 0, 0, 0, 0, 0, 0, 0, 0, 0, 0, 0, 0, 0, 0, 0, 0, 0, 0, 0, 0, 0, 0, 0, 0, 0, 0, 0, 0, 0, 164, 75, 216, 0, 0, 6, 0, 0] := by
  rw [gzipEncode, c1defl, c1crc, c1tar_len]
  try rfl


set_option maxRecDepth 10000 in
set_option maxHeartbeats 2000000 in
theorem c1tar_padlen :
    List.length [97, 0, 0, 0, 0, 0, 0, 0, 0, 0, 0, 0, 0, 0, 0, 0, 0, 0, 0, 0, 0, 0, 0, 0, 0, 0, 0, 0, 0, 0, 0, 0, 0, 0, 0, 0, 0, 0, 0, 0, 0, 0, 0, 0, 0, 0, 0, 0, 0, 0, 0, 0, 0, 0, 0, 0, 0, 0, 0, 0, 0, 0, 0, 0, 0, 0, 0, 0, 0, 0, 0, 0, 0, 0, 0, 0, 0, 0, 0, 0, 0, 0, 0, 0, 0, 0, 0, 0, 0, 0, 0, 0, 0, 0, 0, 0, 0, 0, 0, 0, 48, 48, 48, 48, 54, 52, 52, 0, 48, 48, 48, 48, 48, 48, 48, 0, 48, 48, 48, 48, 48, 48, 48, 0, 48, 48, 48, 48, 48, 48, 48, 48, 48, 48, 48, 0, 48, 48, 48, 48, 48, 48, 48, 48, 48, 48, 48, 0, 48, 48, 55, 51, 51, 54, 0, 32, 48, 0, 0, 0, 0, 0, 0, 0, 0, 0, 0, 0, 0, 0, 0, 0, 0, 0, 0, 0, 0, 0, 0, 0, 0, 0, 0, 0, 0, 0, 0, 0, 0, 0, 0, 0, 0, 0, 0, 0, 0, 0, 0, 0, 0, 0, 0, 0, 0, 0, 0, 0, 0, 0, 0, 0, 0, 0, 0, 0, 0, 0, 0, 0, 0, 0, 0, 0, 0, 0, 0, 0, 0, 0, 0, 0, 0, 0, 0, 0, 0, 0, 0, 0, 0, 0, 0, 0, 0, 0, 0, 0, 0, 0, 0, 0, 0, 0, 0, 0, 0, 117, 115, 116, 97, 114, 0, 48, 48, 0, 0, 0, 0, 0, 0, 0, 0, 0, 0, 0, 0, 0, 0, 0, 0, 0, 0, 0, 0, 0, 0, 0, 0, 0, 0, 0, 0, 0, 0, 0, 0, 0, 0, 0, 0, 0, 0, 0, 0, 0, 0, 0, 0, 0, 0, 0, 0, 0, 0, 0, 0, 0, 0, 0, 0, 0, 0, 0, 0, 0, 0, 0, 0, 48, 48, 48, 48, 48, 48, 48, 0, 48, 48, 48, 48, 48, 48, 48, 0, 0, 0, 0, 0, 0, 0, 0, 0, 0, 0, 0, 0, 0, 0, 0, 0, 0, 0, 0, 0, 0, 0, 0, 0, 0, 0, 0, 0, 0, 0, 0, 0, 0, 0, 0, 0, 0, 0, 0, 0, 0, 0, 0, 0, 0, 0, 0, 0, 0, 0, 0, 0, 0, 0, 0, 0, 0, 0, 0, 0, 0, 0, 0, 0, 0, 0, 0, 0, 0, 0, 0, 0, 0, 0, 0, 0, 0, 0, 0, 0, 0, 0, 0, 0, 0, 0, 0, 0, 0, 0, 0, 0, 0, 0, 0, 0, 0, 0, 0, 0, 0, 0, 0, 0, 0, 0, 0, 0, 0, 0, 0, 0, 0, 0, 0, 0, 0, 0, 0, 0, 0, 0, 0, 0, 0, 0, 0, 0, 0, 0, 0, 0, 0, 0, 0, 0, 0, 0, 0, 0, 0, 0, 0, 0, 0, 0, 0, 0, 0, 0, 0, 0, 0, 0, 0, 0, 0, 0, 0, 0, 0, 0, 0, 0, 0, 0, 0, 0, 0, 0, 0, 0, 0, 0, 0, 0, 0, 0, 0, 0, 0, 0, 0, 0, 0, 0, 0, 0, 0, 0, 0, 0, 0, 0, 0, 0, 0, 0, 0, 0, 0, 0, 0, 0, 0, 0, 0, 0, 0, 0, 0, 0, 0, 0, 0, 0, 0, 0, 0, 0, 0, 0, 0, 0, 0, 0, 0, 0, 0, 0, 0, 0, 0, 0, 0, 0, 0, 0, 0, 0, 0, 0, 0, 0, 0, 0, 0, 0, 0, 0, 0, 0, 0, 0, 0, 0, 0, 0, 0, 0, 0, 0, 0, 0, 0, 0, 0, 0, 0, 0, 0, 0, 0, 0, 0, 0, 0, 0, 0, 0, 0, 0, 0, 0, 0, 0, 0, 0, 0, 0, 0, 0, 0, 0, 0, 0, 0, 0, 0, 0, 0, 0, 0, 0, 0, 0, 0, 0, 0, 0, 0, 0, 0, 0, 0, 0, 0, 0, 0, 0, 0, 0, 0, 0, 0, 0, 0, 0, 0, 0, 0, 0, 0, 0, 0, 0, 0, 0, 0, 0, 0, 0, 0, 0, 0, 0, 0, 0, 0, 0, 0, 0, 0, 0, 0, 0, 0, 0, 0, 0, 0, 0, 0, 0, 0, 0, 0, 0, 0, 0, 0, 0, 0, 0, 0, 0, 0, 0, 0, 0, 0, 0, 0, 0, 0, 0, 0, 0, 0, 0, 0, 0, 0, 0, 0, 0, 0, 0, 0, 0, 0, 0, 0, 0, 0, 0, 0, 0, 0, 0, 0, 0, 0, 0, 0, 0, 0, 0, 0, 0, 0, 0, 0, 0, 0, 0, 0, 0, 0, 0, 0, 0, 0, 0, 0, 0, 0, 0, 0, 0, 0, 0, 0, 0, 0, 0, 0, 0, 0, 0, 0, 0, 0, 0, 0, 0, 0, 0, 0, 0, 0, 0, 0, 0, 0, 0, 0, 0, 0, 0, 0, 0, 0, 0, 0, 0, 0, 0, 0, 0, 0, 0, 0, 0, 0, 0, 0, 0, 0, 0, 0, 0, 0, 0, 0, 0, 0, 0, 0, 0, 0, 0, 0, 0, 0, 0, 0, 0, 0, 0, 0, 0, 0, 0, 0, 0, 0, 0, 0, 0, 0, 0, 0, 0, 0, 0, 0, 0, 0, 0, 0, 0, 0, 0, 0, 0, 0, 0, 0, 0, 0, 0, 0, 0, 0, 0, 0, 0, 0, 0, 0, 0, 0, 0, 0, 0, 0, 0, 0, 0, 0, 0, 0, 0, 0, 0, 0, 0, 0, 0, 0, 0, 0, 0, 0, 0, 0, 0, 0, 0, 0, 0, 0, 0, 0, 0, 0, 0, 0, 0, 0, 0, 0, 0, 0, 0, 0, 0, 0, 0, 0, 0, 0, 0, 0, 0, 0, 0, 0, 0, 0, 0, 0, 0, 0, 0, 0, 0, 0, 0, 0, 0, 0, 0, 0, 0, 0, 0, 0, 0, 0, 0, 0, 0, 0, 0, 0, 0, 0, 0, 0, 0, 0, 0, 0, 0, 0, 0, 0, 0, 0, 0, 0, 0, 0, 0, 0, 0, 0, 0, 0, 0, 0, 0, 0, 0, 0, 0, 0, 0, 0, 0, 0, 0, 0, 0, 0, 0, 0, 0, 0, 0, 0, 0, 0, 0, 0, 0, 0, 0, 0, 0, 0, 0, 0, 0, 0, 0, 0, 0, 0, 0, 0, 0, 0, 0, 0, 0, 0, 0, 0, 0, 0, 0, 0, 0, 0, 0, 0, 0, 0, 0, 0, 0, 0, 0, 0, 0, 0, 0, 0, 0, 0, 0, 0, 0, 0, 0, 0, 0, 0, 0, 0, 0, 0, 0, 0, 0, 0, 0, 0, 0, 0, 0, 0, 0, 0, 0, 0, 0, 0, 0, 0, 0, 0, 0, 0, 0, 0, 0, 0, 0, 0, 0, 0, 0, 0, 0, 0, 0, 0, 0, 0, 0, 0, 0, 0, 0, 0, 0, 0, 0, 0, 0, 0, 0, 0, 0, 0, 0, 0, 0, 0, 0, 0, 0, 0, 0, 0, 0, 0, 0, 0, 0, 0, 0, 0, 0, 0, 0, 0, 0, 0, 0, 0, 0, 0, 0, 0, 0, 0, 0, 0, 0, 0, 0, 0, 0, 0, 0, 0, 0, 0, 0, 0, 0, 0, 0, 0, 0, 0, 0, 0, 0, 0, 0, 0, 0, 0, 0, 0, 0, 0, 0, 0, 0, 0, 0, 0, 0, 0, 0, 0, 0, 0, 0, 0, 0, 0, 0, 0, 0, 0, 0, 0, 0, 0, 0, 0, 0, 0, 0, 0, 0, 0, 0, 0, 0, 0, 0, 0, 0, 0, 0, 0, 0, 0, 0, 0, 0, 0, 0, 0, 0, 0, 0, 0, 0, 0, 0, 0, 0, 0, 0, 0, 0, 0, 0, 0, 0, 0, 0, 0, 0, 0, 0, 0, 0, 0, 0, 0, 0, 0, 0, 0, 0, 0, 0, 0, 0, 0, 0, 0, 0, 0, 0, 0, 0, 0, 0, 0, 0, 0, 0, 0, 0, 0, 0, 0, 0, 0, 0, 0, 0, 0, 0, 0, 0, 0, 0, 0, 0, 0, 0, 0, 0, 0, 0, 0, 0, 0, 0, 0, 0, 0, 0, 0, 0, 0, 0, 0, 0, 0, 0, 0, 0, 0, 0, 0, 0, 0, 0, 0, 0, 0, 0, 0, 0, 0, 0, 0, 0, 0, 0, 0, 0, 0, 0, 0, 0, 0, 0, 0, 0, 0, 0, 0, 0, 0, 0, 0, 0, 0, 0, 0, 0, 0, 0, 0, 0, 0, 0, 0, 0, 0, 0, 0, 0, 0, 0, 0, 0, 0, 0, 0, 0, 0, 0, 0, 0, 0, 0, 0, 0, 0, 0, 0, 0, 0, 0, 0, 0, 0, 0, 0, 0, 0, 0, 0, 0, 0, 0, 0, 0, 0, 0, 0, 0, 0, 0, 0, 0, 0, 0, 0, 0, 0, 0, 0, 0, 0, 0, 0, 0, 0, 0, 0, 0, 0, 0, 0, 0, 0, 0, 0, 0, 0, 0, 0, 0, 0, 0, 0, 0, 0, 0, 0, 0, 0, 0, 0, 0, 0, 0, 0, 0, 0, 0, 0, 0, 0, 0, 0, 0, 0, 0, 0, 0, 0, 0, 0, 0, 0, 0, 0, 0, 0, 0, 0, 0, 0, 0, 0, 0, 0, 0, 0, 0, 0, 0, 0, 0, 0, 0, 0, 0, 0, 0, 0, 0, 0, 128, 0, 0, 0, 0, 0, 0, 0, 0, 0, 0, 0, 0, 0, 0, 0, 0, 0, 0, 0, 0, 0, 0, 0, 0, 0, 0, 0, 0, 0, 0, 0, 0, 0, 0, 0, 0, 0, 0, 0, 0, 0, 0, 0, 0, 0, 0, 0, 0, 0, 0, 0, 0, 0, 0, 0, 0, 0, 0, 0, 0, 0, 48, 0] = 1600 := by
  rfl


set_option maxRecDepth 10000 in
set_option maxHeartbeats 2000000 in
theorem c1pad_tar :
    shaPad [97, 0, 0, 0, 0, 0, 0, 0, 0, 0, 0, 0, 0, 0, 0, 0, 0, 0, 0, 0, 0, 0, 0, 0, 0, 0, 0, 0, 0, 0, 0, 0, 0, 0, 0, 0, 0, 0, 0, 0, 0, 0, 0, 0, 0, 0, 0, 0, 0, 0, 0, 0, 0, 0, 0, 0, 0, 0, 0, 0, 0, 0, 0, 0, 0, 0, 0, 0, 0, 0, 0, 0, 0, 0, 0, 0, 0, 0, 0, 0, 0, 0, 0, 0, 0, 0, 0, 0, 0, 0, 0, 0, 0, 0, 0, 0, 0, 0, 0, 0, 48, 48, 48, 48, 54, 52, 52, 0, 48, 48, 48, 48, 48, 48, 48, 0, 48, 48, 48, 48, 48, 48, 48, 0, 48, 48, 48, 48, 48, 48, 48, 48, 48, 48, 48, 0, 48, 48, 48, 48, 48, 48, 48, 48, 48, 48, 48, 0, 48, 48, 55, 51, 51, 54, 0, 32, 48, 0, 0, 0, 0, 0, 0, 0, 0, 0, 0, 0, 0, 0, 0, 0, 0, 0, 0, 0, 0, 0, 0, 0, 0, 0, 0, 0, 0, 0, 0, 0, 0, 0, 0, 0, 0, 0, 0, 0, 0, 0, 0, 0, 0, 0, 0, 0, 0, 0, 0, 0, 0, 0, 0, 0, 0, 0, 0, 0, 0, 0, 0, 0, 0, 0, 0, 0, 0, 0, 0, 0, 0, 0, 0, 0, 0, 0, 0, 0, 0, 0, 0, 0, 0, 0, 0, 0, 0, 0, 0, 0, 0, 0, 0, 0, 0, 0, 0, 0, 0, 117, 115, 116, 97, 114, 0, 48, 48, 0, 0, 0, 0, 0, 0, 0, 0, 0, 0, 0, 0, 0, 0, 0, 0, 0, 0, 0, 0, 0, 0, 0, 0, 0, 0, 0, 0, 0, 0, 0, 0, 0, 0, 0, 0, 0, 0, 0, 0, 0, 0, 0, 0, 0, 0, 0, 0, 0, 0, 0, 0, 0, 0, 0, 0, 0, 0, 0, 0, 0, 0, 0, 0, 48, 48, 48, 48, 48, 48, 48, 0, 48, 48, 48, 48, 48, 48, 48, 0, 0, 0, 0, 0, 0, 0, 0, 0, 0, 0, 0, 0, 0, 0, 0, 0, 0, 0, 0, 0, 0, 0, 0, 0, 0, 0, 0, 0, 0, 0, 0, 0, 0, 0, 0, 0, 0, 0, 0, 0, 0, 0, 0, 0, 0, 0, 0, 0, 0, 0, 0, 0, 0, 0, 0, 0, 0, 0, 0, 0, 0, 0, 0, 0, 0, 0, 0, 0, 0, 0, 0, 0, 0, 0, 0, 0, 0, 0, 0, 0, 0, 0, 0, 0, 0, 0, 0, 0, 0, 0, 0, 0, 0, 0, 0, 0, 0, 0, 0, 0, 0, 0, 0, 0, 0, 0, 0, 0, 0, 0, 0, 0, 0, 0, 0, 0, 0, 0, 0, 0, 0, 0, 0, 0, 0, 0, 0, 0, 0, 0, 0, 0, 0, 0, 0, 0, 0, 0, 0, 0, 0, 0, 0, 0, 0, 0, 0, 0, 0, 0, 0, 0, 0, 0, 0, 0, 0, 0, 0, 0, 0, 0, 0, 0, 0, 0, 0, 0, 0, 0, 0, 0, 0, 0, 0, 0, 0, 0, 0, 0, 0, 0, 0, 0, 0, 0, 0, 0, 0, 0, 0, 0, 0, 0, 0, 0, 0, 0, 0, 0, 0, 0, 0, 0, 0, 0, 0, 0, 0, 0, 0, 0, 0, 0, 0, 0, 0, 0, 0, 0, 0, 0, 0, 0, 0, 0, 0, 0, 0, 0, 0, 0, 0, 0, 0, 0, 0, 0, 0, 0, 0, 0, 0, 0, 0, 0, 0, 0, 0, 0, 0, 0, 0, 0, 0, 0, 0, 0, 0, 0, 0, 0, 0, 0, 0, 0, 0, 0, 0, 0, 0, 0, 0, 0, 0, 0, 0, 0, 0, 0, 0, 0, 0, 0, 0, 0, 0, 0, 0, 0, 0, 0, 0, 0, 0, 0, 0, 0, 0, 0, 0, 0, 0, 0, 0, 0, 0, 0, 0, 0, 0, 0, 0, 0, 0, 0, 0, 0, 0, 0, 0, 0, 0, 0, 0, 0, 0, 0, 0, 0, 0, 0, 0, 0, 0, 0, 0, 0, 0, 0, 0, 0, 0, 0, 0, 0, 0, 0, 0, 0, 0, 0, 0, 0, 0, 0, 0, 0, 0, 0, 0, 0, 0, 0, 0, 0, 0, 0, 0, 0, 0, 0, 0, 0, 0, 0, 0, 0, 0, 0, 0, 0, 0, 0, 0, 0, 0, 0, 0, 0, 0, 0, 0, 0, 0, 0, 0, 0, 0, 0, 0, 0, 0, 0, 0, 0, 0, 0, 0, 0, 0, 0, 0, 0, 0, 0, 0, 0, 0, 0, 0, 0, 0, 0, 0, 0, 0, 0, 0, 0, 0, 0, 0, 0, 0, 0, 0, 0, 0, 0, 0, 0, 0, 0, 0, 0, 0, 0, 0, 0, 0, 0, 0, 0, 0, 0, 0, 0, 0, 0, 0, 0, 0, 0, 0, 0, 0, 0, 0, 0, 0, 0, 0, 0, 0, 0, 0, 0, 0, 0, 0, 0, 0, 0, 0, 0, 0, 0, 0, 0, 0, 0, 0, 0, 0, 0, 0, 0, 0, 0, 0, 0, 0, 0, 0, 0, 0, 0, 0, 0, 0, 0, 0, 0, 0, 0, 0, 0, 0, 0, 0, 0, 0, 0, 0, 0, 0, 0, 0, 0, 0, 0, 0, 0, 0, 0, 0, 0, 0, 0, 0, 0, 0, 0, 0, 0, 0, 0, 0, 0, 0, 0, 0, 0, 0, 0, 0, 0, 0, 0, 0, 0, 0, 0, 0, 0, 0, 0, 0, 0, 0, 0, 0, 0, 0, 0, 0, 0, 0, 0, 0, 0, 0, 0, 0, 0, 0, 0, 0, 0, 0, 0, 0, 0, 0, 0, 0, 0, 0, 0, 0, 0, 0, 0, 0, 0, 0, 0, 0, 0, 0, 0, 0, 0, 0, 0, 0, 0, 0, 0, 0, 0, 0, 0, 0, 0, 0, 0, 0, 0, 0, 0, 0, 0, 0, 0, 0, 0, 0, 0, 0, 0, 0, 0, 0, 0, 0, 0, 0, 0, 0, 0, 0, 0, 0, 0, 0, 0, 0, 0, 0, 0, 0, 0, 0, 0, 0, 0, 0, 0, 0, 0, 0, 0, 0, 0, 0, 0, 0, 0, 0, 0, 0, 0, 0, 0, 0, 0, 0, 0, 0, 0, 0, 0, 0, 0, 0, 0, 0, 0, 0, 0, 0, 0, 0, 0, 0, 0, 0, 0, 0, 0, 0, 0, 0, 0, 0, 0, 0, 0, 0, 0, 0, 0, 0, 0, 0, 0, 0, 0, 0, 0, 0, 0, 0, 0, 0, 0, 0, 0, 0, 0, 0, 0, 0, 0, 0, 0, 0, 0, 0, 0, 0, 0, 0, 0, 0, 0, 0, 0, 0, 0, 0, 0, 0, 0, 0, 0, 0, 0, 0, 0, 0, 0, 0, 0, 0, 0, 0, 0, 0, 0, 0, 0, 0, 0, 0, 0, 0, 0, 0, 0, 0, 0, 0, 0, 0, 0, 0, 0, 0, 0, 0, 0, 0, 0, 0, 0, 0, 0, 0, 0, 0, 0, 0, 0, 0, 0, 0, 0, 0, 0, 0, 0, 0, 0, 0, 0, 0, 0, 0, 0, 0, 0, 0, 0, 0, 0, 0, 0, 0, 0, 0, 0, 0, 0, 0, 0, 0, 0, 0, 0, 0, 0, 0, 0, 0, 0, 0, 0, 0, 0, 0, 0, 0, 0, 0, 0, 0, 0, 0, 0, 0, 0, 0, 0, 0, 0, 0, 0, 0, 0, 0, 0, 0, 0, 0, 0, 0, 0, 0, 0, 0, 0, 0, 0, 0, 0, 0, 0, 0, 0, 0, 0, 0, 0, 0, 0, 0, 0, 0, 0, 0, 0, 0, 0, 0, 0, 0, 0, 0, 0, 0, 0, 0, 0, 0, 0, 0, 0, 0, 0, 0, 0, 0, 0, 0, 0, 0, 0, 0, 0, 0, 0, 0, 0, 0, 0, 0, 0, 0, 0, 0, 0, 0, 0, 0, 0, 0, 0, 0, 0, 0, 0, 0, 0, 0, 0, 0, 0, 0, 0, 0, 0, 0, 0, 0, 0, 0, 0, 0, 0, 0, 0, 0, 0, 0, 0, 0, 0, 0, 0, 0, 0, 0, 0, 0, 0, 0, 0, 0, 0, 0, 0, 0, 0, 0, 0, 0, 0, 0, 0, 0, 0, 0, 0, 0, 0, 0, 0, 0, 0, 0, 0, 0, 0, 0, 0, 0, 0, 0, 0, 0, 0, 0, 0, 0, 0, 0, 0, 0, 0, 0, 0, 0, 0, 0, 0, 0, 0, 0, 0, 0, 0, 0, 0, 0, 0, 0, 0, 0, 0, 0, 0, 0, 0, 0, 0, 0, 0, 0, 0, 0, 0, 0, 0, 0, 0, 0, 0, 0, 0, 0, 0, 0, 0, 0, 0, 0, 0, 0, 0, 0, 0, 0, 0, 0, 0, 0, 0, 0, 0, 0, 0, 0, 0, 0, 0, 0, 0, 0, 0, 0, 0, 0, 0, 0, 0, 0, 0, 0, 0, 0, 0, 0, 0, 0, 0, 0, 0, 0, 0, 0, 0, 0, 0, 0, 0, 0, 0, 0, 0, 0, 0, 0, 0, 0, 0, 0, 0, 0, 0, 0, 0, 0, 0, 0, 0, 0, 0, 0, 0, 0, 0, 0, 0, 0, 0, 0, 0, 0, 0, 0, 0, 0, 0, 0, 0, 0, 0, 0, 0, 0, 0, 0, 0, 0, 0, 0, 0, 0] =
      [97, 0, 0, 0, 0, 0, 0, 0, 0, 0, 0, 0, 0, 0, 0, 0, 0, 0, 0, 0, 0, 0, 0, 0, 0, 0, 0, 0, 0, 0, 0, 0, 0, 0, 0, 0, 0, 0, 0, 0, 0, 0, 0, 0, 0, 0, 0, 0, 0, 0, 0, 0, 0, 0, 0, 0, 0, 0, 0, 0, 0, 0, 0, 0, 0, 0, 0, 0, 0, 0, 0, 0, 0, 0, 0, 0, 0, 0, 0, 0, 0, 0, 0, 0, 0, 0, 0, 0, 0, 0, 0, 0, 0, 0, 0, 0, 0, 0, 0, 0, 48, 48, 48, 48, 54, 52, 52, 0, 48, 48, 48, 48, 48, 48, 48, 0, 48, 48, 48, 48, 48, 48, 48, 0, 48, 48, 48, 48, 48, 48, 48, 48, 48, 48, 48, 0, 48, 48, 48, 48, 48, 48, 48, 48, 48, 48, 48, 0, 48, 48, 55, 51, 51, 54, 0, 32, 48, 0, 0, 0, 0, 0, 0, 0, 0, 0, 0, 0, 0, 0, 0, 0, 0, 0, 0, 0, 0, 0, 0, 0, 0, 0, 0, 0, 0, 0, 0, 0, 0, 0, 0, 0, 0, 0, 0, 0, 0, 0, 0, 0, 0, 0, 0, 0, 0, 0, 0, 0, 0, 0, 0, 0, 0, 0, 0, 0, 0, 0, 0, 0, 0, 0, 0, 0, 0, 0, 0, 0, 0, 0, 0, 0, 0, 0, 0, 0, 0, 0, 0, 0, 0, 0, 0, 0, 0, 0, 0, 0, 0, 0, 0, 0, 0, 0, 0, 0, 0, 117, 115, 116, 97, 114, 0, 48, 48, 0, 0, 0, 0, 0, 0, 0, 0, 0, 0, 0, 0, 0, 0, 0, 0, 0, 0, 0, 0, 0, 0, 0, 0, 0, 0, 0, 0, 0, 0, 0, 0, 0, 0, 0, 0, 0, 0, 0, 0, 0, 0, 0, 0, 0, 0, 0, 0, 0, 0, 0, 0, 0, 0, 0, 0, 0, 0, 0, 0, 0, 0, 0, 0, 48, 48, 48, 48, 48, 48, 48, 0, 48, 48, 48, 48, 48, 48, 48, 0, 0, 0, 0, 0, 0, 0, 0, 0, 0, 0, 0, 0, 0, 0, 0, 0, 0, 0, 0, 0, 0, 0, 0, 0, 0, 0, 0, 0, 0, 0, 0, 0, 0, 0, 0, 0, 0, 0, 0, 0, 0, 0, 0, 0, 0, 0, 0, 0, 0, 0, 0, 0, 0, 0, 0, 0, 0, 0, 0, 0, 0, 0, 0, 0, 0, 0, 0, 0, 0, 0, 0, 0, 0, 0, 0, 0, 0, 0, 0, 0, 0, 0, 0, 0, 0, 0, 0, 0, 0, 0, 0, 0, 0, 0, 0, 0, 0, 0, 0, 0, 0, 0, 0, 0, 0, 0, 0, 0, 0, 0, 0, 0, 0, 0, 0, 0, 0, 0, 0, 0, 0, 0, 0, 0, 0, 0, 0, 0, 0, 0, 0, 0, 0, 0, 0, 0, 0, 0, 0, 0, 0, 0, 0, 0, 0, 0, 0, 0, 0, 0, 0, 0, 0, 0, 0, 0, 0, 0, 0, 0, 0, 0, 0, 0, 0, 0, 0, 0, 0, 0, 0, 0, 0, 0, 0, 0, 0, 0, 0, 0, 0, 0, 0, 0, 0, 0, 0, 0, 0, 0, 0, 0, 0, 0, 0, 0, 0, 0, 0, 0, 0, 0, 0, 0, 0, 0, 0, 0, 0, 0, 0, 0, 0, 0, 0, 0, 0, 0, 0, 0, 0, 0, 0, 0, 0, 0, 0, 0, 0, 0, 0, 0, 0, 0, 0, 0, 0, 0, 0, 0, 0, 0, 0, 0, 0, 0, 0, 0, 0, 0, 0, 0, 0, 0, 0, 0, 0, 0, 0, 0, 0, 0, 0, 0, 0, 0, 0, 0, 0, 0, 0, 0, 0, 0, 0, 0, 0, 0, 0, 0, 0, 0, 0, 0, 0, 0, 0, 0, 0, 0, 0, 0, 0, 0, 0, 0, 0, 0, 0, 0, 0, 0, 0, 0, 0, 0, 0, 0, 0, 0, 0, 0, 0, 0, 0, 0, 0, 0, 0, 0, 0, 0, 0, 0, 0, 0, 0, 0, 0, 0, 0, 0, 0, 0, 0, 0, 0, 0, 0, 0, 0, 0, 0, 0, 0, 0, 0, 0, 0, 0, 0, 0, 0, 0, 0, 0, 0, 0, 0, 0, 0, 0, 0, 0, 0, 0, 0, 0, 0, 0, 0, 0, 0, 0, 0, 0, 0, 0, 0, 0, 0, 0, 0, 0, 0, 0, 0, 0, 0, 0, 0, 0, 0, 0, 0, 0, 0, 0, 0, 0, 0, 0, 0, 0, 0, 0, 0, 0, 0, 0, 0, 0, 0, 0, 0, 0, 0, 0, 0, 0, 0, 0, 0, 0, 0, 0, 0, 0, 0, 0, 0, 0, 0, 0, 0, 0, 0, 0, 0, 0, 0, 0, 0, 0, 0, 0, 0, 0, 0, 0, 0, 0, 0, 0, 0, 0, 0, 0, 0, 0, 0, 0, 0, 0, 0, 0, 0, 0, 0, 0, 0, 0, 0, 0, 0, 0, 0, 0, 0, 0, 0, 0, 0, 0, 0, 0, 0, 0, 0, 0, 0, 0, 0, 0, 0, 0, 0, 0, 0, 0, 0, 0, 0, 0, 0, 0, 0, 0, 0, 0, 0, 0, 0, 0, 0, 0, 0, 0, 0, 0, 0, 0, 0, 0, 0, 0, 0, 0, 0, 0, 0, 0, 0, 0, 0, 0, 0, 0, 0, 0, 0, 0, 0, 0, 0, 0, 0, 0, 0, 0, 0, 0, 0, 0, 0, 0, 0, 0, 0, 0, 0, 0, 0, 0, 0, 0, 0, 0, 0, 0, 0, 0, 0, 0, 0, 0, 0, 0, 0, 0, 0, 0, 0, 0, 0, 0, 0, 0, 0, 0, 0, 0, 0, 0, 0, 0, 0, 0, 0, 0, 0, 0, 0, 0, 0, 0, 0, 0, 0, 0, 0, 0, 0, 0, 0, 0, 0, 0, 0, 0, 0, 0, 0, 0, 0, 0, 0, 0, 0, 0, 0, 0, 0, 0, 0, 0, 0, 0, 0, 0, 0, 0, 0, 0, 0, 0, 0, 0, 0, 0, 0, 0, 0, 0, 0, 0, 0, 0, 0, 0, 0, 0, 0, 0, 0, 0, 0, 0, 0, 0, 0, 0, 0, 0, 0, 0, 0, 0, 0, 0, 0, 0, 0, 0, 0, 0, 0, 0, 0, 0, 0, 0, 0, 0, 0, 0, 0, 0, 0, 0, 0, 0, 0, 0, 0, 0, 0, 0, 0, 0, 0, 0, 0, 0, 0, 0, 0, 0, 0, 0, 0, 0, 0, 0, 0, 0, 0, 0, 0, 0, 0, 0, 0, 0, 0, 0, 0, 0, 0, 0, 0, 0, 0, 0, 0, 0, 0, 0, 0, 0, 0, 0, 0, 0, 0, 0, 0, 0, 0, 0, 0, 0, 0, 0, 0, 0, 0, 0, 0, 0, 0, 0, 0, 0, 0, 0, 0, 0, 0, 0, 0, 0, 0, 0, 0, 0, 0, 0, 0, 0, 0, 0, 0, 0, 0, 0, 0, 0, 0, 0, 0, 0, 0, 0, 0, 0, 0, 0, 0, 0, 0, 0, 0, 0, 0, 0, 0, 0, 0, 0, 0, 0, 0, 0, 0, 0, 0, 0, 0, 0, 0, 0, 0, 0, 0, 0, 0, 0, 0, 0, 0, 0, 0, 0, 0, 0, 0, 0, 0, 0, 0, 0, 0, 0, 0, 0, 0, 0, 0, 0, 0, 0, 0, 0, 0, 0, 0, 0, 0, 0, 0, 0, 0, 0, 0, 0, 0, 0, 0, 0, 0, 0, 0, 0, 0, 0, 0, 0, 0, 0, 0, 0, 0, 0, 0, 0, 0, 0, 0, 0, 0, 0, 0, 0, 0, 0, 0, 0, 0, 0, 0, 0, 0, 0, 0, 0, 0, 0, 0, 0, 0, 0, 0, 0, 0, 0, 0, 0, 0, 0, 0, 0, 0, 0, 0, 0, 0, 0, 0, 0, 0, 0, 0, 0, 0, 0, 0, 0, 0, 0, 0, 0, 0, 0, 0, 0, 0, 0, 0, 0, 0, 0, 0, 0, 0, 0, 0, 0, 0, 0, 0, 0, 0, 0, 0, 0, 0, 0, 0, 0, 0, 0, 0, 0, 0, 0, 0, 0, 0, 0, 0, 0, 0, 0, 0, 0, 0, 0, 0, 0, 0, 0, 0, 0, 0, 0, 0, 0, 0, 0, 0, 0, 0, 0, 0, 0, 0, 0, 0, 0, 0, 0, 0, 0, 0, 0, 0, 0, 0, 0, 0, 0, 0, 0, 0, 0, 0, 0, 0, 0, 0, 0, 0, 0, 0, 0, 0, 0, 0, 0, 0, 0, 0, 0, 0, 0, 0, 0, 0, 0, 0, 0, 0, 0, 0, 0, 0, 0, 0, 0, 0, 0, 0, 0, 0, 0, 0, 0, 0, 0, 0, 0, 0, 0, 0, 0, 0, 0, 0, 0, 0, 0, 0, 0, 0, 0, 0, 0, 0, 0, 0, 0, 0, 0, 0, 0, 0, 0, 0, 0, 0, 0, 0, 0, 0, 0, 0, 0, 0, 0, 0, 0, 0, 0, 0, 0, 0, 0, 0, 0, 0, 0, 0, 0, 0, 0, 0, 0, 0, 0, 0, 0, 0, 0, 0, 0, 0, 0, 0, 0, 0, 0, 0, 0, 0, 0, 0, 0, 0, 0, 0, 0, 0, 0, 0, 0, 0, 0, 0, 0, 0, 0, 0, 0, 0, 0, 0, 0, 0, 0, 0, 0, 0, 0, 0, 0, 0, 0, 0, 0, 0, 128, 0, 0, 0, 0, 0, 0, 0, 0, 0, 0, 0, 0, 0, 0, 0, 0, 0, 0, 0, 0, 0, 0, 0, 0, 0, 0, 0, 0, 0, 0, 0, 0, 0, 0, 0, 0, 0, 0, 0, 0, 0, 0, 0, 0, 0, 0, 0, 0, 0, 0, 0, 0, 0, 0, 0, 0, 0, 0, 0, 0, 0, 48, 0] := by
  rw [shaPad, c1tar_len]
  try rfl


set_option maxRecDepth 10000 in
set_option maxHeartbeats 2000000 in
theorem c1chunks_tar :
    chunks 64 [97, 0, 0, 0, 0, 0, 0, 0, 0, 0, 0, 0, 0, 0, 0, 0, 0, 0, 0, 0, 0, 0, 0, 0, 0, 0, 0, 0, 0, 0, 0, 0, 0, 0, 0, 0, 0, 0, 0, 0, 0, 0, 0, 0, 0, 0, 0, 0, 0, 0, 0, 0, 0, 0, 0, 0, 0, 0, 0, 0, 0, 0, 0, 0, 0, 0, 0, 0, 0, 0, 0, 0, 0, 0, 0, 0, 0, 0, 0, 0, 0, 0, 0, 0, 0, 0, 0, 0, 0, 0, 0, 0, 0, 0, 0, 0, 0, 0, 0, 0, 48, 48, 48, 48, 54, 52, 52, 0, 48, 48, 48, 48, 48, 48, 48, 0, 48, 48, 48, 48, 48, 48, 48, 0, 48, 48, 48, 48, 48, 48, 48, 48, 48, 48, 48, 0, 48, 48, 48, 48, 48, 48, 48, 48, 48, 48, 48, 0, 48, 48, 55, 51, 51, 54, 0, 32, 48, 0, 0, 0, 0, 0, 0, 0, 0, 0, 0, 0, 0, 0, 0, 0, 0, 0, 0, 0, 0, 0, 0, 0, 0, 0, 0, 0, 0, 0, 0, 0, 0, 0, 0, 0, 0, 0, 0, 0, 0, 0, 0, 0, 0, 0, 0, 0, 0, 0, 0, 0, 0, 0, 0, 0, 0, 0, 0, 0, 0, 0, 0, 0, 0, 0, 0, 0, 0, 0, 0, 0, 0, 0, 0, 0, 0, 0, 0, 0, 0, 0, 0, 0, 0, 0, 0, 0, 0, 0, 0, 0, 0, 0, 0, 0, 0, 0, 0, 0, 0, 117, 115, 116, 97, 114, 0, 48, 48, 0, 0, 0, 0, 0, 0, 0, 0, 0, 0, 0, 0, 0, 0, 0, 0, 0, 0, 0, 0, 0, 0, 0, 0, 0, 0, 0, 0, 0, 0, 0, 0, 0, 0, 0, 0, 0, 0, 0, 0, 0, 0, 0, 0, 0, 0, 0, 0, 0, 0, 0, 0, 0, 0, 0, 0, 0, 0, 0, 0, 0, 0, 0, 0, 48, 48, 48, 48, 48, 48, 48, 0, 48, 48, 48, 48, 48, 48, 48, 0, 0, 0, 0, 0, 0, 0, 0, 0, 0, 0, 0, 0, 0, 0, 0, 0, 0, 0, 0, 0, 0, 0, 0, 0, 0, 0, 0, 0, 0, 0, 0, 0, 0, 0, 0, 0, 0, 0, 0, 0, 0, 0, 0, 0, 0, 0, 0, 0, 0, 0, 0, 0, 0, 0, 0, 0, 0, 0, 0, 0, 0, 0, 0, 0, 0, 0, 0, 0, 0, 0, 0, 0, 0, 0, 0, 0, 0, 0, 0, 0, 0, 0, 0, 0, 0, 0, 0, 0, 0, 0, 0, 0, 0, 0, 0, 0, 0, 0, 0, 0, 0, 0, 0, 0, 0, 0, 0, 0, 0, 0, 0, 0, 0, 0, 0, 0, 0, 0, 0, 0, 0, 0, 0, 0, 0, 0, 0, 0, 0, 0, 0, 0, 0, 0, 0, 0, 0, 0, 0, 0, 0, 0, 0, 0, 0, 0, 0, 0, 0, 0, 0, 0, 0, 0, 0, 0, 0, 0, 0, 0, 0, 0, 0, 0, 0, 0, 0, 0, 0, 0, 0, 0, 0, 0, 0, 0, 0, 0, 0, 0, 0, 0, 0, 0, 0, 0, 0, 0, 0, 0, 0, 0, 0, 0, 0, 0, 0, 0, 0, 0, 0, 0, 0, 0, 0, 0, 0, 0, 0, 0, 0, 0, 0, 0, 0, 0, 0, 0, 0, 0, 0, 0, 0, 0, 0, 0, 0, 0, 0, 0, 0, 0, 0, 0, 0, 0, 0, 0, 0, 0, 0, 0, 0, 0, 0, 0, 0, 0, 0, 0, 0, 0, 0, 0, 0, 0, 0, 0, 0, 0, 0, 0, 0, 0, 0, 0, 0, 0, 0, 0, 0, 0, 0, 0, 0, 0, 0, 0, 0, 0, 0, 0, 0, 0, 0, 0, 0, 0, 0, 0, 0, 0, 0, 0, 0, 0, 0, 0, 0, 0, 0, 0, 0, 0, 0, 0, 0, 0, 0, 0, 0, 0, 0, 0, 0, 0, 0, 0, 0, 0, 0, 0, 0, 0, 0, 0, 0, 0, 0, 0, 0, 0, 0, 0, 0, 0, 0, 0, 0, 0, 0, 0, 0, 0, 0, 0, 0, 0, 0, 0, 0, 0, 0, 0, 0, 0, 0, 0, 0, 0, 0, 0, 0, 0, 0, 0, 0, 0, 0, 0, 0, 0, 0, 0, 0, 0, 0, 0, 0, 0, 0, 0, 0, 0, 0, 0, 0, 0, 0, 0, 0, 0, 0, 0, 0, 0, 0, 0, 0, 0, 0, 0, 0, 0, 0, 0, 0, 0, 0, 0, 0, 0, 0, 0, 0, 0, 0, 0, 0, 0, 0, 0, 0, 0, 0, 0, 0, 0, 0, 0, 0, 0, 0, 0, 0, 0, 0, 0, 0, 0, 0, 0, 0, 0, 0, 0, 0, 0, 0, 0, 0, 0, 0, 0, 0, 0, 0, 0, 0, 0, 0, 0, 0, 0, 0, 0, 0, 0, 0, 0, 0, 0, 0, 0, 0, 0, 0, 0, 0, 0, 0, 0, 0, 0, 0, 0, 0, 0, 0, 0, 0, 0, 0, 0, 0, 0, 0, 0, 0, 0, 0, 0, 0, 0, 0, 0, 0, 0, 0, 0, 0, 0, 0, 0, 0, 0, 0, 0, 0, 0, 0, 0, 0, 0, 0, 0, 0, 0, 0, 0, 0, 0, 0, 0, 0, 0, 0, 0, 0, 0, 0, 0, 0, 0, 0, 0, 0, 0, 0, 0, 0, 0, 0, 0, 0, 0, 0, 0, 0, 0, 0, 0, 0, 0, 0, 0, 0, 0, 0, 0, 0, 0, 0, 0, 0, 0, 0, 0, 0, 0, 0, 0, 0, 0, 0, 0, 0, 0, 0, 0, 0, 0, 0, 0, 0, 0, 0, 0, 0, 0, 0, 0, 0, 0, 0, 0, 0, 0, 0, 0, 0, 0, 0, 0, 0, 0, 0, 0, 0, 0, 0, 0, 0, 0, 0, 0, 0, 0, 0, 0, 0, 0, 0, 0, 0, 0, 0, 0, 0, 0, 0, 0, 0, 0, 0, 0, 0, 0, 0, 0, 0, 0, 0, 0, 0, 0, 0, 0, 0, 0, 0, 0, 0, 0, 0, 0, 0, 0, 0, 0, 0, 0, 0, 0, 0, 0, 0, 0, 0, 0, 0, 0, 0, 0, 0, 0, 0, 0, 0, 0, 0, 0, 0, 0, 0, 0, 0, 0, 0, 0, 0, 0, 0, 0, 0, 0, 0, 0, 0, 0, 0, 0, 0, 0, 0, 0, 0, 0, 0, 0, 0, 0, 0, 0, 0, 0, 0, 0, 0, 0, 0, 0, 0, 0, 0, 0, 0, 0, 0, 0, 0, 0, 0, 0, 0, 0, 0, 0, 0, 0, 0, 0, 0, 0, 0, 0, 0, 0, 0, 0, 0, 0, 0, 0, 0, 0, 0, 0, 0, 0, 0, 0, 0, 0, 0, 0, 0, 0, 0, 0, 0, 0, 0, 0, 0, 0, 0, 0, 0, 0, 0, 0, 0, 0, 0, 0, 0, 0, 0, 0, 0, 0, 0, 0, 0, 0, 0, 0, 0, 0, 0, 0, 0, 0, 0, 0, 0, 0, 0, 0, 0, 0, 0, 0, 0, 0, 0, 0, 0, 0, 0, 0, 0, 0, 0, 0, 0, 0, 0, 0, 0, 0, 0, 0, 0, 0, 0, 0, 0, 0, 0, 0, 0, 0, 0, 0, 0, 0, 0, 0, 0, 0, 0, 0, 0, 0, 0, 0, 0, 0, 0, 0, 0, 0, 0, 0, 0, 0, 0, 0, 0, 0, 0, 0, 0, 0, 0, 0, 0, 0, 0, 0, 0, 0, 0, 0, 0, 0, 0, 0, 0, 0, 0, 0, 0, 0, 0, 0, 0, 0, 0, 0, 0, 0, 0, 0, 0, 0, 0, 0, 0, 0, 0, 0, 0, 0, 0, 0, 0, 0, 0, 0, 0, 0, 0, 0, 0, 0, 0, 0, 0, 0, 0, 0, 0, 0, 0, 0, 0, 0, 0, 0, 0, 0, 0, 0, 0, 0, 0, 0, 0, 0, 0, 0, 0, 0, 0, 0, 0, 0, 0, 0, 0, 0, 0, 0, 0, 0, 0, 0, 0, 0, 0, 0, 0, 0, 0, 0, 0, 0, 0, 0, 0, 0, 0, 0, 0, 0, 0, 0, 0, 0, 0, 0, 0, 0, 0, 0, 0, 0, 0, 0, 0, 0, 0, 0, 0, 0, 0, 0, 0, 0, 0, 0, 0, 0, 0, 0, 0, 0, 0, 0, 0, 0, 0, 0, 0, 0, 0, 0, 0, 0, 0, 0, 0, 0, 0, 0, 0, 0, 0, 0, 0, 0, 0, 0, 0, 0, 0, 0, 0, 0, 0, 0, 0, 0, 0, 0, 0, 0, 0, 0, 0, 0, 0, 0, 0, 0, 0, 0, 0, 0, 0, 0, 0, 0, 0, 0, 0, 0, 0, 0, 0, 0, 0, 0, 0, 0, 0, 0, 0, 0, 0, 0, 0, 0, 0, 0, 0, 0, 0, 0, 0, 0, 0, 0, 0, 0, 0, 0, 0, 0, 0, 0, 0, 0, 0, 0, 0, 0, 0, 0, 0, 0, 0, 0, 0, 0, 0, 0, 0, 0, 0, 0, 0, 0, 0, 0, 0, 0, 0, 0, 0, 0, 0, 0, 0, 0, 0, 0, 0, 0, 0, 0, 0, 0, 0, 0, 0, 0, 0, 0, 0, 0, 0, 0, 0, 0, 0, 0, 0, 0, 0, 0, 0, 0, 0, 0, 0, 0, 0, 128, 0, 0, 0, 0, 0, 0, 0, 0, 0, 0, 0, 0, 0, 0, 0, 0, 0, 0, 0, 0, 0, 0, 0, 0, 0, 0, 0, 0, 0, 0, 0, 0, 0, 0, 0, 0, 0, 0, 0, 0, 0, 0, 0, 0, 0, 0, 0, 0, 0, 0, 0, 0, 0, 0, 0, 0, 0, 0, 0, 0, 0, 48, 0] =
      [[97, 0, 0, 0, 0, 0, 0, 0, 0, 0, 0, 0, 0, 0, 0, 0, 0, 0, 0, 0, 0, 0, 0, 0, 0, 0, 0, 0, 0, 0, 0, 0, 0, 0, 0, 0, 0, 0, 0, 0, 0, 0, 0, 0, 0, 0, 0, 0, 0, 0, 0, 0, 0, 0, 0, 0, 0, 0, 0, 0, 0, 0, 0, 0],
       [0, 0, 0, 0, 0, 0, 0, 0, 0, 0, 0, 0, 0, 0, 0, 0, 0, 0, 0, 0, 0, 0, 0, 0, 0, 0, 0, 0, 0, 0, 0, 0, 0, 0, 0, 0, 48, 48, 48, 48, 54, 52, 52, 0, 48, 48, 48, 48, 48, 48, 48, 0, 48, 48, 48, 48, 48, 48, 48, 0, 48, 48, 48, 48],
       [48, 48, 48, 48, 48, 48, 48, 0, 48, 48, 48, 48, 48, 48, 48, 48, 48, 48, 48, 0, 48, 48, 55, 51, 51, 54, 0, 32, 48, 0, 0, 0, 0, 0, 0, 0, 0, 0, 0, 0, 0, 0, 0, 0, 0, 0, 0, 0, 0, 0, 0, 0, 0, 0, 0, 0, 0, 0, 0, 0, 0, 0, 0, 0],
       [0, 0, 0, 0, 0, 0, 0, 0, 0, 0, 0, 0, 0, 0, 0, 0, 0, 0, 0, 0, 0, 0, 0, 0, 0, 0, 0, 0, 0, 0, 0, 0, 0, 0, 0, 0, 0, 0, 0, 0, 0, 0, 0, 0, 0, 0, 0, 0, 0, 0, 0, 0, 0, 0, 0, 0, 0, 0, 0, 0, 0, 0, 0, 0],
       [0, 117, 115, 116, 97, 114, 0, 48, 48, 0, 0, 0, 0, 0, 0, 0, 0, 0, 0, 0, 0, 0, 0, 0, 0, 0, 0, 0, 0, 0, 0, 0, 0, 0, 0, 0, 0, 0, 0, 0, 0, 0, 0, 0, 0, 0, 0, 0, 0, 0, 0, 0, 0, 0, 0, 0, 0, 0, 0, 0, 0, 0, 0, 0],
       [0, 0, 0, 0, 0, 0, 0, 0, 0, 48, 48, 48, 48, 48, 48, 48, 0, 48, 48, 48, 48, 48, 48, 48, 0, 0, 0, 0, 0, 0, 0, 0, 0, 0, 0, 0, 0, 0, 0, 0, 0, 0, 0, 0, 0, 0, 0, 0, 0, 0, 0, 0, 0, 0, 0, 0, 0, 0, 0, 0, 0, 0, 0, 0],
       [0, 0, 0, 0, 0, 0, 0, 0, 0, 0, 0, 0, 0, 0, 0, 0, 0, 0, 0, 0, 0, 0, 0, 0, 0, 0, 0, 0, 0, 0, 0, 0, 0, 0, 0, 0, 0, 0, 0, 0, 0, 0, 0, 0, 0, 0, 0, 0, 0, 0, 0, 0, 0, 0, 0, 0, 0, 0, 0, 0, 0, 0, 0, 0],
       [0, 0, 0, 0, 0, 0, 0, 0, 0, 0, 0, 0, 0, 0, 0, 0, 0, 0, 0, 0, 0, 0, 0, 0, 0, 0, 0, 0, 0, 0, 0, 0, 0, 0, 0, 0, 0, 0, 0, 0, 0, 0, 0, 0, 0, 0, 0, 0, 0, 0, 0, 0, 0, 0, 0, 0, 0, 0, 0, 0, 0, 0, 0, 0],
       [0, 0, 0, 0, 0, 0, 0, 0, 0, 0, 0, 0, 0, 0, 0, 0, 0, 0, 0, 0, 0, 0, 0, 0, 0, 0, 0, 0, 0, 0, 0, 0, 0, 0, 0, 0, 0, 0, 0, 0, 0, 0, 0, 0, 0, 0, 0, 0, 0, 0, 0, 0, 0, 0, 0, 0, 0, 0, 0, 0, 0, 0, 0, 0],
       [0, 0, 0, 0, 0, 0, 0, 0, 0, 0, 0, 0, 0, 0, 0, 0, 0, 0, 0, 0, 0, 0, 0, 0, 0, 0, 0, 0, 0, 0, 0, 0, 0, 0, 0, 0, 0, 0, 0, 0, 0, 0, 0, 0, 0, 0, 0, 0, 0, 0, 0, 0, 0, 0, 0, 0, 0, 0, 0, 0, 0, 0, 0, 0],
       [0, 0, 0, 0, 0, 0, 0, 0, 0, 0, 0, 0, 0, 0, 0, 0, 0, 0, 0, 0, 0, 0, 0, 0, 0, 0, 0, 0, 0, 0, 0, 0, 0, 0, 0, 0, 0, 0, 0, 0, 0, 0, 0, 0, 0, 0, 0, 0, 0, 0, 0, 0, 0, 0, 0, 0, 0, 0, 0, 0, 0, 0, 0, 0],
       [0, 0, 0, 0, 0, 0, 0, 0, 0, 0, 0, 0, 0, 0, 0, 0, 0, 0, 0, 0, 0, 0, 0, 0, 0, 0, 0, 0, 0, 0, 0, 0, 0, 0, 0, 0, 0, 0, 0, 0, 0, 0, 0, 0, 0, 0, 0, 0, 0, 0, 0, 0, 0, 0, 0, 0, 0, 0, 0, 0, 0, 0, 0, 0],
       [0, 0, 0, 0, 0, 0, 0, 0, 0, 0, 0, 0, 0, 0, 0, 0, 0, 0, 0, 0, 0, 0, 0, 0, 0, 0, 0, 0, 0, 0, 0, 0, 0, 0, 0, 0, 0, 0, 0, 0, 0, 0, 0, 0, 0, 0, 0, 0, 0, 0, 0, 0, 0, 0, 0, 0, 0, 0, 0, 0, 0, 0, 0, 0],
       [0, 0, 0, 0, 0, 0, 0, 0, 0, 0, 0, 0, 0, 0, 0, 0, 0, 0, 0, 0, 0, 0, 0, 0, 0, 0, 0, 0, 0, 0, 0, 0, 0, 0, 0, 0, 0, 0, 0, 0, 0, 0, 0, 0, 0, 0, 0, 0, 0, 0, 0, 0, 0, 0, 0, 0, 0, 0, 0, 0, 0, 0, 0, 0],
       [0, 0, 0, 0, 0, 0, 0, 0, 0, 0, 0, 0, 0, 0, 0, 0, 0, 0, 0, 0, 0, 0, 0, 0, 0, 0, 0, 0, 0, 0, 0, 0, 0, 0, 0, 0, 0, 0, 0, 0, 0, 0, 0, 0, 0, 0, 0, 0, 0, 0, 0, 0, 0, 0, 0, 0, 0, 0, 0, 0, 0, 0, 0, 0],
       [0, 0, 0, 0, 0, 0, 0, 0, 0, 0, 0, 0, 0, 0, 0, 0, 0, 0, 0, 0, 0, 0, 0, 0, 0, 0, 0, 0, 0, 0, 0, 0, 0, 0, 0, 0, 0, 0, 0, 0, 0, 0, 0, 0, 0, 0, 0, 0, 0, 0, 0, 0, 0, 0, 0, 0, 0, 0, 0, 0, 0, 0, 0, 0],
       [0, 0, 0, 0, 0, 0, 0, 0, 0, 0, 0, 0, 0, 0, 0, 0, 0, 0, 0, 0, 0, 0, 0, 0, 0, 0, 0, 0, 0, 0, 0, 0, 0, 0, 0, 0, 0, 0, 0, 0, 0, 0, 0, 0, 0, 0, 0, 0, 0, 0, 0, 0, 0, 0, 0, 0, 0, 0, 0, 0, 0, 0, 0, 0],
       [0, 0, 0, 0, 0, 0, 0, 0, 0, 0, 0, 0, 0, 0, 0, 0, 0, 0, 0, 0, 0, 0, 0, 0, 0, 0, 0, 0, 0, 0, 0, 0, 0, 0, 0, 0, 0, 0, 0, 0, 0, 0, 0, 0, 0, 0, 0, 0, 0, 0, 0, 0, 0, 0, 0, 0, 0, 0, 0, 0, 0, 0, 0, 0],
       [0, 0, 0, 0, 0, 0, 0, 0, 0, 0, 0, 0, 0, 0, 0, 0, 0, 0, 0, 0, 0, 0, 0, 0, 0, 0, 0, 0, 0, 0, 0, 0, 0, 0, 0, 0, 0, 0, 0, 0, 0, 0, 0, 0, 0, 0, 0, 0, 0, 0, 0, 0, 0, 0, 0, 0, 0, 0, 0, 0, 0, 0, 0, 0],
       [0, 0, 0, 0, 0, 0, 0, 0, 0, 0, 0, 0, 0, 0, 0, 0, 0, 0, 0, 0, 0, 0, 0, 0, 0, 0, 0, 0, 0, 0, 0, 0, 0, 0, 0, 0, 0, 0, 0, 0, 0, 0, 0, 0, 0, 0, 0, 0, 0, 0, 0, 0, 0, 0, 0, 0, 0, 0, 0, 0, 0, 0, 0, 0],
       [0, 0, 0, 0, 0, 0, 0, 0, 0, 0, 0, 0, 0, 0, 0, 0, 0, 0, 0, 0, 0, 0, 0, 0, 0, 0, 0, 0, 0, 0, 0, 0, 0, 0, 0, 0, 0, 0, 0, 0, 0, 0, 0, 0, 0, 0, 0, 0, 0, 0, 0, 0, 0, 0, 0, 0, 0, 0, 0, 0, 0, 0, 0, 0],
       [0, 0, 0, 0, 0, 0, 0, 0, 0, 0, 0, 0, 0, 0, 0, 0, 0, 0, 0, 0, 0, 0, 0, 0, 0, 0, 0, 0, 0, 0, 0, 0, 0, 0, 0, 0, 0, 0, 0, 0, 0, 0, 0, 0, 0, 0, 0, 0, 0, 0, 0, 0, 0, 0, 0, 0, 0, 0, 0, 0, 0, 0, 0, 0],
       [0, 0, 0, 0, 0, 0, 0, 0, 0, 0, 0, 0, 0, 0, 0, 0, 0, 0, 0, 0, 0, 0, 0, 0, 0, 0, 0, 0, 0, 0, 0, 0, 0, 0, 0, 0, 0, 0, 0, 0, 0, 0, 0, 0, 0, 0, 0, 0, 0, 0, 0, 0, 0, 0, 0, 0, 0, 0, 0, 0, 0, 0, 0, 0],
       [0, 0, 0, 0, 0, 0, 0, 0, 0, 0, 0, 0, 0, 0, 0, 0, 0, 0, 0, 0, 0, 0, 0, 0, 0, 0, 0, 0, 0, 0, 0, 0, 0, 0, 0, 0, 0, 0, 0, 0, 0, 0, 0, 0, 0, 0, 0, 0, 0, 0, 0, 0, 0, 0, 0, 0, 0, 0, 0, 0, 0, 0, 0, 0],
       [128, 0, 0, 0, 0, 0, 0, 0, 0, 0, 0, 0, 0, 0, 0, 0, 0, 0, 0, 0, 0, 0, 0, 0, 0, 0, 0, 0, 0, 0, 0, 0, 0, 0, 0, 0, 0, 0, 0, 0, 0, 0, 0, 0, 0, 0, 0, 0, 0, 0, 0, 0, 0, 0, 0, 0, 0, 0, 0, 0, 0, 0, 48, 0]] := by
  rw [chunks, c1tar_padlen]
  try rfl


set_option maxRecDepth 10000 in
set_option maxHeartbeats 2000000 in
theorem c1blk_tar_1 :
    shaBlock shaH0
      [97, 0, 0, 0, 0, 0, 0, 0, 0, 0, 0, 0, 0, 0, 0, 0, 0, 0, 0, 0, 0, 0, 0, 0, 0, 0, 0, 0, 0, 0, 0, 0, 0, 0, 0, 0, 0, 0, 0, 0, 0, 0, 0, 0, 0, 0, 0, 0, 0, 0, 0, 0, 0, 0, 0, 0, 0, 0, 0, 0, 0, 0, 0, 0] =
      [790251820, 3676233935, 233190441, 1922874962, 2483387068, 1661814644, 725606529, 3896688228] := by
  rfl


set_option maxRecDepth 10000 in
set_option maxHeartbeats 2000000 in
theorem c1blk_tar_2 :
    shaBlock [790251820, 3676233935, 233190441, 1922874962, 2483387068, 1661814644, 725606529, 3896688228]
      [0, 0, 0, 0, 0, 0, 0, 0, 0, 0, 0, 0, 0, 0, 0, 0, 0, 0, 0, 0, 0, 0, 0, 0, 0, 0, 0, 0, 0, 0, 0, 0, 0, 0, 0, 0, 48, 48, 48, 48, 54, 52, 52, 0, 48, 48, 48, 48, 48, 48, 48, 0, 48, 48, 48, 48, 48, 48, 48, 0, 48, 48, 48, 48] =
      [948045717, 1013280114, 1761284285, 1969561884, 4219235811, 3014315574, 4255866350, 3272489332] := by
  rfl


set_option maxRecDepth 10000 in
set_option maxHeartbeats 2000000 in
theorem c1blk_tar_3 :
    shaBlock [948045717, 1013280114, 1761284285, 1969561884, 4219235811, 3014315574, 4255866350, 3272489332]
      [48, 48, 48, 48, 48, 48, 48, 0, 48, 48, 48, 48, 48, 48, 48, 48, 48, 48, 48, 0, 48, 48, 55, 51, 51, 54, 0, 32, 48, 0, 0, 0, 0, 0, 0, 0, 0, 0, 0, 0, 0, 0, 0, 0, 0, 0, 0, 0, 0, 0, 0, 0, 0, 0, 0, 0, 0, 0, 0, 0, 0, 0, 0, 0] =
      [547156347, 1266609651, 628037923, 1035658314, 208606121, 18452449, 2688695071, 1750195566] := by
  rfl


set_option maxRecDepth 10000 in
set_option maxHeartbeats 2000000 in
theorem c1blk_tar_4 :
    shaBlock [547156347, 1266609651, 628037923, 1035658314, 208606121, 18452449, 2688695071, 1750195566]
      [0, 0, 0, 0, 0, 0, 0, 0, 0, 0, 0, 0, 0, 0, 0, 0, 0, 0, 0, 0, 0, 0, 0, 0, 0, 0, 0, 0, 0, 0, 0, 0, 0, 0, 0, 0, 0, 0, 0, 0, 0, 0, 0, 0, 0, 0, 0, 0, 0, 0, 0, 0, 0, 0, 0, 0, 0, 0, 0, 0, 0, 0, 0, 0] =
      [2115739252, 895976210, 2140745066, 225061620, 1951329115, 3203558299, 4062845843, 2740640620] := by
  rfl


set_option maxRecDepth 10000 in
set_option maxHeartbeats 2000000 in
theorem c1blk_tar_5 :
    shaBlock [2115739252, 895976210, 2140745066, 225061620, 1951329115, 3203558299, 4062845843, 2740640620]
      [0, 117, 115, 116, 97, 114, 0, 48, 48, 0, 0, 0, 0, 0, 0, 0, 0, 0, 0, 0, 0, 0, 0, 0, 0, 0, 0, 0, 0, 0, 0, 0, 0, 0, 0, 0, 0, 0, 0, 0, 0, 0, 0, 0, 0, 0, 0, 0, 0, 0, 0, 0, 0, 0, 0, 0, 0, 0, 0, 0, 0, 0, 0, 0] =
      [2903188457, 3765963995, 2899123673, 2833336279, 2046430986, 2396740691, 3922397301, 550560093] := by
  rfl


set_option maxRecDepth 10000 in
set_option maxHeartbeats 2000000 in
theorem c1blk_tar_6 :
    shaBlock [2903188457, 3765963995, 2899123673, 2833336279, 2046430986, 2396740691, 3922397301, 550560093]
      [0, 0, 0, 0, 0, 0, 0, 0, 0, 48, 48, 48, 48, 48, 48, 48, 0, 48, 48, 48, 48, 48, 48, 48, 0, 0, 0, 0, 0, 0, 0, 0, 0, 0, 0, 0, 0, 0, 0, 0, 0, 0, 0, 0, 0, 0, 0, 0, 0, 0, 0, 0, 0, 0, 0, 0, 0, 0, 0, 0, 0, 0, 0, 0] =
      [1152492235, 753699971, 2297450709, 1557201070, 319577233, 1196277458, 1025062255, 2905754881] := by
  rfl


set_option maxRecDepth 10000 in
set_option maxHeartbeats 2000000 in
theorem c1blk_tar_7 :
    shaBlock [1152492235, 753699971, 2297450709, 1557201070, 319577233, 1196277458, 1025062255, 2905754881]
      [0, 0, 0, 0, 0, 0, 0, 0, 0, 0, 0, 0, 0, 0, 0, 0, 0, 0, 0, 0, 0, 0, 0, 0, 0, 0, 0, 0, 0, 0, 0, 0, 0, 0, 0, 0, 0, 0, 0, 0, 0, 0, 0, 0, 0, 0, 0, 0, 0, 0, 0, 0, 0, 0, 0, 0, 0, 0, 0, 0, 0, 0, 0, 0] =
      [284951404, 444512463, 630011158, 728138923, 2759031099, 1627528747, 170364121, 263886785] := by
  rfl


set_option maxRecDepth 10000 in
set_option maxHeartbeats 2000000 in
theorem c1blk_tar_8 :
    shaBlock [284951404, 444512463, 630011158, 728138923, 2759031099, 1627528747, 170364121, 263886785]
      [0, 0, 0, 0, 0, 0, 0, 0, 0, 0, 0, 0, 0, 0, 0, 0, 0, 0, 0, 0, 0, 0, 0, 0, 0, 0, 0, 0, 0, 0, 0, 0, 0, 0, 0, 0, 0, 0, 0, 0, 0, 0, 0, 0, 0, 0, 0, 0, 0, 0, 0, 0, 0, 0, 0, 0, 0, 0, 0, 0, 0, 0, 0, 0] =
      [2866272252, 2167070795, 3043608872, 3205891837, 2648912823, 3139443129, 3736670393, 3804373717] := by
  rfl


set_option maxRecDepth 10000 in
set_option maxHeartbeats 2000000 in
theorem c1blk_tar_9 :
    shaBlock [2866272252, 2167070795, 3043608872, 3205891837, 2648912823, 3139443129, 3736670393, 3804373717]
      [0, 0, 0, 0, 0, 0, 0, 0, 0, 0, 0, 0, 0, 0, 0, 0, 0, 0, 0, 0, 0, 0, 0, 0, 0, 0, 0, 0, 0, 0, 0, 0, 0, 0, 0, 0, 0, 0, 0, 0, 0, 0, 0, 0, 0, 0, 0, 0, 0, 0, 0, 0, 0, 0, 0, 0, 0, 0, 0, 0, 0, 0, 0, 0] =
      [80187936, 2337425950, 3698116078, 3374360279, 2172286363, 2738696006, 1685977088, 4164205542] := by
  rfl


set_option maxRecDepth 10000 in
set_option maxHeartbeats 2000000 in
theorem c1blk_tar_10 :
    shaBlock [80187936, 2337425950, 3698116078, 3374360279, 2172286363, 2738696006, 1685977088, 4164205542]
      [0, 0, 0, 0, 0, 0, 0, 0, 0, 0, 0, 0, 0, 0, 0, 0, 0, 0, 0, 0, 0, 0, 0, 0, 0, 0, 0, 0, 0, 0, 0, 0, 0, 0, 0, 0, 0, 0, 0, 0, 0, 0, 0, 0, 0, 0, 0, 0, 0, 0, 0, 0, 0, 0, 0, 0, 0, 0, 0, 0, 0, 0, 0, 0] =
      [3943139116, 3370564147, 2379250566, 349528677, 3526820744, 3528122659, 3219954254, 1247081193] := by
  rfl


set_option maxRecDepth 10000 in
set_option maxHeartbeats 2000000 in
theorem c1blk_tar_11 :
    shaBlock [3943139116, 3370564147, 2379250566, 349528677, 3526820744, 3528122659, 3219954254, 1247081193]
      [0, 0, 0, 0, 0, 0, 0, 0, 0, 0, 0, 0, 0, 0, 0, 0, 0, 0, 0, 0, 0, 0, 0, 0, 0, 0, 0, 0, 0, 0, 0, 0, 0, 0, 0, 0, 0, 0, 0, 0, 0, 0, 0, 0, 0, 0, 0, 0, 0, 0, 0, 0, 0, 0, 0, 0, 0, 0, 0, 0, 0, 0, 0, 0] =
      [531607664, 1340732938, 3203985750, 2154763542, 1765390080, 3695664375, 393163607, 3123297882] := by
  rfl


set_option maxRecDepth 10000 in
set_option maxHeartbeats 2000000 in
theorem c1blk_tar_12 :
    shaBlock [531607664, 1340732938, 3203985750, 2154763542, 1765390080, 3695664375, 393163607, 3123297882]
      [0, 0, 0, 0, 0, 0, 0, 0, 0, 0, 0, 0, 0, 0, 0, 0, 0, 0, 0, 0, 0, 0, 0, 0, 0, 0, 0, 0, 0, 0, 0, 0, 0, 0, 0, 0, 0, 0, 0, 0, 0, 0, 0, 0, 0, 0, 0, 0, 0, 0, 0, 0, 0, 0, 0, 0, 0, 0, 0, 0, 0, 0, 0, 0] =
      [3830058494, 3914905593, 231199290, 4267023479, 2682585466, 936079541, 3493717928, 4250147125] := by
  rfl


set_option maxRecDepth 10000 in
set_option maxHeartbeats 2000000 in
theorem c1blk_tar_13 :
    shaBlock [3830058494, 3914905593, 231199290, 4267023479, 2682585466, 936079541, 3493717928, 4250147125]
      [0, 0, 0, 0, 0, 0, 0, 0, 0, 0, 0, 0, 0, 0, 0, 0, 0, 0, 0, 0, 0, 0, 0, 0, 0, 0, 0, 0, 0, 0, 0, 0, 0, 0, 0, 0, 0, 0, 0, 0, 0, 0, 0, 0, 0, 0, 0, 0, 0, 0, 0, 0, 0, 0, 0, 0, 0, 0, 0, 0, 0, 0, 0, 0] =
      [1987770876, 2152306029, 3691969021, 819808363, 3945296378, 785409273, 1646828190, 2711046339] := by
  rfl


set_option maxRecDepth 10000 in
set_option maxHeartbeats 2000000 in
theorem c1blk_tar_14 :
    shaBlock [1987770876, 2152306029, 3691969021, 819808363, 3945296378, 785409273, 1646828190, 2711046339]
      [0, 0, 0, 0, 0, 0, 0, 0, 0, 0, 0, 0, 0, 0, 0, 0, 0, 0, 0, 0, 0, 0, 0, 0, 0, 0, 0, 0, 0, 0, 0, 0, 0, 0, 0, 0, 0, 0, 0, 0, 0, 0, 0, 0, 0, 0, 0, 0, 0, 0, 0, 0, 0, 0, 0, 0, 0, 0, 0, 0, 0, 0, 0, 0] =
      [1241493798, 2009655703, 1671578292, 1558141936, 3063558007, 3206908260, 2844932286, 1166847933] := by
  rfl


set_option maxRecDepth 10000 in
set_option maxHeartbeats 2000000 in
theorem c1blk_tar_15 :
    shaBlock [1241493798, 2009655703, 1671578292, 1558141936, 3063558007, 3206908260, 2844932286, 1166847933]
      [0, 0, 0, 0, 0, 0, 0, 0, 0, 0, 0, 0, 0, 0, 0, 0, 0, 0, 0, 0, 0, 0, 0, 0, 0, 0, 0, 0, 0, 0, 0, 0, 0, 0, 0, 0, 0, 0, 0, 0, 0, 0, 0, 0, 0, 0, 0, 0, 0, 0, 0, 0, 0, 0, 0, 0, 0, 0, 0, 0, 0, 0, 0, 0] =
      [3742359212, 1850796096, 3616859534, 105430950, 3884218649, 3274788978, 2921423568, 2186772317] := by
  rfl


set_option maxRecDepth 10000 in
set_option maxHeartbeats 2000000 in
theorem c1blk_tar_16 :
    shaBlock [3742359212, 1850796096, 3616859534, 105430950, 3884218649, 3274788978, 2921423568, 2186772317]
      [0, 0, 0, 0, 0, 0, 0, 0, 0, 0, 0, 0, 0, 0, 0, 0, 0, 0, 0, 0, 0, 0, 0, 0, 0, 0, 0, 0, 0, 0, 0, 0, 0, 0, 0, 0, 0, 0, 0, 0, 0, 0, 0, 0, 0, 0, 0, 0, 0, 0, 0, 0, 0, 0, 0, 0, 0, 0, 0, 0, 0, 0, 0, 0] =
      [2509334108, 221441513, 4086332910, 314239736, 117219633, 1823096665, 2932778914, 2600899492] := by
  rfl


set_option maxRecDepth 10000 in
set_option maxHeartbeats 2000000 in
theorem c1blk_tar_17 :
    shaBlock [2509334108, 221441513, 4086332910, 314239736, 117219633, 1823096665, 2932778914, 2600899492]
      [0, 0, 0, 0, 0, 0, 0, 0, 0, 0, 0, 0, 0, 0, 0, 0, 0, 0, 0, 0, 0, 0, 0, 0, 0, 0, 0, 0, 0, 0, 0, 0, 0, 0, 0, 0, 0, 0, 0, 0, 0, 0, 0, 0, 0, 0, 0, 0, 0, 0, 0, 0, 0, 0, 0, 0, 0, 0, 0, 0, 0, 0, 0, 0] =
      [2661978514, 2904648189, 1876164064, 381701986, 3018784330, 2986162445, 1279452012, 3890548304] := by
  rfl


set_option maxRecDepth 10000 in
set_option maxHeartbeats 2000000 in
theorem c1blk_tar_18 :
    shaBlock [2661978514, 2904648189, 1876164064, 381701986, 3018784330, 2986162445, 1279452012, 3890548304]
      [0, 0, 0, 0, 0, 0, 0, 0, 0, 0, 0, 0, 0, 0, 0, 0, 0, 0, 0, 0, 0, 0, 0, 0, 0, 0, 0, 0, 0, 0, 0, 0, 0, 0, 0, 0, 0, 0, 0, 0, 0, 0, 0, 0, 0, 0, 0, 0, 0, 0, 0, 0, 0, 0, 0, 0, 0, 0, 0, 0, 0, 0, 0, 0] =
      [3448239557, 117543966, 3724683144, 312954932, 1599941071, 1193853780, 1788580087, 3469441638] := by
  rfl


set_option maxRecDepth 10000 in
set_option maxHeartbeats 2000000 in
theorem c1blk_tar_19 :
    shaBlock [3448239557, 117543966, 3724683144, 312954932, 1599941071, 1193853780, 1788580087, 3469441638]
      [0, 0, 0, 0, 0, 0, 0, 0, 0, 0, 0, 0, 0, 0, 0, 0, 0, 0, 0, 0, 0, 0, 0, 0, 0, 0, 0, 0, 0, 0, 0, 0, 0, 0, 0, 0, 0, 0, 0, 0, 0, 0, 0, 0, 0, 0, 0, 0, 0, 0, 0, 0, 0, 0, 0, 0, 0, 0, 0, 0, 0, 0, 0, 0] =
      [1572195521, 3111818028, 374874764, 2383011380, 2767442008, 1533123838, 3205406901, 3205937969] := by
  rfl


set_option maxRecDepth 10000 in
set_option maxHeartbeats 2000000 in
theorem c1blk_tar_20 :
    shaBlock [1572195521, 3111818028, 374874764, 2383011380, 2767442008, 1533123838, 3205406901, 3205937969]
      [0, 0, 0, 0, 0, 0, 0, 0, 0, 0, 0, 0, 0, 0, 0, 0, 0, 0, 0, 0, 0, 0, 0, 0, 0, 0, 0, 0, 0, 0, 0, 0, 0, 0, 0, 0, 0, 0, 0, 0, 0, 0, 0, 0, 0, 0, 0, 0, 0, 0, 0, 0, 0, 0, 0, 0, 0, 0, 0, 0, 0, 0, 0, 0] =
      [153891965, 1474202151, 898482829, 2246827844, 2735071564, 2838842795, 1613566444, 83281499] := by
  rfl


set_option maxRecDepth 10000 in
set_option maxHeartbeats 2000000 in
theorem c1blk_tar_21 :
    shaBlock [153891965, 1474202151, 898482829, 2246827844, 2735071564, 2838842795, 1613566444, 83281499]
      [0, 0, 0, 0, 0, 0, 0, 0, 0, 0, 0, 0, 0, 0, 0, 0, 0, 0, 0, 0, 0, 0, 0, 0, 0, 0, 0, 0, 0, 0, 0, 0, 0, 0, 0, 0, 0, 0, 0, 0, 0, 0, 0, 0, 0, 0, 0, 0, 0, 0, 0, 0, 0, 0, 0, 0, 0, 0, 0, 0, 0, 0, 0, 0] =
      [4131107964, 343097380, 3823378570, 3339845613, 2145244822, 3912488779, 1925801671, 788429287] := by
  rfl


set_option maxRecDepth 10000 in
set_option maxHeartbeats 2000000 in
theorem c1blk_tar_22 :
    shaBlock [4131107964, 343097380, 3823378570, 3339845613, 2145244822, 3912488779, 1925801671, 788429287]
      [0, 0, 0, 0, 0, 0, 0, 0, 0, 0, 0, 0, 0, 0, 0, 0, 0, 0, 0, 0, 0, 0, 0, 0, 0, 0, 0, 0, 0, 0, 0, 0, 0, 0, 0, 0, 0, 0, 0, 0, 0, 0, 0, 0, 0, 0, 0, 0, 0, 0, 0, 0, 0, 0, 0, 0, 0, 0, 0, 0, 0, 0, 0, 0] =
      [341959111, 2250425903, 4212130759, 2582768231, 140091318, 943645066, 2269184491, 2534346918] := by
  rfl


set_option maxRecDepth 10000 in
set_option maxHeartbeats 2000000 in
theorem c1blk_tar_23 :
    shaBlock [341959111, 2250425903, 4212130759, 2582768231, 140091318, 943645066, 2269184491, 2534346918]
      [0, 0, 0, 0, 0, 0, 0, 0, 0, 0, 0, 0, 0, 0, 0, 0, 0, 0, 0, 0, 0, 0, 0, 0, 0, 0, 0, 0, 0, 0, 0, 0, 0, 0, 0, 0, 0, 0, 0, 0, 0, 0, 0, 0, 0, 0, 0, 0, 0, 0, 0, 0, 0, 0, 0, 0, 0, 0, 0, 0, 0, 0, 0, 0] =
      [3653151886, 2217624328, 3474032883, 4052654472, 4003027776, 2188359795, 2969860821, 2457562053] := by
  rfl


set_option maxRecDepth 10000 in
set_option maxHeartbeats 2000000 in
theorem c1blk_tar_24 :
    shaBlock [3653151886, 2217624328, 3474032883, 4052654472, 4003027776, 2188359795, 2969860821, 2457562053]
      [0, 0, 0, 0, 0, 0, 0, 0, 0, 0, 0, 0, 0, 0, 0, 0, 0, 0, 0, 0, 0, 0, 0, 0, 0, 0, 0, 0, 0, 0, 0, 0, 0, 0, 0, 0, 0, 0, 0, 0, 0, 0, 0, 0, 0, 0, 0, 0, 0, 0, 0, 0, 0, 0, 0, 0, 0, 0, 0, 0, 0, 0, 0, 0] =
      [1436688180, 1015654741, 1597804966, 2716457270, 561872298, 2011166920, 1432081211, 609562431] := by
  rfl


set_option maxRecDepth 10000 in
set_option maxHeartbeats 2000000 in
theorem c1blk_tar_25 :
    shaBlock [1436688180, 1015654741, 1597804966, 2716457270, 561872298, 2011166920, 1432081211, 609562431]
      [128, 0, 0, 0, 0, 0, 0, 0, 0, 0, 0, 0, 0, 0, 0, 0, 0, 0, 0, 0, 0, 0, 0, 0, 0, 0, 0, 0, 0, 0, 0, 0, 0, 0, 0, 0, 0, 0, 0, 0, 0, 0, 0, 0, 0, 0, 0, 0, 0, 0, 0, 0, 0, 0, 0, 0, 0, 0, 0, 0, 0, 0, 48, 0] =
      [382810354, 561574740, 2458440703, 3706663675, 1823737514, 3433102917, 320967036, 4055162947] := by
  rfl


set_option maxRecDepth 10000 in
set_option maxHeartbeats 2000000 in
theorem c1sha_tar :
    hexStr (sha256 [97, 0, 0, 0, 0, 0, 0, 0, 0, 0, 0, 0, 0, 0, 0, 0, 0, 0, 0, 0, 0, 0, 0, 0, 0, 0, 0, 0, 0, 0, 0, 0, 0, 0, 0, 0, 0, 0, 0, 0, 0, 0, 0, 0, 0, 0, 0, 0, 0, 0, 0, 0, 0, 0, 0, 0, 0, 0, 0, 0, 0, 0, 0, 0, 0, 0, 0, 0, 0, 0, 0, 0, 0, 0, 0, 0, 0, 0, 0, 0, 0, 0, 0, 0, 0, 0, 0, 0, 0, 0, 0, 0, 0, 0, 0, 0, 0, 0, 0, 0, 48, 48, 48, 48, 54, 52, 52, 0, 48, 48, 48, 48, 48, 48, 48, 0, 48, 48, 48, 48, 48, 48, 48, 0, 48, 48, 48, 48, 48, 48, 48, 48, 48, 48, 48, 0, 48, 48, 48, 48, 48, 48, 48, 48, 48, 48, 48, 0, 48, 48, 55, 51, 51, 54, 0, 32, 48, 0, 0, 0, 0, 0, 0, 0, 0, 0, 0, 0, 0, 0, 0, 0, 0, 0, 0, 0, 0, 0, 0, 0, 0, 0, 0, 0, 0, 0, 0, 0, 0, 0, 0, 0, 0, 0, 0, 0, 0, 0, 0, 0, 0, 0, 0, 0, 0, 0, 0, 0, 0, 0, 0, 0, 0, 0, 0, 0, 0, 0, 0, 0, 0, 0, 0, 0, 0, 0, 0, 0, 0, 0, 0, 0, 0, 0, 0, 0, 0, 0, 0, 0, 0, 0, 0, 0, 0, 0, 0, 0, 0, 0, 0, 0, 0, 0, 0, 0, 0, 117, 115, 116, 97, 114, 0, 48, 48, 0, 0, 0, 0, 0, 0, 0, 0, 0, 0, 0, 0, 0, 0, 0, 0, 0, 0, 0, 0, 0, 0, 0, 0, 0, 0, 0, 0, 0, 0, 0, 0, 0, 0, 0, 0, 0, 0, 0, 0, 0, 0, 0, 0, 0, 0, 0, 0, 0, 0, 0, 0, 0, 0, 0, 0, 0, 0, 0, 0, 0, 0, 0, 0, 48, 48, 48, 48, 48, 48, 48, 0, 48, 48, 48, 48, 48, 48, 48, 0, 0, 0, 0, 0, 0, 0, 0, 0, 0, 0, 0, 0, 0, 0, 0, 0, 0, 0, 0, 0, 0, 0, 0, 0, 0, 0, 0, 0, 0, 0, 0, 0, 0, 0, 0, 0, 0, 0, 0, 0, 0, 0, 0, 0, 0, 0, 0, 0, 0, 0, 0, 0, 0, 0, 0, 0, 0, 0, 0, 0, 0, 0, 0, 0, 0, 0, 0, 0, 0, 0, 0, 0, 0, 0, 0, 0, 0, 0, 0, 0, 0, 0, 0, 0, 0, 0, 0, 0, 0, 0, 0, 0, 0, 0, 0, 0, 0, 0, 0, 0, 0, 0, 0, 0, 0, 0, 0, 0, 0, 0, 0, 0, 0, 0, 0, 0, 0, 0, 0, 0, 0, 0, 0, 0, 0, 0, 0, 0, 0, 0, 0, 0, 0, 0, 0, 0, 0, 0, 0, 0, 0, 0, 0, 0, 0, 0, 0, 0, 0, 0, 0, 0, 0, 0, 0, 0, 0, 0, 0, 0, 0, 0, 0, 0, 0, 0, 0, 0, 0, 0, 0, 0, 0, 0, 0, 0, 0, 0, 0, 0, 0, 0, 0, 0, 0, 0, 0, 0, 0, 0, 0, 0, 0, 0, 0, 0, 0, 0, 0, 0, 0, 0, 0, 0, 0, 0, 0, 0, 0, 0, 0, 0, 0, 0, 0, 0, 0, 0, 0, 0, 0, 0, 0, 0, 0, 0, 0, 0, 0, 0, 0, 0, 0, 0, 0, 0, 0, 0, 0, 0, 0, 0, 0, 0, 0, 0, 0, 0, 0, 0, 0, 0, 0, 0, 0, 0, 0, 0, 0, 0, 0, 0, 0, 0, 0, 0, 0, 0, 0, 0, 0, 0, 0, 0, 0, 0, 0, 0, 0, 0, 0, 0, 0, 0, 0, 0, 0, 0, 0, 0, 0, 0, 0, 0, 0, 0, 0, 0, 0, 0, 0, 0, 0, 0, 0, 0, 0, 0, 0, 0, 0, 0, 0, 0, 0, 0, 0, 0, 0, 0, 0, 0, 0, 0, 0, 0, 0, 0, 0, 0, 0, 0, 0, 0, 0, 0, 0, 0, 0, 0, 0, 0, 0, 0, 0, 0, 0, 0, 0, 0, 0, 0, 0, 0, 0, 0, 0, 0, 0, 0, 0, 0, 0, 0, 0, 0, 0, 0, 0, 0, 0, 0, 0, 0, 0, 0, 0, 0, 0, 0, 0, 0, 0, 0, 0, 0, 0, 0, 0, 0, 0, 0, 0, 0, 0, 0, 0, 0, 0, 0, 0, 0, 0, 0, 0, 0, 0, 0, 0, 0, 0, 0, 0, 0, 0, 0, 0, 0, 0, 0, 0, 0, 0, 0, 0, 0, 0, 0, 0, 0, 0, 0, 0, 0, 0, 0, 0, 0, 0, 0, 0, 0, 0, 0, 0, 0, 0, 0, 0, 0, 0, 0, 0, 0, 0, 0, 0, 0, 0, 0, 0, 0, 0, 0, 0, 0, 0, 0, 0, 0, 0, 0, 0, 0, 0, 0, 0, 0, 0, 0, 0, 0, 0, 0, 0, 0, 0, 0, 0, 0, 0, 0, 0, 0, 0, 0, 0, 0, 0, 0, 0, 0, 0, 0, 0, 0, 0, 0, 0, 0, 0, 0, 0, 0, 0, 0, 0, 0, 0, 0, 0, 0, 0, 0, 0, 0, 0, 0, 0, 0, 0, 0, 0, 0, 0, 0, 0, 0, 0, 0, 0, 0, 0, 0, 0, 0, 0, 0, 0, 0, 0, 0, 0, 0, 0, 0, 0, 0, 0, 0, 0, 0, 0, 0, 0, 0, 0, 0, 0, 0, 0, 0, 0, 0, 0, 0, 0, 0, 0, 0, 0, 0, 0, 0, 0, 0, 0, 0, 0, 0, 0, 0, 0, 0, 0, 0, 0, 0, 0, 0, 0, 0, 0, 0, 0, 0, 0, 0, 0, 0, 0, 0, 0, 0, 0, 0, 0, 0, 0, 0, 0, 0, 0, 0, 0, 0, 0, 0, 0, 0, 0, 0, 0, 0, 0, 0, 0, 0, 0, 0, 0, 0, 0, 0, 0, 0, 0, 0, 0, 0, 0, 0, 0, 0, 0, 0, 0, 0, 0, 0, 0, 0, 0, 0, 0, 0, 0, 0, 0, 0, 0, 0, 0, 0, 0, 0, 0, 0, 0, 0, 0, 0, 0, 0, 0, 0, 0, 0, 0, 0, 0, 0, 0, 0, 0, 0, 0, 0, 0, 0, 0, 0, 0, 0, 0, 0, 0, 0, 0, 0, 0, 0, 0, 0, 0, 0, 0, 0, 0, 0, 0, 0, 0, 0, 0, 0, 0, 0, 0, 0, 0, 0, 0, 0, 0, 0, 0, 0, 0, 0, 0, 0, 0, 0, 0, 0, 0, 0, 0, 0, 0, 0, 0, 0, 0, 0, 0, 0, 0, 0, 0, 0, 0, 0, 0, 0, 0, 0, 0, 0, 0, 0, 0, 0, 0, 0, 0, 0, 0, 0, 0, 0, 0, 0, 0, 0, 0, 0, 0, 0, 0, 0, 0, 0, 0, 0, 0, 0, 0, 0, 0, 0, 0, 0, 0, 0, 0, 0, 0, 0, 0, 0, 0, 0, 0, 0, 0, 0, 0, 0, 0, 0, 0, 0, 0, 0, 0, 0, 0, 0, 0, 0, 0, 0, 0, 0, 0, 0, 0, 0, 0, 0, 0, 0, 0, 0, 0, 0, 0, 0, 0, 0, 0, 0, 0, 0, 0, 0, 0, 0, 0, 0, 0, 0, 0, 0, 0, 0, 0, 0, 0, 0, 0, 0, 0, 0, 0, 0, 0, 0, 0, 0, 0, 0, 0, 0, 0, 0, 0, 0, 0, 0, 0, 0, 0, 0, 0, 0, 0, 0, 0, 0, 0, 0, 0, 0, 0, 0, 0, 0, 0, 0, 0, 0, 0, 0, 0, 0, 0, 0, 0, 0, 0, 0, 0, 0, 0, 0, 0, 0, 0, 0, 0, 0, 0, 0, 0, 0, 0, 0, 0, 0, 0, 0, 0, 0, 0, 0, 0, 0, 0, 0, 0, 0, 0, 0, 0, 0, 0, 0, 0, 0, 0, 0, 0, 0, 0, 0, 0, 0, 0, 0, 0, 0, 0, 0, 0, 0, 0, 0, 0, 0, 0, 0, 0, 0, 0, 0, 0, 0, 0, 0, 0, 0, 0, 0, 0, 0, 0, 0, 0, 0, 0, 0, 0, 0, 0, 0, 0, 0, 0, 0, 0, 0, 0, 0, 0, 0, 0, 0, 0, 0, 0, 0, 0, 0, 0, 0, 0, 0, 0, 0, 0, 0, 0, 0, 0, 0, 0, 0, 0, 0, 0, 0, 0, 0, 0, 0, 0, 0, 0, 0, 0, 0, 0, 0, 0, 0, 0, 0, 0, 0, 0, 0, 0, 0, 0, 0, 0, 0, 0, 0, 0, 0, 0, 0, 0, 0, 0, 0, 0, 0, 0, 0, 0, 0, 0, 0, 0, 0, 0, 0, 0, 0, 0, 0, 0, 0, 0, 0, 0, 0, 0, 0, 0, 0, 0, 0, 0, 0, 0, 0, 0, 0, 0, 0, 0, 0, 0, 0, 0, 0, 0, 0, 0, 0, 0, 0, 0, 0, 0, 0, 0, 0, 0, 0, 0, 0, 0, 0, 0, 0, 0, 0, 0, 0, 0, 0, 0, 0, 0, 0, 0, 0, 0, 0, 0, 0, 0, 0, 0, 0, 0, 0, 0, 0, 0, 0, 0, 0, 0, 0, 0, 0, 0, 0, 0, 0, 0, 0, 0, 0, 0, 0, 0, 0, 0, 0, 0, 0, 0]) =
      "16d138f22178f3549288d3ffdcef32fb6cb406aacca0fe451321917cf1b4e043" := by
  rw [sha256, c1pad_tar, c1chunks_tar, List.foldl_cons, c1blk_tar_1, List.foldl_cons, c1blk_tar_2, List.foldl_cons, c1blk_tar_3, List.foldl_cons, c1blk_tar_4, List.foldl_cons, c1blk_tar_5, List.foldl_cons, c1blk_tar_6, List.foldl_cons, c1blk_tar_7, List.foldl_cons, c1blk_tar_8, List.foldl_cons, c1blk_tar_9, List.foldl_cons, c1blk_tar_10, List.foldl_cons, c1blk_tar_11, List.foldl_cons, c1blk_tar_12, List.foldl_cons, c1blk_tar_13, List.foldl_cons, c1blk_tar_14, List.foldl_cons, c1blk_tar_15, List.foldl_cons, c1blk_tar_16, List.foldl_cons, c1blk_tar_17, List.foldl_cons, c1blk_tar_18, List.foldl_cons, c1blk_tar_19, List.foldl_cons, c1blk_tar_20, List.foldl_cons, c1blk_tar_21, List.foldl_cons, c1blk_tar_22, List.foldl_cons, c1blk_tar_23, List.foldl_cons, c1blk_tar_24, List.foldl_cons, c1blk_tar_25,
    List.foldl_nil]
  try rfl


set_option maxRecDepth 10000 in
set_option maxHeartbeats 2000000 in
theorem c1gz_len :
    List.length [31, 139, 8, 0, 0, 0, 0, 0, 0, 255, 1, 0, 6, 255, 249, 97, 0, 0, 0, 0, 0, 0, 0, 0, 0, 0, 0, 0, 0, 0, 0, 0, 0, 0, 0, 0, 0, 0, 0, 0, 0, 0, 0, 0, 0, 0, 0, 0, 0, 0, 0, 0, 0, 0, 0, 0, 0, 0, 0, 0, 0, 0, 0, 0, 0, 0, 0, 0, 0, 0, 0, 0, 0, 0, 0, 0, 0, 0, 0, 0, 0, 0, 0, 0, 0, 0, 0, 0, 0, 0, 0, 0, 0, 0, 0, 0, 0, 0, 0, 0, 0, 0, 0, 0, 0, 0, 0, 0, 0, 0, 0, 0, 0, 0, 0, 48, 48, 48, 48, 54, 52, 52, 0, 48, 48, 48, 48, 48, 48, 48, 0, 48, 48, 48, 48, 48, 48, 48, 0, 48, 48, 48, 48, 48, 48, 48, 48, 48, 48, 48, 0, 48, 48, 48, 48, 48, 48, 48, 48, 48, 48, 48, 0, 48, 48, 55, 51, 51, 54, 0, 32, 48, 0, 0, 0, 0, 0, 0, 0, 0, 0, 0, 0, 0, 0, 0, 0, 0, 0, 0, 0, 0, 0, 0, 0, 0, 0, 0, 0, 0, 0, 0, 0, 0, 0, 0, 0, 0, 0, 0, 0, 0, 0, 0, 0, 0, 0, 0, 0, 0, 0, 0, 0, 0, 0, 0, 0, 0, 0, 0, 0, 0, 0, 0, 0, 0, 0, 0, 0, 0, 0, 0, 0, 0, 0, 0, 0, 0, 0, 0, 0, 0, 0, 0, 0, 0, 0, 0, 0, 0, 0, 0, 0, 0, 0, 0, 0, 0, 0, 0, 0, 0, 117, 115, 116, 97, 114, 0, 48, 48, 0, 0, 0, 0, 0, 0, 0, 0, 0, 0, 0, 0, 0, 0, 0, 0, 0, 0, 0, 0, 0, 0, 0, 0, 0, 0, 0, 0, 0, 0, 0, 0, 0, 0, 0, 0, 0, 0, 0, 0, 0, 0, 0, 0, 0, 0, 0, 0, 0, 0, 0, 0, 0, 0, 0, 0, 0, 0, 0, 0, 0, 0, 0, 0, 48, 48, 48, 48, 48, 48, 48, 0, 48, 48, 48, 48, 48, 48, 48, 0, 0, 0, 0, 0, 0, 0, 0, 0, 0, 0, 0, 0, 0, 0, 0, 0, 0, 0, 0, 0, 0, 0, 0, 0, 0, 0, 0, 0, 0, 0, 0, 0, 0, 0, 0, 0, 0, 0, 0, 0, 0, 0, 0, 0, 0, 0, 0, 0, 0, 0, 0, 0, 0, 0, 0, 0, 0, 0, 0, 0, 0, 0, 0, 0, 0, 0, 0, 0, 0, 0, 0, 0, 0, 0, 0, 0, 0, 0, 0, 0, 0, 0, 0, 0, 0, 0, 0, 0, 0, 0, 0, 0, 0, 0, 0, 0, 0, 0, 0, 0, 0, 0, 0, 0, 0, 0, 0, 0, 0, 0, 0, 0, 0, 0, 0, 0, 0, 0, 0, 0, 0, 0, 0, 0, 0, 0, 0, 0, 0, 0, 0, 0, 0, 0, 0, 0, 0, 0, 0, 0, 0, 0, 0, 0, 0, 0, 0, 0, 0, 0, 0, 0, 0, 0, 0, 0, 0, 0, 0, 0, 0, 0, 0, 0, 0, 0, 0, 0, 0, 0, 0, 0, 0, 0, 0, 0, 0, 0, 0, 0, 0, 0, 0, 0, 0, 0, 0, 0, 0, 0, 0, 0, 0, 0, 0, 0, 0, 0, 0, 0, 0, 0, 0, 0, 0, 0, 0, 0, 0, 0, 0, 0, 0, 0, 0, 0, 0, 0, 0, 0, 0, 0, 0, 0, 0, 0, 0, 0, 0, 0, 0, 0, 0, 0, 0, 0, 0, 0, 0, 0, 0, 0, 0, 0, 0, 0, 0, 0, 0, 0, 0, 0, 0, 0, 0, 0, 0, 0, 0, 0, 0, 0, 0, 0, 0, 0, 0, 0, 0, 0, 0, 0, 0, 0, 0, 0, 0, 0, 0, 0, 0, 0, 0, 0, 0, 0, 0, 0, 0, 0, 0, 0, 0, 0, 0, 0, 0, 0, 0, 0, 0, 0, 0, 0, 0, 0, 0, 0, 0, 0, 0, 0, 0, 0, 0, 0, 0, 0, 0, 0, 0, 0, 0, 0, 0, 0, 0, 0, 0, 0, 0, 0, 0, 0, 0, 0, 0, 0, 0, 0, 0, 0, 0, 0, 0, 0, 0, 0, 0, 0, 0, 0, 0, 0, 0, 0, 0, 0, 0, 0, 0, 0, 0, 0, 0, 0, 0, 0, 0, 0, 0, 0, 0, 0, 0, 0, 0, 0, 0, 0, 0, 0, 0, 0, 0, 0, 0, 0, 0, 0, 0, 0, 0, 0, 0, 0, 0, 0, 0, 0, 0, 0, 0, 0, 0, 0, 0, 0, 0, 0, 0, 0, 0, 0, 0, 0, 0, 0, 0, 0, 0, 0, 0, 0, 0, 0, 0, 0, 0, 0, 0, 0, 0, 0, 0, 0, 0, 0, 0, 0, 0, 0, 0, 0, 0, 0, 0, 0, 0, 0, 0, 0, 0, 0, 0, 0, 0, 0, 0, 0, 0, 0, 0, 0, 0, 0, 0, 0, 0, 0, 0, 0, 0, 0, 0, 0, 0, 0, 0, 0, 0, 0, 0, 0, 0, 0, 0, 0, 0, 0, 0, 0, 0, 0, 0, 0, 0, 0, 0, 0, 0, 0, 0, 0, 0, 0, 0, 0, 0, 0, 0, 0, 0, 0, 0, 0, 0, 0, 0, 0, 0, 0, 0, 0, 0, 0, 0, 0, 0, 0, 0, 0, 0, 0, 0, 0, 0, 0, 0, 0, 0, 0, 0, 0, 0, 0, 0, 0, 0, 0, 0, 0, 0, 0, 0, 0, 0, 0, 0, 0, 0, 0, 0, 0, 0, 0, 0, 0, 0, 0, 0, 0, 0, 0, 0, 0, 0, 0, 0, 0, 0, 0, 0, 0, 0, 0, 0, 0, 0, 0, 0, 0, 0, 0, 0, 0, 0, 0, 0, 0, 0, 0, 0, 0, 0, 0, 0, 0, 0, 0, 0, 0, 0, 0, 0, 0, 0, 0, 0, 0, 0, 0, 0, 0, 0, 0, 0, 0, 0, 0, 0, 0, 0, 0, 0, 0, 0, 0, 0, 0, 0, 0, 0, 0, 0, 0, 0, 0, 0, 0, 0, 0, 0, 0, 0, 0, 0, 0, 0, 0, 0, 0, 0, 0, 0, 0, 0, 0, 0, 0, 0, 0, 0, 0, 0, 0, 0, 0, 0, 0, 0, 0, 0, 0, 0, 0, 0, 0, 0, 0, 0, 0, 0, 0, 0, 0, 0, 0, 0, 0, 0, 0, 0, 0, 0, 0, 0, 0, 0, 0, 0, 0, 0, 0, 0, 0, 0, 0, 0, 0, 0, 0, 0, 0, 0, 0, 0, 0, 0, 0, 0, 0, 0, 0, 0, 0, 0, 0, 0, 0, 0, 0, 0, 0, 0, 0, 0, 0, 0, 0, 0, 0, 0, 0, 0, 0, 0, 0, 0, 0, 0, 0, 0, 0, 0, 0, 0, 0, 0, 0, 0, 0, 0, 0, 0, 0, 0, 0, 0, 0, 0, 0, 0, 0, 0, 0, 0, 0, 0, 0, 0, 0, 0, 0, 0, 0, 0, 0, 0, 0, 0, 0, 0, 0, 0, 0, 0, 0, 0, 0, 0, 0, 0, 0, 0, 0, 0, 0, 0, 0, 0, 0, 0, 0, 0, 0, 0, 0, 0, 0, 0, 0, 0, 0, 0, 0, 0, 0, 0, 0, 0, 0, 0, 0, 0, 0, 0, 0, 0, 0, 0, 0, 0, 0, 0, 0, 0, 0, 0, 0, 0, 0, 0, 0, 0, 0, 0, 0, 0, 0, 0, 0, 0, 0, 0, 0, 0, 0, 0, 0, 0, 0, 0, 0, 0, 0, 0, 0, 0, 0, 0, 0, 0, 0, 0, 0, 0, 0, 0, 0, 0, 0, 0, 0, 0, 0, 0, 0, 0, 0, 0, 0, 0, 0, 0, 0, 0, 0, 0, 0, 0, 0, 0, 0, 0, 0, 0, 0, 0, 0, 0, 0, 0, 0, 0, 0, 0, 0, 0, 0, 0, 0, 0, 0, 0, 0, 0, 0, 0, 0, 0, 0, 0, 0, 0, 0, 0, 0, 0, 0, 0, 0, 0, 0, 0, 0, 0, 0, 0, 0, 0, 0, 0, 0, 0, 0, 0, 0, 0, 0, 0, 0, 0, 0, 0, 0, 0, 0, 0, 0, 0, 0, 0, 0, 0, 0, 0, 0, 0, 0, 0, 0, 0, 0, 0, 0, 0, 0, 0, 0, 0, 0, 0, 0, 0, 0, 0, 0, 0, 0, 0, 0, 0, 0, 0, 0, 0, 0, 0, 0, 0, 0, 0, 0, 0, 0, 0, 0, 0, 0, 0, 0, 0, 0, 0, 0, 0, 0, 0, 0, 0, 0, 0, 0, 0, 0, 0, 0, 0, 0, 0, 0, 0, 0, 0, 0, 0, 0, 0, 0, 0, 0, 0, 0, 0, 0, 0, 0, 0, 0, 0, 0, 0, 0, 0, 0, 0, 0, 0, 0, 0, 0, 0, 0, 0, 0, 0, 0, 0, 0, 0, 0, 0, 0, 0, 0, 0, 0, 0, 0, 0, 0, 0, 0, 0, 0, 0, 0, 0, 0, 0, 0, 0, 0, 0, 0, 0, 0, 0, 0, 0, 0, 0, 0, 0, 0, 0, 0, 0, 0, 0, 0, 0, 0, 0, 0, 0, 0, 0, 0, 0, 0, 0, 0, 0, 0, 0, 0, 0, 0, 0, 0, 0, 0, 0, 0, 0, 0, 0, 0, 0, 0, 0, 0, 0, 0, 0, 0, 0, 0, 0, 0, 0, 0, 0, 0, 0, 0, 0, 0, 0, 164, 75, 216, 0, 0, 6, 0, 0] = 1559 := by
  rfl


set_option maxRecDepth 10000 in
set_option maxHeartbeats 2000000 in
theorem c1gz_padlen :
    List.length [31, 139, 8, 0, 0, 0, 0, 0, 0, 255, 1, 0, 6, 255, 249, 97, 0, 0, 0, 0, 0, 0, 0, 0, 0, 0, 0, 0, 0, 0, 0, 0, 0, 0, 0, 0, 0, 0, 0, 0, 0, 0, 0, 0, 0, 0, 0, 0, 0, 0, 0, 0, 0, 0, 0, 0, 0, 0, 0, 0, 0, 0, 0, 0, 0, 0, 0, 0, 0, 0, 0, 0, 0, 0, 0, 0, 0, 0, 0, 0, 0, 0, 0, 0, 0, 0, 0, 0, 0, 0, 0, 0, 0, 0, 0, 0, 0, 0, 0, 0, 0, 0, 0, 0, 0, 0, 0, 0, 0, 0, 0, 0, 0, 0, 0, 48, 48, 48, 48, 54, 52, 52, 0, 48, 48, 48, 48, 48, 48, 48, 0, 48, 48, 48, 48, 48, 48, 48, 0, 48, 48, 48, 48, 48, 48, 48, 48, 48, 48, 48, 0, 48, 48, 48, 48, 48, 48, 48, 48, 48, 48, 48, 0, 48, 48, 55, 51, 51, 54, 0, 32, 48, 0, 0, 0, 0, 0, 0, 0, 0, 0, 0, 0, 0, 0, 0, 0, 0, 0, 0, 0, 0, 0, 0, 0, 0, 0, 0, 0, 0, 0, 0, 0, 0, 0, 0, 0, 0, 0, 0, 0, 0, 0, 0, 0, 0, 0, 0, 0, 0, 0, 0, 0, 0, 0, 0, 0, 0, 0, 0, 0, 0, 0, 0, 0, 0, 0, 0, 0, 0, 0, 0, 0, 0, 0, 0, 0, 0, 0, 0, 0, 0, 0, 0, 0, 0, 0, 0, 0, 0, 0, 0, 0, 0, 0, 0, 0, 0, 0, 0, 0, 0, 117, 115, 116, 97, 114, 0, 48, 48, 0, 0, 0, 0, 0, 0, 0, 0, 0, 0, 0, 0, 0, 0, 0, 0, 0, 0, 0, 0, 0, 0, 0, 0, 0, 0, 0, 0, 0, 0, 0, 0, 0, 0, 0, 0, 0, 0, 0, 0, 0, 0, 0, 0, 0, 0, 0, 0, 0, 0, 0, 0, 0, 0, 0, 0, 0, 0, 0, 0, 0, 0, 0, 0, 48, 48, 48, 48, 48, 48, 48, 0, 48, 48, 48, 48, 48, 48, 48, 0, 0, 0, 0, 0, 0, 0, 0, 0, 0, 0, 0, 0, 0, 0, 0, 0, 0, 0, 0, 0, 0, 0, 0, 0, 0, 0, 0, 0, 0, 0, 0, 0, 0, 0, 0, 0, 0, 0, 0, 0, 0, 0, 0, 0, 0, 0, 0, 0, 0, 0, 0, 0, 0, 0, 0, 0, 0, 0, 0, 0, 0, 0, 0, 0, 0, 0, 0, 0, 0, 0, 0, 0, 0, 0, 0, 0, 0, 0, 0, 0, 0, 0, 0, 0, 0, 0, 0, 0, 0, 0, 0, 0, 0, 0, 0, 0, 0, 0, 0, 0, 0, 0, 0, 0, 0, 0, 0, 0, 0, 0, 0, 0, 0, 0, 0, 0, 0, 0, 0, 0, 0, 0, 0, 0, 0, 0, 0, 0, 0, 0, 0, 0, 0, 0, 0, 0, 0, 0, 0, 0, 0, 0, 0, 0, 0, 0, 0, 0, 0, 0, 0, 0, 0, 0, 0, 0, 0, 0, 0, 0, 0, 0, 0, 0, 0, 0, 0, 0, 0, 0, 0, 0, 0, 0, 0, 0, 0, 0, 0, 0, 0, 0, 0, 0, 0, 0, 0, 0, 0, 0, 0, 0, 0, 0, 0, 0, 0, 0, 0, 0, 0, 0, 0, 0, 0, 0, 0, 0, 0, 0, 0, 0, 0, 0, 0, 0, 0, 0, 0, 0, 0, 0, 0, 0, 0, 0, 0, 0, 0, 0, 0, 0, 0, 0, 0, 0, 0, 0, 0, 0, 0, 0, 0, 0, 0, 0, 0, 0, 0, 0, 0, 0, 0, 0, 0, 0, 0, 0, 0, 0, 0, 0, 0, 0, 0, 0, 0, 0, 0, 0, 0, 0, 0, 0, 0, 0, 0, 0, 0, 0, 0, 0, 0, 0, 0, 0, 0, 0, 0, 0, 0, 0, 0, 0, 0, 0, 0, 0, 0, 0, 0, 0, 0, 0, 0, 0, 0, 0, 0, 0, 0, 0, 0, 0, 0, 0, 0, 0, 0, 0, 0, 0, 0, 0, 0, 0, 0, 0, 0, 0, 0, 0, 0, 0, 0, 0, 0, 0, 0, 0, 0, 0, 0, 0, 0, 0, 0, 0, 0, 0, 0, 0, 0, 0, 0, 0, 0, 0, 0, 0, 0, 0, 0, 0, 0, 0, 0, 0, 0, 0, 0, 0, 0, 0, 0, 0, 0, 0, 0, 0, 0, 0, 0, 0, 0, 0, 0, 0, 0, 0, 0, 0, 0, 0, 0, 0, 0, 0, 0, 0, 0, 0, 0, 0, 0, 0, 0, 0, 0, 0, 0, 0, 0, 0, 0, 0, 0, 0, 0, 0, 0, 0, 0, 0, 0, 0, 0, 0, 0, 0, 0, 0, 0, 0, 0, 0, 0, 0, 0, 0, 0, 0, 0, 0, 0, 0, 0, 0, 0, 0, 0, 0, 0, 0, 0, 0, 0, 0, 0, 0, 0, 0, 0, 0, 0, 0, 0, 0, 0, 0, 0, 0, 0, 0, 0, 0, 0, 0, 0, 0, 0, 0, 0, 0, 0, 0, 0, 0, 0, 0, 0, 0, 0, 0, 0, 0, 0, 0, 0, 0, 0, 0, 0, 0, 0, 0, 0, 0, 0, 0, 0, 0, 0, 0, 0, 0, 0, 0, 0, 0, 0, 0, 0, 0, 0, 0, 0, 0, 0, 0, 0, 0, 0, 0, 0, 0, 0, 0, 0, 0, 0, 0, 0, 0, 0, 0, 0, 0, 0, 0, 0, 0, 0, 0, 0, 0, 0, 0, 0, 0, 0, 0, 0, 0, 0, 0, 0, 0, 0, 0, 0, 0, 0, 0, 0, 0, 0, 0, 0, 0, 0, 0, 0, 0, 0, 0, 0, 0, 0, 0, 0, 0, 0, 0, 0, 0, 0, 0, 0, 0, 0, 0, 0, 0, 0, 0, 0, 0, 0, 0, 0, 0, 0, 0, 0, 0, 0, 0, 0, 0, 0, 0, 0, 0, 0, 0, 0, 0, 0, 0, 0, 0, 0, 0, 0, 0, 0, 0, 0, 0, 0, 0, 0, 0, 0, 0, 0, 0, 0, 0, 0, 0, 0, 0, 0, 0, 0, 0, 0, 0, 0, 0, 0, 0, 0, 0, 0, 0, 0, 0, 0, 0, 0, 0, 0, 0, 0, 0, 0, 0, 0, 0, 0, 0, 0, 0, 0, 0, 0, 0, 0, 0, 0, 0, 0, 0, 0, 0, 0, 0, 0, 0, 0, 0, 0, 0, 0, 0, 0, 0, 0, 0, 0, 0, 0, 0, 0, 0, 0, 0, 0, 0, 0, 0, 0, 0, 0, 0, 0, 0, 0, 0, 0, 0, 0, 0, 0, 0, 0, 0, 0, 0, 0, 0, 0, 0, 0, 0, 0, 0, 0, 0, 0, 0, 0, 0, 0, 0, 0, 0, 0, 0, 0, 0, 0, 0, 0, 0, 0, 0, 0, 0, 0, 0, 0, 0, 0, 0, 0, 0, 0, 0, 0, 0, 0, 0, 0, 0, 0, 0, 0, 0, 0, 0, 0, 0, 0, 0, 0, 0, 0, 0, 0, 0, 0, 0, 0, 0, 0, 0, 0, 0, 0, 0, 0, 0, 0, 0, 0, 0, 0, 0, 0, 0, 0, 0, 0, 0, 0, 0, 0, 0, 0, 0, 0, 0, 0, 0, 0, 0, 0, 0, 0, 0, 0, 0, 0, 0, 0, 0, 0, 0, 0, 0, 0, 0, 0, 0, 0, 0, 0, 0, 0, 0, 0, 0, 0, 0, 0, 0, 0, 0, 0, 0, 0, 0, 0, 0, 0, 0, 0, 0, 0, 0, 0, 0, 0, 0, 0, 0, 0, 0, 0, 0, 0, 0, 0, 0, 0, 0, 0, 0, 0, 0, 0, 0, 0, 0, 0, 0, 0, 0, 0, 0, 0, 0, 0, 0, 0, 0, 0, 0, 0, 0, 0, 0, 0, 0, 0, 0, 0, 0, 0, 0, 0, 0, 0, 0, 0, 0, 0, 0, 0, 0, 0, 0, 0, 0, 0, 0, 0, 0, 0, 0, 0, 0, 0, 0, 0, 0, 0, 0, 0, 0, 0, 0, 0, 0, 0, 0, 0, 0, 0, 0, 0, 0, 0, 0, 0, 0, 0, 0, 0, 0, 0, 0, 0, 0, 0, 0, 0, 0, 0, 0, 0, 0, 0, 0, 0, 0, 0, 0, 0, 0, 0, 0, 0, 0, 0, 0, 0, 0, 0, 0, 0, 0, 0, 0, 0, 0, 0, 0, 0, 0, 0, 0, 0, 0, 0, 0, 0, 0, 0, 0, 0, 0, 0, 0, 0, 0, 0, 0, 0, 0, 0, 0, 0, 0, 0, 0, 0, 0, 0, 0, 0, 0, 0, 0, 0, 0, 0, 0, 0, 0, 0, 0, 0, 0, 0, 0, 0, 0, 0, 0, 0, 0, 0, 0, 0, 0, 0, 0, 0, 0, 0, 0, 0, 0, 0, 0, 0, 0, 0, 0, 0, 0, 0, 0, 0, 0, 0, 0, 0, 0, 0, 0, 0, 0, 0, 0, 0, 0, 0, 0, 0, 0, 0, 0, 0, 0, 0, 0, 0, 0, 0, 0, 0, 0, 0, 0, 0, 0, 0, 0, 0, 0, 0, 0, 0, 0, 0, 0, 0, 0, 0, 0, 0, 0, 0, 0, 0, 0, 0, 0, 0, 0, 0, 0, 0, 0, 0, 0, 0, 0, 0, 0, 0, 0, 0, 0, 0, 0, 0, 0, 0, 0, 0, 0, 0, 0, 0, 0, 0, 0, 0, 0, 0, 0, 0, 0, 0, 164, 75, 216, 0, 0, 6, 0, 0, 128, 0, 0, 0, 0, 0, 0, 0, 0, 0, 0, 0, 0, 0, 0, 0, 0, 0, 0, 0, 0, 0, 0, 0, 0, 0, 0, 0, 0, 0, 0, 0, 0, 0, 0, 0, 0, 0, 0, 48, 184] = 1600 := by
  rfl


set_option maxRecDepth 10000 in
set_option maxHeartbeats 2000000 in
theorem c1pad_gz :
    shaPad [31, 139, 8, 0, 0, 0, 0, 0, 0, 255, 1, 0, 6, 255, 249, 97, 0, 0, 0, 0, 0, 0, 0, 0, 0, 0, 0, 0, 0, 0, 0, 0, 0, 0, 0, 0, 0, 0, 0, 0, 0, 0, 0, 0, 0, 0, 0, 0, 0, 0, 0, 0, 0, 0, 0, 0, 0, 0, 0, 0, 0, 0, 0, 0, 0, 0, 0, 0, 0, 0, 0, 0, 0, 0, 0, 0, 0, 0, 0, 0, 0, 0, 0, 0, 0, 0, 0, 0, 0, 0, 0, 0, 0, 0, 0, 0, 0, 0, 0, 0, 0, 0, 0, 0, 0, 0, 0, 0, 0, 0, 0, 0, 0, 0, 0, 48, 48, 48, 48, 54, 52, 52, 0, 48, 48, 48, 48, 48, 48, 48, 0, 48, 48, 48, 48, 48, 48, 48, 0, 48, 48, 48, 48, 48, 48, 48, 48, 48, 48, 48, 0, 48, 48, 48, 48, 48, 48, 48, 48, 48, 48, 48, 0, 48, 48, 55, 51, 51, 54, 0, 32, 48, 0, 0, 0, 0, 0, 0, 0, 0, 0, 0, 0, 0, 0, 0, 0, 0, 0, 0, 0, 0, 0, 0, 0, 0, 0, 0, 0, 0, 0, 0, 0, 0, 0, 0, 0, 0, 0, 0, 0, 0, 0, 0, 0, 0, 0, 0, 0, 0, 0, 0, 0, 0, 0, 0, 0, 0, 0, 0, 0, 0, 0, 0, 0, 0, 0, 0, 0, 0, 0, 0, 0, 0, 0, 0, 0, 0, 0, 0, 0, 0, 0, 0, 0, 0, 0, 0, 0, 0, 0, 0, 0, 0, 0, 0, 0, 0, 0, 0, 0, 0, 117, 115, 116, 97, 114, 0, 48, 48, 0, 0, 0, 0, 0, 0, 0, 0, 0, 0, 0, 0, 0, 0, 0, 0, 0, 0, 0, 0, 0, 0, 0, 0, 0, 0, 0, 0, 0, 0, 0, 0, 0, 0, 0, 0, 0, 0, 0, 0, 0, 0, 0, 0, 0, 0, 0, 0, 0, 0, 0, 0, 0, 0, 0, 0, 0, 0, 0, 0, 0, 0, 0, 0, 48, 48, 48, 48, 48, 48, 48, 0, 48, 48, 48, 48, 48, 48, 48, 0, 0, 0, 0, 0, 0, 0, 0, 0, 0, 0, 0, 0, 0, 0, 0, 0, 0, 0, 0, 0, 0, 0, 0, 0, 0, 0, 0, 0, 0, 0, 0, 0, 0, 0, 0, 0, 0, 0, 0, 0, 0, 0, 0, 0, 0, 0, 0, 0, 0, 0, 0, 0, 0, 0, 0, 0, 0, 0, 0, 0, 0, 0, 0, 0, 0, 0, 0, 0, 0, 0, 0, 0, 0, 0, 0, 0, 0, 0, 0, 0, 0, 0, 0, 0, 0, 0, 0, 0, 0, 0, 0, 0, 0, 0, 0, 0, 0, 0, 0, 0, 0, 0, 0, 0, 0, 0, 0, 0, 0, 0, 0, 0, 0, 0, 0, 0, 0, 0, 0, 0, 0, 0, 0, 0, 0, 0, 0, 0, 0, 0, 0, 0, 0, 0, 0, 0, 0, 0, 0, 0, 0, 0, 0, 0, 0, 0, 0, 0, 0, 0, 0, 0, 0, 0, 0, 0, 0, 0, 0, 0, 0, 0, 0, 0, 0, 0, 0, 0, 0, 0, 0, 0, 0, 0, 0, 0, 0, 0, 0, 0, 0, 0, 0, 0, 0, 0, 0, 0, 0, 0, 0, 0, 0, 0, 0, 0, 0, 0, 0, 0, 0, 0, 0, 0, 0, 0, 0, 0, 0, 0, 0, 0, 0, 0, 0, 0, 0, 0, 0, 0, 0, 0, 0, 0, 0, 0, 0, 0, 0, 0, 0, 0, 0, 0, 0, 0, 0, 0, 0, 0, 0, 0, 0, 0, 0, 0, 0, 0, 0, 0, 0, 0, 0, 0, 0, 0, 0, 0, 0, 0, 0, 0, 0, 0, 0, 0, 0, 0, 0, 0, 0, 0, 0, 0, 0, 0, 0, 0, 0, 0, 0, 0, 0, 0, 0, 0, 0, 0, 0, 0, 0, 0, 0, 0, 0, 0, 0, 0, 0, 0, 0, 0, 0, 0, 0, 0, 0, 0, 0, 0, 0, 0, 0, 0, 0, 0, 0, 0, 0, 0, 0, 0, 0, 0, 0, 0, 0, 0, 0, 0, 0, 0, 0, 0, 0, 0, 0, 0, 0, 0, 0, 0, 0, 0, 0, 0, 0, 0, 0, 0, 0, 0, 0, 0, 0, 0, 0, 0, 0, 0, 0, 0, 0, 0, 0, 0, 0, 0, 0, 0, 0, 0, 0, 0, 0, 0, 0, 0, 0, 0, 0, 0, 0, 0, 0, 0, 0, 0, 0, 0, 0, 0, 0, 0, 0, 0, 0, 0, 0, 0, 0, 0, 0, 0, 0, 0, 0, 0, 0, 0, 0, 0, 0, 0, 0, 0, 0, 0, 0, 0, 0, 0, 0, 0, 0, 0, 0, 0, 0, 0, 0, 0, 0, 0, 0, 0, 0, 0, 0, 0, 0, 0, 0, 0, 0, 0, 0, 0, 0, 0, 0, 0, 0, 0, 0, 0, 0, 0, 0, 0, 0, 0, 0, 0, 0, 0, 0, 0, 0, 0, 0, 0, 0, 0, 0, 0, 0, 0, 0, 0, 0, 0, 0, 0, 0, 0, 0, 0, 0, 0, 0, 0, 0, 0, 0, 0, 0, 0, 0, 0, 0, 0, 0, 0, 0, 0, 0, 0, 0, 0, 0, 0, 0, 0, 0, 0, 0, 0, 0, 0, 0, 0, 0, 0, 0, 0, 0, 0, 0, 0, 0, 0, 0, 0, 0, 0, 0, 0, 0, 0, 0, 0, 0, 0, 0, 0, 0, 0, 0, 0, 0, 0, 0, 0, 0, 0, 0, 0, 0, 0, 0, 0, 0, 0, 0, 0, 0, 0, 0, 0, 0, 0, 0, 0, 0, 0, 0, 0, 0, 0, 0, 0, 0, 0, 0, 0, 0, 0, 0, 0, 0, 0, 0, 0, 0, 0, 0, 0, 0, 0, 0, 0, 0, 0, 0, 0, 0, 0, 0, 0, 0, 0, 0, 0, 0, 0, 0, 0, 0, 0, 0, 0, 0, 0, 0, 0, 0, 0, 0, 0, 0, 0, 0, 0, 0, 0, 0, 0, 0, 0, 0, 0, 0, 0, 0, 0, 0, 0, 0, 0, 0, 0, 0, 0, 0, 0, 0, 0, 0, 0, 0, 0, 0, 0, 0, 0, 0, 0, 0, 0, 0, 0, 0, 0, 0, 0, 0, 0, 0, 0, 0, 0, 0, 0, 0, 0, 0, 0, 0, 0, 0, 0, 0, 0, 0, 0, 0, 0, 0, 0, 0, 0, 0, 0, 0, 0, 0, 0, 0, 0, 0, 0, 0, 0, 0, 0, 0, 0, 0, 0, 0, 0, 0, 0, 0, 0, 0, 0, 0, 0, 0, 0, 0, 0, 0, 0, 0, 0, 0, 0, 0, 0, 0, 0, 0, 0, 0, 0, 0, 0, 0, 0, 0, 0, 0, 0, 0, 0, 0, 0, 0, 0, 0, 0, 0, 0, 0, 0, 0, 0, 0, 0, 0, 0, 0, 0, 0, 0, 0, 0, 0, 0, 0, 0, 0, 0, 0, 0, 0, 0, 0, 0, 0, 0, 0, 0, 0, 0, 0, 0, 0, 0, 0, 0, 0, 0, 0, 0, 0, 0, 0, 0, 0, 0, 0, 0, 0, 0, 0, 0, 0, 0, 0, 0, 0, 0, 0, 0, 0, 0, 0, 0, 0, 0, 0, 0, 0, 0, 0, 0, 0, 0, 0, 0, 0, 0, 0, 0, 0, 0, 0, 0, 0, 0, 0, 0, 0, 0, 0, 0, 0, 0, 0, 0, 0, 0, 0, 0, 0, 0, 0, 0, 0, 0, 0, 0, 0, 0, 0, 0, 0, 0, 0, 0, 0, 0, 0, 0, 0, 0, 0, 0, 0, 0, 0, 0, 0, 0, 0, 0, 0, 0, 0, 0, 0, 0, 0, 0, 0, 0, 0, 0, 0, 0, 0, 0, 0, 0, 0, 0, 0, 0, 0, 0, 0, 0, 0, 0, 0, 0, 0, 0, 0, 0, 0, 0, 0, 0, 0, 0, 0, 0, 0, 0, 0, 0, 0, 0, 0, 0, 0, 0, 0, 0, 0, 0, 0, 0, 0, 0, 0, 0, 0, 0, 0, 0, 0, 0, 0, 0, 0, 0, 0, 0, 0, 0, 0, 0, 0, 0, 0, 0, 0, 0, 0, 0, 0, 0, 0, 0, 0, 0, 0, 0, 0, 0, 0, 0, 0, 0, 0, 0, 0, 0, 0, 0, 0, 0, 0, 0, 0, 0, 0, 0, 0, 0, 0, 0, 0, 0, 0, 0, 0, 0, 0, 0, 0, 0, 0, 0, 0, 0, 0, 0, 0, 0, 0, 0, 0, 0, 0, 0, 0, 0, 0, 0, 0, 0, 0, 0, 0, 0, 0, 0, 0, 0, 0, 0, 0, 0, 0, 0, 0, 0, 0, 0, 0, 0, 0, 0, 0, 0, 0, 0, 0, 0, 0, 0, 0, 0, 0, 0, 0, 0, 0, 0, 0, 0, 0, 0, 0, 0, 0, 0, 0, 0, 0, 0, 0, 0, 0, 0, 0, 0, 0, 0, 0, 0, 0, 0, 0, 0, 0, 0, 0, 0, 0, 0, 0, 0, 0, 0, 0, 0, 0, 0, 0, 0, 0, 0, 0, 0, 0, 0, 0, 0, 0, 0, 0, 0, 0, 0, 0, 0, 0, 0, 0, 0, 0, 0, 0, 0, 0, 0, 0, 0, 0, 0, 0, 0, 0, 0, 0, 0, 0, 0, 0, 0, 0, 0, 0, 0, 0, 0, 0, 0, 0, 0, 0, 0, 0, 0, 0, 0, 0, 0, 0, 0, 0, 0, 0, 164, 75, 216, 0, 0, 6, 0, 0] =
      [31, 139, 8, 0, 0, 0, 0, 0, 0, 255, 1, 0, 6, 255, 249, 97, 0, 0, 0, 0, 0, 0, 0, 0, 0, 0, 0, 0, 0, 0, 0, 0, 0, 0, 0, 0, 0, 0, 0, 0, 0, 0, 0, 0, 0, 0, 0, 0, 0, 0, 0, 0, 0, 0, 0, 0, 0, 0, 0, 0, 0, 0, 0, 0, 0, 0, 0, 0, 0, 0, 0, 0, 0, 0, 0, 0, 0, 0, 0, 0, 0, 0, 0, 0, 0, 0, 0, 0, 0, 0, 0, 0, 0, 0, 0, 0, 0, 0, 0, 0, 0, 0, 0, 0, 0, 0, 0, 0, 0, 0, 0, 0, 0, 0, 0, 48, 48, 48, 48, 54, 52, 52, 0, 48, 48, 48, 48, 48, 48, 48, 0, 48, 48, 48, 48, 48, 48, 48, 0, 48, 48, 48, 48, 48, 48, 48, 48, 48, 48, 48, 0, 48, 48, 48, 48, 48, 48, 48, 48, 48, 48, 48, 0, 48, 48, 55, 51, 51, 54, 0, 32, 48, 0, 0, 0, 0, 0, 0, 0, 0, 0, 0, 0, 0, 0, 0, 0, 0, 0, 0, 0, 0, 0, 0, 0, 0, 0, 0, 0, 0, 0, 0, 0, 0, 0, 0, 0, 0, 0, 0, 0, 0, 0, 0, 0, 0, 0, 0, 0, 0, 0, 0, 0, 0, 0, 0, 0, 0, 0, 0, 0, 0, 0, 0, 0, 0, 0, 0, 0, 0, 0, 0, 0, 0, 0, 0, 0, 0, 0, 0, 0, 0, 0, 0, 0, 0, 0, 0, 0, 0, 0, 0, 0, 0, 0, 0, 0, 0, 0, 0, 0, 0, 117, 115, 116, 97, 114, 0, 48, 48, 0, 0, 0, 0, 0, 0, 0, 0, 0, 0, 0, 0, 0, 0, 0, 0, 0, 0, 0, 0, 0, 0, 0, 0, 0, 0, 0, 0, 0, 0, 0, 0, 0, 0, 0, 0, 0, 0, 0, 0, 0, 0, 0, 0, 0, 0, 0, 0, 0, 0, 0, 0, 0, 0, 0, 0, 0, 0, 0, 0, 0, 0, 0, 0, 48, 48, 48, 48, 48, 48, 48, 0, 48, 48, 48, 48, 48, 48, 48, 0, 0, 0, 0, 0, 0, 0, 0, 0, 0, 0, 0, 0, 0, 0, 0, 0, 0, 0, 0, 0, 0, 0, 0, 0, 0, 0, 0, 0, 0, 0, 0, 0, 0, 0, 0, 0, 0, 0, 0, 0, 0, 0, 0, 0, 0, 0, 0, 0, 0, 0, 0, 0, 0, 0, 0, 0, 0, 0, 0, 0, 0, 0, 0, 0, 0, 0, 0, 0, 0, 0, 0, 0, 0, 0, 0, 0, 0, 0, 0, 0, 0, 0, 0, 0, 0, 0, 0, 0, 0, 0, 0, 0, 0, 0, 0, 0, 0, 0, 0, 0, 0, 0, 0, 0, 0, 0, 0, 0, 0, 0, 0, 0, 0, 0, 0, 0, 0, 0, 0, 0, 0, 0, 0, 0, 0, 0, 0, 0, 0, 0, 0, 0, 0, 0, 0, 0, 0, 0, 0, 0, 0, 0, 0, 0, 0, 0, 0, 0, 0, 0, 0, 0, 0, 0, 0, 0, 0, 0, 0, 0, 0, 0, 0, 0, 0, 0, 0, 0, 0, 0, 0, 0, 0, 0, 0, 0, 0, 0, 0, 0, 0, 0, 0, 0, 0, 0, 0, 0, 0, 0, 0, 0, 0, 0, 0, 0, 0, 0, 0, 0, 0, 0, 0, 0, 0, 0, 0, 0, 0, 0, 0, 0, 0, 0, 0, 0, 0, 0, 0, 0, 0, 0, 0, 0, 0, 0, 0, 0, 0, 0, 0, 0, 0, 0, 0, 0, 0, 0, 0, 0, 0, 0, 0, 0, 0, 0, 0, 0, 0, 0, 0, 0, 0, 0, 0, 0, 0, 0, 0, 0, 0, 0, 0, 0, 0, 0, 0, 0, 0, 0, 0, 0, 0, 0, 0, 0, 0, 0, 0, 0, 0, 0, 0, 0, 0, 0, 0, 0, 0, 0, 0, 0, 0, 0, 0, 0, 0, 0, 0, 0, 0, 0, 0, 0, 0, 0, 0, 0, 0, 0, 0, 0, 0, 0, 0, 0, 0, 0, 0, 0, 0, 0, 0, 0, 0, 0, 0, 0, 0, 0, 0, 0, 0, 0, 0, 0, 0, 0, 0, 0, 0, 0, 0, 0, 0, 0, 0, 0, 0, 0, 0, 0, 0, 0, 0, 0, 0, 0, 0, 0, 0, 0, 0, 0, 0, 0, 0, 0, 0, 0, 0, 0, 0, 0, 0, 0, 0, 0, 0, 0, 0, 0, 0, 0, 0, 0, 0, 0, 0, 0, 0, 0, 0, 0, 0, 0, 0, 0, 0, 0, 0, 0, 0, 0, 0, 0, 0, 0, 0, 0, 0, 0, 0, 0, 0, 0, 0, 0, 0, 0, 0, 0, 0, 0, 0, 0, 0, 0, 0, 0, 0, 0, 0, 0, 0, 0, 0, 0, 0, 0, 0, 0, 0, 0, 0, 0, 0, 0, 0, 0, 0, 0, 0, 0, 0, 0, 0, 0, 0, 0, 0, 0, 0, 0, 0, 0, 0, 0, 0, 0, 0, 0, 0, 0, 0, 0, 0, 0, 0, 0, 0, 0, 0, 0, 0, 0, 0, 0, 0, 0, 0, 0, 0, 0, 0, 0, 0, 0, 0, 0, 0, 0, 0, 0, 0, 0, 0, 0, 0, 0, 0, 0, 0, 0, 0, 0, 0, 0, 0, 0, 0, 0, 0, 0, 0, 0, 0, 0, 0, 0, 0, 0, 0, 0, 0, 0, 0, 0, 0, 0, 0, 0, 0, 0, 0, 0, 0, 0, 0, 0, 0, 0, 0, 0, 0, 0, 0, 0, 0, 0, 0, 0, 0, 0, 0, 0, 0, 0, 0, 0, 0, 0, 0, 0, 0, 0, 0, 0, 0, 0, 0, 0, 0, 0, 0, 0, 0, 0, 0, 0, 0, 0, 0, 0, 0, 0, 0, 0, 0, 0, 0, 0, 0, 0, 0, 0, 0, 0, 0, 0, 0, 0, 0, 0, 0, 0, 0, 0, 0, 0, 0, 0, 0, 0, 0, 0, 0, 0, 0, 0, 0, 0, 0, 0, 0, 0, 0, 0, 0, 0, 0, 0, 0, 0, 0, 0, 0, 0, 0, 0, 0, 0, 0, 0, 0, 0, 0, 0, 0, 0, 0, 0, 0, 0, 0, 0, 0, 0, 0, 0, 0, 0, 0, 0, 0, 0, 0, 0, 0, 0, 0, 0, 0, 0, 0, 0, 0, 0, 0, 0, 0, 0, 0, 0, 0, 0, 0, 0, 0, 0, 0, 0, 0, 0, 0, 0, 0, 0, 0, 0, 0, 0, 0, 0, 0, 0, 0, 0, 0, 0, 0, 0, 0, 0, 0, 0, 0, 0, 0, 0, 0, 0, 0, 0, 0, 0, 0, 0, 0, 0, 0, 0, 0, 0, 0, 0, 0, 0, 0, 0, 0, 0, 0, 0, 0, 0, 0, 0, 0, 0, 0, 0, 0, 0, 0, 0, 0, 0, 0, 0, 0, 0, 0, 0, 0, 0, 0, 0, 0, 0, 0, 0, 0, 0, 0, 0, 0, 0, 0, 0, 0, 0, 0, 0, 0, 0, 0, 0, 0, 0, 0, 0, 0, 0, 0, 0, 0, 0, 0, 0, 0, 0, 0, 0, 0, 0, 0, 0, 0, 0, 0, 0, 0, 0, 0, 0, 0, 0, 0, 0, 0, 0, 0, 0, 0, 0, 0, 0, 0, 0, 0, 0, 0, 0, 0, 0, 0, 0, 0, 0, 0, 0, 0, 0, 0, 0, 0, 0, 0, 0, 0, 0, 0, 0, 0, 0, 0, 0, 0, 0, 0, 0, 0, 0, 0, 0, 0, 0, 0, 0, 0, 0, 0, 0, 0, 0, 0, 0, 0, 0, 0, 0, 0, 0, 0, 0, 0, 0, 0, 0, 0, 0, 0, 0, 0, 0, 0, 0, 0, 0, 0, 0, 0, 0, 0, 0, 0, 0, 0, 0, 0, 0, 0, 0, 0, 0, 0, 0, 0, 0, 0, 0, 0, 0, 0, 0, 0, 0, 0, 0, 0, 0, 0, 0, 0, 0, 0, 0, 0, 0, 0, 0, 0, 0, 0, 0, 0, 0, 0, 0, 0, 0, 0, 0, 0, 0, 0, 0, 0, 0, 0, 0, 0, 0, 0, 0, 0, 0, 0, 0, 0, 0, 0, 0, 0, 0, 0, 0, 0, 0, 0, 0, 0, 0, 0, 0, 0, 0, 0, 0, 0, 0, 0, 0, 0, 0, 0, 0, 0, 0, 0, 0, 0, 0, 0, 0, 0, 0, 0, 0, 0, 0, 0, 0, 0, 0, 0, 0, 0, 0, 0, 0, 0, 0, 0, 0, 0, 0, 0, 0, 0, 0, 0, 0, 0, 0, 0, 0, 0, 0, 0, 0, 0, 0, 0, 0, 0, 0, 0, 0, 0, 0, 0, 0, 0, 0, 0, 0, 0, 0, 0, 0, 0, 0, 0, 0, 0, 0, 0, 0, 0, 0, 0, 0, 0, 0, 0, 0, 0, 0, 0, 0, 0, 0, 0, 0, 0, 0, 0, 0, 0, 0, 0, 0, 0, 0, 0, 0, 0, 0, 0, 0, 0, 0, 0, 0, 0, 0, 0, 0, 0, 0, 0, 0, 0, 0, 0, 0, 0, 0, 0, 0, 0, 0, 0, 0, 0, 0, 0, 0, 0, 0, 0, 0, 0, 0, 0, 0, 0, 0, 0, 0, 0, 0, 0, 0, 0, 0, 0, 0, 0, 0, 0, 0, 0, 0, 0, 0, 0, 0, 0, 0, 0, 0, 0, 0, 0, 0, 0, 0, 0, 0, 0, 0, 0, 0, 0, 0, 0, 0, 0, 164, 75, 216, 0, 0, 6, 0, 0, 128, 0, 0, 0, 0, 0, 0, 0, 0, 0, 0, 0, 0, 0, 0, 0, 0, 0, 0, 0, 0, 0, 0, 0, 0, 0, 0, 0, 0, 0, 0, 0, 0, 0, 0, 0, 0, 0, 0, 48, 184] := by
  rw [shaPad, c1gz_len]
  try rfl


set_option maxRecDepth 10000 in
set_option maxHeartbeats 2000000 in
theorem c1chunks_gz :
    chunks 64 [31, 139, 8, 0, 0, 0, 0, 0, 0, 255, 1, 0, 6, 255, 249, 97, 0, 0, 0, 0, 0, 0, 0, 0, 0, 0, 0, 0, 0, 0, 0, 0, 0, 0, 0, 0, 0, 0, 0, 0, 0, 0, 0, 0, 0, 0, 0, 0, 0, 0, 0, 0, 0, 0, 0, 0, 0, 0, 0, 0, 0, 0, 0, 0, 0, 0, 0, 0, 0, 0, 0, 0, 0, 0, 0, 0, 0, 0, 0, 0, 0, 0, 0, 0, 0, 0, 0, 0, 0, 0, 0, 0, 0, 0, 0, 0, 0, 0, 0, 0, 0, 0, 0, 0, 0, 0, 0, 0, 0, 0, 0, 0, 0, 0, 0, 48, 48, 48, 48, 54, 52, 52, 0, 48, 48, 48, 48, 48, 48, 48, 0, 48, 48, 48, 48, 48, 48, 48, 0, 48, 48, 48, 48, 48, 48, 48, 48, 48, 48, 48, 0, 48, 48, 48, 48, 48, 48, 48, 48, 48, 48, 48, 0, 48, 48, 55, 51, 51, 54, 0, 32, 48, 0, 0, 0, 0, 0, 0, 0, 0, 0, 0, 0, 0, 0, 0, 0, 0, 0, 0, 0, 0, 0, 0, 0, 0, 0, 0, 0, 0, 0, 0, 0, 0, 0, 0, 0, 0, 0, 0, 0, 0, 0, 0, 0, 0, 0, 0, 0, 0, 0, 0, 0, 0, 0, 0, 0, 0, 0, 0, 0, 0, 0, 0, 0, 0, 0, 0, 0, 0, 0, 0, 0, 0, 0, 0, 0, 0, 0, 0, 0, 0, 0, 0, 0, 0, 0, 0, 0, 0, 0, 0, 0, 0, 0, 0, 0, 0, 0, 0, 0, 0, 117, 115, 116, 97, 114, 0, 48, 48, 0, 0, 0, 0, 0, 0, 0, 0, 0, 0, 0, 0, 0, 0, 0, 0, 0, 0, 0, 0, 0, 0, 0, 0, 0, 0, 0, 0, 0, 0, 0, 0, 0, 0, 0, 0, 0, 0, 0, 0, 0, 0, 0, 0, 0, 0, 0, 0, 0, 0, 0, 0, 0, 0, 0, 0, 0, 0, 0, 0, 0, 0, 0, 0, 48, 48, 48, 48, 48, 48, 48, 0, 48, 48, 48, 48, 48, 48, 48, 0, 0, 0, 0, 0, 0, 0, 0, 0, 0, 0, 0, 0, 0, 0, 0, 0, 0, 0, 0, 0, 0, 0, 0, 0, 0, 0, 0, 0, 0, 0, 0, 0, 0, 0, 0, 0, 0, 0, 0, 0, 0, 0, 0, 0, 0, 0, 0, 0, 0, 0, 0, 0, 0, 0, 0, 0, 0, 0, 0, 0, 0, 0, 0, 0, 0, 0, 0, 0, 0, 0, 0, 0, 0, 0, 0, 0, 0, 0, 0, 0, 0, 0, 0, 0, 0, 0, 0, 0, 0, 0, 0, 0, 0, 0, 0, 0, 0, 0, 0, 0, 0, 0, 0, 0, 0, 0, 0, 0, 0, 0, 0, 0, 0, 0, 0, 0, 0, 0, 0, 0, 0, 0, 0, 0, 0, 0, 0, 0, 0, 0, 0, 0, 0, 0, 0, 0, 0, 0, 0, 0, 0, 0, 0, 0, 0, 0, 0, 0, 0, 0, 0, 0, 0, 0, 0, 0, 0, 0, 0, 0, 0, 0, 0, 0, 0, 0, 0, 0, 0, 0, 0, 0, 0, 0, 0, 0, 0, 0, 0, 0, 0, 0, 0, 0, 0, 0, 0, 0, 0, 0, 0, 0, 0, 0, 0, 0, 0, 0, 0, 0, 0, 0, 0, 0, 0, 0, 0, 0, 0, 0, 0, 0, 0, 0, 0, 0, 0, 0, 0, 0, 0, 0, 0, 0, 0, 0, 0, 0, 0, 0, 0, 0, 0, 0, 0, 0, 0, 0, 0, 0, 0, 0, 0, 0, 0, 0, 0, 0, 0, 0, 0, 0, 0, 0, 0, 0, 0, 0, 0, 0, 0, 0, 0, 0, 0, 0, 0, 0, 0, 0, 0, 0, 0, 0, 0, 0, 0, 0, 0, 0, 0, 0, 0, 0, 0, 0, 0, 0, 0, 0, 0, 0, 0, 0, 0, 0, 0, 0, 0, 0, 0, 0, 0, 0, 0, 0, 0, 0, 0, 0, 0, 0, 0, 0, 0, 0, 0, 0, 0, 0, 0, 0, 0, 0, 0, 0, 0, 0, 0, 0, 0, 0, 0, 0, 0, 0, 0, 0, 0, 0, 0, 0, 0, 0, 0, 0, 0, 0, 0, 0, 0, 0, 0, 0, 0, 0, 0, 0, 0, 0, 0, 0, 0, 0, 0, 0, 0, 0, 0, 0, 0, 0, 0, 0, 0, 0, 0, 0, 0, 0, 0, 0, 0, 0, 0, 0, 0, 0, 0, 0, 0, 0, 0, 0, 0, 0, 0, 0, 0, 0, 0, 0, 0, 0, 0, 0, 0, 0, 0, 0, 0, 0, 0, 0, 0, 0, 0, 0, 0, 0, 0, 0, 0, 0, 0, 0, 0, 0, 0, 0, 0, 0, 0, 0, 0, 0, 0, 0, 0, 0, 0, 0, 0, 0, 0, 0, 0, 0, 0, 0, 0, 0, 0, 0, 0, 0, 0, 0, 0, 0, 0, 0, 0, 0, 0, 0, 0, 0, 0, 0, 0, 0, 0, 0, 0, 0, 0, 0, 0, 0, 0, 0, 0, 0, 0, 0, 0, 0, 0, 0, 0, 0, 0, 0, 0, 0, 0, 0, 0, 0, 0, 0, 0, 0, 0, 0, 0, 0, 0, 0, 0, 0, 0, 0, 0, 0, 0, 0, 0, 0, 0, 0, 0, 0, 0, 0, 0, 0, 0, 0, 0, 0, 0, 0, 0, 0, 0, 0, 0, 0, 0, 0, 0, 0, 0, 0, 0, 0, 0, 0, 0, 0, 0, 0, 0, 0, 0, 0, 0, 0, 0, 0, 0, 0, 0, 0, 0, 0, 0, 0, 0, 0, 0, 0, 0, 0, 0, 0, 0, 0, 0, 0, 0, 0, 0, 0, 0, 0, 0, 0, 0, 0, 0, 0, 0, 0, 0, 0, 0, 0, 0, 0, 0, 0, 0, 0, 0, 0, 0, 0, 0, 0, 0, 0, 0, 0, 0, 0, 0, 0, 0, 0, 0, 0, 0, 0, 0, 0, 0, 0, 0, 0, 0, 0, 0, 0, 0, 0, 0, 0, 0, 0, 0, 0, 0, 0, 0, 0, 0, 0, 0, 0, 0, 0, 0, 0, 0, 0, 0, 0, 0, 0, 0, 0, 0, 0, 0, 0, 0, 0, 0, 0, 0, 0, 0, 0, 0, 0, 0, 0, 0, 0, 0, 0, 0, 0, 0, 0, 0, 0, 0, 0, 0, 0, 0, 0, 0, 0, 0, 0, 0, 0, 0, 0, 0, 0, 0, 0, 0, 0, 0, 0, 0, 0, 0, 0, 0, 0, 0, 0, 0, 0, 0, 0, 0, 0, 0, 0, 0, 0, 0, 0, 0, 0, 0, 0, 0, 0, 0, 0, 0, 0, 0, 0, 0, 0, 0, 0, 0, 0, 0, 0, 0, 0, 0, 0, 0, 0, 0, 0, 0, 0, 0, 0, 0, 0, 0, 0, 0, 0, 0, 0, 0, 0, 0, 0, 0, 0, 0, 0, 0, 0, 0, 0, 0, 0, 0, 0, 0, 0, 0, 0, 0, 0, 0, 0, 0, 0, 0, 0, 0, 0, 0, 0, 0, 0, 0, 0, 0, 0, 0, 0, 0, 0, 0, 0, 0, 0, 0, 0, 0, 0, 0, 0, 0, 0, 0, 0, 0, 0, 0, 0, 0, 0, 0, 0, 0, 0, 0, 0, 0, 0, 0, 0, 0, 0, 0, 0, 0, 0, 0, 0, 0, 0, 0, 0, 0, 0, 0, 0, 0, 0, 0, 0, 0, 0, 0, 0, 0, 0, 0, 0, 0, 0, 0, 0, 0, 0, 0, 0, 0, 0, 0, 0, 0, 0, 0, 0, 0, 0, 0, 0, 0, 0, 0, 0, 0, 0, 0, 0, 0, 0, 0, 0, 0, 0, 0, 0, 0, 0, 0, 0, 0, 0, 0, 0, 0, 0, 0, 0, 0, 0, 0, 0, 0, 0, 0, 0, 0, 0, 0, 0, 0, 0, 0, 0, 0, 0, 0, 0, 0, 0, 0, 0, 0, 0, 0, 0, 0, 0, 0, 0, 0, 0, 0, 0, 0, 0, 0, 0, 0, 0, 0, 0, 0, 0, 0, 0, 0, 0, 0, 0, 0, 0, 0, 0, 0, 0, 0, 0, 0, 0, 0, 0, 0, 0, 0, 0, 0, 0, 0, 0, 0, 0, 0, 0, 0, 0, 0, 0, 0, 0, 0, 0, 0, 0, 0, 0, 0, 0, 0, 0, 0, 0, 0, 0, 0, 0, 0, 0, 0, 0, 0, 0, 0, 0, 0, 0, 0, 0, 0, 0, 0, 0, 0, 0, 0, 0, 0, 0, 0, 0, 0, 0, 0, 0, 0, 0, 0, 0, 0, 0, 0, 0, 0, 0, 0, 0, 0, 0, 0, 0, 0, 0, 0, 0, 0, 0, 0, 0, 0, 0, 0, 0, 0, 0, 0, 0, 0, 0, 0, 0, 0, 0, 0, 0, 0, 0, 0, 0, 0, 0, 0, 0, 0, 0, 0, 0, 0, 0, 0, 0, 0, 0, 0, 0, 0, 0, 0, 0, 0, 0, 0, 0, 0, 0, 0, 0, 0, 0, 0, 0, 0, 0, 0, 0, 0, 0, 0, 0, 0, 0, 0, 0, 0, 0, 0, 0, 0, 0, 0, 0, 0, 0, 0, 0, 0, 0, 0, 0, 0, 0, 0, 0, 0, 0, 0, 0, 0, 0, 0, 0, 0, 0, 0, 0, 0, 0, 0, 0, 0, 0, 0, 0, 0, 0, 0, 0, 0, 0, 0, 0, 0, 0, 0, 0, 0, 0, 0, 0, 0, 164, 75, 216, 0, 0, 6, 0, 0, 128, 0, 0, 0, 0, 0, 0, 0, 0, 0, 0, 0, 0, 0, 0, 0, 0, 0, 0, 0, 0, 0, 0, 0, 0, 0, 0, 0, 0, 0, 0, 0, 0, 0, 0, 0, 0, 0, 0, 48, 184] =
      [[31, 139, 8, 0, 0, 0, 0, 0, 0, 255, 1, 0, 6, 255, 249, 97, 0, 0, 0, 0, 0, 0, 0, 0, 0, 0, 0, 0, 0, 0, 0, 0, 0, 0, 0, 0, 0, 0, 0, 0, 0, 0, 0, 0, 0, 0, 0, 0, 0, 0, 0, 0, 0, 0, 0, 0, 0, 0, 0, 0, 0, 0, 0, 0],
       [0, 0, 0, 0, 0, 0, 0, 0, 0, 0, 0, 0, 0, 0, 0, 0, 0, 0, 0, 0, 0, 0, 0, 0, 0, 0, 0, 0, 0, 0, 0, 0, 0, 0, 0, 0, 0, 0, 0, 0, 0, 0, 0, 0, 0, 0, 0, 0, 0, 0, 0, 48, 48, 48, 48, 54, 52, 52, 0, 48, 48, 48, 48, 48],
       [48, 48, 0, 48, 48, 48, 48, 48, 48, 48, 0, 48, 48, 48, 48, 48, 48, 48, 48, 48, 48, 48, 0, 48, 48, 48, 48, 48, 48, 48, 48, 48, 48, 48, 0, 48, 48, 55, 51, 51, 54, 0, 32, 48, 0, 0, 0, 0, 0, 0, 0, 0, 0, 0, 0, 0, 0, 0, 0, 0, 0, 0, 0, 0],
       [0, 0, 0, 0, 0, 0, 0, 0, 0, 0, 0, 0, 0, 0, 0, 0, 0, 0, 0, 0, 0, 0, 0, 0, 0, 0, 0, 0, 0, 0, 0, 0, 0, 0, 0, 0, 0, 0, 0, 0, 0, 0, 0, 0, 0, 0, 0, 0, 0, 0, 0, 0, 0, 0, 0, 0, 0, 0, 0, 0, 0, 0, 0, 0],
       [0, 0, 0, 0, 0, 0, 0, 0, 0, 0, 0, 0, 0, 0, 0, 0, 117, 115, 116, 97, 114, 0, 48, 48, 0, 0, 0, 0, 0, 0, 0, 0, 0, 0, 0, 0, 0, 0, 0, 0, 0, 0, 0, 0, 0, 0, 0, 0, 0, 0, 0, 0, 0, 0, 0, 0, 0, 0, 0, 0, 0, 0, 0, 0],
       [0, 0, 0, 0, 0, 0, 0, 0, 0, 0, 0, 0, 0, 0, 0, 0, 0, 0, 0, 0, 0, 0, 0, 0, 48, 48, 48, 48, 48, 48, 48, 0, 48, 48, 48, 48, 48, 48, 48, 0, 0, 0, 0, 0, 0, 0, 0, 0, 0, 0, 0, 0, 0, 0, 0, 0, 0, 0, 0, 0, 0, 0, 0, 0],
       [0, 0, 0, 0, 0, 0, 0, 0, 0, 0, 0, 0, 0, 0, 0, 0, 0, 0, 0, 0, 0, 0, 0, 0, 0, 0, 0, 0, 0, 0, 0, 0, 0, 0, 0, 0, 0, 0, 0, 0, 0, 0, 0, 0, 0, 0, 0, 0, 0, 0, 0, 0, 0, 0, 0, 0, 0, 0, 0, 0, 0, 0, 0, 0],
       [0, 0, 0, 0, 0, 0, 0, 0, 0, 0, 0, 0, 0, 0, 0, 0, 0, 0, 0, 0, 0, 0, 0, 0, 0, 0, 0, 0, 0, 0, 0, 0, 0, 0, 0, 0, 0, 0, 0, 0, 0, 0, 0, 0, 0, 0, 0, 0, 0, 0, 0, 0, 0, 0, 0, 0, 0, 0, 0, 0, 0, 0, 0, 0],
       [0, 0, 0, 0, 0, 0, 0, 0, 0, 0, 0, 0, 0, 0, 0, 0, 0, 0, 0, 0, 0, 0, 0, 0, 0, 0, 0, 0, 0, 0, 0, 0, 0, 0, 0, 0, 0, 0, 0, 0, 0, 0, 0, 0, 0, 0, 0, 0, 0, 0, 0, 0, 0, 0, 0, 0, 0, 0, 0, 0, 0, 0, 0, 0],
       [0, 0, 0, 0, 0, 0, 0, 0, 0, 0, 0, 0, 0, 0, 0, 0, 0, 0, 0, 0, 0, 0, 0, 0, 0, 0, 0, 0, 0, 0, 0, 0, 0, 0, 0, 0, 0, 0, 0, 0, 0, 0, 0, 0, 0, 0, 0, 0, 0, 0, 0, 0, 0, 0, 0, 0, 0, 0, 0, 0, 0, 0, 0, 0],
       [0, 0, 0, 0, 0, 0, 0, 0, 0, 0, 0, 0, 0, 0, 0, 0, 0, 0, 0, 0, 0, 0, 0, 0, 0, 0, 0, 0, 0, 0, 0, 0, 0, 0, 0, 0, 0, 0, 0, 0, 0, 0, 0, 0, 0, 0, 0, 0, 0, 0, 0, 0, 0, 0, 0, 0, 0, 0, 0, 0, 0, 0, 0, 0],
       [0, 0, 0, 0, 0, 0, 0, 0, 0, 0, 0, 0, 0, 0, 0, 0, 0, 0, 0, 0, 0, 0, 0, 0, 0, 0, 0, 0, 0, 0, 0, 0, 0, 0, 0, 0, 0, 0, 0, 0, 0, 0, 0, 0, 0, 0, 0, 0, 0, 0, 0, 0, 0, 0, 0, 0, 0, 0, 0, 0, 0, 0, 0, 0],
       [0, 0, 0, 0, 0, 0, 0, 0, 0, 0, 0, 0, 0, 0, 0, 0, 0, 0, 0, 0, 0, 0, 0, 0, 0, 0, 0, 0, 0, 0, 0, 0, 0, 0, 0, 0, 0, 0, 0, 0, 0, 0, 0, 0, 0, 0, 0, 0, 0, 0, 0, 0, 0, 0, 0, 0, 0, 0, 0, 0, 0, 0, 0, 0],
       [0, 0, 0, 0, 0, 0, 0, 0, 0, 0, 0, 0, 0, 0, 0, 0, 0, 0, 0, 0, 0, 0, 0, 0, 0, 0, 0, 0, 0, 0, 0, 0, 0, 0, 0, 0, 0, 0, 0, 0, 0, 0, 0, 0, 0, 0, 0, 0, 0, 0, 0, 0, 0, 0, 0, 0, 0, 0, 0, 0, 0, 0, 0, 0],
       [0, 0, 0, 0, 0, 0, 0, 0, 0, 0, 0, 0, 0, 0, 0, 0, 0, 0, 0, 0, 0, 0, 0, 0, 0, 0, 0, 0, 0, 0, 0, 0, 0, 0, 0, 0, 0, 0, 0, 0, 0, 0, 0, 0, 0, 0, 0, 0, 0, 0, 0, 0, 0, 0, 0, 0, 0, 0, 0, 0, 0, 0, 0, 0],
       [0, 0, 0, 0, 0, 0, 0, 0, 0, 0, 0, 0, 0, 0, 0, 0, 0, 0, 0, 0, 0, 0, 0, 0, 0, 0, 0, 0, 0, 0, 0, 0, 0, 0, 0, 0, 0, 0, 0, 0, 0, 0, 0, 0, 0, 0, 0, 0, 0, 0, 0, 0, 0, 0, 0, 0, 0, 0, 0, 0, 0, 0, 0, 0],
       [0, 0, 0, 0, 0, 0, 0, 0, 0, 0, 0, 0, 0, 0, 0, 0, 0, 0, 0, 0, 0, 0, 0, 0, 0, 0, 0, 0, 0, 0, 0, 0, 0, 0, 0, 0, 0, 0, 0, 0, 0, 0, 0, 0, 0, 0, 0, 0, 0, 0, 0, 0, 0, 0, 0, 0, 0, 0, 0, 0, 0, 0, 0, 0],
       [0, 0, 0, 0, 0, 0, 0, 0, 0, 0, 0, 0, 0, 0, 0, 0, 0, 0, 0, 0, 0, 0, 0, 0, 0, 0, 0, 0, 0, 0, 0, 0, 0, 0, 0, 0, 0, 0, 0, 0, 0, 0, 0, 0, 0, 0, 0, 0, 0, 0, 0, 0, 0, 0, 0, 0, 0, 0, 0, 0, 0, 0, 0, 0],
       [0, 0, 0, 0, 0, 0, 0, 0, 0, 0, 0, 0, 0, 0, 0, 0, 0, 0, 0, 0, 0, 0, 0, 0, 0, 0, 0, 0, 0, 0, 0, 0, 0, 0, 0, 0, 0, 0, 0, 0, 0, 0, 0, 0, 0, 0, 0, 0, 0, 0, 0, 0, 0, 0, 0, 0, 0, 0, 0, 0, 0, 0, 0, 0],
       [0, 0, 0, 0, 0, 0, 0, 0, 0, 0, 0, 0, 0, 0, 0, 0, 0, 0, 0, 0, 0, 0, 0, 0, 0, 0, 0, 0, 0, 0, 0, 0, 0, 0, 0, 0, 0, 0, 0, 0, 0, 0, 0, 0, 0, 0, 0, 0, 0, 0, 0, 0, 0, 0, 0, 0, 0, 0, 0, 0, 0, 0, 0, 0],
       [0, 0, 0, 0, 0, 0, 0, 0, 0, 0, 0, 0, 0, 0, 0, 0, 0, 0, 0, 0, 0, 0, 0, 0, 0, 0, 0, 0, 0, 0, 0, 0, 0, 0, 0, 0, 0, 0, 0, 0, 0, 0, 0, 0, 0, 0, 0, 0, 0, 0, 0, 0, 0, 0, 0, 0, 0, 0, 0, 0, 0, 0, 0, 0],
       [0, 0, 0, 0, 0, 0, 0, 0, 0, 0, 0, 0, 0, 0, 0, 0, 0, 0, 0, 0, 0, 0, 0, 0, 0, 0, 0, 0, 0, 0, 0, 0, 0, 0, 0, 0, 0, 0, 0, 0, 0, 0, 0, 0, 0, 0, 0, 0, 0, 0, 0, 0, 0, 0, 0, 0, 0, 0, 0, 0, 0, 0, 0, 0],
       [0, 0, 0, 0, 0, 0, 0, 0, 0, 0, 0, 0, 0, 0, 0, 0, 0, 0, 0, 0, 0, 0, 0, 0, 0, 0, 0, 0, 0, 0, 0, 0, 0, 0, 0, 0, 0, 0, 0, 0, 0, 0, 0, 0, 0, 0, 0, 0, 0, 0, 0, 0, 0, 0, 0, 0, 0, 0, 0, 0, 0, 0, 0, 0],
       [0, 0, 0, 0, 0, 0, 0, 0, 0, 0, 0, 0, 0, 0, 0, 0, 0, 0, 0, 0, 0, 0, 0, 0, 0, 0, 0, 0, 0, 0, 0, 0, 0, 0, 0, 0, 0, 0, 0, 0, 0, 0, 0, 0, 0, 0, 0, 0, 0, 0, 0, 0, 0, 0, 0, 0, 0, 0, 0, 0, 0, 0, 0, 0],
       [0, 0, 0, 0, 0, 0, 0, 0, 0, 0, 0, 0, 0, 0, 0, 164, 75, 216, 0, 0, 6, 0, 0, 128, 0, 0, 0, 0, 0, 0, 0, 0, 0, 0, 0, 0, 0, 0, 0, 0, 0, 0, 0, 0, 0, 0, 0, 0, 0, 0, 0, 0, 0, 0, 0, 0, 0, 0, 0, 0, 0, 0, 48, 184]] := by
  rw [chunks, c1gz_padlen]
  try rfl


set_option maxRecDepth 10000 in
set_option maxHeartbeats 2000000 in
theorem c1blk_gz_1 :
    shaBlock shaH0
      [31, 139, 8, 0, 0, 0, 0, 0, 0, 255, 1, 0, 6, 255, 249, 97, 0, 0, 0, 0, 0, 0, 0, 0, 0, 0, 0, 0, 0, 0, 0, 0, 0, 0, 0, 0, 0, 0, 0, 0, 0, 0, 0, 0, 0, 0, 0, 0, 0, 0, 0, 0, 0, 0, 0, 0, 0, 0, 0, 0, 0, 0, 0, 0] =
      [3263712619, 280927589, 3572791429, 2488938148, 569132032, 322245340, 4236517727, 1130680521] := by
  rfl


set_option maxRecDepth 10000 in
set_option maxHeartbeats 2000000 in
theorem c1blk_gz_2 :
    shaBlock [3263712619, 280927589, 3572791429, 2488938148, 569132032, 322245340, 4236517727, 1130680521]
      [0, 0, 0, 0, 0, 0, 0, 0, 0, 0, 0, 0, 0, 0, 0, 0, 0, 0, 0, 0, 0, 0, 0, 0, 0, 0, 0, 0, 0, 0, 0, 0, 0, 0, 0, 0, 0, 0, 0, 0, 0, 0, 0, 0, 0, 0, 0, 0, 0, 0, 0, 48, 48, 48, 48, 54, 52, 52, 0, 48, 48, 48, 48, 48] =
      [1520192050, 2310787112, 3224078172, 1292472018, 2771352445, 3525083892, 4134224255, 1814875013] := by
  rfl


set_option maxRecDepth 10000 in
set_option maxHeartbeats 2000000 in
theorem c1blk_gz_3 :
    shaBlock [1520192050, 2310787112, 3224078172, 1292472018, 2771352445, 3525083892, 4134224255, 1814875013]
      [48, 48, 0, 48, 48, 48, 48, 48, 48, 48, 0, 48, 48, 48, 48, 48, 48, 48, 48, 48, 48, 48, 0, 48, 48, 48, 48, 48, 48, 48, 48, 48, 48, 48, 0, 48, 48, 55, 51, 51, 54, 0, 32, 48, 0, 0, 0, 0, 0, 0, 0, 0, 0, 0, 0, 0, 0, 0, 0, 0, 0, 0, 0, 0] =
      [1356174490, 3137310186, 679984289, 2817106532, 3985941996, 1515756560, 3397220265, 3536238744] := by
  rfl


set_option maxRecDepth 10000 in
set_option maxHeartbeats 2000000 in
theorem c1blk_gz_4 :
    shaBlock [1356174490, 3137310186, 679984289, 2817106532, 3985941996, 1515756560, 3397220265, 3536238744]
      [0, 0, 0, 0, 0, 0, 0, 0, 0, 0, 0, 0, 0, 0, 0, 0, 0, 0, 0, 0, 0, 0, 0, 0, 0, 0, 0, 0, 0, 0, 0, 0, 0, 0, 0, 0, 0, 0, 0, 0, 0, 0, 0, 0, 0, 0, 0, 0, 0, 0, 0, 0, 0, 0, 0, 0, 0, 0, 0, 0, 0, 0, 0, 0] =
      [2952343204, 965347853, 3403442910, 3687955708, 2594612428, 4007987115, 179047261, 2639817511] := by
  rfl


set_option maxRecDepth 10000 in
set_option maxHeartbeats 2000000 in
theorem c1blk_gz_5 :
    shaBlock [2952343204, 965347853, 3403442910, 3687955708, 2594612428, 4007987115, 179047261, 2639817511]
      [0, 0, 0, 0, 0, 0, 0, 0, 0, 0, 0, 0, 0, 0, 0, 0, 117, 115, 116, 97, 114, 0, 48, 48, 0, 0, 0, 0, 0, 0, 0, 0, 0, 0, 0, 0, 0, 0, 0, 0, 0, 0, 0, 0, 0, 0, 0, 0, 0, 0, 0, 0, 0, 0, 0, 0, 0, 0, 0, 0, 0, 0, 0, 0] =
      [2859338634, 2803212815, 3766398019, 3063284508, 4089664106, 782712369, 1526296599, 757752153] := by
  rfl


set_option maxRecDepth 10000 in
set_option maxHeartbeats 2000000 in
theorem c1blk_gz_6 :
    shaBlock [2859338634, 2803212815, 3766398019, 3063284508, 4089664106, 782712369, 1526296599, 757752153]
      [0, 0, 0, 0, 0, 0, 0, 0, 0, 0, 0, 0, 0, 0, 0, 0, 0, 0, 0, 0, 0, 0, 0, 0, 48, 48, 48, 48, 48, 48, 48, 0, 48, 48, 48, 48, 48, 48, 48, 0, 0, 0, 0, 0, 0, 0, 0, 0, 0, 0, 0, 0, 0, 0, 0, 0, 0, 0, 0, 0, 0, 0, 0, 0] =
      [2005301832, 1576240580, 176527547, 2953713879, 1393646292, 233168113, 2096294927, 1425417103] := by
  rfl


set_option maxRecDepth 10000 in
set_option maxHeartbeats 2000000 in
theorem c1blk_gz_7 :
    shaBlock [2005301832, 1576240580, 176527547, 2953713879, 1393646292, 233168113, 2096294927, 1425417103]
      [0, 0, 0, 0, 0, 0, 0, 0, 0, 0, 0, 0, 0, 0, 0, 0, 0, 0, 0, 0, 0, 0, 0, 0, 0, 0, 0, 0, 0, 0, 0, 0, 0, 0, 0, 0, 0, 0, 0, 0, 0, 0, 0, 0, 0, 0, 0, 0, 0, 0, 0, 0, 0, 0, 0, 0, 0, 0, 0, 0, 0, 0, 0, 0] =
      [2509251038, 1245018592, 1618230640, 3306137948, 2421121788, 3390363744, 677486110, 1086599734] := by
  rfl


set_option maxRecDepth 10000 in
set_option maxHeartbeats 2000000 in
theorem c1blk_gz_8 :
    shaBlock [2509251038, 1245018592, 1618230640, 3306137948, 2421121788, 3390363744, 677486110, 1086599734]
      [0, 0, 0, 0, 0, 0, 0, 0, 0, 0, 0, 0, 0, 0, 0, 0, 0, 0, 0, 0, 0, 0, 0, 0, 0, 0, 0, 0, 0, 0, 0, 0, 0, 0, 0, 0, 0, 0, 0, 0, 0, 0, 0, 0, 0, 0, 0, 0, 0, 0, 0, 0, 0, 0, 0, 0, 0, 0, 0, 0, 0, 0, 0, 0] =
      [3272385441, 3108875025, 3476725103, 1291484374, 2967252150, 2260744821, 2901007852, 2477459071] := by
  rfl


set_option maxRecDepth 10000 in
set_option maxHeartbeats 2000000 in
theorem c1blk_gz_9 :
    shaBlock [3272385441, 3108875025, 3476725103, 1291484374, 2967252150, 2260744821, 2901007852, 2477459071]
      [0, 0, 0, 0, 0, 0, 0, 0, 0, 0, 0, 0, 0, 0, 0, 0, 0, 0, 0, 0, 0, 0, 0, 0, 0, 0, 0, 0, 0, 0, 0, 0, 0, 0, 0, 0, 0, 0, 0, 0, 0, 0, 0, 0, 0, 0, 0, 0, 0, 0, 0, 0, 0, 0, 0, 0, 0, 0, 0, 0, 0, 0, 0, 0] =
      [2513444402, 1573010797, 2272245498, 387395673, 2026025872, 1063098105, 3009058307, 3583561844] := by
  rfl


set_option maxRecDepth 10000 in
set_option maxHeartbeats 2000000 in
theorem c1blk_gz_10 :
    shaBlock [2513444402, 1573010797, 2272245498, 387395673, 2026025872, 1063098105, 3009058307, 3583561844]
      [0, 0, 0, 0, 0, 0, 0, 0, 0, 0, 0, 0, 0, 0, 0, 0, 0, 0, 0, 0, 0, 0, 0, 0, 0, 0, 0, 0, 0, 0, 0, 0, 0, 0, 0, 0, 0, 0, 0, 0, 0, 0, 0, 0, 0, 0, 0, 0, 0, 0, 0, 0, 0, 0, 0, 0, 0, 0, 0, 0, 0, 0, 0, 0] =
      [3747482202, 3400531538, 1656734898, 1600468947, 2532778012, 3630199945, 1246436054, 619731569] := by
  rfl


set_option maxRecDepth 10000 in
set_option maxHeartbeats 2000000 in
theorem c1blk_gz_11 :
    shaBlock [3747482202, 3400531538, 1656734898, 1600468947, 2532778012, 3630199945, 1246436054, 619731569]
      [0, 0, 0, 0, 0, 0, 0, 0, 0, 0, 0, 0, 0, 0, 0, 0, 0, 0, 0, 0, 0, 0, 0, 0, 0, 0, 0, 0, 0, 0, 0, 0, 0, 0, 0, 0, 0, 0, 0, 0, 0, 0, 0, 0, 0, 0, 0, 0, 0, 0, 0, 0, 0, 0, 0, 0, 0, 0, 0, 0, 0, 0, 0, 0] =
      [3540700594, 2313727243, 20717125, 3532035364, 2859871598, 2639563017, 1897659396, 3097477693] := by
  rfl


set_option maxRecDepth 10000 in
set_option maxHeartbeats 2000000 in
theorem c1blk_gz_12 :
    shaBlock [3540700594, 2313727243, 20717125, 3532035364, 2859871598, 2639563017, 1897659396, 3097477693]
      [0, 0, 0, 0, 0, 0, 0, 0, 0, 0, 0, 0, 0, 0, 0, 0, 0, 0, 0, 0, 0, 0, 0, 0, 0, 0, 0, 0, 0, 0, 0, 0, 0, 0, 0, 0, 0, 0, 0, 0, 0, 0, 0, 0, 0, 0, 0, 0, 0, 0, 0, 0, 0, 0, 0, 0, 0, 0, 0, 0, 0, 0, 0, 0] =
      [1720643184, 1520703283, 2663837461, 6205823, 862579099, 3053585892, 3881465716, 1302230490] := by
  rfl


set_option maxRecDepth 10000 in
set_option maxHeartbeats 2000000 in
theorem c1blk_gz_13 :
    shaBlock [1720643184, 1520703283, 2663837461, 6205823, 862579099, 3053585892, 3881465716, 1302230490]
      [0, 0, 0, 0, 0, 0, 0, 0, 0, 0, 0, 0, 0, 0, 0, 0, 0, 0, 0, 0, 0, 0, 0, 0, 0, 0, 0, 0, 0, 0, 0, 0, 0, 0, 0, 0, 0, 0, 0, 0, 0, 0, 0, 0, 0, 0, 0, 0, 0, 0, 0, 0, 0, 0, 0, 0, 0, 0, 0, 0, 0, 0, 0, 0] =
      [3218815848, 2374180198, 3963779278, 2177214627, 2610881934, 192305264, 1560903776, 184544175] := by
  rfl


set_option maxRecDepth 10000 in
set_option maxHeartbeats 2000000 in
theorem c1blk_gz_14 :
    shaBlock [3218815848, 2374180198, 3963779278, 2177214627, 2610881934, 192305264, 1560903776, 184544175]
      [0, 0, 0, 0, 0, 0, 0, 0, 0, 0, 0, 0, 0, 0, 0, 0, 0, 0, 0, 0, 0, 0, 0, 0, 0, 0, 0, 0, 0, 0, 0, 0, 0, 0, 0, 0, 0, 0, 0, 0, 0, 0, 0, 0, 0, 0, 0, 0, 0, 0, 0, 0, 0, 0, 0, 0, 0, 0, 0, 0, 0, 0, 0, 0] =
      [516270951, 3761216883, 2584885331, 3191701697, 3798154951, 1344800456, 130588868, 3752952715] := by
  rfl


set_option maxRecDepth 10000 in
set_option maxHeartbeats 2000000 in
theorem c1blk_gz_15 :
    shaBlock [516270951, 3761216883, 2584885331, 3191701697, 3798154951, 1344800456, 130588868, 3752952715]
      [0, 0, 0, 0, 0, 0, 0, 0, 0, 0, 0, 0, 0, 0, 0, 0, 0, 0, 0, 0, 0, 0, 0, 0, 0, 0, 0, 0, 0, 0, 0, 0, 0, 0, 0, 0, 0, 0, 0, 0, 0, 0, 0, 0, 0, 0, 0, 0, 0, 0, 0, 0, 0, 0, 0, 0, 0, 0, 0, 0, 0, 0, 0, 0] =
      [176736910, 3055111168, 2644903297, 3880045854, 2335082698, 711293738, 1163721751, 4212939930] := by
  rfl


set_option maxRecDepth 10000 in
set_option maxHeartbeats 2000000 in
theorem c1blk_gz_16 :
    shaBlock [176736910, 3055111168, 2644903297, 3880045854, 2335082698, 711293738, 1163721751, 4212939930]
      [0, 0, 0, 0, 0, 0, 0, 0, 0, 0, 0, 0, 0, 0, 0, 0, 0, 0, 0, 0, 0, 0, 0, 0, 0, 0, 0, 0, 0, 0, 0, 0, 0, 0, 0, 0, 0, 0, 0, 0, 0, 0, 0, 0, 0, 0, 0, 0, 0, 0, 0, 0, 0, 0, 0, 0, 0, 0, 0, 0, 0, 0, 0, 0] =
      [2682299439, 1382687892, 3364891494, 2805858985, 1435694542, 904421190, 1495092442, 2232317809] := by
  rfl


set_option maxRecDepth 10000 in
set_option maxHeartbeats 2000000 in
theorem c1blk_gz_17 :
    shaBlock [2682299439, 1382687892, 3364891494, 2805858985, 1435694542, 904421190, 1495092442, 2232317809]
      [0, 0, 0, 0, 0, 0, 0, 0, 0, 0, 0, 0, 0, 0, 0, 0, 0, 0, 0, 0, 0, 0, 0, 0, 0, 0, 0, 0, 0, 0, 0, 0, 0, 0, 0, 0, 0, 0, 0, 0, 0, 0, 0, 0, 0, 0, 0, 0, 0, 0, 0, 0, 0, 0, 0, 0, 0, 0, 0, 0, 0, 0, 0, 0] =
      [1464513309, 740496462, 509352340, 2910453604, 48954624, 3370435310, 2684351799, 2287458661] := by
  rfl


set_option maxRecDepth 10000 in
set_option maxHeartbeats 2000000 in
theorem c1blk_gz_18 :
    shaBlock [1464513309, 740496462, 509352340, 2910453604, 48954624, 3370435310, 2684351799, 2287458661]
      [0, 0, 0, 0, 0, 0, 0, 0, 0, 0, 0, 0, 0, 0, 0, 0, 0, 0, 0, 0, 0, 0, 0, 0, 0, 0, 0, 0, 0, 0, 0, 0, 0, 0, 0, 0, 0, 0, 0, 0, 0, 0, 0, 0, 0, 0, 0, 0, 0, 0, 0, 0, 0, 0, 0, 0, 0, 0, 0, 0, 0, 0, 0, 0] =
      [1021822262, 3097957099, 860856912, 2169213536, 96921359, 2012292720, 4193072415, 3510313180] := by
  rfl


set_option maxRecDepth 10000 in
set_option maxHeartbeats 2000000 in
theorem c1blk_gz_19 :
    shaBlock [1021822262, 3097957099, 860856912, 2169213536, 96921359, 2012292720, 4193072415, 3510313180]
      [0, 0, 0, 0, 0, 0, 0, 0, 0, 0, 0, 0, 0, 0, 0, 0, 0, 0, 0, 0, 0, 0, 0, 0, 0, 0, 0, 0, 0, 0, 0, 0, 0, 0, 0, 0, 0, 0, 0, 0, 0, 0, 0, 0, 0, 0, 0, 0, 0, 0, 0, 0, 0, 0, 0, 0, 0, 0, 0, 0, 0, 0, 0, 0] =
      [2953839370, 2652682856, 580240714, 2876563970, 375332191, 2289022509, 1756487374, 3858391189] := by
  rfl


set_option maxRecDepth 10000 in
set_option maxHeartbeats 2000000 in
theorem c1blk_gz_20 :
    shaBlock [2953839370, 2652682856, 580240714, 2876563970, 375332191, 2289022509, 1756487374, 3858391189]
      [0, 0, 0, 0, 0, 0, 0, 0, 0, 0, 0, 0, 0, 0, 0, 0, 0, 0, 0, 0, 0, 0, 0, 0, 0, 0, 0, 0, 0, 0, 0, 0, 0, 0, 0, 0, 0, 0, 0, 0, 0, 0, 0, 0, 0, 0, 0, 0, 0, 0, 0, 0, 0, 0, 0, 0, 0, 0, 0, 0, 0, 0, 0, 0] =
      [846500172, 3940270338, 34868041, 2379567721, 3038265128, 3958870012, 1520092538, 445404407] := by
  rfl


set_option maxRecDepth 10000 in
set_option maxHeartbeats 2000000 in
theorem c1blk_gz_21 :
    shaBlock [846500172, 3940270338, 34868041, 2379567721, 3038265128, 3958870012, 1520092538, 445404407]
      [0, 0, 0, 0, 0, 0, 0, 0, 0, 0, 0, 0, 0, 0, 0, 0, 0, 0, 0, 0, 0, 0, 0, 0, 0, 0, 0, 0, 0, 0, 0, 0, 0, 0, 0, 0, 0, 0, 0, 0, 0, 0, 0, 0, 0, 0, 0, 0, 0, 0, 0, 0, 0, 0, 0, 0, 0, 0, 0, 0, 0, 0, 0, 0] =
      [795529003, 2110018261, 2414896143, 2690145771, 1206071914, 3789268565, 866512241, 231178616] := by
  rfl


set_option maxRecDepth 10000 in
set_option maxHeartbeats 2000000 in
theorem c1blk_gz_22 :
    shaBlock [795529003, 2110018261, 2414896143, 2690145771, 1206071914, 3789268565, 866512241, 231178616]
      [0, 0, 0, 0, 0, 0, 0, 0, 0, 0, 0, 0, 0, 0, 0, 0, 0, 0, 0, 0, 0, 0, 0, 0, 0, 0, 0, 0, 0, 0, 0, 0, 0, 0, 0, 0, 0, 0, 0, 0, 0, 0, 0, 0, 0, 0, 0, 0, 0, 0, 0, 0, 0, 0, 0, 0, 0, 0, 0, 0, 0, 0, 0, 0] =
      [3922315442, 1000946728, 490673994, 534740256, 3274293568, 1762517778, 1734181589, 3018219781] := by
  rfl


set_option maxRecDepth 10000 in
set_option maxHeartbeats 2000000 in
theorem c1blk_gz_23 :
    shaBlock [3922315442, 1000946728, 490673994, 534740256, 3274293568, 1762517778, 1734181589, 3018219781]
      [0, 0, 0, 0, 0, 0, 0, 0, 0, 0, 0, 0, 0, 0, 0, 0, 0, 0, 0, 0, 0, 0, 0, 0, 0, 0, 0, 0, 0, 0, 0, 0, 0, 0, 0, 0, 0, 0, 0, 0, 0, 0, 0, 0, 0, 0, 0, 0, 0, 0, 0, 0, 0, 0, 0, 0, 0, 0, 0, 0, 0, 0, 0, 0] =
      [2502223770, 4196953385, 3818186824, 1299335889, 1022274962, 447863190, 1480399932, 783004173] := by
  rfl


set_option maxRecDepth 10000 in
set_option maxHeartbeats 2000000 in
theorem c1blk_gz_24 :
    shaBlock [2502223770, 4196953385, 3818186824, 1299335889, 1022274962, 447863190, 1480399932, 783004173]
      [0, 0, 0, 0, 0, 0, 0, 0, 0, 0, 0, 0, 0, 0, 0, 0, 0, 0, 0, 0, 0, 0, 0, 0, 0, 0, 0, 0, 0, 0, 0, 0, 0, 0, 0, 0, 0, 0, 0, 0, 0, 0, 0, 0, 0, 0, 0, 0, 0, 0, 0, 0, 0, 0, 0, 0, 0, 0, 0, 0, 0, 0, 0, 0] =
      [2709427172, 4090474752, 1671892574, 2132826546, 2253802814, 977264462, 3494599866, 2174497553] := by
  rfl


set_option maxRecDepth 10000 in
set_option maxHeartbeats 2000000 in
theorem c1blk_gz_25 :
    shaBlock [2709427172, 4090474752, 1671892574, 2132826546, 2253802814, 977264462, 3494599866, 2174497553]
      [0, 0, 0, 0, 0, 0, 0, 0, 0, 0, 0, 0, 0, 0, 0, 164, 75, 216, 0, 0, 6, 0, 0, 128, 0, 0, 0, 0, 0, 0, 0, 0, 0, 0, 0, 0, 0, 0, 0, 0, 0, 0, 0, 0, 0, 0, 0, 0, 0, 0, 0, 0, 0, 0, 0, 0, 0, 0, 0, 0, 0, 0, 48, 184] =
      [484399290, 3165609794, 2866950234, 1078733255, 1693577326, 1951287399, 1332423598, 3461252327] := by
  rfl


set_option maxRecDepth 10000 in
set_option maxHeartbeats 2000000 in
theorem c1sha_gz :
    hexStr (sha256 [31, 139, 8, 0, 0, 0, 0, 0, 0, 255, 1, 0, 6, 255, 249, 97, 0, 0, 0, 0, 0, 0, 0, 0, 0, 0, 0, 0, 0, 0, 0, 0, 0, 0, 0, 0, 0, 0, 0, 0, 0, 0, 0, 0, 0, 0, 0, 0, 0, 0, 0, 0, 0, 0, 0, 0, 0, 0, 0, 0, 0, 0, 0, 0, 0, 0, 0, 0, 0, 0, 0, 0, 0, 0, 0, 0, 0, 0, 0, 0, 0, 0, 0, 0, 0, 0, 0, 0, 0, 0, 0, 0, 0, 0, 0, 0, 0, 0, 0, 0, 0, 0, 0, 0, 0, 0, 0, 0, 0, 0, 0, 0, 0, 0, 0, 48, 48, 48, 48, 54, 52, 52, 0, 48, 48, 48, 48, 48, 48, 48, 0, 48, 48, 48, 48, 48, 48, 48, 0, 48, 48, 48, 48, 48, 48, 48, 48, 48, 48, 48, 0, 48, 48, 48, 48, 48, 48, 48, 48, 48, 48, 48, 0, 48, 48, 55, 51, 51, 54, 0, 32, 48, 0, 0, 0, 0, 0, 0, 0, 0, 0, 0, 0, 0, 0, 0, 0, 0, 0, 0, 0, 0, 0, 0, 0, 0, 0, 0, 0, 0, 0, 0, 0, 0, 0, 0, 0, 0, 0, 0, 0, 0, 0, 0, 0, 0, 0, 0, 0, 0, 0, 0, 0, 0, 0, 0, 0, 0, 0, 0, 0, 0, 0, 0, 0, 0, 0, 0, 0, 0, 0, 0, 0, 0, 0, 0, 0, 0, 0, 0, 0, 0, 0, 0, 0, 0, 0, 0, 0, 0, 0, 0, 0, 0, 0, 0, 0, 0, 0, 0, 0, 0, 117, 115, 116, 97, 114, 0, 48, 48, 0, 0, 0, 0, 0, 0, 0, 0, 0, 0, 0, 0, 0, 0, 0, 0, 0, 0, 0, 0, 0, 0, 0, 0, 0, 0, 0, 0, 0, 0, 0, 0, 0, 0, 0, 0, 0, 0, 0, 0, 0, 0, 0, 0, 0, 0, 0, 0, 0, 0, 0, 0, 0, 0, 0, 0, 0, 0, 0, 0, 0, 0, 0, 0, 48, 48, 48, 48, 48, 48, 48, 0, 48, 48, 48, 48, 48, 48, 48, 0, 0, 0, 0, 0, 0, 0, 0, 0, 0, 0, 0, 0, 0, 0, 0, 0, 0, 0, 0, 0, 0, 0, 0, 0, 0, 0, 0, 0, 0, 0, 0, 0, 0, 0, 0, 0, 0, 0, 0, 0, 0, 0, 0, 0, 0, 0, 0, 0, 0, 0, 0, 0, 0, 0, 0, 0, 0, 0, 0, 0, 0, 0, 0, 0, 0, 0, 0, 0, 0, 0, 0, 0, 0, 0, 0, 0, 0, 0, 0, 0, 0, 0, 0, 0, 0, 0, 0, 0, 0, 0, 0, 0, 0, 0, 0, 0, 0, 0, 0, 0, 0, 0, 0, 0, 0, 0, 0, 0, 0, 0, 0, 0, 0, 0, 0, 0, 0, 0, 0, 0, 0, 0, 0, 0, 0, 0, 0, 0, 0, 0, 0, 0, 0, 0, 0, 0, 0, 0, 0, 0, 0, 0, 0, 0, 0, 0, 0, 0, 0, 0, 0, 0, 0, 0, 0, 0, 0, 0, 0, 0, 0, 0, 0, 0, 0, 0, 0, 0, 0, 0, 0, 0, 0, 0, 0, 0, 0, 0, 0, 0, 0, 0, 0, 0, 0, 0, 0, 0, 0, 0, 0, 0, 0, 0, 0, 0, 0, 0, 0, 0, 0, 0, 0, 0, 0, 0, 0, 0, 0, 0, 0, 0, 0, 0, 0, 0, 0, 0, 0, 0, 0, 0, 0, 0, 0, 0, 0, 0, 0, 0, 0, 0, 0, 0, 0, 0, 0, 0, 0, 0, 0, 0, 0, 0, 0, 0, 0, 0, 0, 0, 0, 0, 0, 0, 0, 0, 0, 0, 0, 0, 0, 0, 0, 0, 0, 0, 0, 0, 0, 0, 0, 0, 0, 0, 0, 0, 0, 0, 0, 0, 0, 0, 0, 0, 0, 0, 0, 0, 0, 0, 0, 0, 0, 0, 0, 0, 0, 0, 0, 0, 0, 0, 0, 0, 0, 0, 0, 0, 0, 0, 0, 0, 0, 0, 0, 0, 0, 0, 0, 0, 0, 0, 0, 0, 0, 0, 0, 0, 0, 0, 0, 0, 0, 0, 0, 0, 0, 0, 0, 0, 0, 0, 0, 0, 0, 0, 0, 0, 0, 0, 0, 0, 0, 0, 0, 0, 0, 0, 0, 0, 0, 0, 0, 0, 0, 0, 0, 0, 0, 0, 0, 0, 0, 0, 0, 0, 0, 0, 0, 0, 0, 0, 0, 0, 0, 0, 0, 0, 0, 0, 0, 0, 0, 0, 0, 0, 0, 0, 0, 0, 0, 0, 0, 0, 0, 0, 0, 0, 0, 0, 0, 0, 0, 0, 0, 0, 0, 0, 0, 0, 0, 0, 0, 0, 0, 0, 0, 0, 0, 0, 0, 0, 0, 0, 0, 0, 0, 0, 0, 0, 0, 0, 0, 0, 0, 0, 0, 0, 0, 0, 0, 0, 0, 0, 0, 0, 0, 0, 0, 0, 0, 0, 0, 0, 0, 0, 0, 0, 0, 0, 0, 0, 0, 0, 0, 0, 0, 0, 0, 0, 0, 0, 0, 0, 0, 0, 0, 0, 0, 0, 0, 0, 0, 0, 0, 0, 0, 0, 0, 0, 0, 0, 0, 0, 0, 0, 0, 0, 0, 0, 0, 0, 0, 0, 0, 0, 0, 0, 0, 0, 0, 0, 0, 0, 0, 0, 0, 0, 0, 0, 0, 0, 0, 0, 0, 0, 0, 0, 0, 0, 0, 0, 0, 0, 0, 0, 0, 0, 0, 0, 0, 0, 0, 0, 0, 0, 0, 0, 0, 0, 0, 0, 0, 0, 0, 0, 0, 0, 0, 0, 0, 0, 0, 0, 0, 0, 0, 0, 0, 0, 0, 0, 0, 0, 0, 0, 0, 0, 0, 0, 0, 0, 0, 0, 0, 0, 0, 0, 0, 0, 0, 0, 0, 0, 0, 0, 0, 0, 0, 0, 0, 0, 0, 0, 0, 0, 0, 0, 0, 0, 0, 0, 0, 0, 0, 0, 0, 0, 0, 0, 0, 0, 0, 0, 0, 0, 0, 0, 0, 0, 0, 0, 0, 0, 0, 0, 0, 0, 0, 0, 0, 0, 0, 0, 0, 0, 0, 0, 0, 0, 0, 0, 0, 0, 0, 0, 0, 0, 0, 0, 0, 0, 0, 0, 0, 0, 0, 0, 0, 0, 0, 0, 0, 0, 0, 0, 0, 0, 0, 0, 0, 0, 0, 0, 0, 0, 0, 0, 0, 0, 0, 0, 0, 0, 0, 0, 0, 0, 0, 0, 0, 0, 0, 0, 0, 0, 0, 0, 0, 0, 0, 0, 0, 0, 0, 0, 0, 0, 0, 0, 0, 0, 0, 0, 0, 0, 0, 0, 0, 0, 0, 0, 0, 0, 0, 0, 0, 0, 0, 0, 0, 0, 0, 0, 0, 0, 0, 0, 0, 0, 0, 0, 0, 0, 0, 0, 0, 0, 0, 0, 0, 0, 0, 0, 0, 0, 0, 0, 0, 0, 0, 0, 0, 0, 0, 0, 0, 0, 0, 0, 0, 0, 0, 0, 0, 0, 0, 0, 0, 0, 0, 0, 0, 0, 0, 0, 0, 0, 0, 0, 0, 0, 0, 0, 0, 0, 0, 0, 0, 0, 0, 0, 0, 0, 0, 0, 0, 0, 0, 0, 0, 0, 0, 0, 0, 0, 0, 0, 0, 0, 0, 0, 0, 0, 0, 0, 0, 0, 0, 0, 0, 0, 0, 0, 0, 0, 0, 0, 0, 0, 0, 0, 0, 0, 0, 0, 0, 0, 0, 0, 0, 0, 0, 0, 0, 0, 0, 0, 0, 0, 0, 0, 0, 0, 0, 0, 0, 0, 0, 0, 0, 0, 0, 0, 0, 0, 0, 0, 0, 0, 0, 0, 0, 0, 0, 0, 0, 0, 0, 0, 0, 0, 0, 0, 0, 0, 0, 0, 0, 0, 0, 0, 0, 0, 0, 0, 0, 0, 0, 0, 0, 0, 0, 0, 0, 0, 0, 0, 0, 0, 0, 0, 0, 0, 0, 0, 0, 0, 0, 0, 0, 0, 0, 0, 0, 0, 0, 0, 0, 0, 0, 0, 0, 0, 0, 0, 0, 0, 0, 0, 0, 0, 0, 0, 0, 0, 0, 0, 0, 0, 0, 0, 0, 0, 0, 0, 0, 0, 0, 0, 0, 0, 0, 0, 0, 0, 0, 0, 0, 0, 0, 0, 0, 0, 0, 0, 0, 0, 0, 0, 0, 0, 0, 0, 0, 0, 0, 0, 0, 0, 0, 0, 0, 0, 0, 0, 0, 0, 0, 0, 0, 0, 0, 0, 0, 0, 0, 0, 0, 0, 0, 0, 0, 0, 0, 0, 0, 0, 0, 0, 0, 0, 0, 0, 0, 0, 0, 0, 0, 0, 0, 0, 0, 0, 0, 0, 0, 0, 0, 0, 0, 0, 0, 0, 0, 0, 0, 0, 0, 0, 0, 0, 0, 0, 0, 0, 0, 0, 0, 0, 0, 0, 0, 0, 0, 0, 0, 0, 0, 0, 0, 0, 0, 0, 0, 0, 0, 0, 0, 0, 0, 0, 0, 0, 0, 0, 0, 0, 0, 0, 0, 0, 0, 0, 0, 0, 0, 0, 0, 0, 0, 0, 0, 0, 0, 0, 0, 0, 0, 0, 0, 0, 0, 0, 0, 0, 0, 0, 0, 0, 0, 0, 0, 0, 0, 0, 0, 0, 0, 0, 0, 0, 0, 0, 0, 0, 0, 0, 0, 0, 0, 0, 0, 0, 0, 0, 0, 0, 0, 0, 0, 0, 0, 0, 0, 0, 0, 0, 0, 0, 0, 164, 75, 216, 0, 0, 6, 0, 0]) =
      "1cdf58babcaf5f42aae2305a404c29c764f1f06e744e48674f6b2baece4e84e7" := by
  rw [sha256, c1pad_gz, c1chunks_gz, List.foldl_cons, c1blk_gz_1, List.foldl_cons, c1blk_gz_2, List.foldl_cons, c1blk_gz_3, List.foldl_cons, c1blk_gz_4, List.foldl_cons, c1blk_gz_5, List.foldl_cons, c1blk_gz_6, List.foldl_cons, c1blk_gz_7, List.foldl_cons, c1blk_gz_8, List.foldl_cons, c1blk_gz_9, List.foldl_cons, c1blk_gz_10, List.foldl_cons, c1blk_gz_11, List.foldl_cons, c1blk_gz_12, List.foldl_cons, c1blk_gz_13, List.foldl_cons, c1blk_gz_14, List.foldl_cons, c1blk_gz_15, List.foldl_cons, c1blk_gz_16, List.foldl_cons, c1blk_gz_17, List.foldl_cons, c1blk_gz_18, List.foldl_cons, c1blk_gz_19, List.foldl_cons, c1blk_gz_20, List.foldl_cons, c1blk_gz_21, List.foldl_cons, c1blk_gz_22, List.foldl_cons, c1blk_gz_23, List.foldl_cons, c1blk_gz_24, List.foldl_cons, c1blk_gz_25,
    List.foldl_nil]
  try rfl

set_option maxRecDepth 10000 in
set_option maxHeartbeats 2000000 in
theorem c1lhs_eval :
    (uploadBuildContextTop svcPresent [⟨["a"], FType.reg [], 420, 0⟩] ["a"]).1 =
      Except.ok (archiveDigest [⟨["a"], FType.reg [], 420, 0⟩] ["a"]) := by
  unfold uploadBuildContextTop
  rw [if_neg (by decide)]
  rw [uploadBuildContextM_eq svcPresent [⟨["a"], FType.reg [], 420, 0⟩]
    ["a"] (by decide)]
  rfl

set_option maxRecDepth 10000 in
set_option maxHeartbeats 2000000 in
theorem c1digest_gz :
    archiveDigest [⟨["a"], FType.reg [], 420, 0⟩] ["a"] =
      "sha256.1cdf58babcaf5f42aae2305a404c29c764f1f06e744e48674f6b2baece4e84e7" := by
  rw [archiveDigest, archiveGz, c1tar_lit, c1gz_lit, c1sha_gz]
  rfl

set_option maxRecDepth 10000 in
set_option maxHeartbeats 2000000 in
theorem c1digest_tar :
    "sha256." ++ hexStr (sha256 (serializeTar
        (writeFilesSeq [⟨["a"], FType.reg [], 420, 0⟩] ArchSt.init
          ["a"]).1.entries)) =
      "sha256.16d138f22178f3549288d3ffdcef32fb6cb406aacca0fe451321917cf1b4e043" := by
  rw [c1tar_lit, c1sha_tar]
  rfl

/-- C1 counterexample: for the single-file build context `a` (one empty
regular file, mode 0644), the digest `UploadBuildContext` returns differs
from `"sha256."` followed by the hex SHA-256 of the uncompressed tar
stream: the hash is computed over the gzip-compressed archive bytes. -/
theorem c1_counterexample :
    (uploadBuildContextTop svcPresent [⟨["a"], FType.reg [], 420, 0⟩] ["a"]).1 ≠
      Except.ok ("sha256." ++ hexStr (sha256 (serializeTar
        (writeFilesSeq [⟨["a"], FType.reg [], 420, 0⟩] ArchSt.init
          ["a"]).1.entries))) := by
  rw [c1lhs_eval, c1digest_gz, c1digest_tar]
  intro h
  exact absurd (Except.ok.inj h) (by decide)


end ScsBuild
